import Mathlib

/-!
# HEVC bitstream parser of rocDecode: embedding and verification

Shallow embedding of `src/parser/roc_video_parser.h` and `src/parser/hevc_parser.cpp`.

Conventions of the embedding

* A `const uint8_t *` is a function `Nat → Nat` giving the byte stored at every index
  from the pointer; byte values are natural numbers.
* `uint32_t` arithmetic is written with an explicit `% 2 ^ 32`.
* A `size_t` bit cursor is a natural number.
* A `while` loop without a bound in the source takes a fuel argument and returns `none`
  when the fuel is used up before the loop exits; a result does not depend on the fuel
  (`ParseFrameData_fuel_le`).
* `int` and `int32_t` values that the source computes from unchecked stream values are
  reduced to 32 bits (`wrapInt32`).
* A call that writes past the end of a buffer or of an array of fixed length has no defined
  state afterwards and returns `none`: the copy into `m_rbsp_buf_` carries the capacity of the
  buffer, and `ParseVps`, `ParseSps`, `ParsePps` test the counts of their loops against the
  lengths of the arrays.
-/

namespace RocDecode

/-! ## Bit reader (`namespace Parser` of `roc_video_parser.h`) -/

/-- Modulus of `uint32_t`. -/
def U32 : Nat := 2 ^ 32

/-- `Parser::GetBit`: `(data[bit_idx / 8] >> (7 - bit_idx % 8) & 1)` as a `bool`,
and the incremented cursor. -/
def GetBit (data : Nat → Nat) (bit_idx : Nat) : Bool × Nat :=
  (((data (bit_idx / 8) >>> (7 - bit_idx % 8)) &&& 1) != 0, bit_idx + 1)

/-- `Parser::GetBitToUint32`: the same bit as a `uint32_t`. -/
def GetBitToUint32 (data : Nat → Nat) (bit_idx : Nat) : Nat × Nat :=
  ((data (bit_idx / 8) >>> (7 - bit_idx % 8)) &&& 1, bit_idx + 1)

/-- The `for` loop of `Parser::ReadBits`: `todo` iterations are left. -/
def ReadBitsLoop (data : Nat → Nat) : Nat → Nat → Nat → Nat × Nat
  | 0, result, bit_idx => (result, bit_idx)
  | todo + 1, result, bit_idx =>
    let result1 := (result <<< 1) % U32
    let r := GetBitToUint32 data bit_idx
    ReadBitsLoop data todo (result1 ||| r.1) r.2

/-- `Parser::ReadBits`: value read and new cursor. -/
def ReadBits (data : Nat → Nat) (start_bit_idx bits_to_read : Nat) : Nat × Nat :=
  if bits_to_read > 32 then (0, start_bit_idx)
  else ReadBitsLoop data bits_to_read 0 start_bit_idx

/-- The `while (GetBit(data, start_bit_idx) == false) {}` loop of
`Parser::CountContiniusZeroBits`; the result is the cursor at loop exit. -/
def CountZeroLoop (data : Nat → Nat) : Nat → Nat → Option Nat
  | 0, _ => none
  | fuel + 1, bit_idx =>
    let r := GetBit data bit_idx
    if r.1 == false then CountZeroLoop data fuel r.2 else some r.2

/-- `Parser::CountContiniusZeroBits`: number of zero bits and new cursor. -/
def CountContiniusZeroBits (fuel : Nat) (data : Nat → Nat) (start_bit_idx : Nat) :
    Option (Nat × Nat) :=
  match CountZeroLoop data fuel start_bit_idx with
  | none => none
  | some idx =>
    let idx1 := idx - 1
    some (idx1 - start_bit_idx, idx1)

/-- `Parser::ExpGolomb::ReadUe`. -/
def ReadUe (fuel : Nat) (data : Nat → Nat) (start_bit_idx : Nat) : Option (Nat × Nat) :=
  match CountContiniusZeroBits fuel data start_bit_idx with
  | none => none
  | some (zero_bits_count, idx) =>
    if zero_bits_count > 30 then some (0, idx)
    else
      let left_part := ((1 <<< zero_bits_count) - 1) % U32
      let r := ReadBits data (idx + 1) zero_bits_count
      some ((left_part + r.1) % U32, r.2)

/-- The part of `Parser::ExpGolomb::ReadSe` after the call of `ReadUe` (`// se From Ue`):
`r * -1` is a `uint32_t` product, the `int` constant `-1` being converted to `2^32 - 1`. -/
def SeFromUe (ue : Nat) : Nat :=
  let mod2 := ue % 2
  let r := (ue / 2 + mod2) % U32
  if mod2 == 0 then (r * (U32 - 1)) % U32 else r

/-- `Parser::ExpGolomb::ReadSe`; the result is the returned `uint32_t`. -/
def ReadSe (fuel : Nat) (data : Nat → Nat) (start_bit_idx : Nat) : Option (Nat × Nat) :=
  match ReadUe fuel data start_bit_idx with
  | none => none
  | some (ue, idx) => some (SeFromUe ue, idx)

/-- A `uint32_t` value read as a 32-bit two's-complement signed integer. -/
def toInt32 (x : Nat) : Int :=
  if x % U32 < 2 ^ 31 then ((x % U32 : Nat) : Int) else ((x % U32 : Nat) : Int) - 2 ^ 32

/-- Byte memory holding the bytes of a list, zero elsewhere. -/
def memOfList (l : List Nat) : Nat → Nat := fun i => l.getD i 0

/-- The bit at bit position `p`, counted from the most significant bit of byte 0. -/
def bitAt (data : Nat → Nat) (p : Nat) : Nat :=
  (data (p / 8) >>> (7 - p % 8)) &&& 1

/-- Value of the `k` bits from bit position `p`, most significant bit first. -/
def bitsVal (data : Nat → Nat) : Nat → Nat → Nat
  | _, 0 => 0
  | p, k + 1 => bitAt data p * 2 ^ k + bitsVal data (p + 1) k

/-- The canonical unsigned Exp-Golomb code word of `n`, as a list of bits: `z` zero bits,
`z = floor(log2(n+1))`, followed by the `z+1`-bit binary form of `n+1`. -/
def encodeUe (n : Nat) : List Nat :=
  let z := Nat.log2 (n + 1)
  List.replicate z 0 ++ (List.range (z + 1)).map (fun j => ((n + 1) >>> (z - j)) &&& 1)

/-- The bits of `bits` are stored in `data` from bit position `p` on. -/
def bitsPlacedAt (data : Nat → Nat) (p : Nat) (bits : List Nat) : Prop :=
  ∀ i, i < bits.length → bitAt data (p + i) = bits.getD i 0

instance (data : Nat → Nat) (p : Nat) (bits : List Nat) : Decidable (bitsPlacedAt data p bits) := by
  unfold bitsPlacedAt; infer_instance

/-! ## NAL unit framing (`HEVCVideoParser::GetNalUnit`, `hevc_parser.cpp`) -/

/-- `ParserResult` of `roc_video_parser.h`. -/
inductive ParserResult where
  | PARSER_OK
  | PARSER_FAIL
  | PARSER_UNEXPECTED
  | PARSER_ACCESS_DENIED
  | PARSER_INVALID_ARG
  | PARSER_OUT_OF_RANGE
  | PARSER_OUT_OF_MEMORY
  | PARSER_INVALID_POINTER
  | PARSER_NO_INTERFACE
  | PARSER_NOT_IMPLEMENTED
  | PARSER_NOT_SUPPORTED
  | PARSER_NOT_FOUND
  | PARSER_ALREADY_INITIALIZED
  | PARSER_NOT_INITIALIZED
  | PARSER_INVALID_FORMAT
  | PARSER_WRONG_STATE
  | PARSER_FILE_NOT_OPEN
  | PARSER_STREAM_NOT_ALLOCATED
  | PARSER_NO_DEVICE
  | PARSER_EOF
  | PARSER_REPEAT
  | PARSER_INVALID_DATA_TYPE
  | PARSER_INVALID_RESOLUTION
  | PARSER_CODEC_NOT_SUPPORTED
  deriving DecidableEq, Repr

/-- The members of the parser that `GetNalUnit` reads and writes. The `int` members are
unbounded here, the offsets being natural numbers (they start at 0 and only grow). -/
structure NalState where
  frame_data_buffer_ptr : Nat → Nat
  frame_data_size : Nat
  curr_byte_offset : Nat
  start_code_num : Nat
  curr_start_code_offset : Nat
  next_start_code_offset : Nat
  nal_unit_size : Int

/-- The test of the `if` in the search loop: bytes `00 00 01` at offset `i`. -/
def isStartCodeAt (data : Nat → Nat) (i : Nat) : Bool :=
  data i == 0 && data (i + 1) == 0 && data (i + 2) == 0x01

/-- The `while (curr_byte_offset_ < frame_data_size_ - 2)` loop of `GetNalUnit`, together with
the local `start_code_found`. The first argument bounds the number of iterations; it is
never used up before the loop ends when it is at least `frame_data_size_`
(`GetNalUnitLoop_fuel`). -/
def GetNalUnitLoop : Nat → NalState → Bool → NalState × Bool
  | 0, s, start_code_found => (s, start_code_found)
  | n + 1, s, start_code_found =>
    if (s.curr_byte_offset : Int) < (s.frame_data_size : Int) - 2 then
      if isStartCodeAt s.frame_data_buffer_ptr s.curr_byte_offset then
        let s1 := { s with curr_start_code_offset := s.next_start_code_offset }
        let s2 := { s1 with start_code_num := s1.start_code_num + 1
                            next_start_code_offset := s1.curr_byte_offset
                            curr_byte_offset := s1.curr_byte_offset + 3 }
        if s2.start_code_num = 1 then
          GetNalUnitLoop n { s2 with curr_start_code_offset := s2.next_start_code_offset } false
        else (s2, true)
      else
        GetNalUnitLoop n { s with curr_byte_offset := s.curr_byte_offset + 1 } start_code_found
    else (s, start_code_found)

/-- `HEVCVideoParser::GetNalUnit`. -/
def GetNalUnit (s : NalState) : ParserResult × NalState :=
  let s0 := { s with nal_unit_size := 0, curr_start_code_offset := s.next_start_code_offset }
  let r := GetNalUnitLoop s0.frame_data_size s0 false
  let s1 := r.1
  if s1.start_code_num = 0 then (ParserResult.PARSER_NOT_FOUND, s1)
  else if r.2 then
    (ParserResult.PARSER_OK,
      { s1 with nal_unit_size := (s1.next_start_code_offset : Int) - s1.curr_start_code_offset })
  else
    (ParserResult.PARSER_EOF,
      { s1 with nal_unit_size := (s1.frame_data_size : Int) - s1.curr_start_code_offset })

/-- The per-packet reset at the head of `HEVCVideoParser::ParseFrameData`. -/
def frameReset (p_stream : Nat → Nat) (frame_data_size : Nat) : NalState :=
  { frame_data_buffer_ptr := p_stream
    frame_data_size := frame_data_size
    curr_byte_offset := 0
    start_code_num := 0
    curr_start_code_offset := 0
    next_start_code_offset := 0
    nal_unit_size := 0 }

/-- Result and state of the `i`-th successive call of `GetNalUnit` (`i ≥ 1`) from `s`. -/
def GetNalUnitCalls (s : NalState) : Nat → ParserResult × NalState
  | 0 => (ParserResult.PARSER_OK, s)
  | i + 1 => GetNalUnit (GetNalUnitCalls s i).2

/-- Offsets, in increasing order, of the occurrences of the start code `00 00 01` in a packet
of `size` bytes. -/
def startCodeOffsets (data : Nat → Nat) (size : Nat) : List Nat :=
  (List.range (size - 2)).filter (fun i => isStartCodeAt data i)

/-- The parser members after the `j`-th call of `GetNalUnit` on a packet whose start codes
are at `f 0 < f 1 < ...`, for a call that is not the last one (`1 ≤ j`). -/
def nalStateAfter (data : Nat → Nat) (size : Nat) (f : Nat → Nat) (j : Nat) : NalState :=
  { frame_data_buffer_ptr := data
    frame_data_size := size
    curr_byte_offset := f j + 3
    start_code_num := j + 1
    curr_start_code_offset := f (j - 1)
    next_start_code_offset := f j
    nal_unit_size := (f j : Int) - f (j - 1) }

/-! ## RBSP extraction (`HEVCVideoParser::EBSPtoRBSP`, `hevc_parser.cpp`) -/

/-- Modulus of `size_t`. -/
def SIZE : Nat := 2 ^ 64

/-- `static_cast<size_t>(-1)`, the error result of `EBSPtoRBSP`. -/
def SIZE_MAX : Nat := SIZE - 1

/-- `ZEROBYTES_SHORTSTARTCODE` of `roc_video_parser.h`. -/
def ZEROBYTES_SHORTSTARTCODE : Nat := 2

/-- `RBSP_BUF_SIZE` of `roc_video_parser.h`. -/
def RBSP_BUF_SIZE : Nat := 1024

/-- `memmove(streamBuffer_i, streamBuffer_i + 1, streamBuffer_end - streamBuffer_i - 1)`
with `streamBuffer_i = buf + i` and `streamBuffer_end = buf + e`. -/
def memmoveDown (buf : Nat → Nat) (i e : Nat) : Nat → Nat :=
  fun x => if i ≤ x ∧ x < i + (e - i - 1) then buf (x + 1) else buf x

/-- State at the exit of the `for` loop of `EBSPtoRBSP`: `bad` tells that the loop was left
by `return static_cast<size_t>(-1)`. -/
structure EbspExit where
  bad : Bool
  buf : Nat → Nat
  reduce_count : Nat

/-- The `for (; streamBuffer_i != streamBuffer_end; )` loop of `EBSPtoRBSP`; the pointers are
the indices `i` and `e` into the buffer. The first argument bounds the number of iterations;
`e - i` is enough (`EbspLoop_fuel`). -/
def EbspLoop : Nat → (Nat → Nat) → Nat → Nat → Nat → Nat → EbspExit
  | 0, buf, _, _, _, reduce_count => ⟨false, buf, reduce_count⟩
  | n + 1, buf, i, e, count, reduce_count =>
    if i != e then
      let tmp := buf i
      if count == ZEROBYTES_SHORTSTARTCODE then
        if tmp == 0x03 then
          if (i + 1 != e) && (buf (i + 1) > 0x03) then ⟨true, buf, reduce_count⟩
          else if i + 1 == e then ⟨false, buf, reduce_count⟩
          else
            let buf1 := memmoveDown buf i e
            let tmp1 := buf1 i
            EbspLoop n buf1 (i + 1) (e - 1) (if tmp1 == 0x00 then 0 + 1 else 0) (reduce_count + 1)
        else
          EbspLoop n buf (i + 1) e (if tmp == 0x00 then count + 1 else 0) reduce_count
      else
        EbspLoop n buf (i + 1) e (if tmp == 0x00 then count + 1 else 0) reduce_count
    else ⟨false, buf, reduce_count⟩

/-- `HEVCVideoParser::EBSPtoRBSP`: the returned `size_t` and the buffer afterwards. -/
def EBSPtoRBSP (streamBuffer : Nat → Nat) (begin_bytepos end_bytepos : Nat) :
    Nat × (Nat → Nat) :=
  if end_bytepos < begin_bytepos then (end_bytepos, streamBuffer)
  else
    let r := EbspLoop (end_bytepos - begin_bytepos) streamBuffer begin_bytepos end_bytepos 0 0
    if r.bad then (SIZE_MAX, r.buf)
    else ((end_bytepos - begin_bytepos + r.reduce_count) % SIZE, r.buf)

/-- The first `n` bytes of a buffer. -/
def bufPrefix (buf : Nat → Nat) (n : Nat) : List Nat := (List.range n).map buf

/-- Number of consecutive `0x00` bytes immediately before offset `begin + d`, counted inside
the range that starts at `begin`. -/
def zeroRun (buf : Nat → Nat) (begin : Nat) : Nat → Nat
  | 0 => 0
  | d + 1 => if buf (begin + d) = 0 then zeroRun buf begin d + 1 else 0

/-- Offset `j` of the range `[begin, e)` holds a `0x03` directly after exactly two `0x00`
bytes of the range, and its following byte exists and is greater than `0x03`. -/
def epbViolationAt (buf : Nat → Nat) (begin e j : Nat) : Prop :=
  begin + 2 ≤ j ∧ buf (j - 2) = 0 ∧ buf (j - 1) = 0 ∧ (j = begin + 2 ∨ buf (j - 3) ≠ 0) ∧
  buf j = 0x03 ∧ j + 1 < e ∧ buf (j + 1) > 0x03

/-! ## Slice segment header (`HEVCVideoParser::ParseSliceHeader`, `hevc_parser.cpp`)

The header `hevc_parser.h`, which declares the records and the NAL unit type constants, is
not part of the sources at hand. The records below list the members that the code of
`hevc_parser.cpp` reads and writes. Unsigned members and flags are natural numbers, members
that receive `se(v)` values or `int32_t` locals are integers, arrays are functions from the
index, zero everywhere after `memset`. -/

/-- Modelled from the spec: NAL unit type constants of `hevc_parser.h` (spec §6, HEVC
§7.4.2.2). -/
def NAL_UNIT_CODED_SLICE_BLA_W_LP : Nat := 16
/-- Modelled from the spec: see `NAL_UNIT_CODED_SLICE_BLA_W_LP`. -/
def NAL_UNIT_CODED_SLICE_BLA_W_RADL : Nat := 17
/-- Modelled from the spec: see `NAL_UNIT_CODED_SLICE_BLA_W_LP`. -/
def NAL_UNIT_CODED_SLICE_BLA_N_LP : Nat := 18
/-- Modelled from the spec: see `NAL_UNIT_CODED_SLICE_BLA_W_LP`. -/
def NAL_UNIT_CODED_SLICE_IDR_W_RADL : Nat := 19
/-- Modelled from the spec: see `NAL_UNIT_CODED_SLICE_BLA_W_LP`. -/
def NAL_UNIT_CODED_SLICE_IDR_N_LP : Nat := 20
/-- Modelled from the spec: see `NAL_UNIT_CODED_SLICE_BLA_W_LP`. -/
def NAL_UNIT_CODED_SLICE_CRA_NUT : Nat := 21
/-- Modelled from the spec: see `NAL_UNIT_CODED_SLICE_BLA_W_LP`. -/
def NAL_UNIT_RESERVED_IRAP_VCL23 : Nat := 23

/-- Modelled from the spec: slice types of `hevc_parser.h` (spec §3: B=0, P=1, I=2). -/
def HEVC_SLICE_TYPE_B : Nat := 0
/-- Modelled from the spec: see `HEVC_SLICE_TYPE_B`. -/
def HEVC_SLICE_TYPE_P : Nat := 1
/-- Modelled from the spec: see `HEVC_SLICE_TYPE_B`. -/
def HEVC_SLICE_TYPE_I : Nat := 2

/-- An `int32_t` result: the integer congruent modulo `2^32` in `[-2^31, 2^31)`. -/
def wrapInt32 (x : Int) : Int := (x + 2 ^ 31) % 2 ^ 32 - 2 ^ 31

/-- Array element assignment `a[i] = v`. -/
def setAt {α : Type} (a : Nat → α) (i : Nat) (v : α) : Nat → α :=
  fun j => if j = i then v else a j

/-- A `for` loop with an increasing index: `todo` iterations are left, the next index is
`j`; the body may fail when a `ReadUe` in it does. -/
def forLoop {σ : Type} (body : Nat → σ → Option σ) : Nat → Nat → σ → Option σ
  | _, 0, s => some s
  | j, todo + 1, s =>
    match body j s with
    | none => none
    | some s1 => forLoop body (j + 1) todo s1

/-- A `for (j = n - 1; j >= 0; j--)` loop: called with `n`, it runs the body at
`n - 1, ..., 0`. -/
def forDown {σ : Type} (body : Nat → σ → σ) : Nat → σ → σ
  | 0, s => s
  | j + 1, s => forDown body j (body j s)

/-- The loops `while ((1 << num_bits) < n) num_bits++`, bounded by the width of `int`. -/
def numBitsLoop (n : Nat) : Nat → Nat → Nat
  | 0, num_bits => num_bits
  | fuel + 1, num_bits => if (1 <<< num_bits) < n then numBitsLoop n fuel (num_bits + 1) else num_bits

/-- Modelled from the spec: `H265ShortTermRPS` of `hevc_parser.h`. -/
structure H265ShortTermRPS where
  inter_ref_pic_set_prediction_flag : Nat
  delta_idx_minus1 : Nat
  delta_rps_sign : Nat
  abs_delta_rps_minus1 : Nat
  used_by_curr_pic_flag : Nat → Nat
  use_delta_flag : Nat → Nat
  num_negative_pics : Nat
  num_positive_pics : Nat
  num_of_pics : Nat
  num_of_delta_poc : Nat
  delta_poc_s0_minus1 : Nat → Nat
  used_by_curr_pic_s0_flag : Nat → Nat
  delta_poc_s1_minus1 : Nat → Nat
  used_by_curr_pic_s1_flag : Nat → Nat
  delta_poc : Nat → Int
  used_by_curr_pic : Nat → Nat

/-- Modelled from the spec: `H265LongTermRPS` of `hevc_parser.h`. -/
structure H265LongTermRPS where
  num_of_pics : Nat
  pocs : Nat → Nat
  used_by_curr_pic : Nat → Nat

/-- Modelled from the spec: `HevcPredWeightTable` of `hevc_parser.h`. -/
structure HevcPredWeightTable where
  luma_log2_weight_denom : Nat
  delta_chroma_log2_weight_denom : Int
  luma_weight_l0_flag : Nat → Nat
  chroma_weight_l0_flag : Nat → Nat
  delta_luma_weight_l0 : Nat → Int
  luma_offset_l0 : Nat → Int
  delta_chroma_weight_l0 : Nat → Nat → Int
  delta_chroma_offset_l0 : Nat → Nat → Int
  luma_weight_l1_flag : Nat → Nat
  chroma_weight_l1_flag : Nat → Nat
  delta_luma_weight_l1 : Nat → Int
  luma_offset_l1 : Nat → Int
  delta_chroma_weight_l1 : Nat → Nat → Int
  delta_chroma_offset_l1 : Nat → Nat → Int

/-- Modelled from the spec: `SliceHeaderData` of `hevc_parser.h`. -/
structure SliceHeaderData where
  first_slice_segment_in_pic_flag : Nat
  no_output_of_prior_pics_flag : Nat
  slice_pic_parameter_set_id : Nat
  dependent_slice_segment_flag : Nat
  slice_segment_address : Nat
  slice_reserved_flag : Nat → Nat
  slice_type : Nat
  pic_output_flag : Nat
  colour_plane_id : Nat
  slice_pic_order_cnt_lsb : Nat
  short_term_ref_pic_set_sps_flag : Nat
  st_rps : H265ShortTermRPS
  short_term_ref_pic_set_idx : Nat
  short_term_ref_pic_set_size : Nat
  num_long_term_sps : Nat
  num_long_term_pics : Nat
  lt_rps : H265LongTermRPS
  lt_idx_sps : Nat → Nat
  poc_lsb_lt : Nat → Nat
  used_by_curr_pic_lt_flag : Nat → Nat
  delta_poc_msb_present_flag : Nat → Nat
  delta_poc_msb_cycle_lt : Nat → Nat
  slice_temporal_mvp_enabled_flag : Nat
  slice_sao_luma_flag : Nat
  slice_sao_chroma_flag : Nat
  num_ref_idx_active_override_flag : Nat
  num_ref_idx_l0_active_minus1 : Nat
  num_ref_idx_l1_active_minus1 : Nat
  ref_pic_list_modification_flag_l0 : Nat
  list_entry_l0 : Nat → Nat
  ref_pic_list_modification_flag_l1 : Nat
  list_entry_l1 : Nat → Nat
  mvd_l1_zero_flag : Nat
  cabac_init_flag : Nat
  collocated_from_l0_flag : Nat
  collocated_ref_idx : Nat
  pred_weight_table : HevcPredWeightTable
  five_minus_max_num_merge_cand : Nat
  slice_qp_delta : Int
  slice_cb_qp_offset : Int
  slice_cr_qp_offset : Int
  cu_chroma_qp_offset_enabled_flag : Nat
  deblocking_filter_override_flag : Nat
  slice_deblocking_filter_disabled_flag : Nat
  slice_beta_offset_div2 : Int
  slice_tc_offset_div2 : Int
  slice_loop_filter_across_slices_enabled_flag : Nat
  num_entry_point_offsets : Nat
  offset_len_minus1 : Nat
  entry_point_offset_minus1 : Nat → Nat
  slice_segment_header_extension_length : Nat
  slice_segment_header_extension_data_byte : Nat → Nat

/-- Modelled from the spec: `SliceData` of `hevc_parser.h`, the POC state (spec §3). The
members are taken to be 32-bit signed integers, the type of the POC locals of
`ParseShortTermRefPicSet`; they are kept as integers here and every arithmetic result that
`ParseSliceHeader` stores in them is reduced with `wrapInt32`. -/
structure SliceData where
  prev_poc : Int
  curr_poc : Int
  prev_poc_lsb : Int
  prev_poc_msb : Int
  curr_poc_lsb : Int
  curr_poc_msb : Int
  max_poc_lsb : Int

/-- Modelled from the spec: `H265ProfileTierLevel` of `hevc_parser.h`, with the members that
`ParsePtl` writes. -/
structure H265ProfileTierLevel where
  general_profile_space : Nat
  general_tier_flag : Nat
  general_profile_idc : Nat
  general_profile_compatibility_flag : Nat → Nat
  general_progressive_source_flag : Nat
  general_interlaced_source_flag : Nat
  general_non_packed_constraint_flag : Nat
  general_frame_only_constraint_flag : Nat
  general_level_idc : Nat
  sub_layer_profile_present_flag : Nat → Nat
  sub_layer_level_present_flag : Nat → Nat
  reserved_zero_2bits : Nat → Nat
  sub_layer_profile_space : Nat → Nat
  sub_layer_tier_flag : Nat → Nat
  sub_layer_profile_idc : Nat → Nat
  sub_layer_profile_compatibility_flag : Nat → Nat → Nat
  sub_layer_progressive_source_flag : Nat → Nat
  sub_layer_interlaced_source_flag : Nat → Nat
  sub_layer_non_packed_constraint_flag : Nat → Nat
  sub_layer_frame_only_constraint_flag : Nat → Nat
  sub_layer_level_idc : Nat → Nat

/-- `memset(&ptl, 0, sizeof(ptl))`. -/
def H265ProfileTierLevel.zero : H265ProfileTierLevel :=
  { general_profile_space := 0, general_tier_flag := 0, general_profile_idc := 0,
    general_profile_compatibility_flag := fun _ => 0, general_progressive_source_flag := 0,
    general_interlaced_source_flag := 0, general_non_packed_constraint_flag := 0,
    general_frame_only_constraint_flag := 0, general_level_idc := 0,
    sub_layer_profile_present_flag := fun _ => 0, sub_layer_level_present_flag := fun _ => 0,
    reserved_zero_2bits := fun _ => 0, sub_layer_profile_space := fun _ => 0,
    sub_layer_tier_flag := fun _ => 0, sub_layer_profile_idc := fun _ => 0,
    sub_layer_profile_compatibility_flag := fun _ _ => 0,
    sub_layer_progressive_source_flag := fun _ => 0,
    sub_layer_interlaced_source_flag := fun _ => 0,
    sub_layer_non_packed_constraint_flag := fun _ => 0,
    sub_layer_frame_only_constraint_flag := fun _ => 0, sub_layer_level_idc := fun _ => 0 }

/-- Modelled from the spec: `H265SubLayerHrdParameters` of `hevc_parser.h`. -/
structure H265SubLayerHrdParameters where
  bit_rate_value_minus1 : Nat → Nat
  cpb_size_value_minus1 : Nat → Nat
  cpb_size_du_value_minus1 : Nat → Nat
  bit_rate_du_value_minus1 : Nat → Nat
  cbr_flag : Nat → Nat

/-- A zeroed `H265SubLayerHrdParameters`. -/
def H265SubLayerHrdParameters.zero : H265SubLayerHrdParameters :=
  { bit_rate_value_minus1 := fun _ => 0, cpb_size_value_minus1 := fun _ => 0,
    cpb_size_du_value_minus1 := fun _ => 0, bit_rate_du_value_minus1 := fun _ => 0,
    cbr_flag := fun _ => 0 }

/-- Modelled from the spec: `H265HrdParameters` of `hevc_parser.h`. -/
structure H265HrdParameters where
  nal_hrd_parameters_present_flag : Nat
  vcl_hrd_parameters_present_flag : Nat
  sub_pic_hrd_params_present_flag : Nat
  tick_divisor_minus2 : Nat
  du_cpb_removal_delay_increment_length_minus1 : Nat
  sub_pic_cpb_params_in_pic_timing_sei_flag : Nat
  dpb_output_delay_du_length_minus1 : Nat
  bit_rate_scale : Nat
  cpb_size_scale : Nat
  cpb_size_du_scale : Nat
  initial_cpb_removal_delay_length_minus1 : Nat
  au_cpb_removal_delay_length_minus1 : Nat
  dpb_output_delay_length_minus1 : Nat
  fixed_pic_rate_general_flag : Nat → Nat
  fixed_pic_rate_within_cvs_flag : Nat → Nat
  elemental_duration_in_tc_minus1 : Nat → Nat
  low_delay_hrd_flag : Nat → Nat
  cpb_cnt_minus1 : Nat → Nat
  sub_layer_hrd_parameters_0 : Nat → H265SubLayerHrdParameters
  sub_layer_hrd_parameters_1 : Nat → H265SubLayerHrdParameters

/-- A zeroed `H265HrdParameters`. -/
def H265HrdParameters.zero : H265HrdParameters :=
  { nal_hrd_parameters_present_flag := 0, vcl_hrd_parameters_present_flag := 0,
    sub_pic_hrd_params_present_flag := 0, tick_divisor_minus2 := 0,
    du_cpb_removal_delay_increment_length_minus1 := 0,
    sub_pic_cpb_params_in_pic_timing_sei_flag := 0, dpb_output_delay_du_length_minus1 := 0,
    bit_rate_scale := 0, cpb_size_scale := 0, cpb_size_du_scale := 0,
    initial_cpb_removal_delay_length_minus1 := 0, au_cpb_removal_delay_length_minus1 := 0,
    dpb_output_delay_length_minus1 := 0, fixed_pic_rate_general_flag := fun _ => 0,
    fixed_pic_rate_within_cvs_flag := fun _ => 0,
    elemental_duration_in_tc_minus1 := fun _ => 0, low_delay_hrd_flag := fun _ => 0,
    cpb_cnt_minus1 := fun _ => 0,
    sub_layer_hrd_parameters_0 := fun _ => H265SubLayerHrdParameters.zero,
    sub_layer_hrd_parameters_1 := fun _ => H265SubLayerHrdParameters.zero }

/-- Modelled from the spec: `H265ScalingListData` of `hevc_parser.h`. The matrix index of
`scaling_list` and `scaling_list_dc_coef` is an integer, because `ParseScalingList` reads them
at the `int` index `ref_matrix_id`, which it does not keep inside `0..5`. -/
structure H265ScalingListData where
  scaling_list_pred_mode_flag : Nat → Nat → Nat
  scaling_list_pred_matrix_id_delta : Nat → Nat → Nat
  scaling_list_dc_coef_minus8 : Nat → Nat → Int
  scaling_list_delta_coef : Int
  scaling_list : Nat → Int → Nat → Int
  scaling_list_dc_coef : Nat → Int → Int

/-- A zeroed `H265ScalingListData`. -/
def H265ScalingListData.zero : H265ScalingListData :=
  { scaling_list_pred_mode_flag := fun _ _ => 0,
    scaling_list_pred_matrix_id_delta := fun _ _ => 0,
    scaling_list_dc_coef_minus8 := fun _ _ => 0, scaling_list_delta_coef := 0,
    scaling_list := fun _ _ _ => 0, scaling_list_dc_coef := fun _ _ => 0 }

/-- Modelled from the spec: `H265VuiParameters` of `hevc_parser.h`. -/
structure H265VuiParameters where
  aspect_ratio_info_present_flag : Nat
  aspect_ratio_idc : Nat
  sar_width : Nat
  sar_height : Nat
  overscan_info_present_flag : Nat
  overscan_appropriate_flag : Nat
  video_signal_type_present_flag : Nat
  video_format : Nat
  video_full_range_flag : Nat
  colour_description_present_flag : Nat
  colour_primaries : Nat
  transfer_characteristics : Nat
  matrix_coeffs : Nat
  chroma_loc_info_present_flag : Nat
  chroma_sample_loc_type_top_field : Nat
  chroma_sample_loc_type_bottom_field : Nat
  neutral_chroma_indication_flag : Nat
  field_seq_flag : Nat
  frame_field_info_present_flag : Nat
  default_display_window_flag : Nat
  def_disp_win_left_offset : Nat
  def_disp_win_right_offset : Nat
  def_disp_win_top_offset : Nat
  def_disp_win_bottom_offset : Nat
  vui_timing_info_present_flag : Nat
  vui_num_units_in_tick : Nat
  vui_time_scale : Nat
  vui_poc_proportional_to_timing_flag : Nat
  vui_num_ticks_poc_diff_one_minus1 : Nat
  vui_hrd_parameters_present_flag : Nat
  hrd_parameters : H265HrdParameters
  bitstream_restriction_flag : Nat
  tiles_fixed_structure_flag : Nat
  motion_vectors_over_pic_boundaries_flag : Nat
  restricted_ref_pic_lists_flag : Nat
  min_spatial_segmentation_idc : Nat
  max_bytes_per_pic_denom : Nat
  max_bits_per_min_cu_denom : Nat
  log2_max_mv_length_horizontal : Nat
  log2_max_mv_length_vertical : Nat

/-- A zeroed `H265VuiParameters`. -/
def H265VuiParameters.zero : H265VuiParameters :=
  { aspect_ratio_info_present_flag := 0, aspect_ratio_idc := 0, sar_width := 0, sar_height := 0,
    overscan_info_present_flag := 0, overscan_appropriate_flag := 0,
    video_signal_type_present_flag := 0, video_format := 0, video_full_range_flag := 0,
    colour_description_present_flag := 0, colour_primaries := 0, transfer_characteristics := 0,
    matrix_coeffs := 0, chroma_loc_info_present_flag := 0,
    chroma_sample_loc_type_top_field := 0, chroma_sample_loc_type_bottom_field := 0,
    neutral_chroma_indication_flag := 0, field_seq_flag := 0,
    frame_field_info_present_flag := 0, default_display_window_flag := 0,
    def_disp_win_left_offset := 0, def_disp_win_right_offset := 0,
    def_disp_win_top_offset := 0, def_disp_win_bottom_offset := 0,
    vui_timing_info_present_flag := 0, vui_num_units_in_tick := 0, vui_time_scale := 0,
    vui_poc_proportional_to_timing_flag := 0, vui_num_ticks_poc_diff_one_minus1 := 0,
    vui_hrd_parameters_present_flag := 0, hrd_parameters := H265HrdParameters.zero,
    bitstream_restriction_flag := 0, tiles_fixed_structure_flag := 0,
    motion_vectors_over_pic_boundaries_flag := 0, restricted_ref_pic_lists_flag := 0,
    min_spatial_segmentation_idc := 0, max_bytes_per_pic_denom := 0,
    max_bits_per_min_cu_denom := 0, log2_max_mv_length_horizontal := 0,
    log2_max_mv_length_vertical := 0 }

/-- Modelled from the spec: `VpsData` of `hevc_parser.h`, with the members that `ParseVps`
writes. -/
structure VpsData where
  vps_video_parameter_set_id : Nat
  vps_base_layer_internal_flag : Nat
  vps_base_layer_available_flag : Nat
  vps_max_layers_minus1 : Nat
  vps_max_sub_layers_minus1 : Nat
  vps_temporal_id_nesting_flag : Nat
  vps_reserved_0xffff_16bits : Nat
  profile_tier_level : H265ProfileTierLevel
  vps_sub_layer_ordering_info_present_flag : Nat
  vps_max_dec_pic_buffering_minus1 : Nat → Nat
  vps_max_num_reorder_pics : Nat → Nat
  vps_max_latency_increase_plus1 : Nat → Nat
  vps_max_layer_id : Nat
  vps_num_layer_sets_minus1 : Nat
  layer_id_included_flag : Nat → Nat → Nat
  vps_timing_info_present_flag : Nat
  vps_num_units_in_tick : Nat
  vps_time_scale : Nat
  vps_poc_proportional_to_timing_flag : Nat
  vps_num_ticks_poc_diff_one_minus1 : Nat
  vps_num_hrd_parameters : Nat
  hrd_layer_set_idx : Nat → Nat
  cprms_present_flag : Nat → Nat
  hrd_parameters : Nat → H265HrdParameters
  vps_extension_flag : Nat

/-- A zeroed slot of the VPS table (`memset` of `AllocVps` and of `ParseVps`). -/
def VpsData.zero : VpsData :=
  { vps_video_parameter_set_id := 0, vps_base_layer_internal_flag := 0,
    vps_base_layer_available_flag := 0, vps_max_layers_minus1 := 0,
    vps_max_sub_layers_minus1 := 0, vps_temporal_id_nesting_flag := 0,
    vps_reserved_0xffff_16bits := 0, profile_tier_level := H265ProfileTierLevel.zero,
    vps_sub_layer_ordering_info_present_flag := 0,
    vps_max_dec_pic_buffering_minus1 := fun _ => 0, vps_max_num_reorder_pics := fun _ => 0,
    vps_max_latency_increase_plus1 := fun _ => 0, vps_max_layer_id := 0,
    vps_num_layer_sets_minus1 := 0, layer_id_included_flag := fun _ _ => 0,
    vps_timing_info_present_flag := 0, vps_num_units_in_tick := 0, vps_time_scale := 0,
    vps_poc_proportional_to_timing_flag := 0, vps_num_ticks_poc_diff_one_minus1 := 0,
    vps_num_hrd_parameters := 0, hrd_layer_set_idx := fun _ => 0,
    cprms_present_flag := fun _ => 0, hrd_parameters := fun _ => H265HrdParameters.zero,
    vps_extension_flag := 0 }

/-- Modelled from the spec: `SpsData` of `hevc_parser.h`, with the members that `ParseSps`
writes and `ParseSliceHeader` and `FillSeqCallbackFn` read. -/
structure SpsData where
  sps_video_parameter_set_id : Nat
  sps_max_sub_layers_minus1 : Nat
  sps_temporal_id_nesting_flag : Nat
  profile_tier_level : H265ProfileTierLevel
  sps_seq_parameter_set_id : Nat
  chroma_format_idc : Nat
  separate_colour_plane_flag : Nat
  pic_width_in_luma_samples : Nat
  pic_height_in_luma_samples : Nat
  conformance_window_flag : Nat
  conf_win_left_offset : Nat
  conf_win_right_offset : Nat
  conf_win_top_offset : Nat
  conf_win_bottom_offset : Nat
  bit_depth_luma_minus8 : Nat
  bit_depth_chroma_minus8 : Nat
  log2_max_pic_order_cnt_lsb_minus4 : Nat
  sps_sub_layer_ordering_info_present_flag : Nat
  sps_max_dec_pic_buffering_minus1 : Nat → Nat
  sps_max_num_reorder_pics : Nat → Nat
  sps_max_latency_increase_plus1 : Nat → Nat
  log2_min_luma_coding_block_size_minus3 : Nat
  log2_diff_max_min_luma_coding_block_size : Nat
  max_cu_width : Nat
  max_cu_height : Nat
  log2_min_transform_block_size_minus2 : Nat
  max_cu_depth : Int
  log2_diff_max_min_transform_block_size : Nat
  max_transform_hierarchy_depth_inter : Nat
  max_transform_hierarchy_depth_intra : Nat
  scaling_list_enabled_flag : Nat
  scaling_list_data : H265ScalingListData
  sps_scaling_list_data_present_flag : Nat
  amp_enabled_flag : Nat
  sample_adaptive_offset_enabled_flag : Nat
  pcm_enabled_flag : Nat
  pcm_sample_bit_depth_luma_minus1 : Nat
  pcm_sample_bit_depth_chroma_minus1 : Nat
  log2_min_pcm_luma_coding_block_size_minus3 : Nat
  log2_diff_max_min_pcm_luma_coding_block_size : Nat
  pcm_loop_filter_disabled_flag : Nat
  num_short_term_ref_pic_sets : Nat
  st_rps : Nat → H265ShortTermRPS
  long_term_ref_pics_present_flag : Nat
  num_long_term_ref_pics_sps : Nat
  lt_rps : H265LongTermRPS
  lt_ref_pic_poc_lsb_sps : Nat → Nat
  used_by_curr_pic_lt_sps_flag : Nat → Nat
  sps_temporal_mvp_enabled_flag : Nat
  strong_intra_smoothing_enabled_flag : Nat
  vui_parameters_present_flag : Nat
  vui_parameters : H265VuiParameters
  sps_extension_flag : Nat

/-- Modelled from the spec: `PpsData` of `hevc_parser.h`, with the members that `ParsePps`
writes and `ParseSliceHeader` reads. -/
structure PpsData where
  pps_pic_parameter_set_id : Nat
  pps_seq_parameter_set_id : Nat
  dependent_slice_segments_enabled_flag : Nat
  output_flag_present_flag : Nat
  num_extra_slice_header_bits : Nat
  sign_data_hiding_enabled_flag : Nat
  cabac_init_present_flag : Nat
  num_ref_idx_l0_default_active_minus1 : Nat
  num_ref_idx_l1_default_active_minus1 : Nat
  init_qp_minus26 : Int
  constrained_intra_pred_flag : Nat
  transform_skip_enabled_flag : Nat
  cu_qp_delta_enabled_flag : Nat
  diff_cu_qp_delta_depth : Nat
  pps_cb_qp_offset : Int
  pps_cr_qp_offset : Int
  pps_slice_chroma_qp_offsets_present_flag : Nat
  weighted_pred_flag : Nat
  weighted_bipred_flag : Nat
  transquant_bypass_enabled_flag : Nat
  tiles_enabled_flag : Nat
  entropy_coding_sync_enabled_flag : Nat
  num_tile_columns_minus1 : Nat
  num_tile_rows_minus1 : Nat
  uniform_spacing_flag : Nat
  column_width_minus1 : Nat → Nat
  row_height_minus1 : Nat → Nat
  loop_filter_across_tiles_enabled_flag : Nat
  pps_loop_filter_across_slices_enabled_flag : Nat
  deblocking_filter_control_present_flag : Nat
  deblocking_filter_override_enabled_flag : Nat
  pps_deblocking_filter_disabled_flag : Nat
  pps_beta_offset_div2 : Int
  pps_tc_offset_div2 : Int
  pps_scaling_list_data_present_flag : Nat
  scaling_list_data : H265ScalingListData
  lists_modification_present_flag : Nat
  log2_parallel_merge_level_minus2 : Nat
  slice_segment_header_extension_present_flag : Nat
  pps_extension_present_flag : Nat
  pps_range_extension_flag : Nat
  pps_multilayer_extension_flag : Nat
  pps_extension_6bits : Nat
  log2_max_transform_skip_block_size_minus2 : Nat
  cross_component_prediction_enabled_flag : Nat
  chroma_qp_offset_list_enabled_flag : Nat
  diff_cu_chroma_qp_offset_depth : Nat
  chroma_qp_offset_list_len_minus1 : Nat
  cb_qp_offset_list : Nat → Int
  cr_qp_offset_list : Nat → Int
  log2_sao_offset_scale_luma : Nat
  log2_sao_offset_scale_chroma : Nat

/-- The members of `HEVCVideoParser` that `ParseSliceHeader` reads and writes. The tables
`m_sps_` and `m_pps_` are functions from the index; `m_active_*_id_` are `int`. -/
structure HevcParser where
  m_active_vps_id : Int
  m_active_sps_id : Int
  m_active_pps_id : Int
  new_sps_activated : Bool
  pic_width : Nat
  pic_height : Nat
  m_sps : Nat → SpsData
  m_pps : Nat → PpsData
  m_sh : SliceHeaderData
  m_sh_copy : SliceHeaderData
  m_slice : SliceData

/-- The parts of the environment of a parse that the sources do not fix: the bound of the
unbounded zero-counting loop of `ReadUe`, and the floating-point expression
`(int)ceilf(log2f((float)x))`, converted to the `size_t` argument of `ReadBits`. -/
structure ParseEnv where
  fuel : Nat
  ceil_log2f : Int → Nat

/-- `memset(p, 0, sizeof(H265ShortTermRPS))`. -/
def H265ShortTermRPS.zero : H265ShortTermRPS :=
  { inter_ref_pic_set_prediction_flag := 0, delta_idx_minus1 := 0, delta_rps_sign := 0,
    abs_delta_rps_minus1 := 0, used_by_curr_pic_flag := fun _ => 0, use_delta_flag := fun _ => 0,
    num_negative_pics := 0, num_positive_pics := 0, num_of_pics := 0, num_of_delta_poc := 0,
    delta_poc_s0_minus1 := fun _ => 0, used_by_curr_pic_s0_flag := fun _ => 0,
    delta_poc_s1_minus1 := fun _ => 0, used_by_curr_pic_s1_flag := fun _ => 0,
    delta_poc := fun _ => 0, used_by_curr_pic := fun _ => 0 }

/-- `memset(p, 0, sizeof(H265LongTermRPS))`. -/
def H265LongTermRPS.zero : H265LongTermRPS :=
  { num_of_pics := 0, pocs := fun _ => 0, used_by_curr_pic := fun _ => 0 }

/-- `memset(p, 0, sizeof(HevcPredWeightTable))`. -/
def HevcPredWeightTable.zero : HevcPredWeightTable :=
  { luma_log2_weight_denom := 0, delta_chroma_log2_weight_denom := 0,
    luma_weight_l0_flag := fun _ => 0, chroma_weight_l0_flag := fun _ => 0,
    delta_luma_weight_l0 := fun _ => 0, luma_offset_l0 := fun _ => 0,
    delta_chroma_weight_l0 := fun _ _ => 0, delta_chroma_offset_l0 := fun _ _ => 0,
    luma_weight_l1_flag := fun _ => 0, chroma_weight_l1_flag := fun _ => 0,
    delta_luma_weight_l1 := fun _ => 0, luma_offset_l1 := fun _ => 0,
    delta_chroma_weight_l1 := fun _ _ => 0, delta_chroma_offset_l1 := fun _ _ => 0 }

/-- `memset(p, 0, sizeof(SliceHeaderData))`. -/
def SliceHeaderData.zero : SliceHeaderData :=
  { first_slice_segment_in_pic_flag := 0, no_output_of_prior_pics_flag := 0,
    slice_pic_parameter_set_id := 0, dependent_slice_segment_flag := 0,
    slice_segment_address := 0, slice_reserved_flag := fun _ => 0, slice_type := 0,
    pic_output_flag := 0, colour_plane_id := 0, slice_pic_order_cnt_lsb := 0,
    short_term_ref_pic_set_sps_flag := 0, st_rps := H265ShortTermRPS.zero,
    short_term_ref_pic_set_idx := 0, short_term_ref_pic_set_size := 0, num_long_term_sps := 0,
    num_long_term_pics := 0, lt_rps := H265LongTermRPS.zero, lt_idx_sps := fun _ => 0,
    poc_lsb_lt := fun _ => 0, used_by_curr_pic_lt_flag := fun _ => 0,
    delta_poc_msb_present_flag := fun _ => 0, delta_poc_msb_cycle_lt := fun _ => 0,
    slice_temporal_mvp_enabled_flag := 0, slice_sao_luma_flag := 0, slice_sao_chroma_flag := 0,
    num_ref_idx_active_override_flag := 0, num_ref_idx_l0_active_minus1 := 0,
    num_ref_idx_l1_active_minus1 := 0, ref_pic_list_modification_flag_l0 := 0,
    list_entry_l0 := fun _ => 0, ref_pic_list_modification_flag_l1 := 0,
    list_entry_l1 := fun _ => 0, mvd_l1_zero_flag := 0, cabac_init_flag := 0,
    collocated_from_l0_flag := 0, collocated_ref_idx := 0,
    pred_weight_table := HevcPredWeightTable.zero, five_minus_max_num_merge_cand := 0,
    slice_qp_delta := 0, slice_cb_qp_offset := 0, slice_cr_qp_offset := 0,
    cu_chroma_qp_offset_enabled_flag := 0, deblocking_filter_override_flag := 0,
    slice_deblocking_filter_disabled_flag := 0, slice_beta_offset_div2 := 0,
    slice_tc_offset_div2 := 0, slice_loop_filter_across_slices_enabled_flag := 0,
    num_entry_point_offsets := 0, offset_len_minus1 := 0,
    entry_point_offset_minus1 := fun _ => 0, slice_segment_header_extension_length := 0,
    slice_segment_header_extension_data_byte := fun _ => 0 }

/-- A bit read by `Parser::GetBit` and stored in a numeric member. -/
def GetFlag (data : Nat → Nat) (bit_idx : Nat) : Nat × Nat :=
  ((GetBit data bit_idx).1.toNat, (GetBit data bit_idx).2)

/-- `Parser::ExpGolomb::ReadSe` stored in a signed 32-bit member. -/
def ReadSeInt (fuel : Nat) (data : Nat → Nat) (bit_idx : Nat) : Option (Int × Nat) :=
  match ReadSe fuel data bit_idx with
  | none => none
  | some (v, idx) => some (toInt32 v, idx)

/-- A `for` loop with an increasing index and a body that cannot fail. -/
def forUp {σ : Type} (body : Nat → σ → σ) : Nat → Nat → σ → σ
  | _, 0, s => s
  | j, todo + 1, s => forUp body (j + 1) todo (body j s)

/-- Body of the flag loop of the inter-RPS branch of `ParseShortTermRefPicSet`. -/
def stRpsFlagBody (nalu : Nat → Nat) (j : Nat) (s : H265ShortTermRPS × Nat) :
    H265ShortTermRPS × Nat :=
  let r1 := GetFlag nalu s.2
  let rps1 : H265ShortTermRPS :=
    { s.1 with used_by_curr_pic_flag := setAt s.1.used_by_curr_pic_flag j r1.1 }
  if rps1.used_by_curr_pic_flag j = 0 then
    let r2 := GetFlag nalu r1.2
    ({ rps1 with use_delta_flag := setAt rps1.use_delta_flag j r2.1 }, r2.2)
  else
    ({ rps1 with use_delta_flag := setAt rps1.use_delta_flag j 1 }, r1.2)

/-- The statement `if (sign_ok && rps->use_delta_flag[k]) { rps->delta_poc[i] = delta_poc;
rps->used_by_curr_pic[i++] = rps->used_by_curr_pic_flag[k]; }` of the inter-RPS branch; the
state is the RPS and the running index `i`. -/
def stRpsTake (delta_poc : Int) (sign_ok : Bool) (k : Nat) (s : H265ShortTermRPS × Nat) :
    H265ShortTermRPS × Nat :=
  if sign_ok ∧ s.1.use_delta_flag k ≠ 0 then
    ({ s.1 with delta_poc := setAt s.1.delta_poc s.2 delta_poc
                used_by_curr_pic := setAt s.1.used_by_curr_pic s.2 (s.1.used_by_curr_pic_flag k) },
      s.2 + 1)
  else s

/-- Body of the `DeltaPocS0` loop of the explicit branch; the state is the RPS, `prev` and
the bit cursor. -/
def stRpsS0Body (fuel : Nat) (nalu : Nat → Nat) (j : Nat) (s : H265ShortTermRPS × Int × Nat) :
    Option (H265ShortTermRPS × Int × Nat) :=
  match ReadUe fuel nalu s.2.2 with
  | none => none
  | some (v, offset) =>
    let rps1 : H265ShortTermRPS :=
      { s.1 with delta_poc_s0_minus1 := setAt s.1.delta_poc_s0_minus1 j v }
    let poc := wrapInt32 (s.2.1 - (rps1.delta_poc_s0_minus1 j : Int) - 1)
    let rps2 : H265ShortTermRPS := { rps1 with delta_poc := setAt rps1.delta_poc j poc }
    let r := GetFlag nalu offset
    let rps3 : H265ShortTermRPS :=
      { rps2 with used_by_curr_pic_s0_flag := setAt rps2.used_by_curr_pic_s0_flag j r.1 }
    let used := setAt rps3.used_by_curr_pic j (rps3.used_by_curr_pic_s0_flag j)
    some ({ rps3 with used_by_curr_pic := used }, poc, r.2)

/-- Body of the `DeltaPocS1` loop of the explicit branch. -/
def stRpsS1Body (fuel : Nat) (nalu : Nat → Nat) (j : Nat) (s : H265ShortTermRPS × Int × Nat) :
    Option (H265ShortTermRPS × Int × Nat) :=
  match ReadUe fuel nalu s.2.2 with
  | none => none
  | some (v, offset) =>
    let rps1 : H265ShortTermRPS :=
      { s.1 with delta_poc_s1_minus1 := setAt s.1.delta_poc_s1_minus1 j v }
    let poc := wrapInt32 (s.2.1 + (rps1.delta_poc_s1_minus1 j : Int) + 1)
    let rps2 : H265ShortTermRPS :=
      { rps1 with delta_poc := setAt rps1.delta_poc (j + rps1.num_negative_pics) poc }
    let r := GetFlag nalu offset
    let rps3 : H265ShortTermRPS :=
      { rps2 with used_by_curr_pic_s1_flag := setAt rps2.used_by_curr_pic_s1_flag j r.1 }
    let used := setAt rps3.used_by_curr_pic (j + rps3.num_negative_pics)
      (rps3.used_by_curr_pic_s1_flag j)
    some ({ rps3 with used_by_curr_pic := used }, poc, r.2)

/-- The inter-RPS branch of `ParseShortTermRefPicSet` after the flag loop: the synthesis of
the negative and positive pictures from the reference set `ref`. -/
def stRpsSynthesize (ref : H265ShortTermRPS) (delta_rps : Int) (rps : H265ShortTermRPS) :
    H265ShortTermRPS :=
  let nn := ref.num_negative_pics
  let s1 := forDown (fun j s =>
      stRpsTake (wrapInt32 (delta_rps + ref.delta_poc (nn + j)))
        (decide (wrapInt32 (delta_rps + ref.delta_poc (nn + j)) < 0)) (nn + j) s)
    ref.num_positive_pics (rps, 0)
  let s2 := stRpsTake delta_rps (decide (delta_rps < 0)) ref.num_of_pics s1
  let s3 := forUp (fun j s =>
      stRpsTake (wrapInt32 (delta_rps + ref.delta_poc j))
        (decide (wrapInt32 (delta_rps + ref.delta_poc j) < 0)) j s)
    0 ref.num_negative_pics s2
  let s4 : H265ShortTermRPS × Nat := ({ s3.1 with num_negative_pics := s3.2 }, s3.2)
  let s5 := forDown (fun j s =>
      stRpsTake (wrapInt32 (delta_rps + ref.delta_poc j))
        (decide (wrapInt32 (delta_rps + ref.delta_poc j) > 0)) j s)
    ref.num_negative_pics s4
  let s6 := stRpsTake delta_rps (decide (delta_rps > 0)) ref.num_of_pics s5
  let s7 := forUp (fun j s =>
      stRpsTake (wrapInt32 (delta_rps + ref.delta_poc (nn + j)))
        (decide (wrapInt32 (delta_rps + ref.delta_poc (nn + j)) > 0)) (nn + j) s)
    0 ref.num_positive_pics s6
  { s7.1 with num_positive_pics := s7.2 - s7.1.num_negative_pics
              num_of_delta_poc := ref.num_negative_pics + ref.num_positive_pics
              num_of_pics := s7.2 }

/-- `HEVCVideoParser::ParseShortTermRefPicSet`: `rps` is the record written, `rps_ref` the
array of reference sets (indexed at `ref_idx`, taken as 0 when negative). -/
def ParseShortTermRefPicSet (fuel : Nat) (rps : H265ShortTermRPS) (st_rps_idx : Int)
    (number_short_term_ref_pic_sets : Nat) (rps_ref : Nat → H265ShortTermRPS)
    (nalu : Nat → Nat) (offset : Nat) : Option (H265ShortTermRPS × Nat) :=
  let r0 : Nat × Nat := if st_rps_idx ≠ 0 then GetFlag nalu offset else (0, offset)
  let rps0 : H265ShortTermRPS := { rps with inter_ref_pic_set_prediction_flag := r0.1 }
  if rps0.inter_ref_pic_set_prediction_flag ≠ 0 then
    match (if st_rps_idx % 2 ^ 32 = (number_short_term_ref_pic_sets : Int)
           then ReadUe fuel nalu r0.2 else some (0, r0.2)) with
    | none => none
    | some (delta_idx_minus1, offset1) =>
      let rps1 : H265ShortTermRPS := { rps0 with delta_idx_minus1 := delta_idx_minus1 }
      let r2 := GetFlag nalu offset1
      let rps2 : H265ShortTermRPS := { rps1 with delta_rps_sign := r2.1 }
      match ReadUe fuel nalu r2.2 with
      | none => none
      | some (abs_delta_rps_minus1, offset3) =>
        let rps3 : H265ShortTermRPS := { rps2 with abs_delta_rps_minus1 := abs_delta_rps_minus1 }
        let delta_rps : Int :=
          wrapInt32 (wrapInt32 (1 - 2 * (rps3.delta_rps_sign : Int))
            * ((rps3.abs_delta_rps_minus1 : Int) + 1))
        let ref_idx : Int := wrapInt32 (st_rps_idx - (rps3.delta_idx_minus1 : Int) - 1)
        let ref := rps_ref ref_idx.toNat
        let s4 := forUp (stRpsFlagBody nalu) 0 (ref.num_of_delta_poc + 1) (rps3, offset3)
        some (stRpsSynthesize ref delta_rps s4.1, s4.2)
  else
    match ReadUe fuel nalu r0.2 with
    | none => none
    | some (num_negative_pics, offset1) =>
      match ReadUe fuel nalu offset1 with
      | none => none
      | some (num_positive_pics, offset2) =>
        let rps2 : H265ShortTermRPS :=
          { rps0 with num_negative_pics := num_negative_pics
                      num_positive_pics := num_positive_pics }
        match forLoop (stRpsS0Body fuel nalu) 0 rps2.num_negative_pics (rps2, 0, offset2) with
        | none => none
        | some s3 =>
          match forLoop (stRpsS1Body fuel nalu) 0 s3.1.num_positive_pics (s3.1, 0, s3.2.2) with
          | none => none
          | some s4 =>
            some ({ s4.1 with num_of_pics := s4.1.num_negative_pics + s4.1.num_positive_pics
                              num_of_delta_poc := s4.1.num_negative_pics + s4.1.num_positive_pics },
                  s4.2.2)

/-- Body of the loops of `ParsePredWeightTable` that read the weights of one reference
index `i` of list `l0`; the state is the table and the bit cursor. -/
def pwtWeightsL0Body (fuel : Nat) (stream_ptr : Nat → Nat) (i : Nat)
    (s : HevcPredWeightTable × Nat) : Option (HevcPredWeightTable × Nat) := do
  let s1 : HevcPredWeightTable × Nat ←
    if s.1.luma_weight_l0_flag i ≠ 0 then do
      let a ← ReadSeInt fuel stream_ptr s.2
      let t1 : HevcPredWeightTable :=
        { s.1 with delta_luma_weight_l0 := setAt s.1.delta_luma_weight_l0 i a.1 }
      let b ← ReadSeInt fuel stream_ptr a.2
      some ({ t1 with luma_offset_l0 := setAt t1.luma_offset_l0 i b.1 }, b.2)
    else some s
  if s1.1.chroma_weight_l0_flag i ≠ 0 then
    forLoop (fun j (t : HevcPredWeightTable × Nat) => do
      let a ← ReadSeInt fuel stream_ptr t.2
      let w := setAt t.1.delta_chroma_weight_l0 i (setAt (t.1.delta_chroma_weight_l0 i) j a.1)
      let t1 : HevcPredWeightTable := { t.1 with delta_chroma_weight_l0 := w }
      let b ← ReadSeInt fuel stream_ptr a.2
      let o := setAt t1.delta_chroma_offset_l0 i (setAt (t1.delta_chroma_offset_l0 i) j b.1)
      some ({ t1 with delta_chroma_offset_l0 := o }, b.2)) 0 2 s1
  else some s1

/-- The same for list `l1`. -/
def pwtWeightsL1Body (fuel : Nat) (stream_ptr : Nat → Nat) (i : Nat)
    (s : HevcPredWeightTable × Nat) : Option (HevcPredWeightTable × Nat) := do
  let s1 : HevcPredWeightTable × Nat ←
    if s.1.luma_weight_l1_flag i ≠ 0 then do
      let a ← ReadSeInt fuel stream_ptr s.2
      let t1 : HevcPredWeightTable :=
        { s.1 with delta_luma_weight_l1 := setAt s.1.delta_luma_weight_l1 i a.1 }
      let b ← ReadSeInt fuel stream_ptr a.2
      some ({ t1 with luma_offset_l1 := setAt t1.luma_offset_l1 i b.1 }, b.2)
    else some s
  if s1.1.chroma_weight_l1_flag i ≠ 0 then
    forLoop (fun j (t : HevcPredWeightTable × Nat) => do
      let a ← ReadSeInt fuel stream_ptr t.2
      let w := setAt t.1.delta_chroma_weight_l1 i (setAt (t.1.delta_chroma_weight_l1 i) j a.1)
      let t1 : HevcPredWeightTable := { t.1 with delta_chroma_weight_l1 := w }
      let b ← ReadSeInt fuel stream_ptr a.2
      let o := setAt t1.delta_chroma_offset_l1 i (setAt (t1.delta_chroma_offset_l1 i) j b.1)
      some ({ t1 with delta_chroma_offset_l1 := o }, b.2)) 0 2 s1
  else some s1

/-- `HEVCVideoParser::ParsePredWeightTable`; the result is the new `pred_weight_table` of
the slice header and the bit cursor. -/
def ParsePredWeightTable (fuel : Nat) (slice_header : SliceHeaderData) (chroma_array_type : Nat)
    (stream_ptr : Nat → Nat) (offset : Nat) : Option (HevcPredWeightTable × Nat) := do
  let t0 := slice_header.pred_weight_table
  let a ← ReadUe fuel stream_ptr offset
  let t1 : HevcPredWeightTable := { t0 with luma_log2_weight_denom := a.1 }
  let s2 : HevcPredWeightTable × Nat ←
    if chroma_array_type ≠ 0 then do
      let b ← ReadSeInt fuel stream_ptr a.2
      some ({ t1 with delta_chroma_log2_weight_denom := b.1 }, b.2)
    else some (t1, a.2)
  let n0 := slice_header.num_ref_idx_l0_active_minus1 + 1
  let s3 := forUp (fun i (t : HevcPredWeightTable × Nat) =>
      let r := GetFlag stream_ptr t.2
      ({ t.1 with luma_weight_l0_flag := setAt t.1.luma_weight_l0_flag i r.1 }, r.2)) 0 n0 s2
  let s4 :=
    if chroma_array_type ≠ 0 then
      forUp (fun i (t : HevcPredWeightTable × Nat) =>
        let r := GetFlag stream_ptr t.2
        ({ t.1 with chroma_weight_l0_flag := setAt t.1.chroma_weight_l0_flag i r.1 }, r.2)) 0 n0 s3
    else s3
  let s5 ← forLoop (pwtWeightsL0Body fuel stream_ptr) 0 n0 s4
  if slice_header.slice_type = HEVC_SLICE_TYPE_B then
    let n1 := slice_header.num_ref_idx_l1_active_minus1 + 1
    let s6 := forUp (fun i (t : HevcPredWeightTable × Nat) =>
        let r := GetFlag stream_ptr t.2
        ({ t.1 with luma_weight_l1_flag := setAt t.1.luma_weight_l1_flag i r.1 }, r.2)) 0 n1 s5
    let s7 :=
      if chroma_array_type ≠ 0 then
        forUp (fun i (t : HevcPredWeightTable × Nat) =>
          let r := GetFlag stream_ptr t.2
          ({ t.1 with chroma_weight_l1_flag := setAt t.1.chroma_weight_l1_flag i r.1 }, r.2))
          0 n1 s6
      else s6
    forLoop (pwtWeightsL1Body fuel stream_ptr) 0 n1 s7
  else some s5

/-- Number of indices `i < n` with `a[i]` set: the counting loops of `NumPicTotalCurr`. -/
def countUsed (a : Nat → Nat) : Nat → Nat
  | 0 => 0
  | n + 1 => countUsed a n + (if a n ≠ 0 then 1 else 0)

/-- The IDR branch of the POC block of `ParseSliceHeader` (`m_slice_` members). -/
def pocResetIdr (slice : SliceData) : SliceData :=
  let s1 : SliceData := { slice with curr_poc := 0 }
  let s2 : SliceData := { s1 with prev_poc := s1.curr_poc }
  let s3 : SliceData := { s2 with curr_poc_lsb := 0 }
  let s4 : SliceData := { s3 with curr_poc_msb := 0 }
  let s5 : SliceData := { s4 with prev_poc_lsb := s4.curr_poc_lsb }
  { s5 with prev_poc_msb := s5.curr_poc_msb }

/-- `1 << n` on `int`, as `ParseSliceHeader` computes `max_poc_lsb`: `2 ^ n` for `n ≤ 30` and
`INT_MIN` for `n = 31`. A count of 32 or more is outside what C++ defines for a 32-bit `int`;
the value taken here is the one that the shift instructions of x86-64 and AArch64 give, which
use the count modulo 32. -/
def shlInt32 (n : Nat) : Int := wrapInt32 ((2 : Int) ^ (n % 32))

/-- The non-IDR branch of the POC block of `ParseSliceHeader` (`//get POC`), for a slice
whose `slice_pic_order_cnt_lsb` has been read in `w` bits. The sums and differences are those
of `int32_t`, and `/` is the truncating division of C++. -/
def pocDerive (nal_unit_type w slice_pic_order_cnt_lsb : Nat) (slice : SliceData) : SliceData :=
  let s1 : SliceData := { slice with curr_poc_lsb := wrapInt32 (slice_pic_order_cnt_lsb : Int) }
  let s2 : SliceData := { s1 with max_poc_lsb := shlInt32 w }
  let s3 : SliceData :=
    if nal_unit_type ≥ NAL_UNIT_CODED_SLICE_BLA_W_LP ∧ nal_unit_type < NAL_UNIT_CODED_SLICE_CRA_NUT
    then { s2 with curr_poc_msb := 0 }
    else if s2.curr_poc_lsb < s2.prev_poc_lsb ∧
        wrapInt32 (s2.prev_poc_lsb - s2.curr_poc_lsb) ≥ Int.tdiv s2.max_poc_lsb 2 then
      { s2 with curr_poc_msb := wrapInt32 (s2.prev_poc_msb + s2.max_poc_lsb) }
    else if s2.curr_poc_lsb > s2.prev_poc_lsb ∧
        wrapInt32 (s2.curr_poc_lsb - s2.prev_poc_lsb) > Int.tdiv s2.max_poc_lsb 2 then
      { s2 with curr_poc_msb := wrapInt32 (s2.prev_poc_msb - s2.max_poc_lsb) }
    else { s2 with curr_poc_msb := s2.prev_poc_msb }
  let s4 : SliceData := { s3 with curr_poc := wrapInt32 (s3.curr_poc_lsb + s3.curr_poc_msb) }
  let s5 : SliceData := { s4 with prev_poc := s4.curr_poc }
  let s6 : SliceData := { s5 with prev_poc_lsb := s5.curr_poc_lsb }
  { s6 with prev_poc_msb := s6.curr_poc_msb }

/-! The statements of `ParseSliceHeader` that read one syntax element into one member are
written with the following combinators; the state is the record written and the bit
cursor. -/

/-- `member = value;` at an unchanged cursor: `upd` stores the value in the record. -/
def setField {σ α : Type} (upd : σ → α → σ) (v : α) (s : σ × Nat) : σ × Nat :=
  (upd s.1 v, s.2)

/-- `member = Parser::GetBit(nalu, offset);` -/
def rdFlag {σ : Type} (upd : σ → Nat → σ) (nalu : Nat → Nat) (s : σ × Nat) : σ × Nat :=
  (upd s.1 (GetFlag nalu s.2).1, (GetFlag nalu s.2).2)

/-- `member = Parser::ReadBits(nalu, offset, bits_to_read);` -/
def rdBits {σ : Type} (upd : σ → Nat → σ) (bits_to_read : Nat) (nalu : Nat → Nat)
    (s : σ × Nat) : σ × Nat :=
  (upd s.1 (ReadBits nalu s.2 bits_to_read).1, (ReadBits nalu s.2 bits_to_read).2)

/-- `member = Parser::ExpGolomb::ReadUe(nalu, offset);` -/
def rdUe {σ : Type} (fuel : Nat) (upd : σ → Nat → σ) (nalu : Nat → Nat) (s : σ × Nat) :
    Option (σ × Nat) :=
  match ReadUe fuel nalu s.2 with
  | none => none
  | some r => some (upd s.1 r.1, r.2)

/-- `member = Parser::ExpGolomb::ReadSe(nalu, offset);` for a signed 32-bit member. -/
def rdSe {σ : Type} (fuel : Nat) (upd : σ → Int → σ) (nalu : Nat → Nat) (s : σ × Nat) :
    Option (σ × Nat) :=
  match ReadSeInt fuel nalu s.2 with
  | none => none
  | some r => some (upd s.1 r.1, r.2)

/-- `ParseSliceHeader`: `pps_ptr = &m_pps_[m_active_pps_id_]` and the activation of its SPS
(`if (m_active_sps_id_ != pps_ptr->pps_seq_parameter_set_id) ...`). -/
def activateSps (p : HevcParser) : HevcParser :=
  if p.m_active_sps_id ≠ ((p.m_pps p.m_active_pps_id.toNat).pps_seq_parameter_set_id : Int) then
    { p with
      m_active_sps_id := ((p.m_pps p.m_active_pps_id.toNat).pps_seq_parameter_set_id : Int)
      new_sps_activated := true }
  else p

/-- `ParseSliceHeader`: `m_active_vps_id_ = sps_ptr->sps_video_parameter_set_id`. -/
def activateVps (p : HevcParser) : HevcParser :=
  { p with
    m_active_vps_id := ((p.m_sps p.m_active_sps_id.toNat).sps_video_parameter_set_id : Int) }

/-- `ParseSliceHeader`: `// Check video dimension change`. -/
def checkDimension (p : HevcParser) : HevcParser :=
  if p.pic_width ≠ (p.m_sps p.m_active_sps_id.toNat).pic_width_in_luma_samples ∨
      p.pic_height ≠ (p.m_sps p.m_active_sps_id.toNat).pic_height_in_luma_samples then
    { p with
      pic_width := (p.m_sps p.m_active_sps_id.toNat).pic_width_in_luma_samples
      pic_height := (p.m_sps p.m_active_sps_id.toNat).pic_height_in_luma_samples }
  else p

/-- `ParseSliceHeader`: the argument `bits_slice_segment_address` of the read of
`slice_segment_address`. -/
def bitsSliceSegmentAddress (env : ParseEnv) (sps : SpsData) : Nat :=
  let min_cb_log2_size_y := sps.log2_min_luma_coding_block_size_minus3 + 3
  let ctb_log2_size_y := min_cb_log2_size_y + sps.log2_diff_max_min_luma_coding_block_size
  let ctb_size_y := 1 <<< ctb_log2_size_y
  let pic_width_in_ctbs_y := (sps.pic_width_in_luma_samples + ctb_size_y - 1) / ctb_size_y
  let pic_height_in_ctbs_y := (sps.pic_height_in_luma_samples + ctb_size_y - 1) / ctb_size_y
  let pic_size_in_ctbs_y := pic_width_in_ctbs_y * pic_height_in_ctbs_y
  env.ceil_log2f (pic_size_in_ctbs_y : Int)

/-- `ParseSliceHeader`, from the two `memset` to the read of `slice_segment_address`: the
identifying fields, the activation of the parameter sets and the dimension check. The
record written is the pair of `*m_sh_` and `temp_sh`; the result is the parser (with `m_sh_`
holding the fields read so far), `temp_sh` and the bit cursor. -/
def sliceHeaderIds (env : ParseEnv) (p : HevcParser) (nal_unit_type : Nat) (nalu : Nat → Nat) :
    Option (HevcParser × SliceHeaderData × Nat) :=
  let s0 : (SliceHeaderData × SliceHeaderData) × Nat :=
    ((SliceHeaderData.zero, SliceHeaderData.zero), 0)
  let s1 := rdFlag (fun (x : SliceHeaderData × SliceHeaderData) v =>
    ({ x.1 with first_slice_segment_in_pic_flag := v },
      { x.2 with first_slice_segment_in_pic_flag := v })) nalu s0
  let s2 :=
    if nal_unit_type ≥ NAL_UNIT_CODED_SLICE_BLA_W_LP ∧ nal_unit_type ≤ NAL_UNIT_RESERVED_IRAP_VCL23
    then rdFlag (fun (x : SliceHeaderData × SliceHeaderData) v =>
      ({ x.1 with no_output_of_prior_pics_flag := v },
        { x.2 with no_output_of_prior_pics_flag := v })) nalu s1
    else s1
  match ReadUe env.fuel nalu s2.2 with
  | none => none
  | some ue =>
    let p1 : HevcParser := { p with m_active_pps_id := (ue.1 : Int) }
    let s3 := setField (fun (x : SliceHeaderData × SliceHeaderData) v =>
      ({ x.1 with slice_pic_parameter_set_id := v },
        { x.2 with slice_pic_parameter_set_id := v })) p1.m_active_pps_id.toNat (s2.1, ue.2)
    let p4 := checkDimension (activateVps (activateSps p1))
    let pps := p4.m_pps p4.m_active_pps_id.toNat
    let sps := p4.m_sps p4.m_active_sps_id.toNat
    let s5 :=
      if s3.1.1.first_slice_segment_in_pic_flag = 0 then
        let s4 :=
          if pps.dependent_slice_segments_enabled_flag ≠ 0 then
            rdFlag (fun (x : SliceHeaderData × SliceHeaderData) v =>
              ({ x.1 with dependent_slice_segment_flag := v },
                { x.2 with dependent_slice_segment_flag := v })) nalu s3
          else s3
        rdBits (fun (x : SliceHeaderData × SliceHeaderData) v =>
          ({ x.1 with slice_segment_address := v },
            { x.2 with slice_segment_address := v })) (bitsSliceSegmentAddress env sps) nalu s4
      else s3
    some ({ p4 with m_sh := s5.1.1 }, s5.1.2, s5.2)

/-- `ParseSliceHeader`, independent slice: from the `slice_reserved_flag` loop to
`colour_plane_id`. -/
def shTypeFlags (env : ParseEnv) (pps : PpsData) (sps : SpsData) (nalu : Nat → Nat)
    (s : SliceHeaderData × Nat) : Option (SliceHeaderData × Nat) :=
  let s1 := forUp (fun i t => rdFlag (fun (sh : SliceHeaderData) v =>
      { sh with slice_reserved_flag := setAt sh.slice_reserved_flag i v }) nalu t)
    0 pps.num_extra_slice_header_bits s
  match rdUe env.fuel (fun (sh : SliceHeaderData) v => { sh with slice_type := v }) nalu s1 with
  | none => none
  | some s2 =>
    let s3 :=
      if pps.output_flag_present_flag ≠ 0 then
        rdFlag (fun (sh : SliceHeaderData) v => { sh with pic_output_flag := v }) nalu s2
      else setField (fun (sh : SliceHeaderData) v => { sh with pic_output_flag := v }) 1 s2
    if sps.separate_colour_plane_flag ≠ 0 then
      some (rdBits (fun (sh : SliceHeaderData) v => { sh with colour_plane_id := v }) 2 nalu s3)
    else some s3

/-- `ParseSliceHeader`, non-IDR independent slice: `short_term_ref_pic_set_sps_flag` and the
short-term RPS of the slice. -/
def shShortTermRps (env : ParseEnv) (sps : SpsData) (nalu : Nat → Nat)
    (s : SliceHeaderData × Nat) : Option (SliceHeaderData × Nat) :=
  let s1 := rdFlag (fun (sh : SliceHeaderData) v =>
    { sh with short_term_ref_pic_set_sps_flag := v }) nalu s
  let pos := s1.2
  let r2 : Option (SliceHeaderData × Nat) :=
    if s1.1.short_term_ref_pic_set_sps_flag = 0 then
      match ParseShortTermRefPicSet env.fuel s1.1.st_rps (sps.num_short_term_ref_pic_sets : Int)
          sps.num_short_term_ref_pic_sets sps.st_rps nalu s1.2 with
      | none => none
      | some q => some (setField (fun (sh : SliceHeaderData) v => { sh with st_rps := v }) q.1
          (s1.1, q.2))
    else if sps.num_short_term_ref_pic_sets > 1 then
      let num_bits := numBitsLoop sps.num_short_term_ref_pic_sets 32 0
      let s1a :=
        if num_bits > 0 then
          rdBits (fun (sh : SliceHeaderData) v => { sh with short_term_ref_pic_set_idx := v })
            num_bits nalu s1
        else s1
      some (setField (fun (sh : SliceHeaderData) v => { sh with st_rps := v })
        (sps.st_rps s1a.1.short_term_ref_pic_set_idx) s1a)
    else some s1
  match r2 with
  | none => none
  | some s2 =>
    some (setField (fun (sh : SliceHeaderData) v => { sh with short_term_ref_pic_set_size := v })
      (s2.2 - pos) s2)

/-- Body of the long-term loop of `ParseSliceHeader`. -/
def shLongTermBody (env : ParseEnv) (sps : SpsData) (nalu : Nat → Nat)
    (bits_for_ltrp_in_sps : Nat) (i : Nat) (t : SliceHeaderData × Nat) :
    Option (SliceHeaderData × Nat) :=
  let s1 : SliceHeaderData × Nat :=
    if i < t.1.num_long_term_sps then
      if sps.num_long_term_ref_pics_sps > 1 then
        if bits_for_ltrp_in_sps > 0 then
          let a := rdBits (fun (sh : SliceHeaderData) v =>
            { sh with lt_idx_sps := setAt sh.lt_idx_sps i v }) bits_for_ltrp_in_sps nalu t
          let b := setField (fun (sh : SliceHeaderData) v =>
            { sh with lt_rps := { sh.lt_rps with pocs := setAt sh.lt_rps.pocs i v } })
            (sps.lt_rps.pocs (a.1.lt_idx_sps i)) a
          setField (fun (sh : SliceHeaderData) v =>
            { sh with lt_rps :=
                { sh.lt_rps with used_by_curr_pic := setAt sh.lt_rps.used_by_curr_pic i v } })
            (sps.lt_rps.used_by_curr_pic (b.1.lt_idx_sps i)) b
        else t
      else t
    else
      let a := rdBits (fun (sh : SliceHeaderData) v =>
        { sh with poc_lsb_lt := setAt sh.poc_lsb_lt i v })
        (sps.log2_max_pic_order_cnt_lsb_minus4 + 4) nalu t
      let b := rdFlag (fun (sh : SliceHeaderData) v =>
        { sh with used_by_curr_pic_lt_flag := setAt sh.used_by_curr_pic_lt_flag i v }) nalu a
      let c := setField (fun (sh : SliceHeaderData) v =>
        { sh with lt_rps := { sh.lt_rps with pocs := setAt sh.lt_rps.pocs i v } })
        (b.1.poc_lsb_lt i) b
      setField (fun (sh : SliceHeaderData) v =>
        { sh with lt_rps :=
            { sh.lt_rps with used_by_curr_pic := setAt sh.lt_rps.used_by_curr_pic i v } })
        (c.1.used_by_curr_pic_lt_flag i) c
  let s2 := rdFlag (fun (sh : SliceHeaderData) v =>
    { sh with delta_poc_msb_present_flag := setAt sh.delta_poc_msb_present_flag i v }) nalu s1
  if s2.1.delta_poc_msb_present_flag i ≠ 0 then
    rdUe env.fuel (fun (sh : SliceHeaderData) v =>
      { sh with delta_poc_msb_cycle_lt := setAt sh.delta_poc_msb_cycle_lt i v }) nalu s2
  else some s2

/-- `ParseSliceHeader`, non-IDR independent slice: the long-term block from
`num_long_term_pics` on. -/
def shLongTermPics (env : ParseEnv) (sps : SpsData) (nalu : Nat → Nat)
    (s : SliceHeaderData × Nat) : Option (SliceHeaderData × Nat) :=
  match rdUe env.fuel (fun (sh : SliceHeaderData) v => { sh with num_long_term_pics := v })
      nalu s with
  | none => none
  | some s2 =>
    let bits_for_ltrp_in_sps := numBitsLoop sps.num_long_term_ref_pics_sps 32 0
    let s3 := setField (fun (sh : SliceHeaderData) v =>
      { sh with lt_rps := { sh.lt_rps with num_of_pics := v } })
      (s2.1.num_long_term_sps + s2.1.num_long_term_pics) s2
    forLoop (shLongTermBody env sps nalu bits_for_ltrp_in_sps) 0
      (s3.1.num_long_term_sps + s3.1.num_long_term_pics) s3

/-- `ParseSliceHeader`, non-IDR independent slice: the long-term block. -/
def shLongTermRps (env : ParseEnv) (sps : SpsData) (nalu : Nat → Nat)
    (s : SliceHeaderData × Nat) : Option (SliceHeaderData × Nat) :=
  if sps.long_term_ref_pics_present_flag ≠ 0 then
    if sps.num_long_term_ref_pics_sps > 0 then
      match rdUe env.fuel (fun (sh : SliceHeaderData) v => { sh with num_long_term_sps := v })
          nalu s with
      | none => none
      | some s1 => shLongTermPics env sps nalu s1
    else shLongTermPics env sps nalu s
  else some s

/-- `ParseSliceHeader`, non-IDR independent slice: the header fields read after
`slice_pic_order_cnt_lsb`, up to `slice_temporal_mvp_enabled_flag`. -/
def shRefPicSets (env : ParseEnv) (sps : SpsData) (nalu : Nat → Nat)
    (s : SliceHeaderData × Nat) : Option (SliceHeaderData × Nat) :=
  match shShortTermRps env sps nalu s with
  | none => none
  | some s2 =>
    match shLongTermRps env sps nalu s2 with
    | none => none
    | some s3 =>
      if sps.sps_temporal_mvp_enabled_flag ≠ 0 then
        some (rdFlag (fun (sh : SliceHeaderData) v =>
          { sh with slice_temporal_mvp_enabled_flag := v }) nalu s3)
      else some s3

/-- `ParseSliceHeader`, independent slice: the POC block with the reference picture sets and
`slice_temporal_mvp_enabled_flag`; the result is the header, the POC state `*m_slice_` and
the bit cursor. -/
def shPoc (env : ParseEnv) (sps : SpsData) (nal_unit_type : Nat) (nalu : Nat → Nat)
    (s : SliceHeaderData × Nat) (slice : SliceData) :
    Option ((SliceHeaderData × Nat) × SliceData) :=
  if nal_unit_type = NAL_UNIT_CODED_SLICE_IDR_W_RADL ∨
      nal_unit_type = NAL_UNIT_CODED_SLICE_IDR_N_LP then
    some (s, pocResetIdr slice)
  else
    let w := sps.log2_max_pic_order_cnt_lsb_minus4 + 4
    let s1 := rdBits (fun (sh : SliceHeaderData) v => { sh with slice_pic_order_cnt_lsb := v })
      w nalu s
    let slice1 := pocDerive nal_unit_type w s1.1.slice_pic_order_cnt_lsb slice
    match shRefPicSets env sps nalu s1 with
    | none => none
    | some s3 => some (s3, slice1)

/-- `ParseSliceHeader`, independent slice: the SAO flags. -/
def shSao (sps : SpsData) (chroma_array_type : Nat) (nalu : Nat → Nat)
    (s : SliceHeaderData × Nat) : SliceHeaderData × Nat :=
  if sps.sample_adaptive_offset_enabled_flag ≠ 0 then
    let s1 := rdFlag (fun (sh : SliceHeaderData) v => { sh with slice_sao_luma_flag := v }) nalu s
    if chroma_array_type ≠ 0 then
      rdFlag (fun (sh : SliceHeaderData) v => { sh with slice_sao_chroma_flag := v }) nalu s1
    else s1
  else s

/-- `ParseSliceHeader`, P or B slice: `num_ref_idx_active_override_flag` and the active
reference index counts. -/
def shNumRefIdx (env : ParseEnv) (pps : PpsData) (nalu : Nat → Nat)
    (s : SliceHeaderData × Nat) : Option (SliceHeaderData × Nat) :=
  let s1 := rdFlag (fun (sh : SliceHeaderData) v =>
    { sh with num_ref_idx_active_override_flag := v }) nalu s
  if s1.1.num_ref_idx_active_override_flag ≠ 0 then
    match rdUe env.fuel (fun (sh : SliceHeaderData) v =>
        { sh with num_ref_idx_l0_active_minus1 := v }) nalu s1 with
    | none => none
    | some s2 =>
      if s2.1.slice_type = HEVC_SLICE_TYPE_B then
        rdUe env.fuel (fun (sh : SliceHeaderData) v =>
          { sh with num_ref_idx_l1_active_minus1 := v }) nalu s2
      else some s2
  else
    let s2 := setField (fun (sh : SliceHeaderData) v =>
      { sh with num_ref_idx_l0_active_minus1 := v }) pps.num_ref_idx_l0_default_active_minus1 s1
    if s2.1.slice_type = HEVC_SLICE_TYPE_B then
      some (setField (fun (sh : SliceHeaderData) v =>
        { sh with num_ref_idx_l1_active_minus1 := v }) pps.num_ref_idx_l1_default_active_minus1 s2)
    else some s2

/-- `NumPicTotalCurr` as computed by `ParseSliceHeader` (`// Calculate NumPicTotalCurr`). -/
def numPicTotalCurr (sh : SliceHeaderData) : Nat :=
  countUsed sh.st_rps.used_by_curr_pic sh.st_rps.num_of_delta_poc
    + countUsed sh.lt_rps.used_by_curr_pic sh.lt_rps.num_of_pics

/-- `ParseSliceHeader`, P or B slice: reference picture list modification (7.3.6.2). -/
def shListModification (pps : PpsData) (nalu : Nat → Nat)
    (s : SliceHeaderData × Nat) : SliceHeaderData × Nat :=
  let num_pic_total_curr := numPicTotalCurr s.1
  if pps.lists_modification_present_flag ≠ 0 ∧ num_pic_total_curr > 1 then
    let list_entry_bits := numBitsLoop num_pic_total_curr 32 0
    let s1 := rdFlag (fun (sh : SliceHeaderData) v =>
      { sh with ref_pic_list_modification_flag_l0 := v }) nalu s
    let s2 :=
      if s1.1.ref_pic_list_modification_flag_l0 ≠ 0 then
        forUp (fun i t => rdBits (fun (sh : SliceHeaderData) v =>
          { sh with list_entry_l0 := setAt sh.list_entry_l0 i v }) list_entry_bits nalu t)
          0 s1.1.num_ref_idx_l0_active_minus1 s1
      else s1
    if s2.1.slice_type = HEVC_SLICE_TYPE_B then
      let s3 := rdFlag (fun (sh : SliceHeaderData) v =>
        { sh with ref_pic_list_modification_flag_l1 := v }) nalu s2
      if s3.1.ref_pic_list_modification_flag_l1 ≠ 0 then
        forUp (fun i t => rdBits (fun (sh : SliceHeaderData) v =>
          { sh with list_entry_l1 := setAt sh.list_entry_l1 i v }) list_entry_bits nalu t)
          0 s3.1.num_ref_idx_l1_active_minus1 s3
      else s3
    else s2
  else s

/-- `ParseSliceHeader`, P or B slice: `collocated_from_l0_flag` and `collocated_ref_idx`
(the block `if (m_sh_->slice_temporal_mvp_enabled_flag)`). -/
def shCollocated (env : ParseEnv) (nalu : Nat → Nat)
    (s : SliceHeaderData × Nat) : Option (SliceHeaderData × Nat) :=
  if s.1.slice_temporal_mvp_enabled_flag ≠ 0 then
    let s1 :=
      if s.1.slice_type = HEVC_SLICE_TYPE_B then
        rdFlag (fun (sh : SliceHeaderData) v => { sh with collocated_from_l0_flag := v }) nalu s
      else s
    if (s1.1.collocated_from_l0_flag ≠ 0 ∧ s1.1.num_ref_idx_l0_active_minus1 > 0) ∨
        (s1.1.collocated_from_l0_flag = 0 ∧ s1.1.num_ref_idx_l1_active_minus1 > 0) then
      rdUe env.fuel (fun (sh : SliceHeaderData) v => { sh with collocated_ref_idx := v }) nalu s1
    else some s1
  else some s

/-- `ParseSliceHeader`, P or B slice: the call of `ParsePredWeightTable` under its guard. -/
def shPredWeight (env : ParseEnv) (pps : PpsData) (chroma_array_type : Nat) (nalu : Nat → Nat)
    (s : SliceHeaderData × Nat) : Option (SliceHeaderData × Nat) :=
  if (pps.weighted_pred_flag ≠ 0 ∧ s.1.slice_type = HEVC_SLICE_TYPE_P) ∨
      (pps.weighted_bipred_flag ≠ 0 ∧ s.1.slice_type = HEVC_SLICE_TYPE_B) then
    match ParsePredWeightTable env.fuel s.1 chroma_array_type nalu s.2 with
    | none => none
    | some t => some (setField (fun (sh : SliceHeaderData) v =>
        { sh with pred_weight_table := v }) t.1 (s.1, t.2))
  else some s

/-- `ParseSliceHeader`, P or B slice: from `mvd_l1_zero_flag` to
`five_minus_max_num_merge_cand`. -/
def shInterTail (env : ParseEnv) (pps : PpsData) (chroma_array_type : Nat) (nalu : Nat → Nat)
    (s : SliceHeaderData × Nat) : Option (SliceHeaderData × Nat) :=
  let s1 :=
    if s.1.slice_type = HEVC_SLICE_TYPE_B then
      rdFlag (fun (sh : SliceHeaderData) v => { sh with mvd_l1_zero_flag := v }) nalu s
    else s
  let s2 :=
    if pps.cabac_init_present_flag ≠ 0 then
      rdFlag (fun (sh : SliceHeaderData) v => { sh with cabac_init_flag := v }) nalu s1
    else s1
  match shCollocated env nalu s2 with
  | none => none
  | some s4 =>
    match shPredWeight env pps chroma_array_type nalu s4 with
    | none => none
    | some s5 =>
      rdUe env.fuel (fun (sh : SliceHeaderData) v =>
        { sh with five_minus_max_num_merge_cand := v }) nalu s5

/-- `ParseSliceHeader`, independent slice: the block guarded by
`slice_type == HEVC_SLICE_TYPE_P || slice_type == HEVC_SLICE_TYPE_B`. -/
def shRefLists (env : ParseEnv) (pps : PpsData) (chroma_array_type : Nat) (nalu : Nat → Nat)
    (s : SliceHeaderData × Nat) : Option (SliceHeaderData × Nat) :=
  if s.1.slice_type = HEVC_SLICE_TYPE_P ∨ s.1.slice_type = HEVC_SLICE_TYPE_B then
    match shNumRefIdx env pps nalu s with
    | none => none
    | some s1 => shInterTail env pps chroma_array_type nalu (shListModification pps nalu s1)
  else some s

/-- `ParseSliceHeader`, independent slice: `slice_qp_delta` and the chroma QP offsets. -/
def shQp (env : ParseEnv) (pps : PpsData) (nalu : Nat → Nat)
    (s : SliceHeaderData × Nat) : Option (SliceHeaderData × Nat) :=
  match rdSe env.fuel (fun (sh : SliceHeaderData) v => { sh with slice_qp_delta := v }) nalu s with
  | none => none
  | some s1 =>
    let r2 : Option (SliceHeaderData × Nat) :=
      if pps.pps_slice_chroma_qp_offsets_present_flag ≠ 0 then
        match rdSe env.fuel (fun (sh : SliceHeaderData) v =>
            { sh with slice_cb_qp_offset := v }) nalu s1 with
        | none => none
        | some t =>
          rdSe env.fuel (fun (sh : SliceHeaderData) v => { sh with slice_cr_qp_offset := v }) nalu t
      else some s1
    match r2 with
    | none => none
    | some s2 =>
      if pps.chroma_qp_offset_list_enabled_flag ≠ 0 then
        some (rdFlag (fun (sh : SliceHeaderData) v =>
          { sh with cu_chroma_qp_offset_enabled_flag := v }) nalu s2)
      else some s2

/-- `ParseSliceHeader`, independent slice: the deblocking fields and
`slice_loop_filter_across_slices_enabled_flag`. -/
def shDeblock (env : ParseEnv) (pps : PpsData) (nalu : Nat → Nat)
    (s : SliceHeaderData × Nat) : Option (SliceHeaderData × Nat) :=
  let s1 :=
    if pps.deblocking_filter_override_enabled_flag ≠ 0 then
      rdFlag (fun (sh : SliceHeaderData) v =>
        { sh with deblocking_filter_override_flag := v }) nalu s
    else s
  let r2 : Option (SliceHeaderData × Nat) :=
    if s1.1.deblocking_filter_override_flag ≠ 0 then
      let a := rdFlag (fun (sh : SliceHeaderData) v =>
        { sh with slice_deblocking_filter_disabled_flag := v }) nalu s1
      if a.1.slice_deblocking_filter_disabled_flag = 0 then
        match rdSe env.fuel (fun (sh : SliceHeaderData) v =>
            { sh with slice_beta_offset_div2 := v }) nalu a with
        | none => none
        | some b =>
          rdSe env.fuel (fun (sh : SliceHeaderData) v => { sh with slice_tc_offset_div2 := v })
            nalu b
      else some a
    else some s1
  match r2 with
  | none => none
  | some s2 =>
    if pps.pps_loop_filter_across_slices_enabled_flag ≠ 0 ∧
        (s2.1.slice_sao_luma_flag ≠ 0 ∨ s2.1.slice_sao_chroma_flag ≠ 0 ∨
          s2.1.slice_deblocking_filter_disabled_flag = 0) then
      some (rdFlag (fun (sh : SliceHeaderData) v =>
        { sh with slice_loop_filter_across_slices_enabled_flag := v }) nalu s2)
    else some s2

/-- `ParseSliceHeader`, independent slice, after the POC block: from the SAO flags to
`slice_loop_filter_across_slices_enabled_flag`. -/
def shAfterPoc (env : ParseEnv) (pps : PpsData) (sps : SpsData) (nalu : Nat → Nat)
    (s : SliceHeaderData × Nat) : Option (SliceHeaderData × Nat) :=
  let chroma_array_type := if sps.separate_colour_plane_flag ≠ 0 then 0 else sps.chroma_format_idc
  match shRefLists env pps chroma_array_type nalu (shSao sps chroma_array_type nalu s) with
  | none => none
  | some s4 =>
    match shQp env pps nalu s4 with
    | none => none
    | some s5 => shDeblock env pps nalu s5

/-- `ParseSliceHeader`, branch `if (!m_sh_->dependent_slice_segment_flag)` up to the
`memcpy(m_sh_copy_, m_sh_, ...)`: the header, the bit cursor and the POC state of an
independent slice. -/
def sliceHeaderIndependent (env : ParseEnv) (pps : PpsData) (sps : SpsData) (nal_unit_type : Nat)
    (nalu : Nat → Nat) (s : SliceHeaderData × Nat) (slice : SliceData) :
    Option ((SliceHeaderData × Nat) × SliceData) :=
  match shTypeFlags env pps sps nalu s with
  | none => none
  | some s1 =>
    match shPoc env sps nal_unit_type nalu s1 slice with
    | none => none
    | some s2 =>
      match shAfterPoc env pps sps nalu s2.1 with
      | none => none
      | some s5 => some (s5, s2.2)

/-- `ParseSliceHeader`, branch `//dependant slice`: `m_sh_` after the `memcpy` from
`m_sh_copy_` and the five assignments from `temp_sh`. -/
def sliceHeaderDependent (sh_copy temp_sh : SliceHeaderData) : SliceHeaderData :=
  { sh_copy with
    first_slice_segment_in_pic_flag := temp_sh.first_slice_segment_in_pic_flag
    no_output_of_prior_pics_flag := temp_sh.no_output_of_prior_pics_flag
    slice_pic_parameter_set_id := temp_sh.slice_pic_parameter_set_id
    dependent_slice_segment_flag := temp_sh.dependent_slice_segment_flag
    slice_segment_address := temp_sh.slice_segment_address }

/-- `ParseSliceHeader`, after the two branches: the entry point offsets. -/
def shEntryPoints (env : ParseEnv) (pps : PpsData) (nalu : Nat → Nat)
    (s : SliceHeaderData × Nat) : Option (SliceHeaderData × Nat) :=
  if pps.tiles_enabled_flag ≠ 0 ∨ pps.entropy_coding_sync_enabled_flag ≠ 0 then
    match rdUe env.fuel (fun (sh : SliceHeaderData) v =>
        { sh with num_entry_point_offsets := v }) nalu s with
    | none => none
    | some s1 =>
      if s1.1.num_entry_point_offsets ≠ 0 then
        match rdUe env.fuel (fun (sh : SliceHeaderData) v =>
            { sh with offset_len_minus1 := v }) nalu s1 with
        | none => none
        | some s2 =>
          some (forUp (fun i t => rdBits (fun (sh : SliceHeaderData) v =>
            { sh with entry_point_offset_minus1 := setAt sh.entry_point_offset_minus1 i v })
            (t.1.offset_len_minus1 + 1) nalu t) 0 s2.1.num_entry_point_offsets s2)
      else some s1
  else some s

/-- `ParseSliceHeader`, after the two branches: the slice segment header extension. -/
def shExtension (env : ParseEnv) (pps : PpsData) (nalu : Nat → Nat)
    (s : SliceHeaderData × Nat) : Option (SliceHeaderData × Nat) :=
  if pps.slice_segment_header_extension_present_flag ≠ 0 then
    match rdUe env.fuel (fun (sh : SliceHeaderData) v =>
        { sh with slice_segment_header_extension_length := v }) nalu s with
    | none => none
    | some s1 =>
      some (forUp (fun i t => rdBits (fun (sh : SliceHeaderData) v =>
        let bytes := setAt sh.slice_segment_header_extension_data_byte i v
        { sh with slice_segment_header_extension_data_byte := bytes }) 8 nalu t)
        0 s1.1.slice_segment_header_extension_length s1)
  else some s

/-- `ParseSliceHeader`, after the two branches: entry point offsets, then the extension. -/
def shTrailer (env : ParseEnv) (pps : PpsData) (nalu : Nat → Nat)
    (s : SliceHeaderData × Nat) : Option (SliceHeaderData × Nat) :=
  match shEntryPoints env pps nalu s with
  | none => none
  | some s1 => shExtension env pps nalu s1

/-- `ParseSliceHeader`, the two branches on `m_sh_->dependent_slice_segment_flag`, from the
state `h` left by `sliceHeaderIds`: the parser and the bit cursor before the entry points. -/
def sliceHeaderBody (env : ParseEnv) (nal_unit_type : Nat) (nalu : Nat → Nat)
    (h : HevcParser × SliceHeaderData × Nat) : Option (HevcParser × Nat) :=
  let pps := h.1.m_pps h.1.m_active_pps_id.toNat
  let sps := h.1.m_sps h.1.m_active_sps_id.toNat
  if h.1.m_sh.dependent_slice_segment_flag = 0 then
    match sliceHeaderIndependent env pps sps nal_unit_type nalu (h.1.m_sh, h.2.2) h.1.m_slice with
    | none => none
    | some r => some ({ h.1 with m_sh := r.1.1, m_slice := r.2, m_sh_copy := r.1.1 }, r.1.2)
  else
    some ({ h.1 with m_sh := sliceHeaderDependent h.1.m_sh_copy h.2.1 }, h.2.2)

/-- `HEVCVideoParser::ParseSliceHeader`: the value returned (always `false`) and the parser
afterwards; `none` when the zero-counting loop of a `ReadUe` does not end within
`env.fuel` iterations. -/
def ParseSliceHeader (env : ParseEnv) (p : HevcParser) (nal_unit_type : Nat) (nalu : Nat → Nat) :
    Option (Bool × HevcParser) :=
  match sliceHeaderIds env p nal_unit_type nalu with
  | none => none
  | some h =>
    match sliceHeaderBody env nal_unit_type nalu h with
    | none => none
    | some s =>
      match shTrailer env (h.1.m_pps h.1.m_active_pps_id.toNat) nalu (s.1.m_sh, s.2) with
      | none => none
      | some e => some (false, { s.1 with m_sh := e.1 })

/-- `memset(p, 0, sizeof(SliceData))` of `AllocSlice`. -/
def SliceData.zero : SliceData :=
  { prev_poc := 0, curr_poc := 0, prev_poc_lsb := 0, prev_poc_msb := 0, curr_poc_lsb := 0,
    curr_poc_msb := 0, max_poc_lsb := 0 }

/-- A zeroed slot of the SPS table (`memset` of `AllocSps` and of `ParseSps`). -/
def SpsData.zero : SpsData :=
  { sps_video_parameter_set_id := 0, sps_max_sub_layers_minus1 := 0,
    sps_temporal_id_nesting_flag := 0, profile_tier_level := H265ProfileTierLevel.zero,
    sps_seq_parameter_set_id := 0, chroma_format_idc := 0, separate_colour_plane_flag := 0,
    pic_width_in_luma_samples := 0, pic_height_in_luma_samples := 0,
    conformance_window_flag := 0, conf_win_left_offset := 0, conf_win_right_offset := 0,
    conf_win_top_offset := 0, conf_win_bottom_offset := 0, bit_depth_luma_minus8 := 0,
    bit_depth_chroma_minus8 := 0, log2_max_pic_order_cnt_lsb_minus4 := 0,
    sps_sub_layer_ordering_info_present_flag := 0,
    sps_max_dec_pic_buffering_minus1 := fun _ => 0, sps_max_num_reorder_pics := fun _ => 0,
    sps_max_latency_increase_plus1 := fun _ => 0, log2_min_luma_coding_block_size_minus3 := 0,
    log2_diff_max_min_luma_coding_block_size := 0, max_cu_width := 0, max_cu_height := 0,
    log2_min_transform_block_size_minus2 := 0, max_cu_depth := 0,
    log2_diff_max_min_transform_block_size := 0, max_transform_hierarchy_depth_inter := 0,
    max_transform_hierarchy_depth_intra := 0, scaling_list_enabled_flag := 0,
    scaling_list_data := H265ScalingListData.zero, sps_scaling_list_data_present_flag := 0,
    amp_enabled_flag := 0, sample_adaptive_offset_enabled_flag := 0, pcm_enabled_flag := 0,
    pcm_sample_bit_depth_luma_minus1 := 0, pcm_sample_bit_depth_chroma_minus1 := 0,
    log2_min_pcm_luma_coding_block_size_minus3 := 0,
    log2_diff_max_min_pcm_luma_coding_block_size := 0, pcm_loop_filter_disabled_flag := 0,
    num_short_term_ref_pic_sets := 0, st_rps := fun _ => H265ShortTermRPS.zero,
    long_term_ref_pics_present_flag := 0, num_long_term_ref_pics_sps := 0,
    lt_rps := H265LongTermRPS.zero, lt_ref_pic_poc_lsb_sps := fun _ => 0,
    used_by_curr_pic_lt_sps_flag := fun _ => 0, sps_temporal_mvp_enabled_flag := 0,
    strong_intra_smoothing_enabled_flag := 0, vui_parameters_present_flag := 0,
    vui_parameters := H265VuiParameters.zero, sps_extension_flag := 0 }

/-- A zeroed slot of the PPS table (`memset` of `AllocPps` and of `ParsePps`). -/
def PpsData.zero : PpsData :=
  { pps_pic_parameter_set_id := 0, pps_seq_parameter_set_id := 0,
    dependent_slice_segments_enabled_flag := 0, output_flag_present_flag := 0,
    num_extra_slice_header_bits := 0, sign_data_hiding_enabled_flag := 0,
    cabac_init_present_flag := 0, num_ref_idx_l0_default_active_minus1 := 0,
    num_ref_idx_l1_default_active_minus1 := 0, init_qp_minus26 := 0,
    constrained_intra_pred_flag := 0, transform_skip_enabled_flag := 0,
    cu_qp_delta_enabled_flag := 0, diff_cu_qp_delta_depth := 0, pps_cb_qp_offset := 0,
    pps_cr_qp_offset := 0, pps_slice_chroma_qp_offsets_present_flag := 0,
    weighted_pred_flag := 0, weighted_bipred_flag := 0, transquant_bypass_enabled_flag := 0,
    tiles_enabled_flag := 0, entropy_coding_sync_enabled_flag := 0,
    num_tile_columns_minus1 := 0, num_tile_rows_minus1 := 0, uniform_spacing_flag := 0,
    column_width_minus1 := fun _ => 0, row_height_minus1 := fun _ => 0,
    loop_filter_across_tiles_enabled_flag := 0,
    pps_loop_filter_across_slices_enabled_flag := 0,
    deblocking_filter_control_present_flag := 0, deblocking_filter_override_enabled_flag := 0,
    pps_deblocking_filter_disabled_flag := 0, pps_beta_offset_div2 := 0,
    pps_tc_offset_div2 := 0, pps_scaling_list_data_present_flag := 0,
    scaling_list_data := H265ScalingListData.zero, lists_modification_present_flag := 0,
    log2_parallel_merge_level_minus2 := 0, slice_segment_header_extension_present_flag := 0,
    pps_extension_present_flag := 0, pps_range_extension_flag := 0,
    pps_multilayer_extension_flag := 0, pps_extension_6bits := 0,
    log2_max_transform_skip_block_size_minus2 := 0,
    cross_component_prediction_enabled_flag := 0, chroma_qp_offset_list_enabled_flag := 0,
    diff_cu_chroma_qp_offset_depth := 0, chroma_qp_offset_list_len_minus1 := 0,
    cb_qp_offset_list := fun _ => 0, cr_qp_offset_list := fun _ => 0,
    log2_sao_offset_scale_luma := 0, log2_sao_offset_scale_chroma := 0 }

/-- The exact `ceil(log2(x))` for `1 ≤ x < 2^31`, and 0 for `x ≤ 1`: an instance of the
floating-point expression of `ParseEnv`. -/
def ceilLog2 (x : Int) : Nat := numBitsLoop x.toNat 32 0

/-- An environment for examples: 64 iterations for each `ReadUe`. -/
def exampleEnv : ParseEnv := { fuel := 64, ceil_log2f := ceilLog2 }

/-- An example SPS: 128x128 luma samples, 16x16 coding tree blocks, 8-bit POC LSB. -/
def exampleSps : SpsData :=
  { SpsData.zero with
    chroma_format_idc := 1, pic_width_in_luma_samples := 128, pic_height_in_luma_samples := 128,
    log2_max_pic_order_cnt_lsb_minus4 := 4, log2_diff_max_min_luma_coding_block_size := 1 }

/-- An example PPS: dependent slice segments and entropy coding sync enabled. -/
def examplePps : PpsData :=
  { PpsData.zero with
    dependent_slice_segments_enabled_flag := 1, entropy_coding_sync_enabled_flag := 1 }

/-- An example parser state: the example SPS and PPS in slot 0, nothing active. -/
def exampleParser : HevcParser :=
  { m_active_vps_id := -1, m_active_sps_id := -1, m_active_pps_id := -1,
    new_sps_activated := false, pic_width := 0, pic_height := 0,
    m_sps := fun i => if i = 0 then exampleSps else SpsData.zero,
    m_pps := fun i => if i = 0 then examplePps else PpsData.zero,
    m_sh := SliceHeaderData.zero, m_sh_copy := SliceHeaderData.zero, m_slice := SliceData.zero }

/-- RBSP of an independent first slice segment of type TRAIL_R: `first_slice_segment_in_pic_flag
= 1`, `slice_pic_parameter_set_id = 0`, `slice_type = P`, `slice_pic_order_cnt_lsb = 4`,
`short_term_ref_pic_set_sps_flag = 1`, `num_ref_idx_active_override_flag = 1`,
`num_ref_idx_l0_active_minus1 = 2`, `five_minus_max_num_merge_cand = 0`, `slice_qp_delta = -3`,
`num_entry_point_offsets = 1`, `offset_len_minus1 = 0`, `entry_point_offset_minus1[0] = 1`. -/
def exampleSlice1 : Nat → Nat := memOfList [0xD0, 0x26, 0xE7, 0x58]

/-- RBSP of a dependent slice segment: `first_slice_segment_in_pic_flag = 0`,
`slice_pic_parameter_set_id = 0`, `dependent_slice_segment_flag = 1`,
`slice_segment_address = 42`, `num_entry_point_offsets = 0`. -/
def exampleSlice2 : Nat → Nat := memOfList [0x75, 0x40]

/-- The members of a slice header that an independent slice leaves as they are once
`slice_pic_order_cnt_lsb` is read: the five identifying fields and
`slice_pic_order_cnt_lsb`. -/
def shKey (sh : SliceHeaderData) : Nat × Nat × Nat × Nat × Nat × Nat :=
  (sh.first_slice_segment_in_pic_flag, sh.no_output_of_prior_pics_flag,
    sh.slice_pic_parameter_set_id, sh.dependent_slice_segment_flag, sh.slice_segment_address,
    sh.slice_pic_order_cnt_lsb)

/-- A slice header with its five identifying fields and the five members read after the
dependent-slice branch (entry points and header extension) overwritten by zero: two
headers have the same `shCore` when they agree in every other member. -/
def shCore (sh : SliceHeaderData) : SliceHeaderData :=
  { sh with
    first_slice_segment_in_pic_flag := 0
    no_output_of_prior_pics_flag := 0
    slice_pic_parameter_set_id := 0
    dependent_slice_segment_flag := 0
    slice_segment_address := 0
    num_entry_point_offsets := 0
    offset_len_minus1 := 0
    entry_point_offset_minus1 := fun _ => 0
    slice_segment_header_extension_length := 0
    slice_segment_header_extension_data_byte := fun _ => 0 }

/-- The example parser state with a POC history: the previous picture had
`prev_poc_lsb = 250`, `prev_poc_msb = 0`. -/
def exampleParserWrap : HevcParser :=
  { exampleParser with m_slice := { SliceData.zero with prev_poc_lsb := 250 } }

/-- The result of parsing `exampleSlice1` as a TRAIL_R slice (NAL unit type 1). -/
def exampleResult1 : Bool × HevcParser :=
  (ParseSliceHeader exampleEnv exampleParserWrap 1 exampleSlice1).getD (false, exampleParser)

/-- The result of parsing `exampleSlice2` after `exampleSlice1`. -/
def exampleResult2 : Bool × HevcParser :=
  (ParseSliceHeader exampleEnv exampleResult1.2 1 exampleSlice2).getD (false, exampleParser)

/-- RBSP of an independent first slice segment of an IDR picture:
`first_slice_segment_in_pic_flag = 1`, `no_output_of_prior_pics_flag = 0`,
`slice_pic_parameter_set_id = 0`, `slice_type = I`, `slice_qp_delta = 0`,
`num_entry_point_offsets = 0`. -/
def exampleSliceIdr : Nat → Nat := memOfList [0xAF, 0x80]

/-- The result of parsing `exampleSliceIdr` as an IDR_W_RADL slice (NAL unit type 19). -/
def exampleResultIdr : Bool × HevcParser :=
  (ParseSliceHeader exampleEnv exampleParserWrap 19 exampleSliceIdr).getD (false, exampleParser)

/-- The five identifying members of a slice header. -/
def shIds (sh : SliceHeaderData) : Nat × Nat × Nat × Nat × Nat :=
  (sh.first_slice_segment_in_pic_flag, sh.no_output_of_prior_pics_flag,
    sh.slice_pic_parameter_set_id, sh.dependent_slice_segment_flag, sh.slice_segment_address)

/-- The example parser state with the POC history `prev_poc_lsb = 252`, `prev_poc_msb = 0`. -/
def exampleParser252 : HevcParser :=
  { exampleParser with m_slice := { SliceData.zero with prev_poc_lsb := 252 } }

/-- The example parser state with the POC history `prev_poc_lsb = 4`, `prev_poc_msb = 0`. -/
def exampleParser4 : HevcParser :=
  { exampleParser with m_slice := { SliceData.zero with prev_poc_lsb := 4 } }

/-- RBSP of `exampleSlice1` with `slice_pic_order_cnt_lsb = 250` instead of 4. -/
def exampleSlice250 : Nat → Nat := memOfList [0xD7, 0xD6, 0xE7, 0x58]

/-- The result of parsing `exampleSlice1` (TRAIL_R) from `exampleParser252`. -/
def examplePocResult1 : Bool × HevcParser :=
  (ParseSliceHeader exampleEnv exampleParser252 1 exampleSlice1).getD (false, exampleParser)

/-- The result of parsing `exampleSlice250` (TRAIL_R) from `exampleParser4`. -/
def examplePocResult2 : Bool × HevcParser :=
  (ParseSliceHeader exampleEnv exampleParser4 1 exampleSlice250).getD (false, exampleParser)

/-! ## Parameter sets (`ParseVps`, `ParseSps`, `ParsePps` of `hevc_parser.cpp`)

A parser of a record is written as the list of its statements. Each statement is a `Step`:
it takes the record written and the bit cursor `offset`, and fails only when the
zero-counting loop of a `ReadUe` does not end within the bound. -/

/-- A statement of a parser: from the record written and the bit cursor to the same. -/
@[reducible] def Step (σ : Type) : Type := σ × Nat → Option (σ × Nat)

/-- The statements of a list, one after the other. -/
def runSteps {σ : Type} : List (Step σ) → Step σ
  | [], s => some s
  | f :: fs, s =>
    match f s with
    | none => none
    | some s1 => runSteps fs s1

/-- An assignment that reads nothing from the stream. -/
def stepSet {σ : Type} (f : σ → σ) : Step σ := fun s => some (f s.1, s.2)

/-- The statement `member = Parser::GetBit(nalu, offset);`. -/
def stepFlag {σ : Type} (upd : σ → Nat → σ) (nalu : Nat → Nat) : Step σ :=
  fun s => some (rdFlag upd nalu s)

/-- The statement `member = Parser::ReadBits(nalu, offset, bits_to_read);`. -/
def stepBits {σ : Type} (upd : σ → Nat → σ) (bits_to_read : Nat) (nalu : Nat → Nat) : Step σ :=
  fun s => some (rdBits upd bits_to_read nalu s)

/-- The statement `member = Parser::ExpGolomb::ReadUe(nalu, offset);`. -/
def stepUe {σ : Type} (fuel : Nat) (upd : σ → Nat → σ) (nalu : Nat → Nat) : Step σ :=
  rdUe fuel upd nalu

/-- The statement `member = Parser::ExpGolomb::ReadSe(nalu, offset);`. -/
def stepSe {σ : Type} (fuel : Nat) (upd : σ → Int → σ) (nalu : Nat → Nat) : Step σ :=
  rdSe fuel upd nalu

/-- The statement `offset += k;`. -/
def stepSkipBits {σ : Type} (k : Nat) : Step σ := fun s => some (s.1, s.2 + k)

/-- A statement whose parameters are read from the record when it starts. -/
def stepDyn {σ : Type} (f : σ → Step σ) : Step σ := fun s => f s.1 s

/-- The statement `if (c) { t } else { e }`, the condition being read from the record. -/
def stepIf {σ : Type} (c : σ → Bool) (t e : List (Step σ)) : Step σ :=
  fun s => if c s.1 then runSteps t s else runSteps e s

/-- A `for` loop with an increasing index that starts at `start` and runs `count` times, the
count being read from the record when the loop starts (no body changes its bound). -/
def stepFor {σ : Type} (start : Nat) (count : σ → Nat) (body : Nat → List (Step σ)) : Step σ :=
  fun s => forLoop (fun i => runSteps (body i)) start (count s.1) s

/-- A call `Parse...(&record->member, ...)` of the parser `f` of a member. -/
def stepSub {σ τ : Type} (get : σ → τ) (put : σ → τ → σ) (f : Step τ) : Step σ :=
  fun s =>
    match f (get s.1, s.2) with
    | none => none
    | some r => some (put s.1 r.1, r.2)

/-- `HEVCVideoParser::ParsePtl`. -/
def ParsePtl (profile_present_flag : Bool) (max_num_sub_layers_minus1 : Nat)
    (nalu : Nat → Nat) : Step H265ProfileTierLevel :=
  runSteps [
    stepIf (fun _ => profile_present_flag) [
      stepBits (fun ptl v => { ptl with general_profile_space := v }) 2 nalu,
      stepFlag (fun ptl v => { ptl with general_tier_flag := v }) nalu,
      stepBits (fun ptl v => { ptl with general_profile_idc := v }) 5 nalu,
      stepFor 0 (fun _ => 32) (fun i => [
        stepFlag (fun ptl v =>
          { ptl with
            general_profile_compatibility_flag :=
              setAt ptl.general_profile_compatibility_flag i v }) nalu]),
      stepFlag (fun ptl v => { ptl with general_progressive_source_flag := v }) nalu,
      stepFlag (fun ptl v => { ptl with general_interlaced_source_flag := v }) nalu,
      stepFlag (fun ptl v => { ptl with general_non_packed_constraint_flag := v }) nalu,
      stepFlag (fun ptl v => { ptl with general_frame_only_constraint_flag := v }) nalu,
      stepSkipBits 44] [],
    stepBits (fun ptl v => { ptl with general_level_idc := v }) 8 nalu,
    stepFor 0 (fun _ => max_num_sub_layers_minus1) (fun i => [
      stepFlag (fun ptl v =>
        { ptl with
          sub_layer_profile_present_flag :=
            setAt ptl.sub_layer_profile_present_flag i v }) nalu,
      stepFlag (fun ptl v =>
        { ptl with
          sub_layer_level_present_flag :=
            setAt ptl.sub_layer_level_present_flag i v }) nalu]),
    stepIf (fun _ => decide (max_num_sub_layers_minus1 > 0)) [
      stepFor max_num_sub_layers_minus1 (fun _ => 8 - max_num_sub_layers_minus1) (fun i => [
        stepBits (fun ptl v =>
          { ptl with
            reserved_zero_2bits :=
              setAt ptl.reserved_zero_2bits i v }) 2 nalu])] [],
    stepFor 0 (fun _ => max_num_sub_layers_minus1) (fun i => [
      stepIf (fun ptl => ptl.sub_layer_profile_present_flag i != 0) [
        stepBits (fun ptl v =>
          { ptl with
            sub_layer_profile_space :=
              setAt ptl.sub_layer_profile_space i v }) 2 nalu,
        stepFlag (fun ptl v =>
          { ptl with
            sub_layer_tier_flag :=
              setAt ptl.sub_layer_tier_flag i v }) nalu,
        stepBits (fun ptl v =>
          { ptl with
            sub_layer_profile_idc :=
              setAt ptl.sub_layer_profile_idc i v }) 5 nalu,
        stepFor 0 (fun _ => 32) (fun j => [
          stepFlag (fun ptl v =>
            { ptl with
              sub_layer_profile_compatibility_flag :=
                setAt ptl.sub_layer_profile_compatibility_flag i
                  (setAt (ptl.sub_layer_profile_compatibility_flag i) j v) }) nalu]),
        stepFlag (fun ptl v =>
          { ptl with
            sub_layer_progressive_source_flag :=
              setAt ptl.sub_layer_progressive_source_flag i v }) nalu,
        stepFlag (fun ptl v =>
          { ptl with
            sub_layer_interlaced_source_flag :=
              setAt ptl.sub_layer_interlaced_source_flag i v }) nalu,
        stepFlag (fun ptl v =>
          { ptl with
            sub_layer_non_packed_constraint_flag :=
              setAt ptl.sub_layer_non_packed_constraint_flag i v }) nalu,
        stepFlag (fun ptl v =>
          { ptl with
            sub_layer_frame_only_constraint_flag :=
              setAt ptl.sub_layer_frame_only_constraint_flag i v }) nalu,
        stepSkipBits 44] [],
      stepIf (fun ptl => ptl.sub_layer_level_present_flag i != 0) [
        stepBits (fun ptl v =>
          { ptl with
            sub_layer_level_idc :=
              setAt ptl.sub_layer_level_idc i v }) 8 nalu] []])]

/-- `HEVCVideoParser::ParseSubLayerHrdParameters`. -/
def ParseSubLayerHrdParameters (fuel : Nat) (cpb_cnt : Nat)
    (sub_pic_hrd_params_present_flag : Bool) (nalu : Nat → Nat) :
    Step H265SubLayerHrdParameters :=
  stepFor 0 (fun _ => cpb_cnt + 1) (fun i => [
    stepUe fuel (fun sub_hrd v =>
      { sub_hrd with
        bit_rate_value_minus1 :=
          setAt sub_hrd.bit_rate_value_minus1 i v }) nalu,
    stepUe fuel (fun sub_hrd v =>
      { sub_hrd with
        cpb_size_value_minus1 :=
          setAt sub_hrd.cpb_size_value_minus1 i v }) nalu,
    stepIf (fun _ => sub_pic_hrd_params_present_flag) [
      stepUe fuel (fun sub_hrd v =>
        { sub_hrd with
          cpb_size_du_value_minus1 :=
            setAt sub_hrd.cpb_size_du_value_minus1 i v }) nalu,
      stepUe fuel (fun sub_hrd v =>
        { sub_hrd with
          bit_rate_du_value_minus1 :=
            setAt sub_hrd.bit_rate_du_value_minus1 i v }) nalu] [],
    stepFlag (fun sub_hrd v => { sub_hrd with cbr_flag := setAt sub_hrd.cbr_flag i v }) nalu])

/-- `HEVCVideoParser::ParseHrdParameters`. -/
def ParseHrdParameters (fuel : Nat) (common_inf_present_flag : Bool)
    (max_num_sub_layers_minus1 : Nat) (nalu : Nat → Nat) : Step H265HrdParameters :=
  runSteps [
    stepIf (fun _ => common_inf_present_flag) [
      stepFlag (fun hrd v => { hrd with nal_hrd_parameters_present_flag := v }) nalu,
      stepFlag (fun hrd v => { hrd with vcl_hrd_parameters_present_flag := v }) nalu,
      stepIf (fun hrd => hrd.nal_hrd_parameters_present_flag != 0 ||
          hrd.vcl_hrd_parameters_present_flag != 0) [
        stepFlag (fun hrd v => { hrd with sub_pic_hrd_params_present_flag := v }) nalu,
        stepIf (fun hrd => hrd.sub_pic_hrd_params_present_flag != 0) [
          stepBits (fun hrd v => { hrd with tick_divisor_minus2 := v }) 8 nalu,
          stepBits (fun hrd v =>
            { hrd with du_cpb_removal_delay_increment_length_minus1 := v }) 5 nalu,
          stepFlag (fun hrd v =>
            { hrd with sub_pic_cpb_params_in_pic_timing_sei_flag := v }) nalu,
          stepBits (fun hrd v => { hrd with dpb_output_delay_du_length_minus1 := v }) 5 nalu] [],
        stepBits (fun hrd v => { hrd with bit_rate_scale := v }) 4 nalu,
        stepBits (fun hrd v => { hrd with cpb_size_scale := v }) 4 nalu,
        stepIf (fun hrd => hrd.sub_pic_hrd_params_present_flag != 0) [
          stepBits (fun hrd v => { hrd with cpb_size_du_scale := v }) 4 nalu] [],
        stepBits (fun hrd v =>
          { hrd with initial_cpb_removal_delay_length_minus1 := v }) 5 nalu,
        stepBits (fun hrd v => { hrd with au_cpb_removal_delay_length_minus1 := v }) 5 nalu,
        stepBits (fun hrd v => { hrd with dpb_output_delay_length_minus1 := v }) 5 nalu] []] [],
    stepFor 0 (fun _ => max_num_sub_layers_minus1 + 1) (fun i => [
      stepFlag (fun hrd v =>
        { hrd with
          fixed_pic_rate_general_flag :=
            setAt hrd.fixed_pic_rate_general_flag i v }) nalu,
      stepIf (fun hrd => hrd.fixed_pic_rate_general_flag i == 0) [
        stepFlag (fun hrd v =>
          { hrd with
            fixed_pic_rate_within_cvs_flag :=
              setAt hrd.fixed_pic_rate_within_cvs_flag i v }) nalu] [
        stepSet (fun hrd =>
          { hrd with
            fixed_pic_rate_within_cvs_flag :=
              setAt hrd.fixed_pic_rate_within_cvs_flag i (hrd.fixed_pic_rate_general_flag i) })],
      stepIf (fun hrd => hrd.fixed_pic_rate_within_cvs_flag i != 0) [
        stepUe fuel (fun hrd v =>
          { hrd with
            elemental_duration_in_tc_minus1 :=
              setAt hrd.elemental_duration_in_tc_minus1 i v }) nalu] [
        stepFlag (fun hrd v =>
          { hrd with
            low_delay_hrd_flag :=
              setAt hrd.low_delay_hrd_flag i v }) nalu],
      stepIf (fun hrd => hrd.low_delay_hrd_flag i == 0) [
        stepUe fuel (fun hrd v =>
          { hrd with
            cpb_cnt_minus1 :=
              setAt hrd.cpb_cnt_minus1 i v }) nalu] [],
      stepIf (fun hrd => hrd.nal_hrd_parameters_present_flag != 0) [
        stepDyn (fun hrd => stepSub (fun h => h.sub_layer_hrd_parameters_0 i)
          (fun h v =>
            { h with
              sub_layer_hrd_parameters_0 :=
                setAt h.sub_layer_hrd_parameters_0 i v })
          (ParseSubLayerHrdParameters fuel (hrd.cpb_cnt_minus1 i)
            (hrd.sub_pic_hrd_params_present_flag != 0) nalu))] [],
      stepIf (fun hrd => hrd.vcl_hrd_parameters_present_flag != 0) [
        stepDyn (fun hrd => stepSub (fun h => h.sub_layer_hrd_parameters_1 i)
          (fun h v =>
            { h with
              sub_layer_hrd_parameters_1 :=
                setAt h.sub_layer_hrd_parameters_1 i v })
          (ParseSubLayerHrdParameters fuel (hrd.cpb_cnt_minus1 i)
            (hrd.sub_pic_hrd_params_present_flag != 0) nalu))] []])]

/-- Table 7-6 of HEVC, `default_scaling_list_intra` of `hevc_parser.cpp`. -/
def default_scaling_list_intra : List Int :=
  [16, 16, 16, 16, 17, 18, 21, 24,
   16, 16, 16, 16, 17, 19, 22, 25,
   16, 16, 17, 18, 20, 22, 25, 29,
   16, 16, 18, 21, 24, 27, 31, 36,
   17, 17, 20, 24, 30, 35, 41, 47,
   18, 19, 22, 27, 35, 44, 54, 65,
   21, 22, 25, 31, 41, 54, 70, 88,
   24, 25, 29, 36, 47, 65, 88, 115]

/-- Table 7-6 of HEVC, `default_scaling_list_inter` of `hevc_parser.cpp`. -/
def default_scaling_list_inter : List Int :=
  [16, 16, 16, 16, 17, 18, 20, 24,
   16, 16, 16, 17, 18, 20, 24, 25,
   16, 16, 17, 18, 20, 24, 25, 28,
   16, 17, 18, 20, 24, 25, 28, 33,
   17, 18, 20, 24, 25, 28, 33, 41,
   18, 20, 24, 25, 28, 33, 41, 54,
   20, 24, 25, 28, 33, 41, 54, 71,
   24, 25, 28, 33, 41, 54, 71, 91]

/-- The scan order `diag_scan_4x4` of `hevc_parser.cpp`. -/
def diag_scan_4x4 : List Nat :=
  [0, 4, 1, 8, 5, 2, 12, 9, 6, 3, 13, 10, 7, 14, 11, 15]

/-- The scan order `diag_scan_8x8` of `hevc_parser.cpp`. -/
def diag_scan_8x8 : List Nat :=
  [0, 8, 1, 16, 9, 2, 24, 17,
   10, 3, 32, 25, 18, 11, 4, 40,
   33, 26, 19, 12, 5, 48, 41, 34,
   27, 20, 13, 6, 56, 49, 42, 35,
   28, 21, 14, 7, 57, 50, 43, 36,
   29, 22, 15, 58, 51, 44, 37, 30,
   23, 59, 52, 45, 38, 31, 60, 53,
   46, 39, 61, 54, 47, 62, 55, 63]

/-- Assignment `a[d][m] = v` to an array with an integer second index. -/
def setAt2 {α : Type} (a : Nat → Int → α) (d : Nat) (m : Int) (v : α) : Nat → Int → α :=
  fun d1 m1 => if d1 = d ∧ m1 = m then v else a d1 m1

/-- Assignment `a[s][m][i] = v` to an array with an integer second index. -/
def setAt3 {α : Type} (a : Nat → Int → Nat → α) (s : Nat) (m : Int) (i : Nat) (v : α) :
    Nat → Int → Nat → α :=
  fun s1 m1 i1 => if s1 = s ∧ m1 = m ∧ i1 = i then v else a s1 m1 i1

/-- `HEVCVideoParser::SetDefaultScalingList`: the four loop nests assign 16 to the DC
coefficients `[0..1][0..5]` and to `scaling_list[0][0..5][0..15]`
(`default_scaling_list_side_id_0` is 16 everywhere), the intra table to
`scaling_list[1..3][0..2][0..63]` and the inter table to `scaling_list[1..3][3..5][0..63]`. -/
def SetDefaultScalingList (sl : H265ScalingListData) : H265ScalingListData :=
  { sl with
    scaling_list_dc_coef := fun d m =>
      if d < 2 ∧ 0 ≤ m ∧ m < 6 then 16 else sl.scaling_list_dc_coef d m
    scaling_list := fun s m i =>
      if s = 0 ∧ 0 ≤ m ∧ m < 6 ∧ i < 16 then 16
      else if 1 ≤ s ∧ s ≤ 3 ∧ 0 ≤ m ∧ m ≤ 2 ∧ i < 64 then default_scaling_list_intra.getD i 0
      else if 1 ≤ s ∧ s ≤ 3 ∧ 3 ≤ m ∧ m ≤ 5 ∧ i < 64 then default_scaling_list_inter.getD i 0
      else sl.scaling_list s m i }

/-- `ParseScalingList`: `coef_num = std::min(64, (1 << (4 + (size_id << 1))))`. -/
def scalingListCoefNum (size_id : Nat) : Nat := min 64 (1 <<< (4 + (size_id <<< 1)))

/-- `ParseScalingList`, branch `// Infer from the reference scaling list`: the copy loop from
the row `ref_matrix_id` and the copy of the DC coefficient. -/
def scalingListInfer (size_id matrix_id : Nat) (sl : H265ScalingListData) :
    H265ScalingListData :=
  let ref_matrix_id : Int :=
    wrapInt32 ((matrix_id : Int)
      - (sl.scaling_list_pred_matrix_id_delta size_id matrix_id : Int)
        * (if size_id = 3 then 3 else 1))
  let coef_num := scalingListCoefNum size_id
  let sl1 : H265ScalingListData :=
    { sl with
      scaling_list := fun s m i =>
        if s = size_id ∧ m = (matrix_id : Int) ∧ i < coef_num
        then sl.scaling_list size_id ref_matrix_id i else sl.scaling_list s m i }
  if size_id > 1 then
    { sl1 with
      scaling_list_dc_coef :=
        setAt2 sl1.scaling_list_dc_coef (size_id - 2) (matrix_id : Int)
          (sl1.scaling_list_dc_coef (size_id - 2) ref_matrix_id) }
  else sl1

/-- `ParseScalingList`, branch of the explicit coefficients; the state is the record and the
local `next_coef`. -/
def scalingListCoefs (fuel : Nat) (size_id matrix_id : Nat) (nalu : Nat → Nat) :
    Step (H265ScalingListData × Int) :=
  runSteps [
    stepSet (fun x => (x.1, 8)),
    stepIf (fun _ => decide (size_id > 1)) [
      stepSe fuel (fun x v =>
        ({ x.1 with
           scaling_list_dc_coef_minus8 :=
             fun d m => if d = size_id - 2 ∧ m = matrix_id then v
               else x.1.scaling_list_dc_coef_minus8 d m }, x.2)) nalu,
      stepSet (fun x => (x.1, x.1.scaling_list_dc_coef_minus8 (size_id - 2) matrix_id + 8)),
      stepSet (fun x =>
        ({ x.1 with
           scaling_list_dc_coef :=
             setAt2 x.1.scaling_list_dc_coef (size_id - 2) (matrix_id : Int) x.2 }, x.2))] [],
    stepFor 0 (fun _ => scalingListCoefNum size_id) (fun i => [
      stepSe fuel (fun x v => ({ x.1 with scaling_list_delta_coef := v }, x.2)) nalu,
      stepSet (fun x => (x.1, Int.tmod (x.2 + x.1.scaling_list_delta_coef + 256) 256)),
      stepSet (fun x =>
        ({ x.1 with
           scaling_list :=
             setAt3 x.1.scaling_list size_id (matrix_id : Int)
               (if size_id = 0 then diag_scan_4x4.getD i 0 else diag_scan_8x8.getD i 0)
               x.2 }, x.2))])]

/-- `HEVCVideoParser::ParseScalingList`; `chroma_format_idc` is the one of `*sps_ptr`. -/
def ParseScalingList (fuel : Nat) (chroma_format_idc : Nat) (nalu : Nat → Nat) :
    Step H265ScalingListData :=
  runSteps [
    stepFor 0 (fun _ => 4) (fun size_id => [
      stepFor 0 (fun _ => if size_id = 3 then 2 else 6) (fun k =>
        let matrix_id := k * (if size_id = 3 then 3 else 1)
        [ stepFlag (fun sl v =>
            { sl with
              scaling_list_pred_mode_flag :=
                setAt sl.scaling_list_pred_mode_flag size_id
                  (setAt (sl.scaling_list_pred_mode_flag size_id) matrix_id v) }) nalu,
          stepIf (fun sl => sl.scaling_list_pred_mode_flag size_id matrix_id == 0) [
            stepUe fuel (fun sl v =>
              { sl with
                scaling_list_pred_matrix_id_delta :=
                  setAt sl.scaling_list_pred_matrix_id_delta size_id
                    (setAt (sl.scaling_list_pred_matrix_id_delta size_id) matrix_id v) }) nalu,
            stepIf (fun sl => sl.scaling_list_pred_matrix_id_delta size_id matrix_id != 0) [
              stepSet (scalingListInfer size_id matrix_id)] []] [
            stepSub (fun sl => (sl, (0 : Int))) (fun _ x => x.1)
              (scalingListCoefs fuel size_id matrix_id nalu)]])]),
    stepIf (fun _ => chroma_format_idc == 3) [
      stepSet (fun sl =>
        { sl with
          scaling_list := fun s m i =>
            if s = 3 ∧ (m = 1 ∨ m = 2 ∨ m = 4 ∨ m = 5) ∧ i < 64 then sl.scaling_list 2 m i
            else sl.scaling_list s m i
          scaling_list_dc_coef := fun d m =>
            if d = 1 ∧ (m = 1 ∨ m = 2 ∨ m = 4 ∨ m = 5) then sl.scaling_list_dc_coef 0 m
            else sl.scaling_list_dc_coef d m })] []]

/-- `HEVCVideoParser::ParseVui`. -/
def ParseVui (fuel : Nat) (max_num_sub_layers_minus1 : Nat) (nalu : Nat → Nat) :
    Step H265VuiParameters :=
  runSteps [
    stepFlag (fun vui v => { vui with aspect_ratio_info_present_flag := v }) nalu,
    stepIf (fun vui => vui.aspect_ratio_info_present_flag != 0) [
      stepBits (fun vui v => { vui with aspect_ratio_idc := v }) 8 nalu,
      stepIf (fun vui => vui.aspect_ratio_idc == 255) [
        stepBits (fun vui v => { vui with sar_width := v }) 16 nalu,
        stepBits (fun vui v => { vui with sar_height := v }) 16 nalu] []] [],
    stepFlag (fun vui v => { vui with overscan_info_present_flag := v }) nalu,
    stepIf (fun vui => vui.overscan_info_present_flag != 0) [
      stepFlag (fun vui v => { vui with overscan_appropriate_flag := v }) nalu] [],
    stepFlag (fun vui v => { vui with video_signal_type_present_flag := v }) nalu,
    stepIf (fun vui => vui.video_signal_type_present_flag != 0) [
      stepBits (fun vui v => { vui with video_format := v }) 3 nalu,
      stepFlag (fun vui v => { vui with video_full_range_flag := v }) nalu,
      stepFlag (fun vui v => { vui with colour_description_present_flag := v }) nalu,
      stepIf (fun vui => vui.colour_description_present_flag != 0) [
        stepBits (fun vui v => { vui with colour_primaries := v }) 8 nalu,
        stepBits (fun vui v => { vui with transfer_characteristics := v }) 8 nalu,
        stepBits (fun vui v => { vui with matrix_coeffs := v }) 8 nalu] []] [],
    stepFlag (fun vui v => { vui with chroma_loc_info_present_flag := v }) nalu,
    stepIf (fun vui => vui.chroma_loc_info_present_flag != 0) [
      stepUe fuel (fun vui v => { vui with chroma_sample_loc_type_top_field := v }) nalu,
      stepUe fuel (fun vui v => { vui with chroma_sample_loc_type_bottom_field := v }) nalu] [],
    stepFlag (fun vui v => { vui with neutral_chroma_indication_flag := v }) nalu,
    stepFlag (fun vui v => { vui with field_seq_flag := v }) nalu,
    stepFlag (fun vui v => { vui with frame_field_info_present_flag := v }) nalu,
    stepFlag (fun vui v => { vui with default_display_window_flag := v }) nalu,
    stepIf (fun vui => vui.default_display_window_flag != 0) [
      stepUe fuel (fun vui v => { vui with def_disp_win_left_offset := v }) nalu,
      stepUe fuel (fun vui v => { vui with def_disp_win_right_offset := v }) nalu,
      stepUe fuel (fun vui v => { vui with def_disp_win_top_offset := v }) nalu,
      stepUe fuel (fun vui v => { vui with def_disp_win_bottom_offset := v }) nalu] [],
    stepFlag (fun vui v => { vui with vui_timing_info_present_flag := v }) nalu,
    stepIf (fun vui => vui.vui_timing_info_present_flag != 0) [
      stepBits (fun vui v => { vui with vui_num_units_in_tick := v }) 32 nalu,
      stepBits (fun vui v => { vui with vui_time_scale := v }) 32 nalu,
      stepFlag (fun vui v => { vui with vui_poc_proportional_to_timing_flag := v }) nalu,
      stepIf (fun vui => vui.vui_poc_proportional_to_timing_flag != 0) [
        stepUe fuel (fun vui v => { vui with vui_num_ticks_poc_diff_one_minus1 := v }) nalu] [],
      stepFlag (fun vui v => { vui with vui_hrd_parameters_present_flag := v }) nalu,
      stepIf (fun vui => vui.vui_hrd_parameters_present_flag != 0) [
        stepSub (fun vui => vui.hrd_parameters) (fun vui v => { vui with hrd_parameters := v })
          (ParseHrdParameters fuel true max_num_sub_layers_minus1 nalu)] []] [],
    stepFlag (fun vui v => { vui with bitstream_restriction_flag := v }) nalu,
    stepIf (fun vui => vui.bitstream_restriction_flag != 0) [
      stepFlag (fun vui v => { vui with tiles_fixed_structure_flag := v }) nalu,
      stepFlag (fun vui v => { vui with motion_vectors_over_pic_boundaries_flag := v }) nalu,
      stepFlag (fun vui v => { vui with restricted_ref_pic_lists_flag := v }) nalu,
      stepUe fuel (fun vui v => { vui with min_spatial_segmentation_idc := v }) nalu,
      stepUe fuel (fun vui v => { vui with max_bytes_per_pic_denom := v }) nalu,
      stepUe fuel (fun vui v => { vui with max_bits_per_min_cu_denom := v }) nalu,
      stepUe fuel (fun vui v => { vui with log2_max_mv_length_horizontal := v }) nalu,
      stepUe fuel (fun vui v => { vui with log2_max_mv_length_vertical := v }) nalu] []]

/-- Modelled from the spec: capacity `MAX_SPS_COUNT` of the SPS table (spec §3: SPS[0..31]). -/
def MAX_SPS_COUNT : Nat := 32

/-- Modelled from the spec: capacity `MAX_PPS_COUNT` of the PPS table (spec §3: PPS[0..63]). -/
def MAX_PPS_COUNT : Nat := 64

/-- `HEVCVideoParser::ParseVps`, the statements after
`m_vps_[vps_id].vps_video_parameter_set_id = vps_id`; the record is the slot `m_vps_[vps_id]`.
The arrays of the slot are functions from the index: the values computed here are those of the
program as long as every loop stays inside its array, which `vpsInBounds` tests on the record
and `ParseVps` requires for a result. -/
def ParseVpsBody (fuel : Nat) (nalu : Nat → Nat) : Step VpsData :=
  runSteps [
    stepFlag (fun vps v => { vps with vps_base_layer_internal_flag := v }) nalu,
    stepFlag (fun vps v => { vps with vps_base_layer_available_flag := v }) nalu,
    stepBits (fun vps v => { vps with vps_max_layers_minus1 := v }) 6 nalu,
    stepBits (fun vps v => { vps with vps_max_sub_layers_minus1 := v }) 3 nalu,
    stepFlag (fun vps v => { vps with vps_temporal_id_nesting_flag := v }) nalu,
    stepBits (fun vps v => { vps with vps_reserved_0xffff_16bits := v }) 16 nalu,
    stepDyn (fun vps => stepSub (fun x => x.profile_tier_level)
      (fun x v => { x with profile_tier_level := v })
      (ParsePtl true vps.vps_max_sub_layers_minus1 nalu)),
    stepFlag (fun vps v => { vps with vps_sub_layer_ordering_info_present_flag := v }) nalu,
    stepFor 0 (fun vps => vps.vps_max_sub_layers_minus1 + 1) (fun i => [
      stepIf (fun vps => vps.vps_sub_layer_ordering_info_present_flag != 0 || i == 0) [
        stepUe fuel (fun vps v =>
          { vps with
            vps_max_dec_pic_buffering_minus1 :=
              setAt vps.vps_max_dec_pic_buffering_minus1 i v }) nalu,
        stepUe fuel (fun vps v =>
          { vps with
            vps_max_num_reorder_pics :=
              setAt vps.vps_max_num_reorder_pics i v }) nalu,
        stepUe fuel (fun vps v =>
          { vps with
            vps_max_latency_increase_plus1 :=
              setAt vps.vps_max_latency_increase_plus1 i v }) nalu] [
        stepSet (fun vps =>
          { vps with
            vps_max_dec_pic_buffering_minus1 :=
              setAt vps.vps_max_dec_pic_buffering_minus1 i (vps.vps_max_dec_pic_buffering_minus1 0) }),
        stepSet (fun vps =>
          { vps with
            vps_max_num_reorder_pics :=
              setAt vps.vps_max_num_reorder_pics i (vps.vps_max_num_reorder_pics 0) }),
        stepSet (fun vps =>
          { vps with
            vps_max_latency_increase_plus1 :=
              setAt vps.vps_max_latency_increase_plus1 i (vps.vps_max_latency_increase_plus1 0) })]]),
    stepBits (fun vps v => { vps with vps_max_layer_id := v }) 6 nalu,
    stepUe fuel (fun vps v => { vps with vps_num_layer_sets_minus1 := v }) nalu,
    stepFor 1 (fun vps => vps.vps_num_layer_sets_minus1) (fun i => [
      stepFor 0 (fun vps => vps.vps_max_layer_id + 1) (fun j => [
        stepFlag (fun vps v =>
          { vps with
            layer_id_included_flag :=
              setAt vps.layer_id_included_flag i (setAt (vps.layer_id_included_flag i) j v) }) nalu])]),
    stepFlag (fun vps v => { vps with vps_timing_info_present_flag := v }) nalu,
    stepIf (fun vps => vps.vps_timing_info_present_flag != 0) [
      stepBits (fun vps v => { vps with vps_num_units_in_tick := v }) 32 nalu,
      stepBits (fun vps v => { vps with vps_time_scale := v }) 32 nalu,
      stepFlag (fun vps v => { vps with vps_poc_proportional_to_timing_flag := v }) nalu,
      stepIf (fun vps => vps.vps_poc_proportional_to_timing_flag != 0) [
        stepUe fuel (fun vps v => { vps with vps_num_ticks_poc_diff_one_minus1 := v }) nalu] [],
      stepUe fuel (fun vps v => { vps with vps_num_hrd_parameters := v }) nalu,
      stepFor 0 (fun vps => vps.vps_num_hrd_parameters) (fun i => [
        stepUe fuel (fun vps v =>
          { vps with
            hrd_layer_set_idx :=
              setAt vps.hrd_layer_set_idx i v }) nalu,
        stepIf (fun _ => decide (i > 0)) [
          stepFlag (fun vps v =>
            { vps with
              cprms_present_flag :=
                setAt vps.cprms_present_flag i v }) nalu] [],
        stepDyn (fun vps => stepSub (fun x => x.hrd_parameters i)
          (fun x v => { x with hrd_parameters := setAt x.hrd_parameters i v })
          (ParseHrdParameters fuel (vps.cprms_present_flag i != 0)
            vps.vps_max_sub_layers_minus1 nalu))])] [],
    stepFlag (fun vps v => { vps with vps_extension_flag := v }) nalu]

/-- `HEVCVideoParser::ParseVps`: the index `vps_id` of the slot written and the content of
the slot at the end, which starts from the `memset`. -/
def ParseVpsSlot (fuel : Nat) (nalu : Nat → Nat) : Option (Nat × VpsData) :=
  let r := ReadBits nalu 0 4
  let vps_id := r.1
  match ParseVpsBody fuel nalu ({ VpsData.zero with vps_video_parameter_set_id := vps_id }, r.2) with
  | none => none
  | some s => some (vps_id, s.1)

/-- `HEVCVideoParser::ParseSps`, the statements after
`sps_ptr->sps_seq_parameter_set_id = sps_id`; the record is the slot `*sps_ptr`. The arrays of
the slot are functions from the index: the values computed here are those of the program as
long as every loop stays inside its array, which `spsInBounds` tests on the record and
`ParseSps` requires for a result. -/
def ParseSpsBody (fuel : Nat) (nalu : Nat → Nat) : Step SpsData :=
  runSteps [
    stepUe fuel (fun sps v => { sps with chroma_format_idc := v }) nalu,
    stepIf (fun sps => sps.chroma_format_idc == 3) [
      stepFlag (fun sps v => { sps with separate_colour_plane_flag := v }) nalu] [],
    stepUe fuel (fun sps v => { sps with pic_width_in_luma_samples := v }) nalu,
    stepUe fuel (fun sps v => { sps with pic_height_in_luma_samples := v }) nalu,
    stepFlag (fun sps v => { sps with conformance_window_flag := v }) nalu,
    stepIf (fun sps => sps.conformance_window_flag != 0) [
      stepUe fuel (fun sps v => { sps with conf_win_left_offset := v }) nalu,
      stepUe fuel (fun sps v => { sps with conf_win_right_offset := v }) nalu,
      stepUe fuel (fun sps v => { sps with conf_win_top_offset := v }) nalu,
      stepUe fuel (fun sps v => { sps with conf_win_bottom_offset := v }) nalu] [],
    stepUe fuel (fun sps v => { sps with bit_depth_luma_minus8 := v }) nalu,
    stepUe fuel (fun sps v => { sps with bit_depth_chroma_minus8 := v }) nalu,
    stepUe fuel (fun sps v => { sps with log2_max_pic_order_cnt_lsb_minus4 := v }) nalu,
    stepFlag (fun sps v => { sps with sps_sub_layer_ordering_info_present_flag := v }) nalu,
    stepFor 0 (fun sps => sps.sps_max_sub_layers_minus1 + 1) (fun i => [
      stepIf (fun sps => sps.sps_sub_layer_ordering_info_present_flag != 0 || i == 0) [
        stepUe fuel (fun sps v =>
          { sps with
            sps_max_dec_pic_buffering_minus1 :=
              setAt sps.sps_max_dec_pic_buffering_minus1 i v }) nalu,
        stepUe fuel (fun sps v =>
          { sps with
            sps_max_num_reorder_pics :=
              setAt sps.sps_max_num_reorder_pics i v }) nalu,
        stepUe fuel (fun sps v =>
          { sps with
            sps_max_latency_increase_plus1 :=
              setAt sps.sps_max_latency_increase_plus1 i v }) nalu] [
        stepSet (fun sps =>
          { sps with
            sps_max_dec_pic_buffering_minus1 :=
              setAt sps.sps_max_dec_pic_buffering_minus1 i (sps.sps_max_dec_pic_buffering_minus1 0) }),
        stepSet (fun sps =>
          { sps with
            sps_max_num_reorder_pics :=
              setAt sps.sps_max_num_reorder_pics i (sps.sps_max_num_reorder_pics 0) }),
        stepSet (fun sps =>
          { sps with
            sps_max_latency_increase_plus1 :=
              setAt sps.sps_max_latency_increase_plus1 i (sps.sps_max_latency_increase_plus1 0) })]]),
    stepUe fuel (fun sps v => { sps with log2_min_luma_coding_block_size_minus3 := v }) nalu,
    stepUe fuel (fun sps v => { sps with log2_diff_max_min_luma_coding_block_size := v }) nalu,
    stepSet (fun sps =>
      { sps with
        max_cu_width :=
          1 <<< ((sps.log2_min_luma_coding_block_size_minus3 + 3)
            + sps.log2_diff_max_min_luma_coding_block_size) }),
    stepSet (fun sps =>
      { sps with
        max_cu_height :=
          1 <<< ((sps.log2_min_luma_coding_block_size_minus3 + 3)
            + sps.log2_diff_max_min_luma_coding_block_size) }),
    stepUe fuel (fun sps v => { sps with log2_min_transform_block_size_minus2 := v }) nalu,
    stepSet (fun sps =>
      { sps with
        max_cu_depth :=
          (sps.log2_diff_max_min_luma_coding_block_size : Int)
            + max 0 (((sps.log2_min_luma_coding_block_size_minus3 : Int) + 3)
              - ((sps.log2_min_transform_block_size_minus2 : Int) + 2)) }),
    stepUe fuel (fun sps v => { sps with log2_diff_max_min_transform_block_size := v }) nalu,
    stepUe fuel (fun sps v => { sps with max_transform_hierarchy_depth_inter := v }) nalu,
    stepUe fuel (fun sps v => { sps with max_transform_hierarchy_depth_intra := v }) nalu,
    stepFlag (fun sps v => { sps with scaling_list_enabled_flag := v }) nalu,
    stepIf (fun sps => sps.scaling_list_enabled_flag != 0) [
      stepSet (fun sps =>
        { sps with
          scaling_list_data :=
            SetDefaultScalingList sps.scaling_list_data }),
      stepFlag (fun sps v => { sps with sps_scaling_list_data_present_flag := v }) nalu,
      stepIf (fun sps => sps.sps_scaling_list_data_present_flag != 0) [
        stepDyn (fun sps => stepSub (fun x => x.scaling_list_data)
          (fun x v => { x with scaling_list_data := v })
          (ParseScalingList fuel sps.chroma_format_idc nalu))] []] [],
    stepFlag (fun sps v => { sps with amp_enabled_flag := v }) nalu,
    stepFlag (fun sps v => { sps with sample_adaptive_offset_enabled_flag := v }) nalu,
    stepFlag (fun sps v => { sps with pcm_enabled_flag := v }) nalu,
    stepIf (fun sps => sps.pcm_enabled_flag != 0) [
      stepBits (fun sps v => { sps with pcm_sample_bit_depth_luma_minus1 := v }) 4 nalu,
      stepBits (fun sps v => { sps with pcm_sample_bit_depth_chroma_minus1 := v }) 4 nalu,
      stepUe fuel (fun sps v =>
        { sps with log2_min_pcm_luma_coding_block_size_minus3 := v }) nalu,
      stepUe fuel (fun sps v =>
        { sps with log2_diff_max_min_pcm_luma_coding_block_size := v }) nalu,
      stepFlag (fun sps v => { sps with pcm_loop_filter_disabled_flag := v }) nalu] [],
    stepUe fuel (fun sps v => { sps with num_short_term_ref_pic_sets := v }) nalu,
    stepFor 0 (fun sps => sps.num_short_term_ref_pic_sets) (fun i => [
      stepDyn (fun sps => stepSub (fun x => x.st_rps i)
        (fun x v => { x with st_rps := setAt x.st_rps i v })
        (fun s => ParseShortTermRefPicSet fuel s.1 (i : Int) sps.num_short_term_ref_pic_sets
          sps.st_rps nalu s.2))]),
    stepFlag (fun sps v => { sps with long_term_ref_pics_present_flag := v }) nalu,
    stepIf (fun sps => sps.long_term_ref_pics_present_flag != 0) [
      stepUe fuel (fun sps v => { sps with num_long_term_ref_pics_sps := v }) nalu,
      stepSet (fun sps =>
        { sps with
          lt_rps :=
            { sps.lt_rps with num_of_pics := sps.num_long_term_ref_pics_sps } }),
      stepFor 0 (fun sps => sps.num_long_term_ref_pics_sps) (fun i => [
        stepDyn (fun sps => stepBits (fun x v =>
          { x with
            lt_ref_pic_poc_lsb_sps :=
              setAt x.lt_ref_pic_poc_lsb_sps i v })
          (sps.log2_max_pic_order_cnt_lsb_minus4 + 4) nalu),
        stepFlag (fun sps v =>
          { sps with
            used_by_curr_pic_lt_sps_flag :=
              setAt sps.used_by_curr_pic_lt_sps_flag i v }) nalu,
        stepSet (fun sps =>
          { sps with
            lt_rps :=
              { sps.lt_rps with pocs := setAt sps.lt_rps.pocs i (sps.lt_ref_pic_poc_lsb_sps i) } }),
        stepSet (fun sps =>
          { sps with
            lt_rps :=
              { sps.lt_rps with
                used_by_curr_pic :=
                  setAt sps.lt_rps.used_by_curr_pic i (sps.used_by_curr_pic_lt_sps_flag i) } })])] [],
    stepFlag (fun sps v => { sps with sps_temporal_mvp_enabled_flag := v }) nalu,
    stepFlag (fun sps v => { sps with strong_intra_smoothing_enabled_flag := v }) nalu,
    stepFlag (fun sps v => { sps with vui_parameters_present_flag := v }) nalu,
    stepIf (fun sps => sps.vui_parameters_present_flag != 0) [
      stepDyn (fun sps => stepSub (fun x => x.vui_parameters)
        (fun x v => { x with vui_parameters := v })
        (ParseVui fuel sps.sps_max_sub_layers_minus1 nalu))] [],
    stepFlag (fun sps v => { sps with sps_extension_flag := v }) nalu]

/-- `HEVCVideoParser::ParseSps`: the index `sps_id` of the slot written and the content of
the slot at the end, which starts from the `memset` and the preamble read into locals. -/
def ParseSpsSlot (fuel : Nat) (nalu : Nat → Nat) : Option (Nat × SpsData) :=
  let r1 := ReadBits nalu 0 4
  let vps_id := r1.1
  let r2 := ReadBits nalu r1.2 3
  let max_sub_layer_minus1 := r2.1
  let r3 := GetFlag nalu r2.2
  let sps_temporal_id_nesting_flag := r3.1
  match ParsePtl true max_sub_layer_minus1 nalu (H265ProfileTierLevel.zero, r3.2) with
  | none => none
  | some ptl =>
    match ReadUe fuel nalu ptl.2 with
    | none => none
    | some r5 =>
      let sps_id := r5.1
      let sps0 : SpsData :=
        { SpsData.zero with
          sps_video_parameter_set_id := vps_id
          sps_max_sub_layers_minus1 := max_sub_layer_minus1
          sps_temporal_id_nesting_flag := sps_temporal_id_nesting_flag
          profile_tier_level := ptl.1
          sps_seq_parameter_set_id := sps_id }
      match ParseSpsBody fuel nalu (sps0, r5.2) with
      | none => none
      | some s => some (sps_id, s.1)

/-- `HEVCVideoParser::ParsePps`, the statements after
`pps_ptr->pps_pic_parameter_set_id = pps_id`; the record is the slot `*pps_ptr`, and `m_sps`
is the SPS table. The arrays of the slot are functions from the index: the values computed
here are those of the program as long as every loop stays inside its array, which
`ppsInBounds` tests on the record and `ParsePps` requires for a result. -/
def ParsePpsBody (fuel : Nat) (m_sps : Nat → SpsData) (nalu : Nat → Nat) : Step PpsData :=
  runSteps [
    stepUe fuel (fun pps v => { pps with pps_seq_parameter_set_id := v }) nalu,
    stepFlag (fun pps v => { pps with dependent_slice_segments_enabled_flag := v }) nalu,
    stepFlag (fun pps v => { pps with output_flag_present_flag := v }) nalu,
    stepBits (fun pps v => { pps with num_extra_slice_header_bits := v }) 3 nalu,
    stepFlag (fun pps v => { pps with sign_data_hiding_enabled_flag := v }) nalu,
    stepFlag (fun pps v => { pps with cabac_init_present_flag := v }) nalu,
    stepUe fuel (fun pps v => { pps with num_ref_idx_l0_default_active_minus1 := v }) nalu,
    stepUe fuel (fun pps v => { pps with num_ref_idx_l1_default_active_minus1 := v }) nalu,
    stepSe fuel (fun pps v => { pps with init_qp_minus26 := v }) nalu,
    stepFlag (fun pps v => { pps with constrained_intra_pred_flag := v }) nalu,
    stepFlag (fun pps v => { pps with transform_skip_enabled_flag := v }) nalu,
    stepFlag (fun pps v => { pps with cu_qp_delta_enabled_flag := v }) nalu,
    stepIf (fun pps => pps.cu_qp_delta_enabled_flag != 0) [
      stepUe fuel (fun pps v => { pps with diff_cu_qp_delta_depth := v }) nalu] [],
    stepSe fuel (fun pps v => { pps with pps_cb_qp_offset := v }) nalu,
    stepSe fuel (fun pps v => { pps with pps_cr_qp_offset := v }) nalu,
    stepFlag (fun pps v => { pps with pps_slice_chroma_qp_offsets_present_flag := v }) nalu,
    stepFlag (fun pps v => { pps with weighted_pred_flag := v }) nalu,
    stepFlag (fun pps v => { pps with weighted_bipred_flag := v }) nalu,
    stepFlag (fun pps v => { pps with transquant_bypass_enabled_flag := v }) nalu,
    stepFlag (fun pps v => { pps with tiles_enabled_flag := v }) nalu,
    stepFlag (fun pps v => { pps with entropy_coding_sync_enabled_flag := v }) nalu,
    stepIf (fun pps => pps.tiles_enabled_flag != 0) [
      stepUe fuel (fun pps v => { pps with num_tile_columns_minus1 := v }) nalu,
      stepUe fuel (fun pps v => { pps with num_tile_rows_minus1 := v }) nalu,
      stepFlag (fun pps v => { pps with uniform_spacing_flag := v }) nalu,
      stepIf (fun pps => pps.uniform_spacing_flag == 0) [
        stepFor 0 (fun pps => pps.num_tile_columns_minus1) (fun i => [
          stepUe fuel (fun pps v =>
            { pps with
              column_width_minus1 :=
                setAt pps.column_width_minus1 i v }) nalu]),
        stepFor 0 (fun pps => pps.num_tile_rows_minus1) (fun i => [
          stepUe fuel (fun pps v =>
            { pps with
              row_height_minus1 :=
                setAt pps.row_height_minus1 i v }) nalu])] [],
      stepFlag (fun pps v => { pps with loop_filter_across_tiles_enabled_flag := v }) nalu] [
      stepSet (fun pps => { pps with loop_filter_across_tiles_enabled_flag := 1 }),
      stepSet (fun pps => { pps with uniform_spacing_flag := 1 })],
    stepFlag (fun pps v => { pps with pps_loop_filter_across_slices_enabled_flag := v }) nalu,
    stepFlag (fun pps v => { pps with deblocking_filter_control_present_flag := v }) nalu,
    stepIf (fun pps => pps.deblocking_filter_control_present_flag != 0) [
      stepFlag (fun pps v => { pps with deblocking_filter_override_enabled_flag := v }) nalu,
      stepFlag (fun pps v => { pps with pps_deblocking_filter_disabled_flag := v }) nalu,
      stepIf (fun pps => pps.pps_deblocking_filter_disabled_flag == 0) [
        stepSe fuel (fun pps v => { pps with pps_beta_offset_div2 := v }) nalu,
        stepSe fuel (fun pps v => { pps with pps_tc_offset_div2 := v }) nalu] []] [],
    stepFlag (fun pps v => { pps with pps_scaling_list_data_present_flag := v }) nalu,
    stepIf (fun pps => pps.pps_scaling_list_data_present_flag != 0) [
      stepSet (fun pps =>
        { pps with
          scaling_list_data :=
            SetDefaultScalingList pps.scaling_list_data }),
      stepDyn (fun pps => stepSub (fun x => x.scaling_list_data)
        (fun x v => { x with scaling_list_data := v })
        (ParseScalingList fuel (m_sps pps.pps_seq_parameter_set_id).chroma_format_idc nalu))] [
      stepSet (fun pps =>
        { pps with
          scaling_list_data :=
            (m_sps pps.pps_seq_parameter_set_id).scaling_list_data })],
    stepFlag (fun pps v => { pps with lists_modification_present_flag := v }) nalu,
    stepUe fuel (fun pps v => { pps with log2_parallel_merge_level_minus2 := v }) nalu,
    stepFlag (fun pps v => { pps with slice_segment_header_extension_present_flag := v }) nalu,
    stepFlag (fun pps v => { pps with pps_extension_present_flag := v }) nalu,
    stepIf (fun pps => pps.pps_extension_present_flag != 0) [
      stepFlag (fun pps v => { pps with pps_range_extension_flag := v }) nalu,
      stepFlag (fun pps v => { pps with pps_multilayer_extension_flag := v }) nalu,
      stepBits (fun pps v => { pps with pps_extension_6bits := v }) 6 nalu] [],
    stepIf (fun pps => pps.pps_range_extension_flag != 0) [
      stepIf (fun pps => pps.transform_skip_enabled_flag != 0) [
        stepUe fuel (fun pps v =>
          { pps with log2_max_transform_skip_block_size_minus2 := v }) nalu] [],
      stepFlag (fun pps v => { pps with cross_component_prediction_enabled_flag := v }) nalu,
      stepFlag (fun pps v => { pps with chroma_qp_offset_list_enabled_flag := v }) nalu,
      stepIf (fun pps => pps.chroma_qp_offset_list_enabled_flag != 0) [
        stepUe fuel (fun pps v => { pps with diff_cu_chroma_qp_offset_depth := v }) nalu,
        stepUe fuel (fun pps v => { pps with chroma_qp_offset_list_len_minus1 := v }) nalu,
        stepFor 0 (fun pps => pps.chroma_qp_offset_list_len_minus1 + 1) (fun i => [
          stepSe fuel (fun pps v =>
            { pps with
              cb_qp_offset_list :=
                setAt pps.cb_qp_offset_list i v }) nalu,
          stepSe fuel (fun pps v =>
            { pps with
              cr_qp_offset_list :=
                setAt pps.cr_qp_offset_list i v }) nalu])] [],
      stepUe fuel (fun pps v => { pps with log2_sao_offset_scale_luma := v }) nalu,
      stepUe fuel (fun pps v => { pps with log2_sao_offset_scale_chroma := v }) nalu] []]

/-- `HEVCVideoParser::ParsePps`: the index `pps_id` of the slot written and the content of
the slot at the end, which starts from the `memset`. -/
def ParsePpsSlot (fuel : Nat) (m_sps : Nat → SpsData) (nalu : Nat → Nat) :
    Option (Nat × PpsData) :=
  match ReadUe fuel nalu 0 with
  | none => none
  | some r =>
    let pps_id := r.1
    match ParsePpsBody fuel m_sps nalu
        ({ PpsData.zero with pps_pic_parameter_set_id := pps_id }, r.2) with
    | none => none
    | some s => some (pps_id, s.1)

/-! ## Capacities of the arrays of the parameter sets

The arrays of the records are functions from the index here, so a write at any index stays in
its array. In the program the arrays are members of fixed length, and a loop whose count exceeds
that length writes into the members and slots that follow. The predicates below say that the
counts of a parsed record are within the lengths; `ParseVps`, `ParseSps` and `ParsePps` have a
result only then. -/

/-- Modelled from the spec: number of entries of the arrays indexed by the sub-layer
(`hevc_parser.h` is not among the sources; spec §3: indexed 0..6, and the print functions of
`hevc_parser.cpp` loop over 7 entries). -/
def capSubLayers : Nat := 7

/-- Modelled from the spec: number of entries of the arrays of `H265SubLayerHrdParameters`
(HEVC: `cpb_cnt_minus1` is in 0..31). -/
def capCpbCnt : Nat := 32

/-- Modelled from the spec: number of layer sets of `layer_id_included_flag` and of HRD
entries of `VpsData` (HEVC: `vps_num_layer_sets_minus1` is in 0..1023). -/
def capLayerSets : Nat := 1024

/-- Modelled from the spec: number of layer ids of a row of `layer_id_included_flag` (HEVC:
`vps_max_layer_id` is in 0..62). -/
def capLayerIds : Nat := 63

/-- Modelled from the spec: number of entries of `st_rps` of `SpsData` (spec §3: an array of
up to 64 short-term RPS records). -/
def capShortTermRps : Nat := 64

/-- Modelled from the spec: number of entries of the arrays of `H265ShortTermRPS` (the print
function of `hevc_parser.cpp` loops over 16 entries and names the array `delta_poc[16]`). -/
def capRpsPics : Nat := 16

/-- Modelled from the spec: number of entries of the long-term arrays of `SpsData` (comment
`//max is 32` of `ParseSps`; the print function loops over 32 entries). -/
def capLongTermPics : Nat := 32

/-- Modelled from the spec: number of entries of `column_width_minus1` of `PpsData` (HEVC: at
most 20 tile columns). -/
def capTileColumns : Nat := 20

/-- Modelled from the spec: number of entries of `row_height_minus1` of `PpsData` (HEVC: at
most 22 tile rows). -/
def capTileRows : Nat := 22

/-- Modelled from the spec: number of entries of `cb_qp_offset_list` and `cr_qp_offset_list`
of `PpsData` (HEVC: `chroma_qp_offset_list_len_minus1` is in 0..5). -/
def capQpOffsetList : Nat := 6

/-- The writes of `ParseHrdParameters` called with `max_num_sub_layers_minus1` stay inside the
arrays: the index `i` of the loop goes to `max_num_sub_layers_minus1`, the index of
`ParseSubLayerHrdParameters` to `cpb_cnt_minus1[i]`. -/
def hrdInBounds (hrd : H265HrdParameters) (max_num_sub_layers_minus1 : Nat) : Bool :=
  decide (max_num_sub_layers_minus1 < capSubLayers) &&
  (List.range (max_num_sub_layers_minus1 + 1)).all
    (fun i => decide (hrd.cpb_cnt_minus1 i < capCpbCnt))

/-- The writes of `ParseVps` stay inside the arrays of the slot: the sub-layer loops of
`ParsePtl` and of the DPB sizes go to `vps_max_sub_layers_minus1`, the loops of
`layer_id_included_flag`, which run from the layer set 1 on, to `vps_num_layer_sets_minus1` and
`vps_max_layer_id`, the loop of the HRD entries to `vps_num_hrd_parameters - 1`. -/
def vpsInBounds (vps : VpsData) : Bool :=
  decide (vps.vps_max_sub_layers_minus1 < capSubLayers) &&
  decide (vps.vps_num_layer_sets_minus1 < capLayerSets) &&
  (vps.vps_num_layer_sets_minus1 == 0 || decide (vps.vps_max_layer_id < capLayerIds)) &&
  decide (vps.vps_num_hrd_parameters ≤ capLayerSets) &&
  (List.range vps.vps_num_hrd_parameters).all
    (fun i => hrdInBounds (vps.hrd_parameters i) vps.vps_max_sub_layers_minus1)

/-- The writes of `ParseShortTermRefPicSet` for the entry `i` of `st_rps` stay inside the
arrays of the entry: in explicit mode the indices go to `num_negative_pics +
num_positive_pics - 1`; in prediction mode the flags are written up to the index
`num_of_delta_poc` of the reference entry `i - 1`, and `delta_poc`, `used_by_curr_pic` up to
`num_of_pics - 1`. -/
def rpsInBounds (st_rps : Nat → H265ShortTermRPS) (i : Nat) : Bool :=
  decide ((st_rps i).num_negative_pics + (st_rps i).num_positive_pics ≤ capRpsPics) &&
  decide ((st_rps i).num_of_pics ≤ capRpsPics) &&
  ((st_rps i).inter_ref_pic_set_prediction_flag == 0 ||
    decide ((st_rps (i - 1)).num_of_delta_poc < capRpsPics))

/-- The writes of `ParseSps` stay inside the arrays of the slot and of the local `ptl`: the
sub-layer loops go to `sps_max_sub_layers_minus1`, the loop of `st_rps` to
`num_short_term_ref_pic_sets - 1`, the loop of the long-term arrays to
`num_long_term_ref_pics_sps - 1`, and the HRD of the VUI is within its arrays. -/
def spsInBounds (sps : SpsData) : Bool :=
  decide (sps.sps_max_sub_layers_minus1 < capSubLayers) &&
  decide (sps.num_short_term_ref_pic_sets ≤ capShortTermRps) &&
  (List.range sps.num_short_term_ref_pic_sets).all (fun i => rpsInBounds sps.st_rps i) &&
  decide (sps.num_long_term_ref_pics_sps ≤ capLongTermPics) &&
  hrdInBounds sps.vui_parameters.hrd_parameters sps.sps_max_sub_layers_minus1

/-- The writes of `ParsePps` stay inside the arrays of the slot: the tile loops go to
`num_tile_columns_minus1 - 1` and `num_tile_rows_minus1 - 1`, the loop of the chroma QP offset
lists to `chroma_qp_offset_list_len_minus1`; and the read of
`m_sps_[pps_ptr->pps_seq_parameter_set_id]` for the scaling list stays inside the SPS table. -/
def ppsInBounds (pps : PpsData) : Bool :=
  decide (pps.pps_seq_parameter_set_id < MAX_SPS_COUNT) &&
  decide (pps.num_tile_columns_minus1 ≤ capTileColumns) &&
  decide (pps.num_tile_rows_minus1 ≤ capTileRows) &&
  decide (pps.chroma_qp_offset_list_len_minus1 < capQpOffsetList)

/-! ## Packets (`ParseVideoData`, `ParseFrameData`, `FillSeqCallbackFn` of `hevc_parser.cpp`) -/

/-- Modelled from the spec: `rocDecVideoCodec` of `rocdecode.h`; HEVC is the only codec that the
sources at hand name. -/
inductive rocDecVideoCodec where
  | rocDecVideoCodec_HEVC
  deriving DecidableEq, Repr

/-- Modelled from the spec: `rocDecVideoChromaFormat_Monochrome` of `rocdecode.h` (spec §4.5:
the chroma format is `chroma_format_idc`). -/
def rocDecVideoChromaFormat_Monochrome : Nat := 0
/-- Modelled from the spec: see `rocDecVideoChromaFormat_Monochrome`. -/
def rocDecVideoChromaFormat_420 : Nat := 1
/-- Modelled from the spec: see `rocDecVideoChromaFormat_Monochrome`. -/
def rocDecVideoChromaFormat_422 : Nat := 2
/-- Modelled from the spec: see `rocDecVideoChromaFormat_Monochrome`. -/
def rocDecVideoChromaFormat_444 : Nat := 3

/-- Modelled from the spec: the rectangle `display_area` of `RocdecVideoFormat` (spec §6). The
members are taken to be `int`; `fillSeqDisplayArea` stores values reduced with `wrapInt32`. -/
structure DisplayArea where
  left : Int
  top : Int
  right : Int
  bottom : Int
  deriving DecidableEq

/-- Modelled from the spec: `RocdecVideoFormat` of `rocparser.h`, with the members that
`FillSeqCallbackFn` writes (spec §6, sequence callback). -/
structure RocdecVideoFormat where
  codec : rocDecVideoCodec
  frame_rate : Nat × Nat
  bit_depth_luma_minus8 : Nat
  bit_depth_chroma_minus8 : Nat
  progressive_sequence : Nat
  min_num_decode_surfaces : Nat
  coded_width : Nat
  coded_height : Nat
  chroma_format : Nat
  display_area : DisplayArea
  bitrate : Nat
  display_aspect_ratio : Nat × Nat
  video_format : Nat
  video_full_range_flag : Nat
  color_primaries : Nat
  transfer_characteristics : Nat
  matrix_coefficients : Nat
  reserved_zero_bits : Nat
  seqhdr_data_length : Nat

/-- `HEVCVideoParser::FillSeqCallbackFn`, from `video_format_params_.codec = ...` to the
`switch` on the chroma format: `none` for the `return` of the `default` case, else the record
and `(sub_width_c, sub_height_c)`. -/
def fillSeqHead (vf : RocdecVideoFormat) (sps_data : SpsData) :
    RocdecVideoFormat × Option (Int × Int) :=
  let vf1 : RocdecVideoFormat :=
    { vf with
      codec := rocDecVideoCodec.rocDecVideoCodec_HEVC
      frame_rate := (0, 0)
      bit_depth_luma_minus8 := sps_data.bit_depth_luma_minus8
      bit_depth_chroma_minus8 := sps_data.bit_depth_chroma_minus8 }
  let vf2 : RocdecVideoFormat :=
    if sps_data.profile_tier_level.general_progressive_source_flag ≠ 0 ∧
        ¬ sps_data.profile_tier_level.general_interlaced_source_flag ≠ 0 then
      { vf1 with progressive_sequence := 1 }
    else if ¬ sps_data.profile_tier_level.general_progressive_source_flag ≠ 0 ∧
        sps_data.profile_tier_level.general_interlaced_source_flag ≠ 0 then
      { vf1 with progressive_sequence := 0 }
    else { vf1 with progressive_sequence := 1 }
  let vf3 : RocdecVideoFormat :=
    { vf2 with
      min_num_decode_surfaces := sps_data.sps_max_dec_pic_buffering_minus1 0 + 1
      coded_width := sps_data.pic_width_in_luma_samples
      coded_height := sps_data.pic_height_in_luma_samples
      chroma_format := sps_data.chroma_format_idc }
  if vf3.chroma_format = rocDecVideoChromaFormat_Monochrome then (vf3, some (1, 1))
  else if vf3.chroma_format = rocDecVideoChromaFormat_420 then (vf3, some (2, 2))
  else if vf3.chroma_format = rocDecVideoChromaFormat_422 then (vf3, some (2, 1))
  else if vf3.chroma_format = rocDecVideoChromaFormat_444 then (vf3, some (1, 1))
  else (vf3, none)

/-- `HEVCVideoParser::FillSeqCallbackFn`, the assignments of `display_area`. The members of
the SPS and `coded_width`, `coded_height` are 32-bit unsigned values, beside which the `int`
factors `sub_width_c`, `sub_height_c` are converted to `unsigned int`: the products and the
differences are taken modulo `2^32`, and the result is stored in an `int` member, which is
`wrapInt32` of the exact value. -/
def fillSeqDisplayArea (vf : RocdecVideoFormat) (sps_data : SpsData)
    (sub_width_c sub_height_c : Int) : RocdecVideoFormat :=
  if sps_data.conformance_window_flag ≠ 0 then
    { vf with
      display_area :=
        { left := wrapInt32 (sub_width_c * sps_data.conf_win_left_offset)
          top := wrapInt32 (sub_height_c * sps_data.conf_win_top_offset)
          right := wrapInt32 ((sps_data.pic_width_in_luma_samples : Int)
            - sub_width_c * sps_data.conf_win_right_offset)
          bottom := wrapInt32 ((sps_data.pic_height_in_luma_samples : Int)
            - sub_height_c * sps_data.conf_win_bottom_offset) } }
  else
    { vf with
      display_area :=
        { left := 0, top := 0, right := wrapInt32 vf.coded_width,
          bottom := wrapInt32 vf.coded_height } }

/-- `HEVCVideoParser::FillSeqCallbackFn`, from `video_format_params_.bitrate = 0` to
`seqhdr_data_length`. -/
def fillSeqTail (vf : RocdecVideoFormat) (sps_data : SpsData) : RocdecVideoFormat :=
  let vf1 : RocdecVideoFormat := { vf with bitrate := 0 }
  let vf2 : RocdecVideoFormat :=
    if sps_data.vui_parameters_present_flag ≠ 0 then
      if sps_data.vui_parameters.aspect_ratio_info_present_flag ≠ 0 then
        { vf1 with
          display_aspect_ratio :=
            (sps_data.vui_parameters.sar_width, sps_data.vui_parameters.sar_height) }
      else { vf1 with display_aspect_ratio := (0, 0) }
    else vf1
  let vf3 : RocdecVideoFormat :=
    if sps_data.vui_parameters_present_flag ≠ 0 then
      { vf2 with
        video_format := sps_data.vui_parameters.video_format
        video_full_range_flag := sps_data.vui_parameters.video_full_range_flag
        color_primaries := sps_data.vui_parameters.colour_primaries
        transfer_characteristics := sps_data.vui_parameters.transfer_characteristics
        matrix_coefficients := sps_data.vui_parameters.matrix_coeffs
        reserved_zero_bits := 0 }
    else vf2
  { vf3 with seqhdr_data_length := 0 }

/-- `HEVCVideoParser::FillSeqCallbackFn`: `video_format_params_` afterwards. The last
statement, which stores the address of `video_format_params_` in `pfn_sequece_cb_`, writes no
member of the record. -/
def FillSeqCallbackFn (vf : RocdecVideoFormat) (sps_data : SpsData) : RocdecVideoFormat :=
  match fillSeqHead vf sps_data with
  | (vf1, none) => vf1
  | (vf1, some c) => fillSeqTail (fillSeqDisplayArea vf1 sps_data c.1 c.2) sps_data

/-- The members of `HEVCVideoParser` other than those of the NAL unit scan: the VPS table,
the members of `ParseSliceHeader` (with the SPS and PPS tables), the RBSP scratch buffer and
its size, the slice counter and the video format. -/
structure ParserMembers where
  m_vps : Nat → VpsData
  hevc : HevcParser
  m_rbsp_buf : Nat → Nat
  m_rbsp_size : Nat
  slice_num : Nat
  video_format_params : RocdecVideoFormat

/-- The parser object `HEVCVideoParser`. -/
structure HEVCVideoParser where
  nal : NalState
  mem : ParserMembers

/-- `HEVCVideoParser::ParseVps` on the parser: the slot `m_vps_[vps_id]` is replaced. There is
no result when a loop of the call has written past the end of an array of the slot
(`vpsInBounds`): the program has no defined state then. -/
def ParseVps (env : ParseEnv) (m : ParserMembers) (nalu : Nat → Nat) : Option ParserMembers :=
  match ParseVpsSlot env.fuel nalu with
  | none => none
  | some r => if vpsInBounds r.2 then some { m with m_vps := setAt m.m_vps r.1 r.2 } else none

/-- `HEVCVideoParser::ParseSps` on the parser: the slot `m_sps_[sps_id]` is replaced. There is
no result when a loop of the call has written past the end of an array (`spsInBounds`). The
index `sps_id` itself is not tested against `MAX_SPS_COUNT`, neither here nor in the
program. -/
def ParseSps (env : ParseEnv) (m : ParserMembers) (nalu : Nat → Nat) : Option ParserMembers :=
  match ParseSpsSlot env.fuel nalu with
  | none => none
  | some r =>
    if spsInBounds r.2 then
      some { m with hevc := { m.hevc with m_sps := setAt m.hevc.m_sps r.1 r.2 } }
    else none

/-- `HEVCVideoParser::ParsePps` on the parser: the slot `m_pps_[pps_id]` is replaced. There is
no result when a loop of the call has written past the end of an array or the call has read
past the end of the SPS table (`ppsInBounds`). The index `pps_id` itself is not tested against
`MAX_PPS_COUNT`, neither here nor in the program. -/
def ParsePps (env : ParseEnv) (m : ParserMembers) (nalu : Nat → Nat) : Option ParserMembers :=
  match ParsePpsSlot env.fuel m.hevc.m_sps nalu with
  | none => none
  | some r =>
    if ppsInBounds r.2 then
      some { m with hevc := { m.hevc with m_pps := setAt m.hevc.m_pps r.1 r.2 } }
    else none

/-- `HEVCVideoParser::ParseSliceHeader` on the parser (the value returned is not used by
`ParseFrameData`). -/
def ParseSliceHeaderMem (env : ParseEnv) (m : ParserMembers) (nal_unit_type : Nat)
    (nalu : Nat → Nat) : Option ParserMembers :=
  match ParseSliceHeader env m.hevc nal_unit_type nalu with
  | none => none
  | some r => some { m with hevc := r.2 }

/-- Modelled from the spec: `NAL_UNIT_VPS` and the other NAL unit type constants of
`hevc_parser.h` used by `ParseFrameData` (spec §6, HEVC §7.4.2.2). -/
def NAL_UNIT_VPS : Nat := 32
/-- Modelled from the spec: see `NAL_UNIT_VPS`. -/
def NAL_UNIT_SPS : Nat := 33
/-- Modelled from the spec: see `NAL_UNIT_VPS`. -/
def NAL_UNIT_PPS : Nat := 34
/-- Modelled from the spec: see `NAL_UNIT_VPS`. -/
def NAL_UNIT_CODED_SLICE_TRAIL_N : Nat := 0
/-- Modelled from the spec: see `NAL_UNIT_VPS`. -/
def NAL_UNIT_CODED_SLICE_TRAIL_R : Nat := 1
/-- Modelled from the spec: see `NAL_UNIT_VPS`. -/
def NAL_UNIT_CODED_SLICE_TSA_N : Nat := 2
/-- Modelled from the spec: see `NAL_UNIT_VPS`. -/
def NAL_UNIT_CODED_SLICE_TLA_R : Nat := 3
/-- Modelled from the spec: see `NAL_UNIT_VPS`. -/
def NAL_UNIT_CODED_SLICE_STSA_N : Nat := 4
/-- Modelled from the spec: see `NAL_UNIT_VPS`. -/
def NAL_UNIT_CODED_SLICE_STSA_R : Nat := 5
/-- Modelled from the spec: see `NAL_UNIT_VPS`. -/
def NAL_UNIT_CODED_SLICE_RADL_N : Nat := 6
/-- Modelled from the spec: see `NAL_UNIT_VPS`. -/
def NAL_UNIT_CODED_SLICE_RADL_R : Nat := 7
/-- Modelled from the spec: see `NAL_UNIT_VPS`. -/
def NAL_UNIT_CODED_SLICE_RASL_N : Nat := 8
/-- Modelled from the spec: see `NAL_UNIT_VPS`. -/
def NAL_UNIT_CODED_SLICE_RASL_R : Nat := 9

/-- Modelled from the spec: `NalUnitHeader` of `hevc_parser.h` (spec §4.1). -/
structure NalUnitHeader where
  forbidden_zero_bit : Nat
  nal_unit_type : Nat
  nuh_layer_id : Nat
  nuh_temporal_id_plus1 : Nat
  deriving DecidableEq

/-- Modelled from the spec: `ParseNalUnitHeader` of `hevc_parser.h`, on the two bytes at
`offset` (spec §4.1: bit 0 is `forbidden_zero_bit`, bits 1..6 are `nal_unit_type`, bits 7..12
are `nuh_layer_id`, bits 13..15 are `nuh_temporal_id_plus1`). -/
def ParseNalUnitHeader (data : Nat → Nat) (offset : Nat) : NalUnitHeader :=
  { forbidden_zero_bit := (ReadBits data (offset * 8) 1).1
    nal_unit_type := (ReadBits data (offset * 8 + 1) 6).1
    nuh_layer_id := (ReadBits data (offset * 8 + 7) 6).1
    nuh_temporal_id_plus1 := (ReadBits data (offset * 8 + 13) 3).1 }

/-- The labels of the slice `case` of the `switch` of `ParseFrameData`. -/
def isSliceNalUnitType (t : Nat) : Bool :=
  t == NAL_UNIT_CODED_SLICE_TRAIL_R || t == NAL_UNIT_CODED_SLICE_TRAIL_N ||
  t == NAL_UNIT_CODED_SLICE_TLA_R || t == NAL_UNIT_CODED_SLICE_TSA_N ||
  t == NAL_UNIT_CODED_SLICE_STSA_R || t == NAL_UNIT_CODED_SLICE_STSA_N ||
  t == NAL_UNIT_CODED_SLICE_BLA_W_LP || t == NAL_UNIT_CODED_SLICE_BLA_W_RADL ||
  t == NAL_UNIT_CODED_SLICE_BLA_N_LP || t == NAL_UNIT_CODED_SLICE_IDR_W_RADL ||
  t == NAL_UNIT_CODED_SLICE_IDR_N_LP || t == NAL_UNIT_CODED_SLICE_CRA_NUT ||
  t == NAL_UNIT_CODED_SLICE_RADL_N || t == NAL_UNIT_CODED_SLICE_RADL_R ||
  t == NAL_UNIT_CODED_SLICE_RASL_N || t == NAL_UNIT_CODED_SLICE_RASL_R

/-- `ParseFrameData`: `int ebsp_size = nal_unit_size_ - 5 > RBSP_BUF_SIZE ? RBSP_BUF_SIZE :
nal_unit_size_ - 5;`. -/
def ebspSize (nal_unit_size : Int) : Int :=
  if nal_unit_size - 5 > (RBSP_BUF_SIZE : Int) then (RBSP_BUF_SIZE : Int) else nal_unit_size - 5

/-- An `int` passed as a `size_t` argument. -/
def toSizeT (x : Int) : Nat := (x % (SIZE : Int)).toNat

/-- `memcpy(dst, src + src_offset, n)` into a buffer `dst` of `capacity` bytes, the buffers
not overlapping. A copy of more than `capacity` bytes runs past the end of `dst`: the program
has no defined state after it (for the count `2^64 - 2` of a NAL unit of 3 bytes the process is
stopped), so there is no result. -/
def memcpy (capacity : Nat) (dst src : Nat → Nat) (src_offset n : Nat) : Option (Nat → Nat) :=
  if n ≤ capacity then some (fun i => if i < n then src (src_offset + i) else dst i) else none

/-- `ParseFrameData`: the two statements `memcpy(m_rbsp_buf_, (frame_data_buffer_ptr_ +
curr_start_code_offset_ + 5), ebsp_size); m_rbsp_size_ = EBSPtoRBSP(m_rbsp_buf_, 0,
ebsp_size);` that open each `case`; `m_rbsp_buf_` has `RBSP_BUF_SIZE` bytes. There is no result
when the copy leaves the buffer. -/
def loadRbsp (data : Nat → Nat) (curr_start_code_offset : Nat) (ebsp_size : Int)
    (m : ParserMembers) : Option ParserMembers :=
  match memcpy RBSP_BUF_SIZE m.m_rbsp_buf data (curr_start_code_offset + 5)
      (toSizeT ebsp_size) with
  | none => none
  | some buf =>
    let r := EBSPtoRBSP buf 0 (toSizeT ebsp_size)
    some { m with m_rbsp_buf := r.2, m_rbsp_size := r.1 }

/-- `ParseFrameData`, the block `// Parse the NAL unit` for a NAL unit at
`curr_start_code_offset_` with `nal_unit_size_ ≠ 0`. -/
def parseNalUnit (env : ParseEnv) (data : Nat → Nat) (curr_start_code_offset : Nat)
    (nal_unit_size : Int) (m : ParserMembers) : Option ParserMembers :=
  let ebsp_size := ebspSize nal_unit_size
  let nal_unit_header := ParseNalUnitHeader data (curr_start_code_offset + 3)
  if nal_unit_header.nal_unit_type = NAL_UNIT_VPS then
    match loadRbsp data curr_start_code_offset ebsp_size m with
    | none => none
    | some m1 => ParseVps env m1 m1.m_rbsp_buf
  else if nal_unit_header.nal_unit_type = NAL_UNIT_SPS then
    match loadRbsp data curr_start_code_offset ebsp_size m with
    | none => none
    | some m1 => ParseSps env m1 m1.m_rbsp_buf
  else if nal_unit_header.nal_unit_type = NAL_UNIT_PPS then
    match loadRbsp data curr_start_code_offset ebsp_size m with
    | none => none
    | some m1 => ParsePps env m1 m1.m_rbsp_buf
  else if isSliceNalUnitType nal_unit_header.nal_unit_type then
    match loadRbsp data curr_start_code_offset ebsp_size m with
    | none => none
    | some m1 =>
      match (if m1.slice_num = 0 then
          ParseSliceHeaderMem env m1 nal_unit_header.nal_unit_type m1.m_rbsp_buf
        else some m1) with
      | none => none
      | some m2 => some { m2 with slice_num := m2.slice_num + 1 }
  else some m

/-- The `do { ... } while (1)` loop of `ParseFrameData`. The first argument bounds the number
of iterations; `frame_data_size_ + 1` is enough, there being an iteration for each start
code. -/
def ParseFrameDataLoop (env : ParseEnv) : Nat → HEVCVideoParser → Option (Bool × HEVCVideoParser)
  | 0, _ => none
  | n + 1, st =>
    let g := GetNalUnit st.nal
    let st1 : HEVCVideoParser := { st with nal := g.2 }
    if g.1 = ParserResult.PARSER_NOT_FOUND then some (false, st1)
    else
      match (if st1.nal.nal_unit_size ≠ 0 then
          parseNalUnit env st1.nal.frame_data_buffer_ptr st1.nal.curr_start_code_offset
            st1.nal.nal_unit_size st1.mem
        else some st1.mem) with
      | none => none
      | some m2 =>
        let st2 : HEVCVideoParser := { st1 with mem := m2 }
        if g.1 = ParserResult.PARSER_EOF then some (true, st2)
        else ParseFrameDataLoop env n st2

/-- `HEVCVideoParser::ParseFrameData`: the value returned and the parser afterwards; `none`
when a `ReadUe` of a parser does not end or when a copy leaves `m_rbsp_buf_`. -/
def ParseFrameData (env : ParseEnv) (st : HEVCVideoParser) (p_stream : Nat → Nat)
    (frame_data_size : Nat) : Option (Bool × HEVCVideoParser) :=
  let st0 : HEVCVideoParser :=
    { nal := frameReset p_stream frame_data_size, mem := { st.mem with slice_num := 0 } }
  ParseFrameDataLoop env (frame_data_size + 1) st0

/-- Modelled from the spec: the two values of `rocDecStatus` (`rocdecode.h`) that
`ParseVideoData` returns (spec §6, result reporting). -/
inductive rocDecStatus where
  | ROCDEC_SUCCESS
  | ROCDEC_RUNTIME_ERROR
  deriving DecidableEq, Repr

/-- `HEVCVideoParser::ParseVideoData` on a packet `payload` of `payload_size` bytes. -/
def ParseVideoData (env : ParseEnv) (st : HEVCVideoParser) (payload : Nat → Nat)
    (payload_size : Nat) : Option (rocDecStatus × HEVCVideoParser) :=
  match ParseFrameData env st payload payload_size with
  | none => none
  | some r =>
    if r.1 = false then some (rocDecStatus.ROCDEC_RUNTIME_ERROR, r.2)
    else if r.2.mem.hevc.new_sps_activated then
      let vf := FillSeqCallbackFn r.2.mem.video_format_params
        (r.2.mem.hevc.m_sps r.2.mem.hevc.m_active_sps_id.toNat)
      let hevc1 : HevcParser := { r.2.mem.hevc with new_sps_activated := false }
      some (rocDecStatus.ROCDEC_SUCCESS,
        { r.2 with mem := { r.2.mem with video_format_params := vf, hevc := hevc1 } })
    else some (rocDecStatus.ROCDEC_SUCCESS, r.2)

/-- The statement `f` leaves the part `π` of the record as it is. -/
def Keeps {σ β : Type} (π : σ → β) (f : Step σ) : Prop :=
  ∀ s r, f s = some r → π r.1 = π s.1

/-- Every statement of the list leaves the part `π` of the record as it is. -/
def AllKeep {σ β : Type} (π : σ → β) : List (Step σ) → Prop
  | [] => True
  | f :: fs => Keeps π f ∧ AllKeep π fs

/-- The statement `g` returns what the statement `f` returns, whenever `f` returns. -/
def StepLe {σ : Type} (f g : Step σ) : Prop := ∀ s r, f s = some r → g s = some r

/-- The statements of the second list return what those of the first return, one by one. -/
def AllStepLe {σ : Type} : List (Step σ) → List (Step σ) → Prop
  | [], [] => True
  | f :: fs, g :: gs => StepLe f g ∧ AllStepLe fs gs
  | _, _ => False

/-- A PPS RBSP that starts with the code word of `pps_id = 64` (`0000001000001`) and goes on
with 1 bits. -/
def examplePpsId64 : Nat → Nat := fun i => if i = 0 then 0x02 else if i = 1 then 0x0F else 0xFF

/-- An SPS RBSP whose `sps_id` is 32: `sps_max_sub_layers_minus1 = 0`, the 96 bits of the
profile, tier and level are 1 bits, the code word `00000100001` of 32 follows, then 1 bits. -/
def exampleSpsId32 : Nat → Nat :=
  fun i => if i = 0 then 0x01 else if i = 13 then 0x04 else if i = 14 then 0x3F else 0xFF

/-- A slice RBSP of type TRAIL_R whose `slice_pic_parameter_set_id` is 64. -/
def exampleSlicePps64 : Nat → Nat :=
  fun i => if i = 0 then 0x81 else if i = 1 then 0x07 else 0xFF

/-- A zeroed `RocdecVideoFormat`. -/
def RocdecVideoFormat.zero : RocdecVideoFormat :=
  { codec := rocDecVideoCodec.rocDecVideoCodec_HEVC, frame_rate := (0, 0),
    bit_depth_luma_minus8 := 0, bit_depth_chroma_minus8 := 0, progressive_sequence := 0,
    min_num_decode_surfaces := 0, coded_width := 0, coded_height := 0, chroma_format := 0,
    display_area := { left := 0, top := 0, right := 0, bottom := 0 }, bitrate := 0,
    display_aspect_ratio := (0, 0), video_format := 0, video_full_range_flag := 0,
    color_primaries := 0, transfer_characteristics := 0, matrix_coefficients := 0,
    reserved_zero_bits := 0, seqhdr_data_length := 0 }

/-- The parser after the constructor and `Init`: no active parameter set, zeroed tables. -/
def initialParser : HEVCVideoParser :=
  { nal := frameReset (fun _ => 0) 0
    mem :=
      { m_vps := fun _ => VpsData.zero
        hevc :=
          { m_active_vps_id := -1, m_active_sps_id := -1, m_active_pps_id := -1,
            new_sps_activated := false, pic_width := 0, pic_height := 0,
            m_sps := fun _ => SpsData.zero, m_pps := fun _ => PpsData.zero,
            m_sh := SliceHeaderData.zero, m_sh_copy := SliceHeaderData.zero,
            m_slice := SliceData.zero }
        m_rbsp_buf := fun _ => 0
        m_rbsp_size := 0
        slice_num := 0
        video_format_params := RocdecVideoFormat.zero } }

/-- An SPS for the display-area scenario: 4:2:0, 1920x1088, conformance window with the
offsets `(left, right, top, bottom) = (0, 0, 0, 4)`. -/
def exampleSps1080 : SpsData :=
  { SpsData.zero with
    chroma_format_idc := 1, pic_width_in_luma_samples := 1920, pic_height_in_luma_samples := 1088,
    conformance_window_flag := 1, conf_win_bottom_offset := 4 }

/-- An SPS whose right conformance window offset is the largest value of `ReadUe`: 4:2:0,
128x128, offsets `(left, right, top, bottom) = (0, 2^31 - 2, 0, 0)`. -/
def exampleSpsCropWrap : SpsData :=
  { SpsData.zero with
    chroma_format_idc := 1, pic_width_in_luma_samples := 128, pic_height_in_luma_samples := 128,
    conformance_window_flag := 1, conf_win_right_offset := 2 ^ 31 - 2 }

/-- `SubWidthC` of a chroma format (spec §4.5). -/
def subWidthC (chroma_format_idc : Nat) : Int := if chroma_format_idc = 1 ∨ chroma_format_idc = 2 then 2 else 1

/-- `SubHeightC` of a chroma format (spec §4.5). -/
def subHeightC (chroma_format_idc : Nat) : Int := if chroma_format_idc = 1 then 2 else 1

/-- The RBSP of the minimal VPS of the spec (§8, scenario 1): `vps_id = 0`, one layer, one
sub-layer, `general_level_idc = 120`, DPB triplet `(5, 0, 0)`. -/
def exampleVpsRbsp : Nat → Nat :=
  memOfList [0x0C, 0x01, 0xFF, 0xFF, 0x01, 0x40, 0, 0, 0, 0x90, 0, 0, 0, 0, 0, 0x78, 0x9B,
    0x02, 0x40]

/-- The members of the parser after `ParseVps` of `exampleVpsRbsp` on the initial parser. -/
def exampleVpsResult : ParserMembers :=
  (ParseVps exampleEnv initialParser.mem exampleVpsRbsp).getD initialParser.mem

/-- The `j`-th NAL unit of a packet whose start codes are at `f 0 < ... < f (k - 1)`: its
offset and its size, which runs to the next start code or to the end of the packet. -/
def nalUnitAt (size : Nat) (f : Nat → Nat) (k j : Nat) : Nat × Int :=
  (f j, if j + 1 < k then (f (j + 1) : Int) - f j else (size : Int) - f j)

/-- The NAL units of a packet in encounter order, as offset and size. -/
def nalUnits (data : Nat → Nat) (size : Nat) : List (Nat × Int) :=
  (List.range (startCodeOffsets data size).length).map
    (nalUnitAt size (fun j => (startCodeOffsets data size).getD j 0)
      (startCodeOffsets data size).length)

/-- The type of the NAL unit whose start code is at `offset`. -/
def nalUnitTypeAt (data : Nat → Nat) (offset : Nat) : Nat :=
  (ParseNalUnitHeader data (offset + 3)).nal_unit_type

/-- The block `// Parse the NAL unit` of `ParseFrameData` applied to the NAL units of a list,
one after the other. -/
def processNalUnits (env : ParseEnv) (data : Nat → Nat) :
    List (Nat × Int) → ParserMembers → Option ParserMembers
  | [], m => some m
  | u :: rest, m =>
    match parseNalUnit env data u.1 u.2 m with
    | none => none
    | some m1 => processNalUnits env data rest m1

/-- The payload of a NAL unit in the words of the spec (§4.5): the bytes that follow the start
code and the two bytes of the NAL unit header, at most `RBSP_BUF_SIZE` of them, are copied to
the scratch buffer, where the emulation prevention bytes are removed; nothing is copied from
a NAL unit of fewer than 5 bytes. -/
def loadRbspSpec (data : Nat → Nat) (offset : Nat) (nal_unit_size : Int) (m : ParserMembers) :
    ParserMembers :=
  let n := min (nal_unit_size - 5).toNat RBSP_BUF_SIZE
  let buf : Nat → Nat := fun i => if i < n then data (offset + 5 + i) else m.m_rbsp_buf i
  let r := EBSPtoRBSP buf 0 n
  { m with m_rbsp_buf := r.2, m_rbsp_size := r.1 }

/-- The NAL unit types that `ParseFrameData` hands to a parser: VPS, SPS, PPS and the slice
types. -/
def isParsedNalUnitType (t : Nat) : Bool :=
  t == NAL_UNIT_VPS || t == NAL_UNIT_SPS || t == NAL_UNIT_PPS || isSliceNalUnitType t

/-- Every NAL unit of the list that `ParseFrameData` hands to a parser holds its start code and
its NAL unit header, 5 bytes (`// start code + NAL unit header = 5 bytes`). -/
def nalUnitsFramed (data : Nat → Nat) (l : List (Nat × Int)) : Prop :=
  ∀ u ∈ l, isParsedNalUnitType (nalUnitTypeAt data u.1) = true → 5 ≤ u.2

instance (data : Nat → Nat) (l : List (Nat × Int)) : Decidable (nalUnitsFramed data l) := by
  unfold nalUnitsFramed
  infer_instance

/-- The processing of the NAL units of a packet in the words of the spec (§4.5): the NAL units
are taken in encounter order; a VPS, SPS or PPS is dispatched to its parser; a slice is
counted, and its header is parsed only if no slice came before it in the packet (`seen`);
every other NAL unit is skipped. -/
def processNalUnitsSpec (env : ParseEnv) (data : Nat → Nat) :
    List (Nat × Int) → Bool → ParserMembers → Option ParserMembers
  | [], _, m => some m
  | u :: rest, seen, m =>
    let t := nalUnitTypeAt data u.1
    let m1 := loadRbspSpec data u.1 u.2 m
    if t = NAL_UNIT_VPS then
      match ParseVps env m1 m1.m_rbsp_buf with
      | none => none
      | some m2 => processNalUnitsSpec env data rest seen m2
    else if t = NAL_UNIT_SPS then
      match ParseSps env m1 m1.m_rbsp_buf with
      | none => none
      | some m2 => processNalUnitsSpec env data rest seen m2
    else if t = NAL_UNIT_PPS then
      match ParsePps env m1 m1.m_rbsp_buf with
      | none => none
      | some m2 => processNalUnitsSpec env data rest seen m2
    else if isSliceNalUnitType t then
      if seen then
        processNalUnitsSpec env data rest true { m1 with slice_num := m1.slice_num + 1 }
      else
        match ParseSliceHeaderMem env m1 t m1.m_rbsp_buf with
        | none => none
        | some m2 => processNalUnitsSpec env data rest true { m2 with slice_num := m2.slice_num + 1 }
    else processNalUnitsSpec env data rest seen m

/-- The number of slice NAL units among the NAL units of a list. -/
def sliceCount (data : Nat → Nat) (l : List (Nat × Int)) : Nat :=
  (l.filter (fun u => isSliceNalUnitType (nalUnitTypeAt data u.1))).length

/-- A packet with a VPS, an SPS, a PPS, an independent TRAIL_R slice and a dependent TRAIL_R
slice; the payloads of the VPS and of the SPS hold emulation prevention bytes. -/
def examplePacket : Nat → Nat :=
  memOfList
    [0, 0, 1, 64, 1, 12, 1, 255, 255, 1, 64, 0, 0, 3, 0, 144, 0, 0, 3, 0, 0, 3, 0, 120, 155, 2, 64,
     0, 0, 1, 66, 1, 1, 1, 64, 0, 0, 3, 0, 144, 0, 0, 3, 0, 0, 3, 0, 120, 160, 16, 32, 32, 89,
     107, 175, 4, 184, 32,
     0, 0, 1, 68, 1, 224, 113, 130, 18,
     0, 0, 1, 2, 1, 208, 38, 231, 88,
     0, 0, 1, 2, 1, 117, 64]

/-- A packet of 39 bytes with one VPS NAL unit whose payload starts `00 00 03 05`. -/
def exampleMalformedPacket : Nat → Nat :=
  fun i => if i < 9 then memOfList [0, 0, 1, 0x40, 1, 0, 0, 3, 5] i else if i < 39 then 0xFF else 0

/-- A packet of 12 bytes in which a start code is followed at once by the start code of a
TRAIL_R slice. -/
def exampleShortNalPacket : Nat → Nat :=
  memOfList [0, 0, 1, 0, 0, 1, 2, 1, 0xD0, 0x26, 0xE7, 0x58]

/-- The example parser state with the POC history `prev_poc_lsb = 255`, `prev_poc_msb = 0`. -/
def exampleParser255 : HevcParser :=
  { exampleParser with m_slice := { SliceData.zero with prev_poc_lsb := 255 } }

/-- RBSP of `exampleSlice1` with `slice_pic_order_cnt_lsb = 255` instead of 4. -/
def exampleSlice255 : Nat → Nat := memOfList [0xD7, 0xFE, 0xE7, 0x58]

/-- RBSP of `exampleSlice1` with `slice_pic_order_cnt_lsb = 1` instead of 4. -/
def exampleSliceLsb1 : Nat → Nat := memOfList [0xD0, 0x0E, 0xE7, 0x58]

/-- The result of parsing `exampleSlice255` (TRAIL_R) from `exampleParser`, whose POC history
is `prev_poc_lsb = 0`, `prev_poc_msb = 0`. -/
def exampleWrapResult1 : Bool × HevcParser :=
  (ParseSliceHeader exampleEnv exampleParser 1 exampleSlice255).getD (false, exampleParser)

/-- The result of parsing `exampleSliceLsb1` (TRAIL_R) from `exampleParser255`. -/
def exampleWrapResult2 : Bool × HevcParser :=
  (ParseSliceHeader exampleEnv exampleParser255 1 exampleSliceLsb1).getD (false, exampleParser)

/-- The byte whose bits, most significant first, are `b 0, ..., b 7`. -/
def byteOfBits (b : Nat → Nat) : Nat :=
  (List.range 8).foldl (fun acc j => 2 * acc + b j) 0

/-- The byte memory whose bits, most significant bit of byte 0 first, are those of a list of
bits (each 0 or 1), zero bits after its end. -/
def memOfBits (bits : List Nat) : Nat → Nat :=
  fun i => byteOfBits (fun j => bits.getD (8 * i + j) 0)

/-- `ParseSliceHeader`: `int chroma_array_type = sps_ptr->separate_colour_plane_flag ? 0 :
sps_ptr->chroma_format_idc;`. -/
def chromaArrayType (sps : SpsData) : Nat :=
  if sps.separate_colour_plane_flag ≠ 0 then 0 else sps.chroma_format_idc

/-- `ChromaArrayType` in the words of the spec (§3, invariants): 0 if `chroma_format_idc == 3` and
`separate_colour_plane_flag`, otherwise `chroma_format_idc`. -/
def chromaArrayTypeSpec (sps : SpsData) : Nat :=
  if sps.chroma_format_idc = 3 ∧ sps.separate_colour_plane_flag ≠ 0 then 0
  else sps.chroma_format_idc

/-- An SPS RBSP with `chroma_format_idc = 3` and `separate_colour_plane_flag = 1`, for 128x128
luma samples. -/
def exampleSps444Rbsp : Nat → Nat :=
  memOfList [1, 1, 64, 0, 0, 0, 144, 0, 0, 0, 0, 0, 120, 146, 2, 4, 4, 11, 45, 117, 224, 151, 4]

/-- The members of the parser after `ParseSps` of `exampleSps444Rbsp` on `exampleVpsResult`. -/
def exampleSpsTableResult : ParserMembers :=
  (ParseSps exampleEnv exampleVpsResult exampleSps444Rbsp).getD initialParser.mem

/-- Modelled from the spec: a value of the pointer type `PFNVIDSEQUENCECALLBACK` of
`rocparser.h` (spec §6, sequence callback): the callback registered by the client, or the
address of `video_format_params_` converted to the pointer type. -/
inductive SequenceCallbackPtr where
  | client_callback
  | address_of_video_format_params
  deriving DecidableEq

/-- Modelled from the spec: what a call of `ParseVideoData` does outside the members of the
parser (spec §6 and §7): a message passed to the macro `ERR` of `commons.h`, one constructor
for each of the three messages of `ParseVideoData`, `ParseFrameData` and `FillSeqCallbackFn`,
or a call through `pfn_sequece_cb_` with the video format handed over. -/
inductive ParserEffect where
  | err_no_start_code
  | err_parser_failed
  | err_chroma_format_not_supported
  | sequence_callback_call (vf : RocdecVideoFormat)

/-- The effect is a call of the sequence callback. -/
def ParserEffect.isSequenceCallbackCall : ParserEffect → Bool
  | ParserEffect.sequence_callback_call _ => true
  | _ => false

/-- `HEVCVideoParser::FillSeqCallbackFn` with the member `pfn_sequece_cb_` and the effects. The
`default` case of the `switch` passes a message to `ERR` and returns. The last statement,
`pfn_sequece_cb_ = PFNVIDSEQUENCECALLBACK(&video_format_params_);`, converts the address of
the record to the pointer type and stores it in the member; no statement of the function
calls through the member. -/
def FillSeqCallbackFnEffects (vf : RocdecVideoFormat) (pfn_sequece_cb : SequenceCallbackPtr)
    (sps_data : SpsData) : RocdecVideoFormat × SequenceCallbackPtr × List ParserEffect :=
  match fillSeqHead vf sps_data with
  | (vf1, none) => (vf1, pfn_sequece_cb, [ParserEffect.err_chroma_format_not_supported])
  | (vf1, some c) =>
    (fillSeqTail (fillSeqDisplayArea vf1 sps_data c.1 c.2) sps_data,
      SequenceCallbackPtr.address_of_video_format_params, [])

/-- `HEVCVideoParser::ParseVideoData` with the member `pfn_sequece_cb_` and the effects: the
status returned, the parser, the member and the effects in the order in which they occur
(`ParseFrameData` passes a message to `ERR` before it returns `false`). -/
def ParseVideoDataEffects (env : ParseEnv) (st : HEVCVideoParser)
    (pfn_sequece_cb : SequenceCallbackPtr) (payload : Nat → Nat) (payload_size : Nat) :
    Option (rocDecStatus × HEVCVideoParser × SequenceCallbackPtr × List ParserEffect) :=
  match ParseFrameData env st payload payload_size with
  | none => none
  | some r =>
    if r.1 = false then
      some (rocDecStatus.ROCDEC_RUNTIME_ERROR, r.2, pfn_sequece_cb,
        [ParserEffect.err_no_start_code, ParserEffect.err_parser_failed])
    else if r.2.mem.hevc.new_sps_activated then
      let f := FillSeqCallbackFnEffects r.2.mem.video_format_params pfn_sequece_cb
        (r.2.mem.hevc.m_sps r.2.mem.hevc.m_active_sps_id.toNat)
      let hevc1 : HevcParser := { r.2.mem.hevc with new_sps_activated := false }
      some (rocDecStatus.ROCDEC_SUCCESS,
        { r.2 with mem := { r.2.mem with video_format_params := f.1, hevc := hevc1 } },
        f.2.1, f.2.2)
    else some (rocDecStatus.ROCDEC_SUCCESS, r.2, pfn_sequece_cb, [])

/-- A packet of 76 bytes with a VPS, an SPS whose `chroma_format_idc` is 4, a PPS and a TRAIL_R
slice. -/
def exampleChroma4Packet : Nat → Nat :=
  memOfList
    [0, 0, 1, 64, 1, 12, 1, 255, 255, 1, 64, 0, 0, 3, 0, 144, 0, 0, 3, 0, 0, 3, 0, 120, 155, 2, 64,
     0, 0, 1, 66, 1, 1, 1, 64, 0, 0, 3, 0, 144, 0, 0, 3, 0, 0, 3, 0, 120, 148, 4, 8, 8, 22, 90,
     235, 193, 46, 8,
     0, 0, 1, 68, 1, 224, 113, 130, 18,
     0, 0, 1, 2, 1, 208, 38, 231, 88]

/-- A packet of 39 bytes with an SPS of id 0 for 64x64 luma samples and a TRAIL_R slice. -/
def exampleResizePacket : Nat → Nat :=
  memOfList
    [0, 0, 1, 66, 1, 1, 1, 64, 0, 0, 3, 0, 144, 0, 0, 3, 0, 0, 3, 0, 120, 160, 32, 129, 5, 150,
     186, 240, 75, 130,
     0, 0, 1, 2, 1, 208, 38, 231, 88]

/-- The parser after `ParseVideoData` of `examplePacket` on the initial parser. -/
def exampleParserAfterPacket : HEVCVideoParser :=
  ((ParseVideoData exampleEnv initialParser examplePacket 83).getD
    (rocDecStatus.ROCDEC_RUNTIME_ERROR, initialParser)).2

/-- The parser after `ParseFrameData` of `exampleChroma4Packet` on the initial parser. -/
def exampleChroma4Frame : HEVCVideoParser :=
  ((ParseFrameData exampleEnv initialParser exampleChroma4Packet 76).getD
    (false, initialParser)).2

/-- A slice RBSP: `first_slice_segment_in_pic_flag = 1`, `slice_pic_parameter_set_id = 3`,
`slice_type = I`, then the bits `0101` and 1 bits. -/
def exampleSlicePps3 : Nat → Nat :=
  fun i => if i = 0 then 0x91 else if i = 1 then 0xAF else 0xFF

/-- The result of parsing `exampleSlicePps3` as a TRAIL_R slice on the initial parser, whose
tables hold zeros. -/
def exampleNoPpsResult : Bool × HevcParser :=
  (ParseSliceHeader exampleEnv initialParser.mem.hevc 1 exampleSlicePps3).getD
    (true, initialParser.mem.hevc)

/-- A short-term RPS with one negative picture, `delta_poc = -1`, used by the current picture,
as `ParseShortTermRefPicSet` leaves it in explicit mode for `num_negative_pics = 1`,
`num_positive_pics = 0`, `delta_poc_s0_minus1[0] = 0`, `used_by_curr_pic_s0_flag[0] = 1`. -/
def exampleRpsOneNegative : H265ShortTermRPS :=
  { H265ShortTermRPS.zero with
    num_negative_pics := 1
    num_of_pics := 1
    num_of_delta_poc := 1
    delta_poc := fun i => if i = 0 then -1 else 0
    used_by_curr_pic := fun i => if i = 0 then 1 else 0
    used_by_curr_pic_s0_flag := fun i => if i = 0 then 1 else 0 }

/-- The example SPS with one short-term RPS, `exampleRpsOneNegative`. -/
def exampleSpsOneRps : SpsData :=
  { exampleSps with
    num_short_term_ref_pic_sets := 1
    st_rps := fun i => if i = 0 then exampleRpsOneNegative else H265ShortTermRPS.zero }

/-- The example SPS with long-term reference pictures and one candidate:
`lt_ref_pic_poc_lsb_sps[0] = 5`, `used_by_curr_pic_lt_sps_flag[0] = 1`. -/
def exampleSpsLongTerm : SpsData :=
  { exampleSps with
    long_term_ref_pics_present_flag := 1
    num_long_term_ref_pics_sps := 1
    lt_rps :=
      { num_of_pics := 1
        pocs := fun i => if i = 0 then 5 else 0
        used_by_curr_pic := fun i => if i = 0 then 1 else 0 } }

/-- The example SPS with `sps_temporal_mvp_enabled_flag = 1`. -/
def exampleSpsMvp : SpsData := { exampleSps with sps_temporal_mvp_enabled_flag := 1 }

/-- The example PPS with `lists_modification_present_flag = 1`. -/
def examplePpsListMod : PpsData := { examplePps with lists_modification_present_flag := 1 }

/-- The example PPS with `pps_loop_filter_across_slices_enabled_flag = 1` and
`pps_deblocking_filter_disabled_flag = 1`, no override allowed. -/
def examplePpsDeblock : PpsData :=
  { examplePps with
    pps_loop_filter_across_slices_enabled_flag := 1
    pps_deblocking_filter_disabled_flag := 1 }

/-- The example parser state with `sps` in slot 0 of the SPS table and `pps` in slot 0 of the
PPS table. -/
def exampleParserOf (sps : SpsData) (pps : PpsData) : HevcParser :=
  { exampleParser with
    m_sps := fun i => if i = 0 then sps else SpsData.zero
    m_pps := fun i => if i = 0 then pps else PpsData.zero }

/-- The example SPS with a POC LSB of 31 bits: `log2_max_pic_order_cnt_lsb_minus4 = 27`. -/
def exampleSpsPoc31 : SpsData :=
  { exampleSps with log2_max_pic_order_cnt_lsb_minus4 := 27 }

/-- The example parser state with `exampleSpsPoc31` in slot 0 of the SPS table and the POC
history `prev_poc_lsb`, `prev_poc_msb = 0`. -/
def exampleParserPoc31 (prev_poc_lsb : Int) : HevcParser :=
  { exampleParserOf exampleSpsPoc31 examplePps with
    m_slice := { SliceData.zero with prev_poc_lsb := prev_poc_lsb } }

/-- RBSP of `exampleSlice1` with `slice_pic_order_cnt_lsb = 3` coded in 31 bits. -/
def exampleSlicePoc31a : Nat → Nat := memOfList [0xD0, 0x00, 0x00, 0x00, 0x3D, 0xCE, 0xB0]

/-- RBSP of `exampleSlice1` with `slice_pic_order_cnt_lsb = 7` coded in 31 bits. -/
def exampleSlicePoc31b : Nat → Nat := memOfList [0xD0, 0x00, 0x00, 0x00, 0x7D, 0xCE, 0xB0]

/-- RBSP of a P slice (TRAIL_R) with an RPS coded in the slice header by prediction from the
SPS entry 0: `first_slice_segment_in_pic_flag = 1`, `slice_pic_parameter_set_id = 0`,
`slice_type = P`, `slice_pic_order_cnt_lsb = 4`, `short_term_ref_pic_set_sps_flag = 0`,
`inter_ref_pic_set_prediction_flag = 1`, `delta_idx_minus1 = 0`, `delta_rps_sign = 1`,
`abs_delta_rps_minus1 = 0`, `used_by_curr_pic_flag = 1, 1`,
`num_ref_idx_active_override_flag = 0`, `ref_pic_list_modification_flag_l0 = 1`,
`list_entry_l0[0] = 0`, `five_minus_max_num_merge_cand = 0`, `slice_qp_delta = -3`,
`num_entry_point_offsets = 0`. -/
def exampleSliceInterRps : Nat → Nat := memOfList [0xD0, 0x23, 0xF5, 0x3E]

/-- RBSP of a P slice (TRAIL_R) that takes its RPS from the SPS:
`first_slice_segment_in_pic_flag = 1`, `slice_pic_parameter_set_id = 0`, `slice_type = P`,
`slice_pic_order_cnt_lsb = 4`, `short_term_ref_pic_set_sps_flag = 1`,
`num_ref_idx_active_override_flag = 1`, `num_ref_idx_l0_active_minus1 = 2`,
`five_minus_max_num_merge_cand = 0`, `slice_qp_delta = -3`, `num_entry_point_offsets = 0`, then
the stop bit. -/
def exampleSliceSpsRps : Nat → Nat := memOfList [0xD0, 0x26, 0xE7, 0xC0]

/-- RBSP of a P slice (TRAIL_R) with one long-term picture taken from the SPS: as
`exampleSliceSpsRps`, with `num_long_term_sps = 1`, `num_long_term_pics = 0` and
`delta_poc_msb_present_flag[0] = 0` after `short_term_ref_pic_set_sps_flag`. -/
def exampleSliceLongTerm : Nat → Nat := memOfList [0xD0, 0x25, 0x57, 0x3E]

/-- RBSP of a P slice (TRAIL_R) with temporal motion vector prediction: as
`exampleSliceSpsRps`, with `slice_temporal_mvp_enabled_flag = 1` after
`short_term_ref_pic_set_sps_flag` and `collocated_ref_idx = 1` before
`five_minus_max_num_merge_cand`. -/
def exampleSliceCollocated : Nat → Nat := memOfList [0xD0, 0x27, 0x6A, 0x7C]

/-- RBSP of a P slice (TRAIL_R) with a modified reference picture list:
`first_slice_segment_in_pic_flag = 1`, `slice_pic_parameter_set_id = 0`, `slice_type = P`,
`slice_pic_order_cnt_lsb = 4`, `short_term_ref_pic_set_sps_flag = 0`, `num_negative_pics = 2`,
`num_positive_pics = 0`, `delta_poc_s0_minus1 = 0, 0`, `used_by_curr_pic_s0_flag = 1, 1`,
`num_ref_idx_active_override_flag = 1`, `num_ref_idx_l0_active_minus1 = 1`,
`ref_pic_list_modification_flag_l0 = 1`, `list_entry_l0 = 0, 1`,
`five_minus_max_num_merge_cand = 0`, `slice_qp_delta = -3`, `num_entry_point_offsets = 0`. -/
def exampleSliceListEntries : Nat → Nat := memOfList [0xD0, 0x21, 0xFE, 0xAC, 0xF8]

/-- The local `poc` of the explicit branch of `ParseShortTermRefPicSet` after `n` iterations
of one of its two loops over the code words `a`: `prev = 0` at the start, and each iteration
computes `poc = prev + sign * (a[j] + 1)` in `int32_t` (`sign` is -1 in the `DeltaPocS0` loop
and 1 in the `DeltaPocS1` loop). -/
def stRpsRunningPoc (sign : Int) (a : Nat → Nat) : Nat → Int
  | 0 => 0
  | n + 1 => wrapInt32 (stRpsRunningPoc sign a n + sign * ((a n : Int) + 1))

/-- RBSP of a short-term RPS coded explicitly: `num_negative_pics = 2`,
`num_positive_pics = 1`, `delta_poc_s0_minus1 = 0, 2` with `used_by_curr_pic_s0_flag = 1, 0`,
`delta_poc_s1_minus1 = 4` with `used_by_curr_pic_s1_flag = 1`. -/
def exampleRpsExplicit : Nat → Nat := memOfList [0x6B, 0x62, 0xE0]

/-- RBSP of a short-term RPS coded explicitly whose sums leave the range of `int32_t`:
`num_negative_pics = 2`, `num_positive_pics = 0`, `delta_poc_s0_minus1 = 2^31 - 2, 1` (the
first code word has 30 leading zero bits), both `used_by_curr_pic_s0_flag = 1`. -/
def exampleRpsExplicitWrap : Nat → Nat :=
  memOfList [0x70, 0x00, 0x00, 0x00, 0x3F, 0xFF, 0xFF, 0xFF, 0xD6]

/-- The result of parsing `exampleRpsExplicit` as the RPS of index 0. -/
def exampleRpsExplicitResult : H265ShortTermRPS × Nat :=
  (ParseShortTermRefPicSet 64 H265ShortTermRPS.zero 0 1 (fun _ => H265ShortTermRPS.zero)
    exampleRpsExplicit 0).getD (H265ShortTermRPS.zero, 0)

/-- The state of the `DeltaPocS0` loop before iteration `i`, started on `rps0`. -/
def stRpsS0Inv (rps0 : H265ShortTermRPS) (i : Nat) (t : H265ShortTermRPS × Int × Nat) : Prop :=
  t.1.inter_ref_pic_set_prediction_flag = rps0.inter_ref_pic_set_prediction_flag ∧
  t.1.num_negative_pics = rps0.num_negative_pics ∧
  t.1.num_positive_pics = rps0.num_positive_pics ∧
  t.2.1 = stRpsRunningPoc (-1) t.1.delta_poc_s0_minus1 i ∧
  (∀ k, k < i → t.1.delta_poc k = stRpsRunningPoc (-1) t.1.delta_poc_s0_minus1 (k + 1)) ∧
  (∀ k, k < i → t.1.used_by_curr_pic k = t.1.used_by_curr_pic_s0_flag k)

/-- The state of the `DeltaPocS1` loop before iteration `i`, started on `rps0`. -/
def stRpsS1Inv (rps0 : H265ShortTermRPS) (i : Nat) (t : H265ShortTermRPS × Int × Nat) : Prop :=
  t.1.inter_ref_pic_set_prediction_flag = rps0.inter_ref_pic_set_prediction_flag ∧
  t.1.num_negative_pics = rps0.num_negative_pics ∧
  t.1.num_positive_pics = rps0.num_positive_pics ∧
  t.1.delta_poc_s0_minus1 = rps0.delta_poc_s0_minus1 ∧
  t.1.used_by_curr_pic_s0_flag = rps0.used_by_curr_pic_s0_flag ∧
  (∀ k, k < rps0.num_negative_pics → t.1.delta_poc k = rps0.delta_poc k) ∧
  (∀ k, k < rps0.num_negative_pics → t.1.used_by_curr_pic k = rps0.used_by_curr_pic k) ∧
  t.2.1 = stRpsRunningPoc 1 t.1.delta_poc_s1_minus1 i ∧
  (∀ k, k < i → t.1.delta_poc (rps0.num_negative_pics + k)
    = stRpsRunningPoc 1 t.1.delta_poc_s1_minus1 (k + 1)) ∧
  (∀ k, k < i → t.1.used_by_curr_pic (rps0.num_negative_pics + k)
    = t.1.used_by_curr_pic_s1_flag k)

/-- The members of an RPS that are read before the flags of the prediction mode. -/
def stRpsHead (rps : H265ShortTermRPS) : Nat × Nat × Nat × Nat :=
  (rps.inter_ref_pic_set_prediction_flag, rps.delta_idx_minus1, rps.delta_rps_sign,
    rps.abs_delta_rps_minus1)

/-- The candidates of the first half of the synthesis of `ParseShortTermRefPicSet` (the
pictures with a negative `delta_poc`), in the order of the three statements: value, sign test
and index of the flags. -/
def stRpsNegCandidates (ref : H265ShortTermRPS) (delta_rps : Int) : List (Int × Bool × Nat) :=
  ((List.range ref.num_positive_pics).reverse.map (fun j =>
      (wrapInt32 (delta_rps + ref.delta_poc (ref.num_negative_pics + j)),
        decide (wrapInt32 (delta_rps + ref.delta_poc (ref.num_negative_pics + j)) < 0),
        ref.num_negative_pics + j)))
    ++ ((delta_rps, decide (delta_rps < 0), ref.num_of_pics)
    :: (List.range ref.num_negative_pics).map (fun j =>
      (wrapInt32 (delta_rps + ref.delta_poc j),
        decide (wrapInt32 (delta_rps + ref.delta_poc j) < 0), j)))

/-- The candidates of the second half of the synthesis (the pictures with a positive
`delta_poc`). -/
def stRpsPosCandidates (ref : H265ShortTermRPS) (delta_rps : Int) : List (Int × Bool × Nat) :=
  ((List.range ref.num_negative_pics).reverse.map (fun j =>
      (wrapInt32 (delta_rps + ref.delta_poc j),
        decide (wrapInt32 (delta_rps + ref.delta_poc j) > 0), j)))
    ++ ((delta_rps, decide (delta_rps > 0), ref.num_of_pics)
    :: (List.range ref.num_positive_pics).map (fun j =>
      (wrapInt32 (delta_rps + ref.delta_poc (ref.num_negative_pics + j)),
        decide (wrapInt32 (delta_rps + ref.delta_poc (ref.num_negative_pics + j)) > 0),
        ref.num_negative_pics + j)))

/-- The statements of the synthesis for a list of candidates, one after the other. -/
def stRpsTakeAll (L : List (Int × Bool × Nat)) (s : H265ShortTermRPS × Nat) :
    H265ShortTermRPS × Nat :=
  L.foldl (fun t c => stRpsTake c.1 c.2.1 c.2.2 t) s

/-- The entries `lo .. hi - 1` of `f` have the sign `sg` and grow strictly in absolute
value. -/
def stRpsSorted (sg : Int) (f : Nat → Int) (lo hi : Nat) : Prop :=
  (∀ k, lo ≤ k → k < hi → 0 < sg * f k) ∧
  (∀ k l, lo ≤ k → k < l → l < hi → sg * f k < sg * f l)

/-- RBSP of a short-term RPS coded explicitly, with an entry near the end of the range of
`int32_t`: `num_negative_pics = 1`, `num_positive_pics = 1`, `delta_poc_s0_minus1 = 2^31 - 2`,
`delta_poc_s1_minus1 = 4`, both flags set. -/
def exampleRpsExplicitBig : Nat → Nat :=
  memOfList [0x48, 0x00, 0x00, 0x00, 0x0F, 0xFF, 0xFF, 0xFF, 0xF2, 0xE0]

/-- RBSP of a short-term RPS coded by prediction: `inter_ref_pic_set_prediction_flag = 1`,
`delta_rps_sign = 1`, `abs_delta_rps_minus1 = 1` (`delta_rps = -2`), then four flags
`used_by_curr_pic_flag = 1`. -/
def exampleRpsInter : Nat → Nat := memOfList [0xD7, 0xC0]

/-- A table of reference sets whose entry 0 is the result of parsing `exampleRpsExplicit`:
`delta_poc = -1, -4, 5`. -/
def exampleRpsRefTable : Nat → H265ShortTermRPS :=
  fun i => if i = 0 then exampleRpsExplicitResult.1 else H265ShortTermRPS.zero

/-- A table of reference sets whose entry 0 is the result of parsing `exampleRpsExplicitBig`:
`delta_poc = -(2^31 - 1), 5`. -/
def exampleRpsRefTableBig : Nat → H265ShortTermRPS :=
  fun i => if i = 0 then
    ((ParseShortTermRefPicSet 64 H265ShortTermRPS.zero 0 2 (fun _ => H265ShortTermRPS.zero)
      exampleRpsExplicitBig 0).getD (H265ShortTermRPS.zero, 0)).1
  else H265ShortTermRPS.zero

/-- The result of parsing `exampleRpsInter` as the RPS of index 1 of 2, predicted from
`exampleRpsRefTable`. -/
def exampleRpsInterResult : H265ShortTermRPS × Nat :=
  (ParseShortTermRefPicSet 64 H265ShortTermRPS.zero 1 2 exampleRpsRefTable exampleRpsInter 0).getD
    (H265ShortTermRPS.zero, 0)

/-- The reference set is well formed: its first `num_negative_pics` entries are below 0 and
strictly decreasing, the following `num_positive_pics` entries above 0 and strictly
increasing. -/
def stRpsWellFormed (ref : H265ShortTermRPS) : Prop :=
  (∀ i, i < ref.num_negative_pics → ref.delta_poc i < 0) ∧
  (∀ j, j < ref.num_negative_pics → ∀ i, i < j → ref.delta_poc j < ref.delta_poc i) ∧
  (∀ i, i < ref.num_positive_pics → 0 < ref.delta_poc (ref.num_negative_pics + i)) ∧
  (∀ j, j < ref.num_positive_pics → ∀ i, i < j →
    ref.delta_poc (ref.num_negative_pics + i) < ref.delta_poc (ref.num_negative_pics + j))

/-- The values of `n` successive `se(v)` code words from bit position `pos`, as
`Parser::ExpGolomb::ReadSe` returns them, and the position after the last one. -/
def readSeList (fuel : Nat) (nalu : Nat → Nat) : Nat → Nat → Option (List Int × Nat)
  | 0, pos => some ([], pos)
  | n + 1, pos =>
    match ReadSeInt fuel nalu pos with
    | none => none
    | some (v, p) =>
      match readSeList fuel nalu n p with
      | none => none
      | some (l, q) => some (v :: l, q)

/-- Scaling list, explicit mode, in the words of the spec (§4.4, Scaling list): what is coded
for one matrix from bit position `pos`. For `size_id > 1` the code word `dc_coef_minus8` gives
the start value `dc_coef_minus8 + 8`, otherwise the start value is 8; then the code words of
the `coef_num` deltas follow. The result is the start value, the deltas and the position after
them. -/
def scalingListInputs (fuel : Nat) (size_id : Nat) (nalu : Nat → Nat) (pos : Nat) :
    Option (Int × List Int × Nat) :=
  if size_id > 1 then
    match ReadSeInt fuel nalu pos with
    | none => none
    | some (dc, p) =>
      match readSeList fuel nalu (scalingListCoefNum size_id) p with
      | none => none
      | some (l, q) => some (dc + 8, l, q)
  else
    match readSeList fuel nalu (scalingListCoefNum size_id) pos with
    | none => none
    | some (l, q) => some (8, l, q)

/-- The scan table that `ParseScalingList` uses for `size_id`: `diag_scan_4x4` for
`size_id == 0`, `diag_scan_8x8` otherwise. -/
def scalingListScan (size_id : Nat) : List Nat :=
  if size_id = 0 then diag_scan_4x4 else diag_scan_8x8

/-- The local `next_coef` of the explicit branch of `ParseScalingList` after `i` iterations of
the coefficient loop over the deltas `ds`, from the start value `start`:
`next_coef = (next_coef + scaling_list_delta_coef + 256) % 256`, with the remainder of C. -/
def scalingListNextCoef (start : Int) (ds : List Int) : Nat → Int
  | 0 => start
  | i + 1 => Int.tmod (scalingListNextCoef start ds i + ds.getD i 0 + 256) 256

/-- The state of the coefficient loop of the explicit branch before iteration `i`: `ds` are
the deltas coded from the start of the loop, `q` is the position after them, `sl0` the record
and `start` the value of `next_coef` at the start of the loop. -/
def scalingListCoefInv (fuel : Nat) (size_id matrix_id : Nat) (nalu : Nat → Nat)
    (sl0 : H265ScalingListData) (start : Int) (ds : List Int) (q : Nat) (i : Nat)
    (t : (H265ScalingListData × Int) × Nat) : Prop :=
  readSeList fuel nalu (scalingListCoefNum size_id - i) t.2 = some (ds.drop i, q) ∧
  t.1.2 = scalingListNextCoef start ds i ∧
  (∀ k, k < i → t.1.1.scaling_list size_id (matrix_id : Int)
    ((scalingListScan size_id).getD k 0) = scalingListNextCoef start ds (k + 1)) ∧
  t.1.1.scaling_list_pred_mode_flag = sl0.scaling_list_pred_mode_flag ∧
  t.1.1.scaling_list_dc_coef_minus8 = sl0.scaling_list_dc_coef_minus8 ∧
  (∀ s m p, ¬(s = size_id ∧ m = (matrix_id : Int)) →
    t.1.1.scaling_list s m p = sl0.scaling_list s m p)

/-- The statements of `ParseScalingList` for one matrix, the body of the loop over
`matrix_id`; `k` counts the iterations, `matrix_id = k * (size_id == 3 ? 3 : 1)`. -/
def scalingListMatrix (fuel : Nat) (nalu : Nat → Nat) (size_id k : Nat) :
    List (Step H265ScalingListData) :=
  let matrix_id := k * (if size_id = 3 then 3 else 1)
  [ stepFlag (fun sl v =>
      { sl with
        scaling_list_pred_mode_flag :=
          setAt sl.scaling_list_pred_mode_flag size_id
            (setAt (sl.scaling_list_pred_mode_flag size_id) matrix_id v) }) nalu,
    stepIf (fun sl => sl.scaling_list_pred_mode_flag size_id matrix_id == 0) [
      stepUe fuel (fun sl v =>
        { sl with
          scaling_list_pred_matrix_id_delta :=
            setAt sl.scaling_list_pred_matrix_id_delta size_id
              (setAt (sl.scaling_list_pred_matrix_id_delta size_id) matrix_id v) }) nalu,
      stepIf (fun sl => sl.scaling_list_pred_matrix_id_delta size_id matrix_id != 0) [
        stepSet (scalingListInfer size_id matrix_id)] []] [
      stepSub (fun sl => (sl, (0 : Int))) (fun _ x => x.1)
        (scalingListCoefs fuel size_id matrix_id nalu)]]

/-- The part of `ParseScalingList` that runs before the matrix `k` of `size_id`: the
iterations of the outer loop below `size_id` and those of the inner loop below `k`. -/
def scalingListBefore (fuel : Nat) (nalu : Nat → Nat) (size_id k : Nat) :
    Step H265ScalingListData :=
  runSteps [
    stepFor 0 (fun _ => size_id) (fun size_id1 => [
      stepFor 0 (fun _ => if size_id1 = 3 then 2 else 6)
        (scalingListMatrix fuel nalu size_id1)]),
    stepFor 0 (fun _ => k) (scalingListMatrix fuel nalu size_id)]

/-- RBSP of a scaling list: every matrix has `scaling_list_pred_mode_flag = 0` and
`scaling_list_pred_matrix_id_delta = 0`, except the matrix 1 of `size_id = 2`, coded explicitly
with `scaling_list_dc_coef_minus8 = 8` and the deltas -20, 5, 0, ..., 0. -/
def exampleScalingList : Nat → Nat :=
  memOfList [0x55, 0x55, 0x55, 0x61, 0x00, 0x52, 0x2B, 0xFF, 0xFF, 0xFF, 0xFF, 0xFF, 0xFF,
    0xFF, 0xF5, 0x55, 0x80]

/-- RBSP of a scaling list as `exampleScalingList`, with `scaling_list_dc_coef_minus8 = -1000`
and 64 deltas 0 for the matrix 1 of `size_id = 2`. -/
def exampleScalingListLowDc : Nat → Nat :=
  memOfList [0x55, 0x55, 0x55, 0x60, 0x07, 0xD1, 0xFF, 0xFF, 0xFF, 0xFF, 0xFF, 0xFF, 0xFF,
    0xFF, 0x55, 0x58]

/-- The result of `ParseScalingList` on `exampleScalingList`, from a zeroed record. -/
def exampleScalingListResult : H265ScalingListData × Nat :=
  (ParseScalingList 64 1 exampleScalingList (H265ScalingListData.zero, 0)).getD
    (H265ScalingListData.zero, 0)

/-- The state before the matrix 1 of `size_id = 2` when `exampleScalingList` is parsed. -/
def exampleScalingListBefore : H265ScalingListData × Nat :=
  (scalingListBefore 64 exampleScalingList 2 1 (H265ScalingListData.zero, 0)).getD
    (H265ScalingListData.zero, 0)

/-- The start value and the deltas coded in `exampleScalingList` for the matrix 1 of
`size_id = 2`. -/
def exampleScalingListInputs : Int × List Int × Nat :=
  (scalingListInputs 64 2 exampleScalingList (exampleScalingListBefore.2 + 1)).getD (0, [], 0)

/-- The part of the scaling list data that belongs to one matrix: its coefficients and its
`scaling_list_pred_mode_flag`. -/
def scalingListRow (size_id matrix_id : Nat) (sl : H265ScalingListData) : (Nat → Int) × Nat :=
  (sl.scaling_list size_id (matrix_id : Int), sl.scaling_list_pred_mode_flag size_id matrix_id)

end RocDecode

namespace RocDecode

/-! ## Theorems on the bit reader -/

theorem bitAt_le_one (data : Nat → Nat) (p : Nat) : bitAt data p ≤ 1 := by
  unfold bitAt
  exact Nat.and_le_right

theorem bitsVal_lt (data : Nat → Nat) (k : Nat) : ∀ p, bitsVal data p k < 2 ^ k := by
  induction k with
  | zero => intro p; simp [bitsVal]
  | succ k ih =>
    intro p
    have h1 := bitAt_le_one data p
    have h2 := ih (p + 1)
    have h3 : bitAt data p * 2 ^ k ≤ 1 * 2 ^ k := Nat.mul_le_mul_right _ h1
    simp only [bitsVal, pow_succ]
    omega

theorem bitsVal_add (data : Nat → Nat) (a b : Nat) :
    ∀ p, bitsVal data p (a + b) = bitsVal data p a * 2 ^ b + bitsVal data (p + a) b := by
  induction a with
  | zero => intro p; simp [bitsVal]
  | succ a ih =>
    intro p
    have e : a + 1 + b = (a + b) + 1 := by omega
    rw [e]
    simp only [bitsVal]
    rw [ih (p + 1)]
    have e2 : p + 1 + a = p + (a + 1) := by omega
    rw [e2, pow_add]
    ring

theorem ReadBitsLoop_eq (data : Nat → Nat) (k : Nat) :
    ∀ m acc idx, acc < 2 ^ m → m + k ≤ 32 →
      ReadBitsLoop data k acc idx = (acc * 2 ^ k + bitsVal data idx k, idx + k) := by
  induction k with
  | zero => intro m acc idx _ _; simp [ReadBitsLoop, bitsVal]
  | succ k ih =>
    intro m acc idx hacc hm
    have hb := bitAt_le_one data idx
    have h2 : acc * 2 < 2 ^ (m + 1) := by rw [pow_succ]; omega
    have h3 : (2 : Nat) ^ (m + 1) ≤ 2 ^ 32 := Nat.pow_le_pow_right (by decide) (by omega)
    have hshift : (acc <<< 1) % U32 = acc * 2 := by
      rw [Nat.shiftLeft_eq, pow_one]
      exact Nat.mod_eq_of_lt (by unfold U32; omega)
    have hor : acc * 2 ||| bitAt data idx = acc * 2 + bitAt data idx := by
      have := Nat.mul_add_lt_is_or (i := 1) (b := bitAt data idx) (by omega) acc
      rw [pow_one] at this
      rw [Nat.mul_comm acc 2]
      exact this.symm
    have hnew : acc * 2 + bitAt data idx < 2 ^ (m + 1) := by rw [pow_succ]; omega
    simp only [ReadBitsLoop, GetBitToUint32, hshift]
    change ReadBitsLoop data k (acc * 2 ||| bitAt data idx) (idx + 1) = _
    rw [hor, ih (m + 1) _ _ hnew (by omega)]
    simp only [bitsVal, pow_succ]
    refine Prod.ext ?_ ?_
    · simp only; ring
    · simp only; omega

theorem ReadBits_eq (data : Nat → Nat) (p n : Nat) (h : n ≤ 32) :
    ReadBits data p n = (bitsVal data p n, p + n) := by
  unfold ReadBits
  rw [if_neg (by omega), ReadBitsLoop_eq data n 0 0 p (by decide) (by omega)]
  simp

/-- C7. Bit-accuracy of `ReadBits`: reading `a` bits at `p` and then `b` bits at the cursor
left by the first read (which is `p + a`) gives `x` and `y` with `x * 2^b + y` equal to one
read of `a + b` bits at `p`, whenever `a + b ≤ 32`; both ways leave the cursor at
`p + a + b`; and a one-bit read is `(bytes[p/8] >> (7 - p%8)) & 1`. -/
theorem ReadBits_split (data : Nat → Nat) (p a b : Nat) (h : a + b ≤ 32) :
    (ReadBits data p a).2 = p + a ∧
    (ReadBits data p a).1 * 2 ^ b + (ReadBits data (p + a) b).1 = (ReadBits data p (a + b)).1 ∧
    (ReadBits data (ReadBits data p a).2 b).2 = p + a + b ∧
    (ReadBits data p (a + b)).2 = p + a + b ∧
    (ReadBits data p 1).1 = (data (p / 8) >>> (7 - p % 8)) &&& 1 := by
  rw [ReadBits_eq data p a (by omega), ReadBits_eq data (p + a) b (by omega),
    ReadBits_eq data p (a + b) h, ReadBits_eq data p 1 (by omega)]
  refine ⟨rfl, (bitsVal_add data a b p).symm, by simp [Nat.add_assoc], by simp [Nat.add_assoc], ?_⟩
  simp [bitsVal, bitAt]

theorem ReadBits_split_witness :
    5 + 7 ≤ 32 ∧
    (ReadBits (memOfList [0xA5, 0x3C]) 3 5).1 * 2 ^ 7
        + (ReadBits (memOfList [0xA5, 0x3C]) (3 + 5) 7).1
      = (ReadBits (memOfList [0xA5, 0x3C]) 3 (5 + 7)).1 :=
  ⟨by decide, (ReadBits_split (memOfList [0xA5, 0x3C]) 3 5 7 (by decide)).2.1⟩

theorem CountZeroLoop_run (data : Nat → Nat) (k : Nat) :
    ∀ fuel q, (∀ i, i < k → bitAt data (q + i) = 0) → bitAt data (q + k) = 1 → k < fuel →
      CountZeroLoop data fuel q = some (q + k + 1) := by
  induction k with
  | zero =>
    intro fuel q _ h1 hf
    obtain ⟨f, rfl⟩ : ∃ f, fuel = f + 1 := ⟨fuel - 1, by omega⟩
    have h1' : (data (q / 8) >>> (7 - q % 8)) &&& 1 = 1 := by simpa [bitAt] using h1
    simp [CountZeroLoop, GetBit, h1']
  | succ k ih =>
    intro fuel q h0 h1 hf
    obtain ⟨f, rfl⟩ : ∃ f, fuel = f + 1 := ⟨fuel - 1, by omega⟩
    have hq : (data (q / 8) >>> (7 - q % 8)) &&& 1 = 0 := by
      simpa [bitAt] using h0 0 (by omega)
    have := ih f (q + 1) (fun i hi => by
      have := h0 (i + 1) (by omega)
      rwa [show q + 1 + i = q + (i + 1) by omega]) (by
      rwa [show q + 1 + k = q + (k + 1) by omega]) (by omega)
    simp only [CountZeroLoop, GetBit, hq]
    simp only [bne_self_eq_false, beq_self_eq_true, if_true]
    rw [this]
    congr 1
    omega

theorem CountZeroLoop_mono (data : Nat → Nat) (fuel : Nat) :
    ∀ q r k, CountZeroLoop data fuel q = some r → CountZeroLoop data (fuel + k) q = some r := by
  induction fuel with
  | zero => intro q r k h; simp [CountZeroLoop] at h
  | succ f ih =>
    intro q r k h
    rw [show f + 1 + k = (f + k) + 1 by omega]
    simp only [CountZeroLoop] at h ⊢
    split at h
    · rename_i hb
      rw [if_pos hb]
      exact ih _ _ _ h
    · rename_i hb
      rw [if_neg hb]
      exact h

theorem bitsVal_of_shift (data : Nat → Nat) (m k : Nat) :
    ∀ q, (∀ j, j < k → bitAt data (q + j) = (m >>> (k - 1 - j)) &&& 1) →
      bitsVal data q k = m % 2 ^ k := by
  induction k with
  | zero => intro q _; simp [bitsVal, Nat.mod_one]
  | succ k ih =>
    intro q h
    have h0 := h 0 (by omega)
    have hrest := ih (q + 1) (fun j hj => by
      have := h (j + 1) (by omega)
      rw [show q + 1 + j = q + (j + 1) by omega, this]
      congr 2
      omega)
    simp only [bitsVal, hrest]
    rw [Nat.add_zero] at h0
    rw [h0, Nat.mod_pow_succ, Nat.shiftRight_eq_div_pow, Nat.and_one_is_mod]
    simp only [Nat.add_sub_cancel, Nat.sub_zero]
    rw [Nat.mul_comm, Nat.add_comm]

theorem encodeUe_length (n : Nat) : (encodeUe n).length = 2 * Nat.log2 (n + 1) + 1 := by
  simp [encodeUe]; omega

theorem encodeUe_zero_part (n i : Nat) (h : i < Nat.log2 (n + 1)) : (encodeUe n).getD i 0 = 0 := by
  simp only [encodeUe, List.getD_eq_getElem?_getD]
  rw [List.getElem?_append_left (by simpa using h)]
  simp [h]

theorem encodeUe_value_part (n j : Nat) (h : j ≤ Nat.log2 (n + 1)) :
    (encodeUe n).getD (Nat.log2 (n + 1) + j) 0 = ((n + 1) >>> (Nat.log2 (n + 1) - j)) &&& 1 := by
  simp only [encodeUe, List.getD_eq_getElem?_getD]
  rw [List.getElem?_append_right (by simp)]
  simp only [List.length_replicate, Nat.add_sub_cancel_left]
  rw [List.getElem?_map, List.getElem?_range (by omega)]
  simp

theorem ReadUe_of_placed (data : Nat → Nat) (p n fuel : Nat) (hn : n ≤ 2 ^ 31 - 2)
    (hplaced : bitsPlacedAt data p (encodeUe n)) (hfuel : Nat.log2 (n + 1) < fuel) :
    ReadUe fuel data p = some (n, p + (2 * Nat.log2 (n + 1) + 1)) := by
  have hlen := encodeUe_length n
  have hlo : 2 ^ Nat.log2 (n + 1) ≤ n + 1 := Nat.log2_self_le (by omega)
  have hhi : n + 1 < 2 ^ (Nat.log2 (n + 1) + 1) := Nat.lt_log2_self
  generalize hz : Nat.log2 (n + 1) = z at *
  have hz30 : z ≤ 30 := by
    by_contra hc
    have : (2 : Nat) ^ 31 ≤ 2 ^ z := Nat.pow_le_pow_right (by decide) (by omega)
    omega
  have hzero : ∀ i, i < z → bitAt data (p + i) = 0 := fun i hi => by
    rw [hplaced i (by omega)]
    exact encodeUe_zero_part n i (by omega)
  have hval : ∀ j, j ≤ z → bitAt data (p + z + j) = ((n + 1) >>> (z - j)) &&& 1 := fun j hj => by
    rw [Nat.add_assoc, hplaced (z + j) (by omega)]
    have := encodeUe_value_part n j (by omega)
    rwa [hz] at this
  have hone : bitAt data (p + z) = 1 := by
    have := hval 0 (by omega)
    rw [Nat.add_zero, Nat.sub_zero, Nat.shiftRight_eq_div_pow, Nat.and_one_is_mod] at this
    rw [this]
    have : (n + 1) / 2 ^ z = 1 := by
      apply Nat.div_eq_of_lt_le
      · simpa using hlo
      · rw [pow_succ] at hhi; omega
    rw [this]
  have hcount := CountZeroLoop_run data z fuel p hzero hone hfuel
  have hbits : bitsVal data (p + z + 1) z = (n + 1) % 2 ^ z :=
    bitsVal_of_shift data (n + 1) z (p + z + 1) (fun j hj => by
      have := hval (j + 1) (by omega)
      rw [show p + z + 1 + j = p + z + (j + 1) by omega, this]
      congr 2
      omega)
  have hmod : (n + 1) % 2 ^ z = n + 1 - 2 ^ z := by
    rw [Nat.mod_eq_sub_mod hlo]
    exact Nat.mod_eq_of_lt (by rw [pow_succ] at hhi; omega)
  have hpow : (2 : Nat) ^ z ≤ 2 ^ 30 := Nat.pow_le_pow_right (by decide) hz30
  simp only [ReadUe, CountContiniusZeroBits, hcount]
  simp only [Nat.add_sub_cancel, Nat.add_sub_cancel_left]
  rw [if_neg (by omega), ReadBits_eq data _ z (by omega), hbits, hmod]
  simp only [Nat.shiftLeft_eq, Nat.one_mul, U32]
  have h1 : (2 ^ z - 1) % 2 ^ 32 = 2 ^ z - 1 := Nat.mod_eq_of_lt (by omega)
  rw [h1]
  have h2 : (2 ^ z - 1 + (n + 1 - 2 ^ z)) = n := by omega
  rw [h2, Nat.mod_eq_of_lt (by omega)]
  congr 2
  omega

theorem ReadUe_mono (data : Nat → Nat) (fuel k q : Nat) (r : Nat × Nat)
    (h : ReadUe fuel data q = some r) : ReadUe (fuel + k) data q = some r := by
  unfold ReadUe CountContiniusZeroBits at h ⊢
  cases hc : CountZeroLoop data fuel q with
  | none => simp [hc] at h
  | some idx =>
    rw [CountZeroLoop_mono data fuel q idx k hc]
    rw [hc] at h
    exact h

theorem ReadUe_le (data : Nat → Nat) (fuel p ue q : Nat)
    (h : ReadUe fuel data p = some (ue, q)) : ue ≤ 2 ^ 31 - 2 := by
  unfold ReadUe at h
  cases hc : CountContiniusZeroBits fuel data p with
  | none => simp [hc] at h
  | some zr =>
    obtain ⟨z, idx⟩ := zr
    simp only [hc] at h
    by_cases hz : z > 30
    · rw [if_pos hz] at h
      simp only [Option.some.injEq, Prod.mk.injEq] at h
      omega
    · rw [if_neg hz, ReadBits_eq data _ z (by omega)] at h
      simp only [Option.some.injEq, Prod.mk.injEq] at h
      have hb := bitsVal_lt data z (idx + 1)
      have hpow : (2 : Nat) ^ z ≤ 2 ^ 30 := Nat.pow_le_pow_right (by decide) (by omega)
      have hpos : 0 < 2 ^ z := Nat.pow_pos (by decide)
      rw [Nat.shiftLeft_eq, Nat.one_mul] at h
      have h1 : (2 ^ z - 1) % U32 = 2 ^ z - 1 := Nat.mod_eq_of_lt (by unfold U32; omega)
      rw [h1, Nat.mod_eq_of_lt (by unfold U32; omega)] at h
      omega

theorem toInt32_SeFromUe (ue : Nat) (h : ue ≤ 2 ^ 31 - 2) :
    toInt32 (SeFromUe ue) =
      if ue % 2 = 0 then -((ue / 2 : Nat) : Int) else (((ue + 1) / 2 : Nat) : Int) := by
  unfold SeFromUe toInt32 U32
  simp only [beq_iff_eq]
  split_ifs <;> omega

/-- C5 (as amended). Unsigned Exp-Golomb round trip: for every `n` in `[0, 2^31 - 2]`, when
the canonical code word of `n` (`z = floor(log2(n+1))` zero bits, then the `z+1`-bit binary
form of `n+1`) is stored at any bit offset `p` of a buffer, `ReadUe` returns `n` and leaves
the cursor at `p + 2z + 1`; the zero-counting loop needs `z + 1` iterations. -/
theorem ReadUe_roundtrip (data : Nat → Nat) (p n fuel : Nat) (hn : n ≤ 2 ^ 31 - 2)
    (hplaced : bitsPlacedAt data p (encodeUe n)) (hfuel : Nat.log2 (n + 1) < fuel) :
    ReadUe fuel data p = some (n, p + (2 * Nat.log2 (n + 1) + 1)) :=
  ReadUe_of_placed data p n fuel hn hplaced hfuel

theorem ReadUe_roundtrip_witness :
    (5 ≤ 2 ^ 31 - 2 ∧ bitsPlacedAt (memOfList [0xE1, 0x9F]) 5 (encodeUe 5) ∧ Nat.log2 (5 + 1) < 4) ∧
    ReadUe 4 (memOfList [0xE1, 0x9F]) 5 = some (5, 5 + (2 * Nat.log2 (5 + 1) + 1)) :=
  have hlog : Nat.log2 (5 + 1) = 2 := by simp [Nat.log2]
  have hcode : encodeUe 5 = [0, 0, 1, 1, 0] := by
    unfold encodeUe
    rw [hlog]
    decide
  have hp : bitsPlacedAt (memOfList [0xE1, 0x9F]) 5 (encodeUe 5) := by
    rw [hcode]
    decide
  ⟨⟨by decide, hp, by rw [hlog]; decide⟩,
    ReadUe_roundtrip (memOfList [0xE1, 0x9F]) 5 5 4 (by decide) hp (by rw [hlog]; decide)⟩

/-- C5 (counterexample). The canonical code word of `n = 2^31 - 1` has 31 leading zero bits;
stored at bit 0, `ReadUe` returns 0 with the cursor at bit 31 (the `zero_bits_count > 30`
guard), whatever the fuel, and not `n` with the cursor at bit 63. -/
theorem ReadUe_roundtrip_fails_at_max :
    bitsPlacedAt (memOfList [0, 0, 0, 1, 0, 0, 0, 0]) 0 (encodeUe (2 ^ 31 - 1)) ∧
    ReadUe 32 (memOfList [0, 0, 0, 1, 0, 0, 0, 0]) 0 = some (0, 31) ∧
    ∀ fuel, ReadUe fuel (memOfList [0, 0, 0, 1, 0, 0, 0, 0]) 0
      ≠ some (2 ^ 31 - 1, 0 + (2 * Nat.log2 (2 ^ 31 - 1 + 1) + 1)) := by
  have h32 : ReadUe 32 (memOfList [0, 0, 0, 1, 0, 0, 0, 0]) 0 = some (0, 31) := by decide
  have hlog : Nat.log2 (2 ^ 31 - 1 + 1) = 31 := by
    rw [show (2 ^ 31 - 1 + 1 : Nat) = 2 ^ 31 by norm_num]
    exact Nat.log2_two_pow
  have hp : bitsPlacedAt (memOfList [0, 0, 0, 1, 0, 0, 0, 0]) 0 (encodeUe (2 ^ 31 - 1)) := by
    intro i hi
    rw [encodeUe_length, hlog] at hi
    by_cases hz : i < 31
    · rw [encodeUe_zero_part _ i (by rw [hlog]; exact hz)]
      revert hz i
      decide
    · obtain ⟨j, rfl⟩ : ∃ j, i = 31 + j := ⟨i - 31, by omega⟩
      have hj : j ≤ 31 := by omega
      have := encodeUe_value_part (2 ^ 31 - 1) j (by rw [hlog]; exact hj)
      rw [hlog] at this
      rw [this]
      clear this hz hi
      revert hj j
      decide
  refine ⟨hp, h32, ?_⟩
  intro fuel hf
  have h1 := ReadUe_mono _ fuel 32 0 _ hf
  have h2 := ReadUe_mono _ 32 fuel 0 _ h32
  rw [Nat.add_comm] at h2
  rw [h2] at h1
  have h3 : (0 : Nat) = 2 ^ 31 - 1 := (Prod.mk.inj (Option.some.inj h1)).1
  omega

/-- C6. Signed Exp-Golomb mapping: for every value `ue` that `ReadUe` returns, `ReadSe`
returns, at the same cursor, the `uint32_t` that reads as the 32-bit two's-complement
integer `-(ue/2)` when `ue` is even and `(ue+1)/2` when `ue` is odd; `ue = 0, 1, 2, 3, 4` map
to `0, 1, -1, 2, -2`. -/
theorem ReadSe_mapping (fuel : Nat) (data : Nat → Nat) (p : Nat) :
    (∀ ue q, ReadUe fuel data p = some (ue, q) →
      ReadSe fuel data p = some (SeFromUe ue, q) ∧
      toInt32 (SeFromUe ue) =
        if ue % 2 = 0 then -((ue / 2 : Nat) : Int) else (((ue + 1) / 2 : Nat) : Int)) ∧
    toInt32 (SeFromUe 0) = 0 ∧ toInt32 (SeFromUe 1) = 1 ∧ toInt32 (SeFromUe 2) = -1 ∧
    toInt32 (SeFromUe 3) = 2 ∧ toInt32 (SeFromUe 4) = -2 := by
  refine ⟨?_, by decide, by decide, by decide, by decide, by decide⟩
  intro ue q h
  refine ⟨by simp [ReadSe, h], toInt32_SeFromUe ue (ReadUe_le data fuel p ue q h)⟩

theorem ReadSe_mapping_witness :
    ReadUe 8 (memOfList [0x28]) 0 = some (4, 5) ∧
    ReadSe 8 (memOfList [0x28]) 0 = some (SeFromUe 4, 5) ∧ toInt32 (SeFromUe 4) = -2 :=
  ⟨by decide, ((ReadSe_mapping 8 (memOfList [0x28]) 0).1 4 5 (by decide)).1, by decide⟩

/-! ## Theorems on NAL unit framing -/

theorem GetNalUnitLoop_fuel (n : Nat) : ∀ (m : Nat) (s : NalState) (found : Bool),
    s.frame_data_size - 2 - s.curr_byte_offset ≤ n →
    s.frame_data_size - 2 - s.curr_byte_offset ≤ m →
    GetNalUnitLoop n s found = GetNalUnitLoop m s found := by
  induction n with
  | zero =>
    intro m s found hn _
    cases m with
    | zero => rfl
    | succ m =>
      simp only [GetNalUnitLoop]
      rw [if_neg (by omega)]
  | succ n ih =>
    intro m s found hn hm
    cases m with
    | zero =>
      simp only [GetNalUnitLoop]
      rw [if_neg (by omega)]
    | succ m =>
      simp only [GetNalUnitLoop]
      split
      · split
        · split
          · exact ih m _ false (by simp only; omega) (by simp only; omega)
          · rfl
        · exact ih m _ found (by simp only; omega) (by simp only; omega)
      · rfl

theorem GetNalUnitLoop_scan (d : Nat) : ∀ (n : Nat) (s : NalState) (found : Bool) (q : Nat),
    q = s.curr_byte_offset + d → q + 2 < s.frame_data_size →
    isStartCodeAt s.frame_data_buffer_ptr q = true →
    (∀ x, s.curr_byte_offset ≤ x → x < q → isStartCodeAt s.frame_data_buffer_ptr x = false) →
    d < n →
    GetNalUnitLoop n s found =
      if s.start_code_num + 1 = 1 then
        GetNalUnitLoop (n - d - 1)
          { s with curr_start_code_offset := q, start_code_num := s.start_code_num + 1,
                   next_start_code_offset := q, curr_byte_offset := q + 3 } false
      else
        ({ s with curr_start_code_offset := s.next_start_code_offset,
                  start_code_num := s.start_code_num + 1,
                  next_start_code_offset := q, curr_byte_offset := q + 3 }, true) := by
  induction d with
  | zero =>
    intro n s found q hq hsz hsc _ hn
    obtain ⟨n, rfl⟩ : ∃ n', n = n' + 1 := ⟨n - 1, by omega⟩
    rw [Nat.add_zero] at hq
    subst hq
    simp only [GetNalUnitLoop]
    rw [if_pos (by omega), if_pos hsc]
    simp
  | succ d ih =>
    intro n s found q hq hsz hsc hno hn
    obtain ⟨n, rfl⟩ : ∃ n', n = n' + 1 := ⟨n - 1, by omega⟩
    have hcur := hno s.curr_byte_offset (Nat.le_refl _) (by omega)
    simp only [GetNalUnitLoop]
    rw [if_pos (by omega), if_neg (by simp [hcur])]
    rw [ih n { s with curr_byte_offset := s.curr_byte_offset + 1 } found q
      (by simp only; omega) hsz hsc (fun x hx hxq => hno x (by simp only at hx; omega) hxq)
      (by omega)]
    simp only
    rw [show n + 1 - (d + 1) - 1 = n - d - 1 by omega]

theorem GetNalUnitLoop_none (n : Nat) : ∀ (s : NalState) (found : Bool),
    (∀ x, s.curr_byte_offset ≤ x → x + 2 < s.frame_data_size →
      isStartCodeAt s.frame_data_buffer_ptr x = false) →
    ∃ o, GetNalUnitLoop n s found = ({ s with curr_byte_offset := o }, found) := by
  induction n with
  | zero => intro s found _; exact ⟨s.curr_byte_offset, rfl⟩
  | succ n ih =>
    intro s found hno
    simp only [GetNalUnitLoop]
    by_cases hc : (s.curr_byte_offset : Int) < (s.frame_data_size : Int) - 2
    · rw [if_pos hc, if_neg (by simp [hno s.curr_byte_offset (Nat.le_refl _) (by omega)])]
      obtain ⟨o, ho⟩ := ih { s with curr_byte_offset := s.curr_byte_offset + 1 } found
        (fun x hx hxs => hno x (by simp only at hx; omega) hxs)
      exact ⟨o, by rw [ho]⟩
    · rw [if_neg hc]
      exact ⟨s.curr_byte_offset, rfl⟩

section Framing

variable (data : Nat → Nat) (size : Nat) (f : Nat → Nat) (k : Nat)
  (hsc : ∀ j, j < k → isStartCodeAt data (f j) = true ∧ f j + 2 < size)
  (hmono : ∀ i j, i < j → j < k → f i < f j)
  (hall : ∀ x, x + 2 < size → isStartCodeAt data x = true → ∃ j, j < k ∧ f j = x)

include hsc hmono in
theorem startCode_gap (i j : Nat) (hij : i < j) (hj : j < k) : f i + 3 ≤ f j := by
  have h1 := hmono i j hij hj
  have hi := (hsc i (by omega)).1
  have hjj := (hsc j hj).1
  simp only [isStartCodeAt, Bool.and_eq_true, beq_iff_eq] at hi hjj
  by_contra hc
  have : f j = f i + 1 ∨ f j = f i + 2 := by omega
  rcases this with h | h
  · rw [h] at hjj
    have h3 := hjj.1.2
    rw [show f i + 1 + 1 = f i + 2 by omega] at h3
    have h4 := hi.2
    omega
  · rw [h] at hjj
    have h3 := hjj.1.1
    have h4 := hi.2
    omega

include hsc hmono hall in
theorem startCode_none_between (j : Nat) (hj : j + 1 < k) (x : Nat) (h1 : f j + 3 ≤ x)
    (h2 : x < f (j + 1)) : isStartCodeAt data x = false := by
  by_contra hc
  have hx : isStartCodeAt data x = true := by simpa using hc
  have hs := (hsc (j + 1) hj).2
  obtain ⟨m, hm, hfm⟩ := hall x (by omega) hx
  rcases Nat.lt_trichotomy m j with h | h | h
  · have := hmono m j h (by omega); omega
  · subst h; omega
  · rcases Nat.eq_or_lt_of_le (Nat.succ_le_of_lt h) with h' | h'
    · subst h'
      simp only [Nat.succ_eq_add_one] at hfm
      omega
    · have := hmono (j + 1) m h' hm; omega

include hsc hmono hall in
theorem startCode_none_before (hk : 0 < k) (x : Nat) (h2 : x < f 0) :
    isStartCodeAt data x = false := by
  by_contra hc
  have hx : isStartCodeAt data x = true := by simpa using hc
  have hs := (hsc 0 hk).2
  obtain ⟨m, hm, hfm⟩ := hall x (by omega) hx
  rcases Nat.eq_zero_or_pos m with h | h
  · subst h; omega
  · have := hmono 0 m h hm; omega

include hmono hall in
theorem startCode_none_after (hk : 0 < k) (x : Nat) (h1 : f (k - 1) + 3 ≤ x) (h2 : x + 2 < size) :
    isStartCodeAt data x = false := by
  by_contra hc
  have hx : isStartCodeAt data x = true := by simpa using hc
  obtain ⟨m, hm, hfm⟩ := hall x h2 hx
  rcases Nat.eq_or_lt_of_le (Nat.le_sub_one_of_lt hm) with h | h
  · rw [h] at hfm; omega
  · have := hmono m (k - 1) h (by omega); omega

include hsc hmono hall in
theorem GetNalUnit_first_ok (hk : 1 < k) :
    GetNalUnit (frameReset data size) = (ParserResult.PARSER_OK, nalStateAfter data size f 1) := by
  have h0 := hsc 0 (by omega)
  have h1 := hsc 1 hk
  have hgap := startCode_gap data size f k hsc hmono 0 1 (by omega) hk
  unfold GetNalUnit
  simp only [frameReset]
  rw [GetNalUnitLoop_scan (f 0) size _ false (f 0) (by simp) h0.2 h0.1
    (fun x _ hx => startCode_none_before data size f k hsc hmono hall (by omega) x hx) (by omega)]
  simp only [Nat.zero_add, if_true]
  rw [GetNalUnitLoop_scan (f 1 - (f 0 + 3)) _ _ false (f 1) (by simp only; omega) h1.2 h1.1
    (fun x hx hx1 => startCode_none_between data size f k hsc hmono hall 0 hk x
      (by simpa using hx) (by simpa using hx1)) (by omega)]
  simp [nalStateAfter]

include hsc hmono hall in
theorem GetNalUnit_first_eof (hk : k = 1) :
    ∃ s, GetNalUnit (frameReset data size) = (ParserResult.PARSER_EOF, s) ∧
      s.curr_start_code_offset = f 0 ∧ s.nal_unit_size = (size : Int) - f 0 := by
  have h0 := hsc 0 (by omega)
  unfold GetNalUnit
  simp only [frameReset]
  rw [GetNalUnitLoop_scan (f 0) size _ false (f 0) (by simp) h0.2 h0.1
    (fun x _ hx => startCode_none_before data size f k hsc hmono hall (by omega) x hx) (by omega)]
  simp only [Nat.zero_add, if_true]
  obtain ⟨o, ho⟩ := GetNalUnitLoop_none (size - f 0 - 1)
    { frame_data_buffer_ptr := data, frame_data_size := size, curr_byte_offset := f 0 + 3,
      start_code_num := 1, curr_start_code_offset := f 0, next_start_code_offset := f 0,
      nal_unit_size := 0 } false
    (fun x hx hxs => startCode_none_after data size f k hmono hall (by omega) x
      (by subst hk; simpa using hx) (by simpa using hxs))
  rw [ho]
  simp

include hsc hmono hall in
theorem GetNalUnit_next_ok (j : Nat) (hj1 : 1 ≤ j) (hjk : j + 1 < k) :
    GetNalUnit (nalStateAfter data size f j)
      = (ParserResult.PARSER_OK, nalStateAfter data size f (j + 1)) := by
  have h1 := hsc (j + 1) hjk
  have hgap := startCode_gap data size f k hsc hmono j (j + 1) (by omega) hjk
  unfold GetNalUnit
  simp only [nalStateAfter]
  rw [GetNalUnitLoop_scan (f (j + 1) - (f j + 3)) size _ false (f (j + 1)) (by simp only; omega)
    h1.2 h1.1
    (fun x hx hx1 => startCode_none_between data size f k hsc hmono hall j hjk x
      (by simpa using hx) (by simpa using hx1)) (by omega)]
  simp only
  rw [if_neg (show ¬ (j + 1 + 1 = 1) by omega)]
  simp

include hsc hmono hall in
theorem GetNalUnit_next_eof (j : Nat) (hj1 : 1 ≤ j) (hjk : j + 1 = k) :
    ∃ s, GetNalUnit (nalStateAfter data size f j) = (ParserResult.PARSER_EOF, s) ∧
      s.curr_start_code_offset = f j ∧ s.nal_unit_size = (size : Int) - f j := by
  unfold GetNalUnit
  simp only [nalStateAfter]
  obtain ⟨o, ho⟩ := GetNalUnitLoop_none size
    { frame_data_buffer_ptr := data, frame_data_size := size, curr_byte_offset := f j + 3,
      start_code_num := j + 1, curr_start_code_offset := f j, next_start_code_offset := f j,
      nal_unit_size := 0 } false
    (fun x hx hxs => startCode_none_after data size f k hmono hall (by omega) x
      (by subst hjk; simpa using hx) (by simpa using hxs))
  rw [ho]
  simp

include hsc hmono hall in
theorem GetNalUnitCalls_mid (j : Nat) (hj1 : 1 ≤ j) (hjk : j < k) :
    GetNalUnitCalls (frameReset data size) j
      = (ParserResult.PARSER_OK, nalStateAfter data size f j) := by
  induction j with
  | zero => omega
  | succ j ih =>
    rcases Nat.eq_zero_or_pos j with h | h
    · subst h
      simp only [GetNalUnitCalls]
      exact GetNalUnit_first_ok data size f k hsc hmono hall (by omega)
    · simp only [GetNalUnitCalls]
      rw [ih (by omega) (by omega)]
      exact GetNalUnit_next_ok data size f k hsc hmono hall j (by omega) hjk

include hsc hmono hall in
theorem GetNalUnitCalls_last (hk : 0 < k) :
    ∃ s, GetNalUnitCalls (frameReset data size) k = (ParserResult.PARSER_EOF, s) ∧
      s.curr_start_code_offset = f (k - 1) ∧ s.nal_unit_size = (size : Int) - f (k - 1) := by
  obtain ⟨j, rfl⟩ : ∃ j, k = j + 1 := ⟨k - 1, by omega⟩
  simp only [GetNalUnitCalls, Nat.add_sub_cancel]
  rcases Nat.eq_zero_or_pos j with h | h
  · subst h
    exact GetNalUnit_first_eof data size f 1 hsc hmono hall rfl
  · rw [GetNalUnitCalls_mid data size f (j + 1) hsc hmono hall j (by omega) (by omega)]
    exact GetNalUnit_next_eof data size f (j + 1) hsc hmono hall j (by omega) rfl

end Framing

theorem startCodeOffsets_pairwise (data : Nat → Nat) (size : Nat) :
    (startCodeOffsets data size).Pairwise (· < ·) :=
  List.Pairwise.filter _ (List.pairwise_lt_range _)

theorem startCodeOffsets_mem (data : Nat → Nat) (size x : Nat) :
    x ∈ startCodeOffsets data size ↔ x + 2 < size ∧ isStartCodeAt data x = true := by
  simp only [startCodeOffsets, List.mem_filter, List.mem_range]
  constructor
  · rintro ⟨h1, h2⟩; exact ⟨by omega, h2⟩
  · rintro ⟨h1, h2⟩; exact ⟨by omega, h2⟩

theorem startCodeOffsets_getD_mem (data : Nat → Nat) (size j : Nat)
    (hj : j < (startCodeOffsets data size).length) :
    (startCodeOffsets data size).getD j 0 ∈ startCodeOffsets data size := by
  rw [List.getD_eq_getElem _ _ hj]
  exact List.getElem_mem hj

theorem startCodeOffsets_sc (data : Nat → Nat) (size : Nat) :
    ∀ j, j < (startCodeOffsets data size).length →
      isStartCodeAt data ((startCodeOffsets data size).getD j 0) = true ∧
      (startCodeOffsets data size).getD j 0 + 2 < size := fun j hj =>
  have h := (startCodeOffsets_mem data size _).1 (startCodeOffsets_getD_mem data size j hj)
  ⟨h.2, h.1⟩

theorem startCodeOffsets_mono (data : Nat → Nat) (size : Nat) :
    ∀ i j, i < j → j < (startCodeOffsets data size).length →
      (startCodeOffsets data size).getD i 0 < (startCodeOffsets data size).getD j 0 := by
  intro i j hij hj
  rw [List.getD_eq_getElem _ _ hj, List.getD_eq_getElem _ _ (by omega)]
  exact (List.pairwise_iff_getElem.1 (startCodeOffsets_pairwise data size)) i j (by omega) hj hij

theorem startCodeOffsets_all (data : Nat → Nat) (size : Nat) :
    ∀ x, x + 2 < size → isStartCodeAt data x = true →
      ∃ j, j < (startCodeOffsets data size).length ∧ (startCodeOffsets data size).getD j 0 = x := by
  intro x hx hs
  obtain ⟨j, hj, hjx⟩ := List.getElem_of_mem ((startCodeOffsets_mem data size x).2 ⟨hx, hs⟩)
  exact ⟨j, hj, by rw [List.getD_eq_getElem _ _ hj]; exact hjx⟩

/-- C1. NAL delimitation by `GetNalUnit`: let `offs` be the offsets, in increasing order, of
the occurrences of `00 00 01` in a packet of `size` bytes, and let `i < offs.length`. After
the per-packet reset of `ParseFrameData`, call number `i + 1` of `GetNalUnit` leaves
`curr_start_code_offset = offs[i]`; when another start code follows it returns `PARSER_OK`
with `nal_unit_size = offs[i+1] - offs[i]`, and when `offs[i]` is the last one it returns
`PARSER_EOF` with `nal_unit_size = size - offs[i]`. No NAL unit starts before the first start
code `offs[0]`. -/
theorem GetNalUnit_delimits (data : Nat → Nat) (size i : Nat)
    (hi : i < (startCodeOffsets data size).length) :
    (GetNalUnitCalls (frameReset data size) (i + 1)).2.curr_start_code_offset
        = (startCodeOffsets data size).getD i 0 ∧
    (startCodeOffsets data size).getD 0 0
        ≤ (GetNalUnitCalls (frameReset data size) (i + 1)).2.curr_start_code_offset ∧
    (i + 1 < (startCodeOffsets data size).length →
      (GetNalUnitCalls (frameReset data size) (i + 1)).1 = ParserResult.PARSER_OK ∧
      (GetNalUnitCalls (frameReset data size) (i + 1)).2.nal_unit_size
        = ((startCodeOffsets data size).getD (i + 1) 0 : Int)
          - (startCodeOffsets data size).getD i 0) ∧
    (i + 1 = (startCodeOffsets data size).length →
      (GetNalUnitCalls (frameReset data size) (i + 1)).1 = ParserResult.PARSER_EOF ∧
      (GetNalUnitCalls (frameReset data size) (i + 1)).2.nal_unit_size
        = (size : Int) - (startCodeOffsets data size).getD i 0) := by
  have hsc := startCodeOffsets_sc data size
  have hmono := startCodeOffsets_mono data size
  have hall := startCodeOffsets_all data size
  have hfirst : (startCodeOffsets data size).getD 0 0 ≤ (startCodeOffsets data size).getD i 0 := by
    rcases Nat.eq_zero_or_pos i with h | h
    · subst h; exact Nat.le_refl _
    · exact Nat.le_of_lt (hmono 0 i h hi)
  rcases Nat.lt_or_ge (i + 1) (startCodeOffsets data size).length with hlt | hge
  · have hmid := GetNalUnitCalls_mid data size (fun j => (startCodeOffsets data size).getD j 0)
      (startCodeOffsets data size).length hsc hmono hall (i + 1) (by omega) hlt
    rw [hmid]
    exact ⟨rfl, hfirst, fun _ => ⟨rfl, rfl⟩, fun h => by omega⟩
  · have hk : i + 1 = (startCodeOffsets data size).length := by omega
    obtain ⟨s, hs, hcurr, hsize⟩ := GetNalUnitCalls_last data size
      (fun j => (startCodeOffsets data size).getD j 0)
      (startCodeOffsets data size).length hsc hmono hall (by omega)
    rw [← hk] at hs hcurr hsize
    simp only [Nat.add_sub_cancel] at hcurr hsize
    rw [hs]
    exact ⟨hcurr, hcurr ▸ hfirst, fun h => by omega, fun _ => ⟨rfl, hsize⟩⟩

theorem GetNalUnit_delimits_witness :
    0 < (startCodeOffsets (memOfList [9, 0, 0, 1, 7, 0, 0, 0, 1, 5, 5]) 11).length ∧
    (GetNalUnitCalls (frameReset (memOfList [9, 0, 0, 1, 7, 0, 0, 0, 1, 5, 5]) 11) (0 + 1)).2.curr_start_code_offset
      = (startCodeOffsets (memOfList [9, 0, 0, 1, 7, 0, 0, 0, 1, 5, 5]) 11).getD 0 0 :=
  ⟨by decide, (GetNalUnit_delimits (memOfList [9, 0, 0, 1, 7, 0, 0, 0, 1, 5, 5]) 11 0 (by decide)).1⟩

/-! ## Theorems on RBSP extraction -/

theorem EbspLoop_bad_iff (orig : Nat → Nat) (begin e0 : Nat) (n : Nat) :
    ∀ (buf : Nat → Nat) (i e r d : Nat),
      (∀ x, i ≤ x → x < e → buf x = orig (x + r)) → e + r = e0 → i + r = begin + d → i ≤ e →
      e - i ≤ n →
      ((EbspLoop n buf i e (zeroRun orig begin d) r).bad = true ↔
        ∃ d', d ≤ d' ∧ zeroRun orig begin d' = 2 ∧ orig (begin + d') = 3 ∧
          begin + d' + 1 < e0 ∧ 3 < orig (begin + d' + 1)) := by
  induction n with
  | zero =>
    intro buf i e r d _ he hd hie hn
    simp only [EbspLoop]
    constructor
    · intro h; simp at h
    · rintro ⟨d', h1, _, _, h4, _⟩; omega
  | succ n ih =>
    intro buf i e r d hbuf he hd hie hn
    simp only [EbspLoop]
    by_cases hi : i = e
    · rw [if_neg (by simp [hi])]
      constructor
      · intro h; simp at h
      · rintro ⟨d', h1, _, _, h4, _⟩; omega
    · rw [if_pos (by simp [hi])]
      have hlt : i < e := by omega
      have htmp : buf i = orig (begin + d) := by rw [hbuf i (Nat.le_refl _) hlt, hd]
      have hnext : zeroRun orig begin (d + 1)
          = if buf i = 0 then zeroRun orig begin d + 1 else 0 := by
        simp only [zeroRun, htmp]
      have hstep : ((EbspLoop n buf (i + 1) e (zeroRun orig begin (d + 1)) r).bad = true ↔
          ∃ d', d + 1 ≤ d' ∧ zeroRun orig begin d' = 2 ∧ orig (begin + d') = 3 ∧
            begin + d' + 1 < e0 ∧ 3 < orig (begin + d' + 1)) :=
        ih buf (i + 1) e r (d + 1) (fun x hx hxe => hbuf x (by omega) hxe) he (by omega)
          (by omega) (by omega)
      have hcount : (if (buf i == 0) = true then zeroRun orig begin d + 1 else 0)
          = zeroRun orig begin (d + 1) := by
        rw [hnext]; simp only [beq_iff_eq]
      by_cases hc : zeroRun orig begin d = 2
      · rw [if_pos (by simp [ZEROBYTES_SHORTSTARTCODE, hc])]
        by_cases ht : buf i = 3
        · rw [if_pos (by simp [ht])]
          by_cases hbad : i + 1 ≠ e ∧ 3 < buf (i + 1)
          · rw [if_pos (by simp [hbad.1, hbad.2])]
            simp only [true_iff]
            refine ⟨d, Nat.le_refl _, hc, by rw [← htmp, ht], by omega, ?_⟩
            have := hbuf (i + 1) (by omega) (by omega)
            rw [show i + 1 + r = begin + d + 1 by omega] at this
            rw [← this]; exact hbad.2
          · rw [if_neg (by simp only [Bool.and_eq_true, bne_iff_ne, decide_eq_true_eq]; exact hbad)]
            by_cases hlast : i + 1 = e
            · rw [if_pos (by simp [hlast])]
              constructor
              · intro h; simp at h
              · rintro ⟨d', h1, _, _, h4, _⟩; omega
            · rw [if_neg (by simp [hlast])]
              have hle : buf (i + 1) ≤ 3 := by
                by_contra hcon
                exact hbad ⟨hlast, by omega⟩
              have hb1 : memmoveDown buf i e i = orig (begin + d + 1) := by
                simp only [memmoveDown]
                rw [if_pos ⟨Nat.le_refl _, by omega⟩, hbuf (i + 1) (by omega) (by omega)]
                congr 1; omega
              have hz1 : zeroRun orig begin (d + 1) = 0 := by
                rw [hnext, if_neg (by omega)]
              have hcnt2 : (if (memmoveDown buf i e i == 0) = true then 0 + 1 else 0)
                  = zeroRun orig begin (d + 2) := by
                have hz2 : zeroRun orig begin (d + 2)
                    = if orig (begin + (d + 1)) = 0 then zeroRun orig begin (d + 1) + 1 else 0 :=
                  rfl
                rw [hz2, hz1, hb1]
                simp only [beq_iff_eq]
                rfl
              rw [hcnt2]
              rw [ih (memmoveDown buf i e) (i + 1) (e - 1) (r + 1) (d + 2)
                (fun x hx hxe => by
                  simp only [memmoveDown]
                  rw [if_pos ⟨by omega, by omega⟩, hbuf (x + 1) (by omega) (by omega)]
                  congr 1; omega)
                (by omega) (by omega) (by omega) (by omega)]
              constructor
              · rintro ⟨d', h1, h2⟩; exact ⟨d', by omega, h2⟩
              · rintro ⟨d', h1, h2, h3, h4, h5⟩
                refine ⟨d', ?_, h2, h3, h4, h5⟩
                by_contra hcon
                have hcase : d' = d ∨ d' = d + 1 := by omega
                rcases hcase with rfl | rfl
                · have := hbuf (i + 1) (by omega) (by omega)
                  rw [show i + 1 + r = begin + d' + 1 by omega] at this
                  omega
                · omega
        · rw [if_neg (by simp [ht]), hcount, hstep]
          constructor
          · rintro ⟨d', h1, h2⟩; exact ⟨d', by omega, h2⟩
          · rintro ⟨d', h1, h2, h3, h4, h5⟩
            refine ⟨d', ?_, h2, h3, h4, h5⟩
            by_contra hcon
            have : d' = d := by omega
            subst this
            rw [← htmp] at h3
            exact ht h3
      · rw [if_neg (by simp [ZEROBYTES_SHORTSTARTCODE, hc]), hcount, hstep]
        constructor
        · rintro ⟨d', h1, h2⟩; exact ⟨d', by omega, h2⟩
        · rintro ⟨d', h1, h2, h3, h4, h5⟩
          refine ⟨d', ?_, h2, h3, h4, h5⟩
          by_contra hcon
          have : d' = d := by omega
          subst this
          exact hc h2

theorem zeroRun_eq_zero_iff (buf : Nat → Nat) (begin d : Nat) :
    zeroRun buf begin d = 0 ↔ d = 0 ∨ buf (begin + d - 1) ≠ 0 := by
  cases d with
  | zero => simp [zeroRun]
  | succ d =>
    simp only [zeroRun]
    rw [show begin + (d + 1) - 1 = begin + d by omega]
    split <;> simp_all

theorem zeroRun_eq_two_iff (buf : Nat → Nat) (begin d : Nat) :
    zeroRun buf begin d = 2 ↔
      2 ≤ d ∧ buf (begin + d - 2) = 0 ∧ buf (begin + d - 1) = 0 ∧
        (d = 2 ∨ buf (begin + d - 3) ≠ 0) := by
  match d with
  | 0 => simp [zeroRun]
  | 1 =>
    simp only [zeroRun]
    split <;> simp
  | d + 2 =>
    have hz := zeroRun_eq_zero_iff buf begin d
    simp only [zeroRun]
    rw [show begin + (d + 2) - 2 = begin + d by omega,
      show begin + (d + 2) - 1 = begin + (d + 1) by omega,
      show begin + (d + 2) - 3 = begin + d - 1 by omega]
    by_cases h1 : buf (begin + (d + 1)) = 0
    · by_cases h0 : buf (begin + d) = 0
      · simp only [h1, h0, if_true]
        constructor
        · intro h
          have h' : zeroRun buf begin d = 0 := by omega
          rcases hz.1 h' with hd | hd
          · exact ⟨by omega, trivial, trivial, Or.inl (by omega)⟩
          · exact ⟨by omega, trivial, trivial, Or.inr hd⟩
        · rintro ⟨_, _, _, hd | hd⟩
          · have : zeroRun buf begin d = 0 := hz.2 (Or.inl (by omega))
            omega
          · have : zeroRun buf begin d = 0 := hz.2 (Or.inr hd)
            omega
      · simp [h1, h0]
    · simp [h1]

theorem EbspLoop_reduce_le (n : Nat) : ∀ (buf : Nat → Nat) (i e count r : Nat), i ≤ e →
    (EbspLoop n buf i e count r).reduce_count ≤ r + (e - i) := by
  induction n with
  | zero => intro buf i e count r _; simp [EbspLoop]
  | succ n ih =>
    intro buf i e count r hie
    simp only [EbspLoop]
    split
    · rename_i hne
      have hne' : i ≠ e := by simpa using hne
      split
      · split
        · split
          · simp
          · split
            · simp
            · rename_i hlast
              have hlast' : i + 1 ≠ e := by simpa using hlast
              have := ih (memmoveDown buf i e) (i + 1) (e - 1)
                (if (memmoveDown buf i e i == 0) = true then 0 + 1 else 0) (r + 1) (by omega)
              omega
        · have := ih buf (i + 1) e (if (buf i == 0) = true then count + 1 else 0) r (by omega)
          omega
      · have := ih buf (i + 1) e (if (buf i == 0) = true then count + 1 else 0) r (by omega)
        omega
    · simp

theorem EbspLoop_bad_iff_violation (buf : Nat → Nat) (begin e : Nat) (h : begin ≤ e) :
    (EbspLoop (e - begin) buf begin e 0 0).bad = true ↔ ∃ j, epbViolationAt buf begin e j := by
  have hmain := EbspLoop_bad_iff buf begin e (e - begin) buf begin e 0 0 (fun _ _ _ => rfl) rfl rfl h
    (Nat.le_refl _)
  rw [show zeroRun buf begin 0 = 0 from rfl] at hmain
  rw [hmain]
  constructor
  · rintro ⟨d, _, h2, h3, h4, h5⟩
    obtain ⟨a1, a2, a3, a4⟩ := (zeroRun_eq_two_iff buf begin d).1 h2
    refine ⟨begin + d, by omega, a2, a3, ?_, h3, h4, h5⟩
    rcases a4 with a4 | a4
    · exact Or.inl (by omega)
    · exact Or.inr a4
  · rintro ⟨j, b1, b2, b3, b4, b5, b6, b7⟩
    obtain ⟨d, rfl⟩ : ∃ d, j = begin + d := ⟨j - begin, by omega⟩
    refine ⟨d, Nat.zero_le _, (zeroRun_eq_two_iff buf begin d).2 ⟨by omega, b2, b3, ?_⟩, b5, b6, b7⟩
    rcases b4 with b4 | b4
    · exact Or.inl (by omega)
    · exact Or.inr b4

theorem EBSPtoRBSP_of_violation (buf : Nat → Nat) (begin e : Nat)
    (h : ∃ j, epbViolationAt buf begin e j) : (EBSPtoRBSP buf begin e).1 = SIZE_MAX := by
  have hbe : begin ≤ e := by
    obtain ⟨j, b1, _, _, _, _, b6, _⟩ := h
    omega
  have hbad := (EbspLoop_bad_iff_violation buf begin e hbe).2 h
  unfold EBSPtoRBSP
  rw [if_neg (by omega)]
  simp only [hbad, if_true]

/-- C4. Emulation-prevention violation: `EBSPtoRBSP` returns its error result
`static_cast<size_t>(-1)` if and only if some offset `j` of the range holds a `0x03` directly
after exactly two `0x00` bytes of the range and the byte after it exists (`j + 1 < end`) and
is greater than `0x03`; the error result differs from every length returned without error
(for ranges that end below `2^63`, as every array does); and every input that begins
`00 00 03 05` is reported. -/
theorem EBSPtoRBSP_invalid_iff (buf : Nat → Nat) (begin e : Nat) :
    (e < 2 ^ 63 →
      ((EBSPtoRBSP buf begin e).1 = SIZE_MAX ↔ ∃ j, epbViolationAt buf begin e j)) ∧
    (4 ≤ e → buf 0 = 0x00 → buf 1 = 0x00 → buf 2 = 0x03 → buf 3 = 0x05 →
      (EBSPtoRBSP buf 0 e).1 = SIZE_MAX) := by
  constructor
  · intro he
    constructor
    · intro hret
      unfold EBSPtoRBSP at hret
      by_cases hlt : e < begin
      · rw [if_pos hlt] at hret
        simp only [SIZE_MAX, SIZE] at hret
        omega
      · rw [if_neg hlt] at hret
        by_cases hbad : (EbspLoop (e - begin) buf begin e 0 0).bad = true
        · exact (EbspLoop_bad_iff_violation buf begin e (by omega)).1 hbad
        · simp only [hbad] at hret
          have hr := EbspLoop_reduce_le (e - begin) buf begin e 0 0 (by omega)
          simp only [SIZE_MAX, SIZE, Bool.false_eq_true, if_false] at hret
          omega
    · exact EBSPtoRBSP_of_violation buf begin e
  · intro he h0 h1 h2 h3
    exact EBSPtoRBSP_of_violation buf 0 e
      ⟨2, by omega, h0, h1, Or.inl rfl, h2, by omega, by rw [h3]; decide⟩

theorem EBSPtoRBSP_invalid_iff_witness :
    (8 < 2 ^ 63 ∧ ∃ j, epbViolationAt (memOfList [1, 0, 0, 3, 0, 0, 3, 9]) 0 8 j) ∧
    (EBSPtoRBSP (memOfList [1, 0, 0, 3, 0, 0, 3, 9]) 0 8).1 = SIZE_MAX :=
  have hv : ∃ j, epbViolationAt (memOfList [1, 0, 0, 3, 0, 0, 3, 9]) 0 8 j :=
    ⟨6, by decide, by decide, by decide, Or.inr (by decide), by decide, by decide, by decide⟩
  ⟨⟨by decide, hv⟩,
    ((EBSPtoRBSP_invalid_iff (memOfList [1, 0, 0, 3, 0, 0, 3, 9]) 0 8).1 (by decide)).2 hv⟩

/-- C2 (evaluation at the failing input). On the 12 bytes
`00 00 03 01 02 00 00 03 03 00 00 03` the buffer starts with the 9 bytes
`00 00 01 02 00 00 03 00 00` afterwards, but the length returned is 14, not 9: the two
removed bytes are added to the length of the range, and the discarded final `0x03` is not
counted. -/
theorem EBSPtoRBSP_scenario :
    (EBSPtoRBSP (memOfList [0, 0, 3, 1, 2, 0, 0, 3, 3, 0, 0, 3]) 0 12).1 = 14 ∧
    bufPrefix (EBSPtoRBSP (memOfList [0, 0, 3, 1, 2, 0, 0, 3, 3, 0, 0, 3]) 0 12).2 9
      = [0, 0, 1, 2, 0, 0, 3, 0, 0] ∧
    bufPrefix (EBSPtoRBSP (memOfList [0, 0, 3, 1, 2, 0, 0, 3, 3, 0, 0, 3]) 0 12).2
        (EBSPtoRBSP (memOfList [0, 0, 3, 1, 2, 0, 0, 3, 3, 0, 0, 3]) 0 12).1
      = [0, 0, 1, 2, 0, 0, 3, 0, 0, 3, 3, 3, 0, 0] := by
  decide

/-- C3 (evaluation at the failing input). On the 4 bytes `00 00 03 01`, where one `0x03` is
removed (`reduce_count = 1`), the length returned is `4 + 1 = 5`, not `4 - 1 = 3`. -/
theorem EBSPtoRBSP_length_plus :
    (EbspLoop 4 (memOfList [0, 0, 3, 1]) 0 4 0 0).reduce_count = 1 ∧
    (EBSPtoRBSP (memOfList [0, 0, 3, 1]) 0 4).1 = 5 ∧
    bufPrefix (EBSPtoRBSP (memOfList [0, 0, 3, 1]) 0 4).2 3 = [0, 0, 1] := by
  decide

theorem EbspLoop_fuel_eq : ∀ (n m : Nat) (buf : Nat → Nat) (i e count reduce_count : Nat),
    i ≤ e → e - i ≤ n → e - i ≤ m →
    EbspLoop n buf i e count reduce_count = EbspLoop m buf i e count reduce_count := by
  intro n
  induction n with
  | zero =>
    intro m buf i e c rc hie hn _
    have hi : i = e := by omega
    subst hi
    cases m with
    | zero => rfl
    | succ m => simp [EbspLoop]
  | succ n ih =>
    intro m buf i e c rc hie hn hm
    cases m with
    | zero =>
      have hi : i = e := by omega
      subst hi
      simp [EbspLoop]
    | succ m =>
      by_cases hi : i = e
      · subst hi
        simp [EbspLoop]
      · have h1 : (i != e) = true := by simpa using hi
        simp only [EbspLoop, h1, if_true]
        split_ifs <;>
          first
          | rfl
          | (simp only [beq_iff_eq] at *
             exact ih m _ _ _ _ _ (by omega) (by omega) (by omega))

/-- The iteration bound `e - i` of `EbspLoop` is enough: a larger one gives the same exit
state. -/
theorem EbspLoop_fuel (n : Nat) (buf : Nat → Nat) (i e count reduce_count : Nat)
    (hie : i ≤ e) (hn : e - i ≤ n) :
    EbspLoop n buf i e count reduce_count = EbspLoop (e - i) buf i e count reduce_count :=
  EbspLoop_fuel_eq n (e - i) buf i e count reduce_count hie hn (le_refl _)

/-! ## Theorems on the slice segment header -/

theorem some_getD_of_isSome {α : Type} (o : Option α) (d : α) (h : o.isSome = true) :
    o = some (o.getD d) := by
  cases o with
  | none => cases h
  | some a => rfl

section Proj
variable {σ β : Type} (π : σ → β)

theorem setField_proj {α : Type} (upd : σ → α → σ) (v : α) (s : σ × Nat)
    (hupd : ∀ x v, π (upd x v) = π x) : π (setField upd v s).1 = π s.1 := hupd _ _

theorem rdFlag_proj (upd : σ → Nat → σ) (nalu : Nat → Nat) (s : σ × Nat)
    (hupd : ∀ x v, π (upd x v) = π x) : π (rdFlag upd nalu s).1 = π s.1 := hupd _ _

theorem rdBits_proj (upd : σ → Nat → σ) (n : Nat) (nalu : Nat → Nat) (s : σ × Nat)
    (hupd : ∀ x v, π (upd x v) = π x) : π (rdBits upd n nalu s).1 = π s.1 := hupd _ _

theorem rdUe_proj {fuel : Nat} {upd : σ → Nat → σ} {nalu : Nat → Nat} {s r : σ × Nat}
    (h : rdUe fuel upd nalu s = some r) (hupd : ∀ x v, π (upd x v) = π x) : π r.1 = π s.1 := by
  unfold rdUe at h
  split at h
  · cases h
  · cases h; exact hupd _ _

theorem rdSe_proj {fuel : Nat} {upd : σ → Int → σ} {nalu : Nat → Nat} {s r : σ × Nat}
    (h : rdSe fuel upd nalu s = some r) (hupd : ∀ x v, π (upd x v) = π x) : π r.1 = π s.1 := by
  unfold rdSe at h
  split at h
  · cases h
  · cases h; exact hupd _ _

theorem forUp_proj (body : Nat → σ × Nat → σ × Nat) (n j : Nat) (s : σ × Nat)
    (hb : ∀ j t, π (body j t).1 = π t.1) : π (forUp body j n s).1 = π s.1 := by
  induction n generalizing j s with
  | zero => rfl
  | succ n ih => simp only [forUp]; rw [ih, hb]

theorem forLoop_proj {body : Nat → σ × Nat → Option (σ × Nat)} {n j : Nat} {s r : σ × Nat}
    (h : forLoop body j n s = some r)
    (hb : ∀ j t r, body j t = some r → π r.1 = π t.1) : π r.1 = π s.1 := by
  induction n generalizing j s with
  | zero => simp only [forLoop] at h; cases h; rfl
  | succ n ih =>
    simp only [forLoop] at h
    split at h
    · cases h
    · rename_i s1 h1
      rw [ih h, hb _ _ _ h1]

end Proj

theorem shTypeFlags_key (env : ParseEnv) (pps : PpsData) (sps : SpsData) (nalu : Nat → Nat)
    (s r : SliceHeaderData × Nat) (h : shTypeFlags env pps sps nalu s = some r) :
    shKey r.1 = shKey s.1 := by
  unfold shTypeFlags at h
  simp only at h
  split at h
  · cases h
  · rename_i s2 h2
    have e2 := rdUe_proj shKey h2 (fun _ _ => rfl)
    rw [forUp_proj shKey] at e2
    · split_ifs at h <;> cases h <;> simp only [rdBits, rdFlag, setField, shKey] <;> exact e2
    · intro j t
      exact rdFlag_proj shKey _ _ _ (fun _ _ => rfl)

theorem shShortTermRps_key (env : ParseEnv) (sps : SpsData) (nalu : Nat → Nat)
    (s r : SliceHeaderData × Nat) (h : shShortTermRps env sps nalu s = some r) :
    shKey r.1 = shKey s.1 := by
  unfold shShortTermRps at h
  simp only at h
  split at h
  · cases h
  · rename_i s2 h2
    cases h
    have e2 : shKey s2.1 = shKey s.1 := by
      split_ifs at h2
      · split at h2
        · cases h2
        · cases h2; rfl
      · cases h2; simp only [rdBits, rdFlag, setField, shKey]
      · cases h2; simp only [rdBits, rdFlag, setField, shKey]
      · cases h2; rfl
    exact e2

theorem shLongTermBody_key (env : ParseEnv) (sps : SpsData) (nalu : Nat → Nat) (bits i : Nat)
    (s r : SliceHeaderData × Nat) (h : shLongTermBody env sps nalu bits i s = some r) :
    shKey r.1 = shKey s.1 := by
  unfold shLongTermBody at h
  simp only at h
  split_ifs at h
  all_goals first
    | (cases h; simp only [rdBits, rdFlag, setField, shKey])
    | (rw [rdUe_proj shKey h (fun _ _ => rfl)]; simp only [rdBits, rdFlag, setField, shKey])

theorem shLongTermPics_key (env : ParseEnv) (sps : SpsData) (nalu : Nat → Nat)
    (s r : SliceHeaderData × Nat) (h : shLongTermPics env sps nalu s = some r) :
    shKey r.1 = shKey s.1 := by
  unfold shLongTermPics at h
  simp only at h
  split at h
  · cases h
  · rename_i s2 h2
    have e2 := rdUe_proj shKey h2 (fun _ _ => rfl)
    rw [forLoop_proj shKey h (fun j t r hb => shLongTermBody_key env sps nalu _ j t r hb)]
    simp only [setField, shKey] at e2 ⊢
    rw [e2]

theorem shLongTermRps_key (env : ParseEnv) (sps : SpsData) (nalu : Nat → Nat)
    (s r : SliceHeaderData × Nat) (h : shLongTermRps env sps nalu s = some r) :
    shKey r.1 = shKey s.1 := by
  unfold shLongTermRps at h
  split_ifs at h
  · split at h
    · cases h
    · rename_i s1 h1
      exact (shLongTermPics_key env sps nalu _ _ h).trans (rdUe_proj shKey h1 (fun _ _ => rfl))
  · exact shLongTermPics_key env sps nalu _ _ h
  · cases h; rfl

theorem shRefPicSets_key (env : ParseEnv) (sps : SpsData) (nalu : Nat → Nat)
    (s r : SliceHeaderData × Nat) (h : shRefPicSets env sps nalu s = some r) :
    shKey r.1 = shKey s.1 := by
  unfold shRefPicSets at h
  split at h
  · cases h
  · rename_i s2 h2
    split at h
    · cases h
    · rename_i s3 h3
      have e := (shLongTermRps_key env sps nalu _ _ h3).trans (shShortTermRps_key env sps nalu _ _ h2)
      split_ifs at h <;> cases h
      · simp only [rdFlag, shKey] at e ⊢; exact e
      · exact e

theorem shSao_key (sps : SpsData) (c : Nat) (nalu : Nat → Nat) (s : SliceHeaderData × Nat) :
    shKey (shSao sps c nalu s).1 = shKey s.1 := by
  unfold shSao
  split_ifs <;> rfl

theorem shNumRefIdx_key (env : ParseEnv) (pps : PpsData) (nalu : Nat → Nat)
    (s r : SliceHeaderData × Nat) (h : shNumRefIdx env pps nalu s = some r) :
    shKey r.1 = shKey s.1 := by
  unfold shNumRefIdx at h
  simp only at h
  split_ifs at h
  · split at h
    · cases h
    · rename_i s2 h2
      have e2 := rdUe_proj shKey h2 (fun _ _ => rfl)
      split_ifs at h
      · exact (rdUe_proj shKey h (fun _ _ => rfl)).trans e2
      · cases h; exact e2
  · cases h; rfl
  · cases h; rfl

theorem shListModification_key (pps : PpsData) (nalu : Nat → Nat) (s : SliceHeaderData × Nat) :
    shKey (shListModification pps nalu s).1 = shKey s.1 := by
  unfold shListModification
  simp only
  split_ifs
  all_goals
    repeat (first
      | rfl
      | rw [forUp_proj shKey]
      | rw [rdFlag_proj shKey])
  all_goals (exact fun _ _ => rfl)

theorem shCollocated_key (env : ParseEnv) (nalu : Nat → Nat)
    (s r : SliceHeaderData × Nat) (h : shCollocated env nalu s = some r) :
    shKey r.1 = shKey s.1 := by
  unfold shCollocated at h
  simp only at h
  split_ifs at h
  all_goals first
    | (cases h; rfl)
    | exact (rdUe_proj shKey h (fun _ _ => rfl)).trans rfl

theorem shPredWeight_key (env : ParseEnv) (pps : PpsData) (c : Nat) (nalu : Nat → Nat)
    (s r : SliceHeaderData × Nat) (h : shPredWeight env pps c nalu s = some r) :
    shKey r.1 = shKey s.1 := by
  unfold shPredWeight at h
  split_ifs at h
  · split at h
    · cases h
    · cases h; rfl
  · cases h; rfl

theorem shInterTail_key (env : ParseEnv) (pps : PpsData) (c : Nat) (nalu : Nat → Nat)
    (s r : SliceHeaderData × Nat) (h : shInterTail env pps c nalu s = some r) :
    shKey r.1 = shKey s.1 := by
  unfold shInterTail at h
  simp only at h
  split at h
  · cases h
  · rename_i s4 h4
    split at h
    · cases h
    · rename_i s5 h5
      have e := (rdUe_proj shKey h (fun _ _ => rfl)).trans
        ((shPredWeight_key env pps c nalu _ _ h5).trans (shCollocated_key env nalu _ _ h4))
      rw [e]
      split_ifs <;> rfl

theorem shRefLists_key (env : ParseEnv) (pps : PpsData) (c : Nat) (nalu : Nat → Nat)
    (s r : SliceHeaderData × Nat) (h : shRefLists env pps c nalu s = some r) :
    shKey r.1 = shKey s.1 := by
  unfold shRefLists at h
  split_ifs at h
  · split at h
    · cases h
    · rename_i s1 h1
      exact (shInterTail_key env pps c nalu _ _ h).trans
        ((shListModification_key pps nalu s1).trans (shNumRefIdx_key env pps nalu _ _ h1))
  · cases h; rfl

theorem shQp_key (env : ParseEnv) (pps : PpsData) (nalu : Nat → Nat)
    (s r : SliceHeaderData × Nat) (h : shQp env pps nalu s = some r) :
    shKey r.1 = shKey s.1 := by
  unfold shQp at h
  simp only at h
  split at h
  · cases h
  · rename_i s1 h1
    have e1 := rdSe_proj shKey h1 (fun _ _ => rfl)
    split at h
    · cases h
    · rename_i s2 h2
      have e2 : shKey s2.1 = shKey s1.1 := by
        split_ifs at h2
        · split at h2
          · cases h2
          · rename_i t ht
            exact (rdSe_proj shKey h2 (fun _ _ => rfl)).trans (rdSe_proj shKey ht (fun _ _ => rfl))
        · cases h2; rfl
      split_ifs at h <;> cases h
      · exact Eq.trans rfl (e2.trans e1)
      · exact e2.trans e1

theorem shDeblock_key (env : ParseEnv) (pps : PpsData) (nalu : Nat → Nat)
    (s r : SliceHeaderData × Nat) (h : shDeblock env pps nalu s = some r) :
    shKey r.1 = shKey s.1 := by
  unfold shDeblock at h
  simp only at h
  split at h
  · cases h
  · rename_i s2 h2
    have e2 : shKey s2.1 = shKey s.1 := by
      split_ifs at h2
      all_goals first
        | (cases h2; rfl)
        | (split at h2
           · cases h2
           · rename_i b hb
             exact (rdSe_proj shKey h2 (fun _ _ => rfl)).trans
               ((rdSe_proj shKey hb (fun _ _ => rfl)).trans rfl))
    split_ifs at h <;> cases h
    · exact Eq.trans rfl e2
    · exact e2

theorem shAfterPoc_key (env : ParseEnv) (pps : PpsData) (sps : SpsData) (nalu : Nat → Nat)
    (s r : SliceHeaderData × Nat) (h : shAfterPoc env pps sps nalu s = some r) :
    shKey r.1 = shKey s.1 := by
  unfold shAfterPoc at h
  simp only at h
  split at h
  · cases h
  · rename_i s4 h4
    split at h
    · cases h
    · rename_i s5 h5
      exact (shDeblock_key env pps nalu _ _ h).trans ((shQp_key env pps nalu _ _ h5).trans
        ((shRefLists_key env pps _ nalu _ _ h4).trans (shSao_key sps _ nalu s)))

theorem shKey_dep {a b : SliceHeaderData} (h : shKey a = shKey b) :
    a.dependent_slice_segment_flag = b.dependent_slice_segment_flag :=
  congrArg (fun k => k.2.2.2.1) h

theorem shKey_lsb {a b : SliceHeaderData} (h : shKey a = shKey b) :
    a.slice_pic_order_cnt_lsb = b.slice_pic_order_cnt_lsb :=
  congrArg (fun k => k.2.2.2.2.2) h

theorem shEntryPoints_proj {β : Type} (π : SliceHeaderData → β)
    (h1 : ∀ (sh : SliceHeaderData) (v : Nat), π { sh with num_entry_point_offsets := v } = π sh)
    (h2 : ∀ (sh : SliceHeaderData) (v : Nat), π { sh with offset_len_minus1 := v } = π sh)
    (h3 : ∀ (sh : SliceHeaderData) (v : Nat → Nat),
      π { sh with entry_point_offset_minus1 := v } = π sh)
    (env : ParseEnv) (pps : PpsData) (nalu : Nat → Nat) (s r : SliceHeaderData × Nat)
    (h : shEntryPoints env pps nalu s = some r) : π r.1 = π s.1 := by
  unfold shEntryPoints at h
  split_ifs at h
  · split at h
    · cases h
    · rename_i s1 hs1
      have e1 := rdUe_proj π hs1 h1
      split_ifs at h
      · split at h
        · cases h
        · rename_i s2 hs2
          have e2 := rdUe_proj π hs2 h2
          cases h
          rw [forUp_proj π, e2, e1]
          intro j t
          exact h3 _ _
      · cases h; exact e1
  · cases h; rfl

theorem shExtension_proj {β : Type} (π : SliceHeaderData → β)
    (h4 : ∀ (sh : SliceHeaderData) (v : Nat),
      π { sh with slice_segment_header_extension_length := v } = π sh)
    (h5 : ∀ (sh : SliceHeaderData) (v : Nat → Nat),
      π { sh with slice_segment_header_extension_data_byte := v } = π sh)
    (env : ParseEnv) (pps : PpsData) (nalu : Nat → Nat) (s r : SliceHeaderData × Nat)
    (h : shExtension env pps nalu s = some r) : π r.1 = π s.1 := by
  unfold shExtension at h
  split_ifs at h
  · split at h
    · cases h
    · rename_i s1 hs1
      have e1 := rdUe_proj π hs1 h4
      cases h
      rw [forUp_proj π, e1]
      intro j t
      exact h5 _ _
  · cases h; rfl

theorem shTrailer_proj {β : Type} (π : SliceHeaderData → β)
    (h1 : ∀ (sh : SliceHeaderData) (v : Nat), π { sh with num_entry_point_offsets := v } = π sh)
    (h2 : ∀ (sh : SliceHeaderData) (v : Nat), π { sh with offset_len_minus1 := v } = π sh)
    (h3 : ∀ (sh : SliceHeaderData) (v : Nat → Nat),
      π { sh with entry_point_offset_minus1 := v } = π sh)
    (h4 : ∀ (sh : SliceHeaderData) (v : Nat),
      π { sh with slice_segment_header_extension_length := v } = π sh)
    (h5 : ∀ (sh : SliceHeaderData) (v : Nat → Nat),
      π { sh with slice_segment_header_extension_data_byte := v } = π sh)
    (env : ParseEnv) (pps : PpsData) (nalu : Nat → Nat) (s r : SliceHeaderData × Nat)
    (h : shTrailer env pps nalu s = some r) : π r.1 = π s.1 := by
  unfold shTrailer at h
  split at h
  · cases h
  · rename_i s1 hs1
    exact (shExtension_proj π h4 h5 env pps nalu _ _ h).trans
      (shEntryPoints_proj π h1 h2 h3 env pps nalu _ _ hs1)

theorem shTrailer_key (env : ParseEnv) (pps : PpsData) (nalu : Nat → Nat)
    (s r : SliceHeaderData × Nat) (h : shTrailer env pps nalu s = some r) :
    shKey r.1 = shKey s.1 :=
  shTrailer_proj shKey (fun _ _ => rfl) (fun _ _ => rfl) (fun _ _ => rfl) (fun _ _ => rfl)
    (fun _ _ => rfl) env pps nalu s r h

theorem shTrailer_core (env : ParseEnv) (pps : PpsData) (nalu : Nat → Nat)
    (s r : SliceHeaderData × Nat) (h : shTrailer env pps nalu s = some r) :
    shCore r.1 = shCore s.1 :=
  shTrailer_proj shCore (fun _ _ => rfl) (fun _ _ => rfl) (fun _ _ => rfl) (fun _ _ => rfl)
    (fun _ _ => rfl) env pps nalu s r h

theorem activate_frame (p : HevcParser) :
    (checkDimension (activateVps (activateSps p))).m_slice = p.m_slice ∧
    (checkDimension (activateVps (activateSps p))).m_sps = p.m_sps ∧
    (checkDimension (activateVps (activateSps p))).m_pps = p.m_pps ∧
    (checkDimension (activateVps (activateSps p))).m_sh_copy = p.m_sh_copy ∧
    (checkDimension (activateVps (activateSps p))).m_active_pps_id = p.m_active_pps_id := by
  unfold checkDimension activateVps activateSps
  split_ifs <;> exact ⟨rfl, rfl, rfl, rfl, rfl⟩

theorem sliceHeaderIds_frame (env : ParseEnv) (p : HevcParser) (t : Nat) (nalu : Nat → Nat)
    (hh : HevcParser × SliceHeaderData × Nat) (h : sliceHeaderIds env p t nalu = some hh) :
    hh.1.m_slice = p.m_slice ∧ hh.1.m_sps = p.m_sps ∧ hh.1.m_pps = p.m_pps ∧
    hh.1.m_sh_copy = p.m_sh_copy ∧
    hh.1.m_sh.slice_pic_order_cnt_lsb = 0 ∧
    hh.2.1.dependent_slice_segment_flag = hh.1.m_sh.dependent_slice_segment_flag := by
  unfold sliceHeaderIds at h
  simp only at h
  split at h
  · cases h
  · rename_i ue hue
    cases h
    have hf := activate_frame { p with m_active_pps_id := (ue.1 : Int) }
    refine ⟨hf.1, hf.2.1, hf.2.2.1, hf.2.2.2.1, ?_, ?_⟩
    · simp only
      split_ifs <;> rfl
    · simp only
      split_ifs <;> rfl

theorem ParseSliceHeader_cases (env : ParseEnv) (p : HevcParser) (t : Nat) (nalu : Nat → Nat)
    (r : Bool × HevcParser) (h : ParseSliceHeader env p t nalu = some r) :
    ∃ hh, sliceHeaderIds env p t nalu = some hh ∧
      ((hh.1.m_sh.dependent_slice_segment_flag = 0 ∧ ∃ s1 s2 s5 e,
          shTypeFlags env (hh.1.m_pps hh.1.m_active_pps_id.toNat)
            (hh.1.m_sps hh.1.m_active_sps_id.toNat) nalu (hh.1.m_sh, hh.2.2) = some s1 ∧
          shPoc env (hh.1.m_sps hh.1.m_active_sps_id.toNat) t nalu s1 hh.1.m_slice = some s2 ∧
          shAfterPoc env (hh.1.m_pps hh.1.m_active_pps_id.toNat)
            (hh.1.m_sps hh.1.m_active_sps_id.toNat) nalu s2.1 = some s5 ∧
          shTrailer env (hh.1.m_pps hh.1.m_active_pps_id.toNat) nalu s5 = some e ∧
          r = (false, { hh.1 with m_sh := e.1, m_slice := s2.2, m_sh_copy := s5.1 })) ∨
       (hh.1.m_sh.dependent_slice_segment_flag ≠ 0 ∧ ∃ e,
          shTrailer env (hh.1.m_pps hh.1.m_active_pps_id.toNat) nalu
            (sliceHeaderDependent hh.1.m_sh_copy hh.2.1, hh.2.2) = some e ∧
          r = (false, { hh.1 with m_sh := e.1 }))) := by
  unfold ParseSliceHeader at h
  split at h
  · cases h
  · rename_i hh hI
    split at h
    · cases h
    · rename_i s hB
      split at h
      · cases h
      · rename_i e hT
        cases h
        refine ⟨hh, hI, ?_⟩
        unfold sliceHeaderBody at hB
        simp only at hB
        split_ifs at hB with hd
        · left
          split at hB
          · cases hB
          · rename_i rr hInd
            cases hB
            unfold sliceHeaderIndependent at hInd
            split at hInd
            · cases hInd
            · rename_i s1 h1
              split at hInd
              · cases hInd
              · rename_i s2 h2
                split at hInd
                · cases hInd
                · rename_i s5 h5
                  cases hInd
                  exact ⟨hd, s1, s2, s5, e, h1, h2, h5, hT, rfl⟩
        · right
          cases hB
          exact ⟨hd, e, hT, rfl⟩

theorem shPoc_idr (env : ParseEnv) (sps : SpsData) (t : Nat) (nalu : Nat → Nat)
    (s : SliceHeaderData × Nat) (slice : SliceData)
    (ht : t = NAL_UNIT_CODED_SLICE_IDR_W_RADL ∨ t = NAL_UNIT_CODED_SLICE_IDR_N_LP) :
    shPoc env sps t nalu s slice = some (s, pocResetIdr slice) := by
  unfold shPoc
  rw [if_pos ht]

theorem shPoc_non_idr (env : ParseEnv) (sps : SpsData) (t : Nat) (nalu : Nat → Nat)
    (s : SliceHeaderData × Nat) (slice : SliceData) (r : (SliceHeaderData × Nat) × SliceData)
    (ht : ¬(t = NAL_UNIT_CODED_SLICE_IDR_W_RADL ∨ t = NAL_UNIT_CODED_SLICE_IDR_N_LP))
    (h : shPoc env sps t nalu s slice = some r) :
    r.2 = pocDerive t (sps.log2_max_pic_order_cnt_lsb_minus4 + 4) r.1.1.slice_pic_order_cnt_lsb
      slice ∧
    r.1.1.dependent_slice_segment_flag = s.1.dependent_slice_segment_flag := by
  unfold shPoc at h
  rw [if_neg ht] at h
  simp only at h
  split at h
  · cases h
  · rename_i s3 h3
    cases h
    have e := shRefPicSets_key env sps nalu _ _ h3
    refine ⟨?_, (shKey_dep e).trans rfl⟩
    rw [shKey_lsb e]

/-- An independent slice: the POC state and the header after `ParseSliceHeader`. -/
theorem ParseSliceHeader_independent (env : ParseEnv) (p : HevcParser) (t : Nat)
    (nalu : Nat → Nat) (r : Bool × HevcParser) (h : ParseSliceHeader env p t nalu = some r)
    (hind : r.2.m_sh.dependent_slice_segment_flag = 0) :
    r.2.m_sps = p.m_sps ∧
    (t = NAL_UNIT_CODED_SLICE_IDR_W_RADL ∨ t = NAL_UNIT_CODED_SLICE_IDR_N_LP →
      r.2.m_slice = pocResetIdr p.m_slice ∧ r.2.m_sh.slice_pic_order_cnt_lsb = 0) ∧
    (¬(t = NAL_UNIT_CODED_SLICE_IDR_W_RADL ∨ t = NAL_UNIT_CODED_SLICE_IDR_N_LP) →
      r.2.m_slice = pocDerive t
        ((r.2.m_sps r.2.m_active_sps_id.toNat).log2_max_pic_order_cnt_lsb_minus4 + 4)
        r.2.m_sh.slice_pic_order_cnt_lsb p.m_slice) := by
  obtain ⟨hh, hI, hc⟩ := ParseSliceHeader_cases env p t nalu r h
  obtain ⟨f1, f2, f3, f4, f5, f6⟩ := sliceHeaderIds_frame env p t nalu hh hI
  rcases hc with ⟨hd, s1, s2, s5, e, h1, h2, h5, hT, rfl⟩ | ⟨hd, e, hT, rfl⟩
  · have k1 := shTypeFlags_key env _ _ nalu _ _ h1
    have k5 := shAfterPoc_key env _ _ nalu _ _ h5
    have kT := shTrailer_key env _ nalu _ _ hT
    refine ⟨f2, ?_, ?_⟩
    · intro ht
      rw [shPoc_idr env _ t nalu s1 hh.1.m_slice ht] at h2
      cases h2
      refine ⟨by rw [← f1], ?_⟩
      have := shKey_lsb (kT.trans (k5.trans k1))
      simp only at this ⊢
      rw [this, f5]
    · intro ht
      obtain ⟨g1, _⟩ := shPoc_non_idr env _ t nalu s1 hh.1.m_slice s2 ht h2
      have := shKey_lsb (kT.trans k5)
      simp only at this ⊢
      rw [g1, this, f1]
  · exfalso
    have kT := shKey_dep (shTrailer_key env _ nalu _ _ hT)
    simp only [sliceHeaderDependent] at kT hind
    rw [kT, f6] at hind
    exact hd hind

theorem wrapInt32_eq (x : Int) (h1 : -2 ^ 31 ≤ x) (h2 : x < 2 ^ 31) : wrapInt32 x = x := by
  unfold wrapInt32
  norm_num at h1 h2 ⊢
  omega

theorem shlInt32_eq (w : Nat) (h : w ≤ 30) : shlInt32 w = 2 ^ w := by
  unfold shlInt32
  rw [Nat.mod_eq_of_lt (by omega)]
  have h1 : (2 : Int) ^ w ≤ 2 ^ 30 := pow_le_pow_right₀ (by norm_num) h
  have h2 : (0 : Int) < 2 ^ w := by positivity
  refine wrapInt32_eq _ ?_ ?_ <;> norm_num at h1 ⊢ <;> omega

theorem pocDerive_eq (t w lsb : Nat) (slice : SliceData) :
    pocDerive t w lsb slice =
      { prev_poc := wrapInt32 (wrapInt32 (lsb : Int) + (pocDerive t w lsb slice).curr_poc_msb)
        curr_poc := wrapInt32 (wrapInt32 (lsb : Int) + (pocDerive t w lsb slice).curr_poc_msb)
        prev_poc_lsb := wrapInt32 (lsb : Int)
        prev_poc_msb := (pocDerive t w lsb slice).curr_poc_msb
        curr_poc_lsb := wrapInt32 (lsb : Int)
        curr_poc_msb := (pocDerive t w lsb slice).curr_poc_msb
        max_poc_lsb := shlInt32 w } := by
  unfold pocDerive
  simp only
  split_ifs <;> rfl

theorem pocDerive_msb (t w lsb : Nat) (slice : SliceData) :
    (pocDerive t w lsb slice).curr_poc_msb =
      if t ≥ NAL_UNIT_CODED_SLICE_BLA_W_LP ∧ t < NAL_UNIT_CODED_SLICE_CRA_NUT then 0
      else if wrapInt32 (lsb : Int) < slice.prev_poc_lsb ∧
          wrapInt32 (slice.prev_poc_lsb - wrapInt32 (lsb : Int)) ≥ Int.tdiv (shlInt32 w) 2 then
        wrapInt32 (slice.prev_poc_msb + shlInt32 w)
      else if wrapInt32 (lsb : Int) > slice.prev_poc_lsb ∧
          wrapInt32 (wrapInt32 (lsb : Int) - slice.prev_poc_lsb) > Int.tdiv (shlInt32 w) 2 then
        wrapInt32 (slice.prev_poc_msb - shlInt32 w)
      else slice.prev_poc_msb := by
  unfold pocDerive
  simp only
  split_ifs <;> rfl

/-- Without overflow the POC MSB is the one of the exact arithmetic. -/
theorem pocDerive_msb_exact (t w lsb : Nat) (slice : SliceData) (hw : w ≤ 30)
    (hl : (lsb : Int) < 2 ^ 31) (h0 : 0 ≤ slice.prev_poc_lsb)
    (h1 : slice.prev_poc_lsb < 2 ^ 31)
    (hm1 : -(2 : Int) ^ 31 ≤ slice.prev_poc_msb - 2 ^ w)
    (hm2 : slice.prev_poc_msb + 2 ^ w < 2 ^ 31) :
    (pocDerive t w lsb slice).curr_poc_msb =
      if t ≥ NAL_UNIT_CODED_SLICE_BLA_W_LP ∧ t < NAL_UNIT_CODED_SLICE_CRA_NUT then 0
      else if (lsb : Int) < slice.prev_poc_lsb ∧
          slice.prev_poc_lsb - (lsb : Int) ≥ (2 : Int) ^ w / 2 then
        slice.prev_poc_msb + (2 : Int) ^ w
      else if (lsb : Int) > slice.prev_poc_lsb ∧
          (lsb : Int) - slice.prev_poc_lsb > (2 : Int) ^ w / 2 then
        slice.prev_poc_msb - (2 : Int) ^ w
      else slice.prev_poc_msb := by
  have hl0 : (0 : Int) ≤ (lsb : Int) := Int.natCast_nonneg lsb
  have hp : (0 : Int) < 2 ^ w := by positivity
  have e1 : wrapInt32 (lsb : Int) = lsb := wrapInt32_eq _ (by norm_num; omega) hl
  have e2 : wrapInt32 (slice.prev_poc_lsb - (lsb : Int)) = slice.prev_poc_lsb - lsb := by
    refine wrapInt32_eq _ ?_ ?_ <;> norm_num at hl h1 ⊢ <;> omega
  have e3 : wrapInt32 ((lsb : Int) - slice.prev_poc_lsb) = lsb - slice.prev_poc_lsb := by
    refine wrapInt32_eq _ ?_ ?_ <;> norm_num at hl h1 ⊢ <;> omega
  have e4 : wrapInt32 (slice.prev_poc_msb + 2 ^ w) = slice.prev_poc_msb + 2 ^ w := by
    refine wrapInt32_eq _ ?_ hm2
    omega
  have e5 : wrapInt32 (slice.prev_poc_msb - 2 ^ w) = slice.prev_poc_msb - 2 ^ w := by
    refine wrapInt32_eq _ ?_ ?_
    · simpa using hm1
    · omega
  have e6 : Int.tdiv ((2 : Int) ^ w) 2 = 2 ^ w / 2 :=
    Int.tdiv_eq_ediv (le_of_lt hp) (by norm_num)
  rw [pocDerive_msb, shlInt32_eq w hw, e1, e2, e3, e4, e5, e6]


theorem shPoc_lsb_lt (env : ParseEnv) (sps : SpsData) (t : Nat) (nalu : Nat → Nat)
    (s : SliceHeaderData × Nat) (slice : SliceData) (r : (SliceHeaderData × Nat) × SliceData)
    (ht : ¬(t = NAL_UNIT_CODED_SLICE_IDR_W_RADL ∨ t = NAL_UNIT_CODED_SLICE_IDR_N_LP))
    (h : shPoc env sps t nalu s slice = some r)
    (hw : sps.log2_max_pic_order_cnt_lsb_minus4 + 4 ≤ 32) :
    r.1.1.slice_pic_order_cnt_lsb < 2 ^ (sps.log2_max_pic_order_cnt_lsb_minus4 + 4) := by
  unfold shPoc at h
  rw [if_neg ht] at h
  simp only at h
  split at h
  · cases h
  · rename_i s3 h3
    cases h
    have e := shRefPicSets_key env sps nalu _ _ h3
    rw [shKey_lsb e]
    simp only [rdBits]
    rw [ReadBits_eq nalu s.2 _ hw]
    exact bitsVal_lt nalu _ s.2

/-- The `slice_pic_order_cnt_lsb` of an independent slice that is not IDR has the number of
bits of the active SPS. -/
theorem ParseSliceHeader_lsb_lt (env : ParseEnv) (p : HevcParser) (t : Nat)
    (nalu : Nat → Nat) (r : Bool × HevcParser) (h : ParseSliceHeader env p t nalu = some r)
    (hind : r.2.m_sh.dependent_slice_segment_flag = 0)
    (hidr : ¬(t = NAL_UNIT_CODED_SLICE_IDR_W_RADL ∨ t = NAL_UNIT_CODED_SLICE_IDR_N_LP))
    (hw : (r.2.m_sps r.2.m_active_sps_id.toNat).log2_max_pic_order_cnt_lsb_minus4 + 4 ≤ 32) :
    r.2.m_sh.slice_pic_order_cnt_lsb
      < 2 ^ ((r.2.m_sps r.2.m_active_sps_id.toNat).log2_max_pic_order_cnt_lsb_minus4 + 4) := by
  obtain ⟨hh, hI, hc⟩ := ParseSliceHeader_cases env p t nalu r h
  obtain ⟨f1, f2, f3, f4, f5, f6⟩ := sliceHeaderIds_frame env p t nalu hh hI
  rcases hc with ⟨hd, s1, s2, s5, e, h1, h2, h5, hT, rfl⟩ | ⟨hd, e, hT, rfl⟩
  · have k5 := shAfterPoc_key env _ _ nalu _ _ h5
    have kT := shTrailer_key env _ nalu _ _ hT
    have g := shPoc_lsb_lt env _ t nalu s1 hh.1.m_slice s2 hidr h2 hw
    have := shKey_lsb (kT.trans k5)
    simp only at this ⊢
    rw [this]
    exact g
  · exfalso
    have kT := shKey_dep (shTrailer_key env _ nalu _ _ hT)
    simp only [sliceHeaderDependent] at kT hind
    rw [kT, f6] at hind
    exact hd hind

/-- C8 (as amended). POC MSB derivation in `ParseSliceHeader`: for a parse that returns with an
independent slice (`dependent_slice_segment_flag = 0`) whose NAL unit type is not IDR (19, 20),
with `max = 2 ^ (log2_max_pic_order_cnt_lsb_minus4 + 4)` of the active SPS, the exponent being
at most 30, `lsb` the parsed `slice_pic_order_cnt_lsb` and `prev_poc_lsb`, `prev_poc_msb` the
values held before the call, when `0 ≤ prev_poc_lsb < 2^31` and neither `prev_poc_msb - max` nor
`prev_poc_msb + max + lsb` leaves the range of `int32_t`: `lsb < max`; `curr_poc_msb` is 0 for
the BLA types (16, 17, 18); for every other type it is `prev_poc_msb + max` if
`lsb < prev_poc_lsb` and `prev_poc_lsb - lsb ≥ max / 2`, `prev_poc_msb - max` if
`lsb > prev_poc_lsb` and `lsb - prev_poc_lsb > max / 2`, and `prev_poc_msb` otherwise; in all
cases `curr_poc = lsb + curr_poc_msb`, and afterwards `prev_poc_lsb = lsb`,
`prev_poc_msb = curr_poc_msb`. -/
theorem ParseSliceHeader_poc_msb (env : ParseEnv) (p : HevcParser) (t : Nat) (nalu : Nat → Nat)
    (r : Bool × HevcParser) (max lsb : Int)
    (h : ParseSliceHeader env p t nalu = some r)
    (hind : r.2.m_sh.dependent_slice_segment_flag = 0)
    (hidr : t ≠ NAL_UNIT_CODED_SLICE_IDR_W_RADL ∧ t ≠ NAL_UNIT_CODED_SLICE_IDR_N_LP)
    (hexp : (r.2.m_sps r.2.m_active_sps_id.toNat).log2_max_pic_order_cnt_lsb_minus4 + 4 ≤ 30)
    (hmax : max = 2 ^ ((r.2.m_sps r.2.m_active_sps_id.toNat).log2_max_pic_order_cnt_lsb_minus4 + 4))
    (hlsb : lsb = (r.2.m_sh.slice_pic_order_cnt_lsb : Int))
    (hprev : 0 ≤ p.m_slice.prev_poc_lsb ∧ p.m_slice.prev_poc_lsb < 2 ^ 31)
    (hlo : -(2 : Int) ^ 31 ≤ p.m_slice.prev_poc_msb - max)
    (hhi : p.m_slice.prev_poc_msb + max + lsb < 2 ^ 31) :
    lsb < max ∧
    (t = NAL_UNIT_CODED_SLICE_BLA_W_LP ∨ t = NAL_UNIT_CODED_SLICE_BLA_W_RADL ∨
        t = NAL_UNIT_CODED_SLICE_BLA_N_LP → r.2.m_slice.curr_poc_msb = 0) ∧
    (¬(t = NAL_UNIT_CODED_SLICE_BLA_W_LP ∨ t = NAL_UNIT_CODED_SLICE_BLA_W_RADL ∨
        t = NAL_UNIT_CODED_SLICE_BLA_N_LP) →
      r.2.m_slice.curr_poc_msb =
        if lsb < p.m_slice.prev_poc_lsb ∧ p.m_slice.prev_poc_lsb - lsb ≥ max / 2 then
          p.m_slice.prev_poc_msb + max
        else if lsb > p.m_slice.prev_poc_lsb ∧ lsb - p.m_slice.prev_poc_lsb > max / 2 then
          p.m_slice.prev_poc_msb - max
        else p.m_slice.prev_poc_msb) ∧
    r.2.m_slice.curr_poc = lsb + r.2.m_slice.curr_poc_msb ∧
    r.2.m_slice.curr_poc_lsb = lsb ∧
    r.2.m_slice.prev_poc_lsb = lsb ∧
    r.2.m_slice.prev_poc_msb = r.2.m_slice.curr_poc_msb ∧
    r.2.m_slice.prev_poc = r.2.m_slice.curr_poc := by
  have hni : ¬(t = NAL_UNIT_CODED_SLICE_IDR_W_RADL ∨ t = NAL_UNIT_CODED_SLICE_IDR_N_LP) :=
    fun hc => hc.elim hidr.1 hidr.2
  have hs := (ParseSliceHeader_independent env p t nalu r h hind).2.2 hni
  have hlt0 := ParseSliceHeader_lsb_lt env p t nalu r h hind hni (by omega)
  have hlt : lsb < max := by
    rw [hlsb, hmax]
    exact_mod_cast hlt0
  have hl0 : 0 ≤ lsb := by rw [hlsb]; exact Int.natCast_nonneg _
  have hmp : (0 : Int) < max := by rw [hmax]; positivity
  have hm30 : max ≤ 2 ^ 30 := by rw [hmax]; exact pow_le_pow_right₀ (by norm_num) hexp
  have hl31 : ((r.2.m_sh.slice_pic_order_cnt_lsb : Nat) : Int) < 2 ^ 31 := by
    rw [← hlsb]; norm_num at hm30 ⊢; omega
  have hm := pocDerive_msb_exact t
    ((r.2.m_sps r.2.m_active_sps_id.toNat).log2_max_pic_order_cnt_lsb_minus4 + 4)
    r.2.m_sh.slice_pic_order_cnt_lsb p.m_slice hexp hl31 hprev.1 hprev.2
    (by rw [← hmax]; exact hlo) (by rw [← hmax]; omega)
  have he := pocDerive_eq t
    ((r.2.m_sps r.2.m_active_sps_id.toNat).log2_max_pic_order_cnt_lsb_minus4 + 4)
    r.2.m_sh.slice_pic_order_cnt_lsb p.m_slice
  rw [← hs] at hm he
  rw [← hmax, ← hlsb] at hm
  rw [← hlsb] at he
  have e1 : wrapInt32 lsb = lsb := wrapInt32_eq _ (by norm_num; omega) (by rw [hlsb]; exact hl31)
  rw [e1] at he
  have hmsb : r.2.m_slice.curr_poc_msb = 0 ∨
      r.2.m_slice.curr_poc_msb = p.m_slice.prev_poc_msb + max ∨
      r.2.m_slice.curr_poc_msb = p.m_slice.prev_poc_msb - max ∨
      r.2.m_slice.curr_poc_msb = p.m_slice.prev_poc_msb := by
    rw [hm]
    split_ifs <;> simp
  have e2 : wrapInt32 (lsb + r.2.m_slice.curr_poc_msb) = lsb + r.2.m_slice.curr_poc_msb := by
    refine wrapInt32_eq _ ?_ ?_ <;> norm_num at hlo hhi hmsb ⊢ <;> omega
  rw [e2] at he
  refine ⟨hlt, ?_, ?_, ?_, ?_, ?_, ?_, ?_⟩
  · intro hb
    rw [hm, if_pos]
    simp only [NAL_UNIT_CODED_SLICE_BLA_W_LP, NAL_UNIT_CODED_SLICE_BLA_W_RADL,
      NAL_UNIT_CODED_SLICE_BLA_N_LP, NAL_UNIT_CODED_SLICE_CRA_NUT] at hb ⊢
    omega
  · intro hb
    rw [hm, if_neg]
    simp only [NAL_UNIT_CODED_SLICE_BLA_W_LP, NAL_UNIT_CODED_SLICE_BLA_W_RADL,
      NAL_UNIT_CODED_SLICE_BLA_N_LP, NAL_UNIT_CODED_SLICE_CRA_NUT,
      NAL_UNIT_CODED_SLICE_IDR_W_RADL, NAL_UNIT_CODED_SLICE_IDR_N_LP] at hb hidr ⊢
    omega
  · exact (congrArg SliceData.curr_poc he).trans rfl
  · exact (congrArg SliceData.curr_poc_lsb he).trans rfl
  · exact (congrArg SliceData.prev_poc_lsb he).trans rfl
  · exact (congrArg SliceData.prev_poc_msb he).trans rfl
  · exact ((congrArg SliceData.prev_poc he).trans rfl).trans
      ((congrArg SliceData.curr_poc he).trans rfl).symm

theorem ParseSliceHeader_poc_msb_witness :
    ParseSliceHeader exampleEnv exampleParserWrap 1 exampleSlice1 = some exampleResult1 ∧
    exampleResult1.2.m_sh.dependent_slice_segment_flag = 0 ∧
    (1 ≠ NAL_UNIT_CODED_SLICE_IDR_W_RADL ∧ 1 ≠ NAL_UNIT_CODED_SLICE_IDR_N_LP) ∧
    (256 : Int) = 2 ^ ((exampleResult1.2.m_sps
      exampleResult1.2.m_active_sps_id.toNat).log2_max_pic_order_cnt_lsb_minus4 + 4) ∧
    (4 : Int) = (exampleResult1.2.m_sh.slice_pic_order_cnt_lsb : Int) ∧
    exampleResult1.2.m_slice.curr_poc_msb = exampleParserWrap.m_slice.prev_poc_msb + 256 ∧
    exampleResult1.2.m_slice.curr_poc = 4 + exampleResult1.2.m_slice.curr_poc_msb ∧
    exampleResult1.2.m_slice.prev_poc_lsb = 4 :=
  have h : ParseSliceHeader exampleEnv exampleParserWrap 1 exampleSlice1 = some exampleResult1 :=
    some_getD_of_isSome _ _ (by decide)
  have hind : exampleResult1.2.m_sh.dependent_slice_segment_flag = 0 := by decide
  have hidr : 1 ≠ NAL_UNIT_CODED_SLICE_IDR_W_RADL ∧ 1 ≠ NAL_UNIT_CODED_SLICE_IDR_N_LP := by
    decide
  have hmax : (256 : Int) = 2 ^ ((exampleResult1.2.m_sps
      exampleResult1.2.m_active_sps_id.toNat).log2_max_pic_order_cnt_lsb_minus4 + 4) := by
    decide
  have hlsb : (4 : Int) = (exampleResult1.2.m_sh.slice_pic_order_cnt_lsb : Int) := by decide
  have hc := ParseSliceHeader_poc_msb exampleEnv exampleParserWrap 1 exampleSlice1
    exampleResult1 256 4 h hind hidr (by decide) hmax hlsb (by decide) (by decide) (by decide)
  ⟨h, hind, hidr, hmax, hlsb, (hc.2.2.1 (by decide)).trans (if_pos (by decide)), hc.2.2.2.1,
    hc.2.2.2.2.2.1⟩

/-- C8 (counterexample). With `log2_max_pic_order_cnt_lsb_minus4 = 27` in the active SPS the
code computes `max_poc_lsb = 1 << 31`, which is `-2^31` in `int`, not `2^31`. From
`prev_poc_lsb = 5`, `prev_poc_msb = 0` an independent TRAIL_R slice with
`slice_pic_order_cnt_lsb = 3` gets `curr_poc_msb = -2^31` and `curr_poc = 3 - 2^31`, since
`5 - 3 ≥ max_poc_lsb / 2 = -2^30`; with `max = 2^31` neither wrap condition of the claim holds
(`5 - 3 < 2^30`), so the claim has `curr_poc_msb = prev_poc_msb = 0`. -/
theorem ParseSliceHeader_poc_msb_shift_overflow :
    (ParseSliceHeader exampleEnv (exampleParserPoc31 5) 1 exampleSlicePoc31a).map
        (fun r => (r.2.m_sh.dependent_slice_segment_flag, r.2.m_sh.slice_pic_order_cnt_lsb,
          (r.2.m_sps r.2.m_active_sps_id.toNat).log2_max_pic_order_cnt_lsb_minus4 + 4,
          r.2.m_slice.max_poc_lsb, r.2.m_slice.curr_poc_msb, r.2.m_slice.curr_poc))
      = some (0, 3, 31, -2147483648, -2147483648, -2147483645) ∧
    (exampleParserPoc31 5).m_slice.prev_poc_lsb = 5 ∧
    (exampleParserPoc31 5).m_slice.prev_poc_msb = 0 ∧
    ¬((3 : Int) < 5 ∧ (5 : Int) - 3 ≥ 2 ^ 31 / 2) ∧ ¬((3 : Int) > 5) := by
  decide

/-- C9. POC reset on IDR: for a parse that returns with an independent slice of NAL unit type
19 or 20, whatever the POC state before the call, afterwards `curr_poc`, `curr_poc_lsb`,
`curr_poc_msb`, `prev_poc`, `prev_poc_lsb` and `prev_poc_msb` are 0, the header member
`slice_pic_order_cnt_lsb` is 0, and the POC stage of the parse leaves the header and the bit
cursor as they are: no `slice_pic_order_cnt_lsb` bits are read. -/
theorem ParseSliceHeader_idr_reset (env : ParseEnv) (p : HevcParser) (t : Nat) (nalu : Nat → Nat)
    (r : Bool × HevcParser)
    (h : ParseSliceHeader env p t nalu = some r)
    (hind : r.2.m_sh.dependent_slice_segment_flag = 0)
    (hidr : t = NAL_UNIT_CODED_SLICE_IDR_W_RADL ∨ t = NAL_UNIT_CODED_SLICE_IDR_N_LP) :
    r.2.m_slice.curr_poc = 0 ∧ r.2.m_slice.curr_poc_lsb = 0 ∧ r.2.m_slice.curr_poc_msb = 0 ∧
    r.2.m_slice.prev_poc = 0 ∧ r.2.m_slice.prev_poc_lsb = 0 ∧ r.2.m_slice.prev_poc_msb = 0 ∧
    r.2.m_sh.slice_pic_order_cnt_lsb = 0 ∧
    (∀ sps s slice, shPoc env sps t nalu s slice = some (s, pocResetIdr slice)) := by
  obtain ⟨hs, hl⟩ := (ParseSliceHeader_independent env p t nalu r h hind).2.1 hidr
  rw [hs]
  exact ⟨rfl, rfl, rfl, rfl, rfl, rfl, hl, fun sps s slice => shPoc_idr env sps t nalu s slice hidr⟩

theorem ParseSliceHeader_idr_reset_witness :
    ParseSliceHeader exampleEnv exampleParserWrap 19 exampleSliceIdr = some exampleResultIdr ∧
    exampleResultIdr.2.m_sh.dependent_slice_segment_flag = 0 ∧
    (19 = NAL_UNIT_CODED_SLICE_IDR_W_RADL ∨ 19 = NAL_UNIT_CODED_SLICE_IDR_N_LP) ∧
    exampleParserWrap.m_slice.prev_poc_lsb = 250 ∧
    exampleResultIdr.2.m_slice.curr_poc = 0 ∧
    exampleResultIdr.2.m_slice.prev_poc_lsb = 0 :=
  have h : ParseSliceHeader exampleEnv exampleParserWrap 19 exampleSliceIdr
      = some exampleResultIdr := some_getD_of_isSome _ _ (by decide)
  have hind : exampleResultIdr.2.m_sh.dependent_slice_segment_flag = 0 := by decide
  have hc := ParseSliceHeader_idr_reset exampleEnv exampleParserWrap 19 exampleSliceIdr
    exampleResultIdr h hind (Or.inl rfl)
  ⟨h, hind, Or.inl rfl, rfl, hc.1, hc.2.2.2.2.1⟩

theorem ParseSliceHeader_core_copy (env : ParseEnv) (p : HevcParser) (t : Nat) (nalu : Nat → Nat)
    (r : Bool × HevcParser) (h : ParseSliceHeader env p t nalu = some r) :
    shCore r.2.m_sh = shCore r.2.m_sh_copy := by
  obtain ⟨hh, hI, hc⟩ := ParseSliceHeader_cases env p t nalu r h
  rcases hc with ⟨hd, s1, s2, s5, e, h1, h2, h5, hT, rfl⟩ | ⟨hd, e, hT, rfl⟩
  · exact shTrailer_core env _ nalu _ _ hT
  · exact (shTrailer_core env _ nalu _ _ hT).trans rfl

theorem ParseSliceHeader_dependent (env : ParseEnv) (p : HevcParser) (t : Nat) (nalu : Nat → Nat)
    (r : Bool × HevcParser) (h : ParseSliceHeader env p t nalu = some r)
    (hdep : r.2.m_sh.dependent_slice_segment_flag ≠ 0) :
    shCore r.2.m_sh = shCore p.m_sh_copy := by
  obtain ⟨hh, hI, hc⟩ := ParseSliceHeader_cases env p t nalu r h
  obtain ⟨f1, f2, f3, f4, f5, f6⟩ := sliceHeaderIds_frame env p t nalu hh hI
  rcases hc with ⟨hd, s1, s2, s5, e, h1, h2, h5, hT, rfl⟩ | ⟨hd, e, hT, rfl⟩
  · exfalso
    have k1 := shKey_dep (shTypeFlags_key env _ _ nalu _ _ h1)
    have k5 := shKey_dep (shAfterPoc_key env _ _ nalu _ _ h5)
    have kT := shKey_dep (shTrailer_key env _ nalu _ _ hT)
    have k2 : s2.1.1.dependent_slice_segment_flag = s1.1.dependent_slice_segment_flag := by
      by_cases ht : t = NAL_UNIT_CODED_SLICE_IDR_W_RADL ∨ t = NAL_UNIT_CODED_SLICE_IDR_N_LP
      · rw [shPoc_idr env _ t nalu s1 hh.1.m_slice ht] at h2
        cases h2
        rfl
      · exact (shPoc_non_idr env _ t nalu s1 hh.1.m_slice s2 ht h2).2
    apply hdep
    simp only at kT k1 ⊢
    rw [kT, k5, k2, k1, hd]
  · rw [← f4]
    exact (shTrailer_core env _ nalu _ _ hT).trans rfl

/-- C10 (as amended). Dependent-slice inheritance: when a parse of a slice header is followed
by a parse that returns with a dependent slice (`dependent_slice_segment_flag ≠ 0`), the
slice header held after the second parse equals the slice header held after the first parse
in every member other than the five identifying members and the five members read after the
copy is restored (`num_entry_point_offsets`, `offset_len_minus1`, `entry_point_offset_minus1`,
`slice_segment_header_extension_length`, `slice_segment_header_extension_data_byte`). -/
theorem ParseSliceHeader_dependent_inherits (env : ParseEnv) (p : HevcParser) (t1 t2 : Nat)
    (nalu1 nalu2 : Nat → Nat) (r1 r2 : Bool × HevcParser)
    (h1 : ParseSliceHeader env p t1 nalu1 = some r1)
    (h2 : ParseSliceHeader env r1.2 t2 nalu2 = some r2)
    (hdep : r2.2.m_sh.dependent_slice_segment_flag ≠ 0) :
    r2.2.m_sh =
      { r1.2.m_sh with
        first_slice_segment_in_pic_flag := r2.2.m_sh.first_slice_segment_in_pic_flag
        no_output_of_prior_pics_flag := r2.2.m_sh.no_output_of_prior_pics_flag
        slice_pic_parameter_set_id := r2.2.m_sh.slice_pic_parameter_set_id
        dependent_slice_segment_flag := r2.2.m_sh.dependent_slice_segment_flag
        slice_segment_address := r2.2.m_sh.slice_segment_address
        num_entry_point_offsets := r2.2.m_sh.num_entry_point_offsets
        offset_len_minus1 := r2.2.m_sh.offset_len_minus1
        entry_point_offset_minus1 := r2.2.m_sh.entry_point_offset_minus1
        slice_segment_header_extension_length := r2.2.m_sh.slice_segment_header_extension_length
        slice_segment_header_extension_data_byte :=
          r2.2.m_sh.slice_segment_header_extension_data_byte } := by
  have e : shCore r2.2.m_sh = shCore r1.2.m_sh :=
    (ParseSliceHeader_dependent env r1.2 t2 nalu2 r2 h2 hdep).trans
      (ParseSliceHeader_core_copy env p t1 nalu1 r1 h1).symm
  have step : ∀ a b : SliceHeaderData, shCore a = shCore b →
      a = { b with
        first_slice_segment_in_pic_flag := a.first_slice_segment_in_pic_flag
        no_output_of_prior_pics_flag := a.no_output_of_prior_pics_flag
        slice_pic_parameter_set_id := a.slice_pic_parameter_set_id
        dependent_slice_segment_flag := a.dependent_slice_segment_flag
        slice_segment_address := a.slice_segment_address
        num_entry_point_offsets := a.num_entry_point_offsets
        offset_len_minus1 := a.offset_len_minus1
        entry_point_offset_minus1 := a.entry_point_offset_minus1
        slice_segment_header_extension_length := a.slice_segment_header_extension_length
        slice_segment_header_extension_data_byte := a.slice_segment_header_extension_data_byte } := by
    intro a b hab
    cases a
    cases b
    simp only [shCore, SliceHeaderData.mk.injEq] at hab
    simp only [SliceHeaderData.mk.injEq]
    simp only [hab, and_self, true_and]
  exact step _ _ e

theorem ParseSliceHeader_dependent_inherits_witness :
    ParseSliceHeader exampleEnv exampleParserWrap 1 exampleSlice1 = some exampleResult1 ∧
    ParseSliceHeader exampleEnv exampleResult1.2 1 exampleSlice2 = some exampleResult2 ∧
    exampleResult2.2.m_sh.dependent_slice_segment_flag ≠ 0 ∧
    exampleResult2.2.m_sh.slice_qp_delta = exampleResult1.2.m_sh.slice_qp_delta ∧
    exampleResult2.2.m_sh.slice_type = exampleResult1.2.m_sh.slice_type :=
  have h1 : ParseSliceHeader exampleEnv exampleParserWrap 1 exampleSlice1 = some exampleResult1 :=
    some_getD_of_isSome _ _ (by decide)
  have h2 : ParseSliceHeader exampleEnv exampleResult1.2 1 exampleSlice2 = some exampleResult2 :=
    some_getD_of_isSome _ _ (by decide)
  have hdep : exampleResult2.2.m_sh.dependent_slice_segment_flag ≠ 0 := by decide
  have hc := ParseSliceHeader_dependent_inherits exampleEnv exampleParserWrap 1 1 exampleSlice1
    exampleSlice2 exampleResult1 exampleResult2 h1 h2 hdep
  ⟨h1, h2, hdep, (congrArg SliceHeaderData.slice_qp_delta hc).trans rfl,
    (congrArg SliceHeaderData.slice_type hc).trans rfl⟩

/-- C10 (counterexample). An independent slice segment with one entry point offset is followed
by a dependent slice segment of the same picture with none: the slice header held after the
second parse has `num_entry_point_offsets = 0` and `entry_point_offset_minus1[0] = 0`, the one
held after the first parse has `num_entry_point_offsets = 1` and
`entry_point_offset_minus1[0] = 1`. -/
theorem ParseSliceHeader_dependent_entry_points_differ :
    ParseSliceHeader exampleEnv exampleParserWrap 1 exampleSlice1 = some exampleResult1 ∧
    ParseSliceHeader exampleEnv exampleResult1.2 1 exampleSlice2 = some exampleResult2 ∧
    exampleResult1.2.m_sh.dependent_slice_segment_flag = 0 ∧
    exampleResult2.2.m_sh.dependent_slice_segment_flag = 1 ∧
    exampleResult2.2.m_sh.first_slice_segment_in_pic_flag = 0 ∧
    exampleResult1.2.m_sh.num_entry_point_offsets = 1 ∧
    exampleResult2.2.m_sh.num_entry_point_offsets = 0 ∧
    exampleResult1.2.m_sh.entry_point_offset_minus1 0 = 1 ∧
    exampleResult2.2.m_sh.entry_point_offset_minus1 0 = 0 ∧
    exampleResult2.2.m_sh.num_entry_point_offsets
      ≠ exampleResult1.2.m_sh.num_entry_point_offsets :=
  ⟨some_getD_of_isSome _ _ (by decide), some_getD_of_isSome _ _ (by decide), by decide,
    by decide, by decide, by decide, by decide, by decide, by decide, by decide⟩

theorem shIds_of_key {a b : SliceHeaderData} (h : shKey a = shKey b) : shIds a = shIds b :=
  congrArg (fun k => (k.1, k.2.1, k.2.2.1, k.2.2.2.1, k.2.2.2.2.1)) h

theorem shPoc_ids (env : ParseEnv) (sps : SpsData) (t : Nat) (nalu : Nat → Nat)
    (s : SliceHeaderData × Nat) (slice : SliceData) (r : (SliceHeaderData × Nat) × SliceData)
    (h : shPoc env sps t nalu s slice = some r) : shIds r.1.1 = shIds s.1 := by
  unfold shPoc at h
  split_ifs at h
  · cases h
    rfl
  · simp only at h
    split at h
    · cases h
    · rename_i s3 h3
      cases h
      exact (shIds_of_key (shRefPicSets_key env sps nalu _ _ h3)).trans rfl

theorem activate_ids (p : HevcParser) :
    (checkDimension (activateVps (activateSps p))).m_active_sps_id
      = ((p.m_pps p.m_active_pps_id.toNat).pps_seq_parameter_set_id : Int) ∧
    (checkDimension (activateVps (activateSps p))).m_active_vps_id
      = ((p.m_sps (checkDimension (activateVps (activateSps p))).m_active_sps_id.toNat
          ).sps_video_parameter_set_id : Int) ∧
    ((checkDimension (activateVps (activateSps p))).new_sps_activated = true ↔
      (p.new_sps_activated = true ∨
        p.m_active_sps_id ≠ ((p.m_pps p.m_active_pps_id.toNat).pps_seq_parameter_set_id : Int))) := by
  unfold checkDimension activateVps activateSps
  by_cases hne : p.m_active_sps_id
      ≠ ((p.m_pps p.m_active_pps_id.toNat).pps_seq_parameter_set_id : Int)
  · rw [if_pos hne]
    split_ifs <;> exact ⟨rfl, rfl, fun _ => Or.inr hne, fun _ => rfl⟩
  · rw [if_neg hne]
    split_ifs <;>
      exact ⟨not_not.mp hne, rfl, Or.inl, fun h => h.elim id (fun hn => absurd hn hne)⟩

theorem sliceHeaderIds_ids (env : ParseEnv) (p : HevcParser) (t : Nat) (nalu : Nat → Nat)
    (hh : HevcParser × SliceHeaderData × Nat) (h : sliceHeaderIds env p t nalu = some hh) :
    shIds hh.2.1 = shIds hh.1.m_sh ∧
    hh.1.m_active_pps_id = (hh.1.m_sh.slice_pic_parameter_set_id : Int) ∧
    hh.1.m_active_sps_id
      = ((p.m_pps hh.1.m_active_pps_id.toNat).pps_seq_parameter_set_id : Int) ∧
    hh.1.m_active_vps_id
      = ((p.m_sps hh.1.m_active_sps_id.toNat).sps_video_parameter_set_id : Int) ∧
    (hh.1.new_sps_activated = true ↔ (p.new_sps_activated = true ∨
      p.m_active_sps_id
        ≠ ((p.m_pps hh.1.m_active_pps_id.toNat).pps_seq_parameter_set_id : Int))) := by
  unfold sliceHeaderIds at h
  simp only at h
  split at h
  · cases h
  · rename_i ue hue
    cases h
    have ha := activate_ids { p with m_active_pps_id := (ue.1 : Int) }
    have hf := activate_frame { p with m_active_pps_id := (ue.1 : Int) }
    refine ⟨?_, ?_, ?_, ?_, ?_⟩
    · simp only
      split_ifs <;> rfl
    · simp only
      split_ifs <;>
        simp [checkDimension, activateVps, activateSps, setField, rdFlag, rdBits] <;>
        split_ifs <;> simp
    · exact ha.1.trans (by rw [hf.2.2.2.2])
    · exact ha.2.1
    · exact ha.2.2.trans (by rw [hf.2.2.2.2])

theorem ParseSliceHeader_ids (env : ParseEnv) (p : HevcParser) (t : Nat) (nalu : Nat → Nat)
    (r : Bool × HevcParser) (h : ParseSliceHeader env p t nalu = some r) :
    ∃ hh, sliceHeaderIds env p t nalu = some hh ∧ shIds r.2.m_sh = shIds hh.2.1 ∧
      r.2.m_active_pps_id = hh.1.m_active_pps_id ∧
      r.2.m_active_sps_id = hh.1.m_active_sps_id ∧
      r.2.m_active_vps_id = hh.1.m_active_vps_id ∧
      r.2.new_sps_activated = hh.1.new_sps_activated ∧
      r.2.m_sps = p.m_sps ∧ r.2.m_pps = p.m_pps := by
  obtain ⟨hh, hI, hc⟩ := ParseSliceHeader_cases env p t nalu r h
  obtain ⟨f1, f2, f3, f4, f5, f6⟩ := sliceHeaderIds_frame env p t nalu hh hI
  have hi := (sliceHeaderIds_ids env p t nalu hh hI).1
  refine ⟨hh, hI, ?_⟩
  rcases hc with ⟨hd, s1, s2, s5, e, h1, h2, h5, hT, rfl⟩ | ⟨hd, e, hT, rfl⟩
  · refine ⟨?_, rfl, rfl, rfl, rfl, f2, f3⟩
    have k1 := shIds_of_key (shTypeFlags_key env _ _ nalu _ _ h1)
    have k2 := shPoc_ids env _ t nalu _ _ _ h2
    have k5 := shIds_of_key (shAfterPoc_key env _ _ nalu _ _ h5)
    have kT := shIds_of_key (shTrailer_key env _ nalu _ _ hT)
    simp only at kT k1 ⊢
    rw [kT, k5, k2, k1, hi]
  · refine ⟨?_, rfl, rfl, rfl, rfl, f2, f3⟩
    have kT := shIds_of_key (shTrailer_key env _ nalu _ _ hT)
    simp only at kT ⊢
    rw [kT]
    rfl

/-- C11. Dependent-slice restore: when a parse of a slice header is followed by a parse that
returns with a dependent slice (`dependent_slice_segment_flag ≠ 0`), every member decoded in
the full-header part has the value held after the first parse (`shCore`, and in particular
`slice_type`, `num_ref_idx_l0/l1_active_minus1`, `slice_qp_delta`, `slice_pic_order_cnt_lsb`,
the short-term and long-term RPS and the deblocking members), while the five identifying
members hold the values that the second parse read into `temp_sh` from the dependent slice
itself. -/
theorem ParseSliceHeader_dependent_restore (env : ParseEnv) (p : HevcParser) (t1 t2 : Nat)
    (nalu1 nalu2 : Nat → Nat) (r1 r2 : Bool × HevcParser)
    (h1 : ParseSliceHeader env p t1 nalu1 = some r1)
    (h2 : ParseSliceHeader env r1.2 t2 nalu2 = some r2)
    (hdep : r2.2.m_sh.dependent_slice_segment_flag ≠ 0) :
    shCore r2.2.m_sh = shCore r1.2.m_sh ∧
    (r2.2.m_sh.slice_type = r1.2.m_sh.slice_type ∧
      r2.2.m_sh.num_ref_idx_l0_active_minus1 = r1.2.m_sh.num_ref_idx_l0_active_minus1 ∧
      r2.2.m_sh.num_ref_idx_l1_active_minus1 = r1.2.m_sh.num_ref_idx_l1_active_minus1 ∧
      r2.2.m_sh.slice_qp_delta = r1.2.m_sh.slice_qp_delta ∧
      r2.2.m_sh.slice_pic_order_cnt_lsb = r1.2.m_sh.slice_pic_order_cnt_lsb ∧
      r2.2.m_sh.st_rps = r1.2.m_sh.st_rps ∧ r2.2.m_sh.lt_rps = r1.2.m_sh.lt_rps ∧
      r2.2.m_sh.deblocking_filter_override_flag = r1.2.m_sh.deblocking_filter_override_flag ∧
      r2.2.m_sh.slice_deblocking_filter_disabled_flag
        = r1.2.m_sh.slice_deblocking_filter_disabled_flag ∧
      r2.2.m_sh.slice_beta_offset_div2 = r1.2.m_sh.slice_beta_offset_div2 ∧
      r2.2.m_sh.slice_tc_offset_div2 = r1.2.m_sh.slice_tc_offset_div2) ∧
    ∃ hh, sliceHeaderIds env r1.2 t2 nalu2 = some hh ∧
      r2.2.m_sh.first_slice_segment_in_pic_flag = hh.2.1.first_slice_segment_in_pic_flag ∧
      r2.2.m_sh.no_output_of_prior_pics_flag = hh.2.1.no_output_of_prior_pics_flag ∧
      r2.2.m_sh.slice_pic_parameter_set_id = hh.2.1.slice_pic_parameter_set_id ∧
      r2.2.m_sh.dependent_slice_segment_flag = hh.2.1.dependent_slice_segment_flag ∧
      r2.2.m_sh.slice_segment_address = hh.2.1.slice_segment_address := by
  have e : shCore r2.2.m_sh = shCore r1.2.m_sh :=
    (ParseSliceHeader_dependent env r1.2 t2 nalu2 r2 h2 hdep).trans
      (ParseSliceHeader_core_copy env p t1 nalu1 r1 h1).symm
  obtain ⟨hh, hI, hi, _⟩ := ParseSliceHeader_ids env r1.2 t2 nalu2 r2 h2
  have f : ∀ {α : Type} (π : SliceHeaderData → α), π (shCore r2.2.m_sh) = π (shCore r1.2.m_sh) :=
    fun π => congrArg π e
  refine ⟨e, ⟨?_, ?_, ?_, ?_, ?_, ?_, ?_, ?_, ?_, ?_, ?_⟩, hh, hI, ?_, ?_, ?_, ?_, ?_⟩
  · exact f SliceHeaderData.slice_type
  · exact f SliceHeaderData.num_ref_idx_l0_active_minus1
  · exact f SliceHeaderData.num_ref_idx_l1_active_minus1
  · exact f SliceHeaderData.slice_qp_delta
  · exact f SliceHeaderData.slice_pic_order_cnt_lsb
  · exact f SliceHeaderData.st_rps
  · exact f SliceHeaderData.lt_rps
  · exact f SliceHeaderData.deblocking_filter_override_flag
  · exact f SliceHeaderData.slice_deblocking_filter_disabled_flag
  · exact f SliceHeaderData.slice_beta_offset_div2
  · exact f SliceHeaderData.slice_tc_offset_div2
  · exact congrArg (fun k => k.1) hi
  · exact congrArg (fun k => k.2.1) hi
  · exact congrArg (fun k => k.2.2.1) hi
  · exact congrArg (fun k => k.2.2.2.1) hi
  · exact congrArg (fun k => k.2.2.2.2) hi

theorem ParseSliceHeader_dependent_restore_witness :
    ParseSliceHeader exampleEnv exampleParserWrap 1 exampleSlice1 = some exampleResult1 ∧
    ParseSliceHeader exampleEnv exampleResult1.2 1 exampleSlice2 = some exampleResult2 ∧
    exampleResult2.2.m_sh.dependent_slice_segment_flag ≠ 0 ∧
    exampleResult1.2.m_sh.dependent_slice_segment_flag = 0 ∧
    exampleResult2.2.m_sh.slice_type = HEVC_SLICE_TYPE_P ∧
    exampleResult2.2.m_sh.num_ref_idx_l0_active_minus1 = 2 ∧
    exampleResult2.2.m_sh.slice_qp_delta = -3 ∧
    exampleResult2.2.m_sh.slice_segment_address = 42 ∧
    exampleResult2.2.m_sh.first_slice_segment_in_pic_flag = 0 ∧
    exampleResult2.2.m_sh.dependent_slice_segment_flag = 1 :=
  have h1 : ParseSliceHeader exampleEnv exampleParserWrap 1 exampleSlice1 = some exampleResult1 :=
    some_getD_of_isSome _ _ (by decide)
  have h2 : ParseSliceHeader exampleEnv exampleResult1.2 1 exampleSlice2 = some exampleResult2 :=
    some_getD_of_isSome _ _ (by decide)
  have hdep : exampleResult2.2.m_sh.dependent_slice_segment_flag ≠ 0 := by decide
  have hc := (ParseSliceHeader_dependent_restore exampleEnv exampleParserWrap 1 1 exampleSlice1
    exampleSlice2 exampleResult1 exampleResult2 h1 h2 hdep).2.1
  ⟨h1, h2, hdep, by decide, hc.1.trans (by decide), hc.2.1.trans (by decide),
    hc.2.2.2.1.trans (by decide), by decide, by decide, by decide⟩

/-- C12. Parameter-set activation by a slice: after every parse of a slice header that returns,
`m_active_pps_id_` is the parsed `slice_pic_parameter_set_id`, `m_active_sps_id_` is the
`pps_seq_parameter_set_id` of that PPS, `m_active_vps_id_` is the `sps_video_parameter_set_id`
of that SPS, and `new_sps_activated_` is set exactly when it was set before the call or the
SPS id of the PPS differs from the `m_active_sps_id_` held before the call; so it is set
whenever `m_active_sps_id_` was `-1`, and a flag already set stays set. The SPS and PPS tables
are unchanged. -/
theorem ParseSliceHeader_activation (env : ParseEnv) (p : HevcParser) (t : Nat)
    (nalu : Nat → Nat) (r : Bool × HevcParser)
    (h : ParseSliceHeader env p t nalu = some r) :
    r.2.m_active_pps_id = (r.2.m_sh.slice_pic_parameter_set_id : Int) ∧
    r.2.m_active_sps_id
      = ((r.2.m_pps r.2.m_active_pps_id.toNat).pps_seq_parameter_set_id : Int) ∧
    r.2.m_active_vps_id
      = ((r.2.m_sps r.2.m_active_sps_id.toNat).sps_video_parameter_set_id : Int) ∧
    (r.2.new_sps_activated = true ↔ (p.new_sps_activated = true ∨
      p.m_active_sps_id
        ≠ ((r.2.m_pps r.2.m_active_pps_id.toNat).pps_seq_parameter_set_id : Int))) ∧
    (p.m_active_sps_id = -1 → r.2.new_sps_activated = true) ∧
    (p.new_sps_activated = true → r.2.new_sps_activated = true) ∧
    r.2.m_sps = p.m_sps ∧ r.2.m_pps = p.m_pps := by
  obtain ⟨hh, hI, hi, g1, g2, g3, g4, g5, g6⟩ := ParseSliceHeader_ids env p t nalu r h
  obtain ⟨i1, i2, i3, i4, i5⟩ := sliceHeaderIds_ids env p t nalu hh hI
  have e1 : r.2.m_active_pps_id = (r.2.m_sh.slice_pic_parameter_set_id : Int) := by
    have a : r.2.m_sh.slice_pic_parameter_set_id = hh.1.m_sh.slice_pic_parameter_set_id :=
      congrArg (fun k => k.2.2.1) (hi.trans i1)
    rw [g1, a, i2]
  have e4 : r.2.new_sps_activated = true ↔ (p.new_sps_activated = true ∨
      p.m_active_sps_id
        ≠ ((r.2.m_pps r.2.m_active_pps_id.toNat).pps_seq_parameter_set_id : Int)) := by
    rw [g4, g6, g1]
    exact i5
  refine ⟨e1, ?_, ?_, e4, ?_, fun hp => e4.2 (Or.inl hp), g5, g6⟩
  · rw [g2, g6, g1]
    exact i3
  · rw [g3, g5, g2]
    exact i4
  · intro hm
    refine e4.2 (Or.inr ?_)
    rw [hm]
    intro hc
    have : (0 : Int) ≤ -1 := hc ▸ Int.ofNat_nonneg _
    omega

theorem ParseSliceHeader_activation_witness :
    ParseSliceHeader exampleEnv exampleParserWrap 1 exampleSlice1 = some exampleResult1 ∧
    exampleParserWrap.m_active_sps_id = -1 ∧
    exampleResult1.2.m_active_pps_id = 0 ∧ exampleResult1.2.m_active_sps_id = 0 ∧
    exampleResult1.2.new_sps_activated = true :=
  have h : ParseSliceHeader exampleEnv exampleParserWrap 1 exampleSlice1 = some exampleResult1 :=
    some_getD_of_isSome _ _ (by decide)
  have hc := ParseSliceHeader_activation exampleEnv exampleParserWrap 1 exampleSlice1
    exampleResult1 h
  ⟨h, rfl, hc.1.trans (by decide), hc.2.1.trans (by decide), hc.2.2.2.2.1 rfl⟩

/-- C20 (as amended). POC scenario 4: for an independent slice that is neither IDR nor BLA, with
`log2_max_pic_order_cnt_lsb_minus4 = 4` (`max_poc_lsb = 256`) and `prev_poc_msb = 0` before the
call: from `prev_poc_lsb = 252` a slice with `slice_pic_order_cnt_lsb = 4` yields
`curr_poc_msb = 256` and `curr_poc = 260` (the LSB wrapped upwards), and from
`prev_poc_lsb = 4` a slice with `slice_pic_order_cnt_lsb = 250` yields `curr_poc_msb = -256`
and `curr_poc = -6` (the LSB wrapped downwards). -/
theorem ParseSliceHeader_poc_scenario (env : ParseEnv) (p : HevcParser) (t : Nat)
    (nalu : Nat → Nat) (r : Bool × HevcParser)
    (h : ParseSliceHeader env p t nalu = some r)
    (hind : r.2.m_sh.dependent_slice_segment_flag = 0)
    (hidr : t ≠ NAL_UNIT_CODED_SLICE_IDR_W_RADL ∧ t ≠ NAL_UNIT_CODED_SLICE_IDR_N_LP)
    (hbla : t ≠ NAL_UNIT_CODED_SLICE_BLA_W_LP ∧ t ≠ NAL_UNIT_CODED_SLICE_BLA_W_RADL ∧
      t ≠ NAL_UNIT_CODED_SLICE_BLA_N_LP)
    (hlog : (r.2.m_sps r.2.m_active_sps_id.toNat).log2_max_pic_order_cnt_lsb_minus4 = 4)
    (hmsb : p.m_slice.prev_poc_msb = 0) :
    (p.m_slice.prev_poc_lsb = 252 → r.2.m_sh.slice_pic_order_cnt_lsb = 4 →
      r.2.m_slice.max_poc_lsb = 256 ∧ r.2.m_slice.curr_poc_msb = 256 ∧
      r.2.m_slice.curr_poc = 260) ∧
    (p.m_slice.prev_poc_lsb = 4 → r.2.m_sh.slice_pic_order_cnt_lsb = 250 →
      r.2.m_slice.max_poc_lsb = 256 ∧ r.2.m_slice.curr_poc_msb = -256 ∧
      r.2.m_slice.curr_poc = -6) := by
  have hs := (ParseSliceHeader_independent env p t nalu r h hind).2.2
    (fun hc => hc.elim hidr.1 hidr.2)
  have hnb : ¬(t ≥ NAL_UNIT_CODED_SLICE_BLA_W_LP ∧ t < NAL_UNIT_CODED_SLICE_CRA_NUT) := by
    simp only [NAL_UNIT_CODED_SLICE_BLA_W_LP, NAL_UNIT_CODED_SLICE_BLA_W_RADL,
      NAL_UNIT_CODED_SLICE_BLA_N_LP, NAL_UNIT_CODED_SLICE_CRA_NUT,
      NAL_UNIT_CODED_SLICE_IDR_W_RADL, NAL_UNIT_CODED_SLICE_IDR_N_LP] at hidr hbla ⊢
    omega
  have hm := pocDerive_msb t
    ((r.2.m_sps r.2.m_active_sps_id.toNat).log2_max_pic_order_cnt_lsb_minus4 + 4)
    r.2.m_sh.slice_pic_order_cnt_lsb p.m_slice
  have he := pocDerive_eq t
    ((r.2.m_sps r.2.m_active_sps_id.toNat).log2_max_pic_order_cnt_lsb_minus4 + 4)
    r.2.m_sh.slice_pic_order_cnt_lsb p.m_slice
  rw [← hs] at hm he
  rw [if_neg hnb, hlog, hmsb] at hm
  rw [hlog] at he
  have hmax : r.2.m_slice.max_poc_lsb = 256 :=
    (congrArg SliceData.max_poc_lsb he).trans (show shlInt32 (4 + 4) = 256 by decide)
  have hpoc : r.2.m_slice.curr_poc
      = wrapInt32 (wrapInt32 (r.2.m_sh.slice_pic_order_cnt_lsb : Int)
          + r.2.m_slice.curr_poc_msb) :=
    (congrArg SliceData.curr_poc he).trans rfl
  constructor
  · intro hl hv
    rw [hl, hv] at hm
    rw [hv] at hpoc
    have hm2 : r.2.m_slice.curr_poc_msb = 256 := hm.trans (by decide)
    exact ⟨hmax, hm2, by rw [hpoc, hm2]; decide⟩
  · intro hl hv
    rw [hl, hv] at hm
    rw [hv] at hpoc
    have hm2 : r.2.m_slice.curr_poc_msb = -256 := hm.trans (by decide)
    exact ⟨hmax, hm2, by rw [hpoc, hm2]; decide⟩

theorem ParseSliceHeader_poc_scenario_witness :
    ParseSliceHeader exampleEnv exampleParser252 1 exampleSlice1 = some examplePocResult1 ∧
    examplePocResult1.2.m_sh.dependent_slice_segment_flag = 0 ∧
    exampleParser252.m_slice.prev_poc_lsb = 252 ∧ exampleParser252.m_slice.prev_poc_msb = 0 ∧
    examplePocResult1.2.m_sh.slice_pic_order_cnt_lsb = 4 ∧
    examplePocResult1.2.m_slice.curr_poc_msb = 256 ∧
    examplePocResult1.2.m_slice.curr_poc = 260 :=
  have h : ParseSliceHeader exampleEnv exampleParser252 1 exampleSlice1
      = some examplePocResult1 := some_getD_of_isSome _ _ (by decide)
  have hind : examplePocResult1.2.m_sh.dependent_slice_segment_flag = 0 := by decide
  have hv : examplePocResult1.2.m_sh.slice_pic_order_cnt_lsb = 4 := by decide
  have hc := (ParseSliceHeader_poc_scenario exampleEnv exampleParser252 1 exampleSlice1
    examplePocResult1 h hind (by decide) (by decide) (by decide) rfl).1 rfl hv
  ⟨h, hind, rfl, rfl, hv, hc.2.1, hc.2.2⟩

/-- C20 (counterexample). With `log2_max_pic_order_cnt_lsb_minus4 = 4`, a TRAIL_R slice with
`slice_pic_order_cnt_lsb = 4` parsed from `prev_poc_lsb = 252`, `prev_poc_msb = 0` yields
`curr_poc_msb = 256` and `curr_poc = 260`, not 0 and 4; a TRAIL_R slice with
`slice_pic_order_cnt_lsb = 250` parsed from `prev_poc_lsb = 4`, `prev_poc_msb = 0` yields
`curr_poc_msb = -256` and `curr_poc = -6`, not 256 and 506. -/
theorem ParseSliceHeader_poc_scenario_differs :
    ParseSliceHeader exampleEnv exampleParser252 1 exampleSlice1 = some examplePocResult1 ∧
    (exampleParser252.m_sps 0).log2_max_pic_order_cnt_lsb_minus4 = 4 ∧
    exampleParser252.m_slice.prev_poc_lsb = 252 ∧ exampleParser252.m_slice.prev_poc_msb = 0 ∧
    examplePocResult1.2.m_sh.slice_pic_order_cnt_lsb = 4 ∧
    examplePocResult1.2.m_slice.curr_poc_msb = 256 ∧
    examplePocResult1.2.m_slice.curr_poc = 260 ∧
    ParseSliceHeader exampleEnv exampleParser4 1 exampleSlice250 = some examplePocResult2 ∧
    exampleParser4.m_slice.prev_poc_lsb = 4 ∧ exampleParser4.m_slice.prev_poc_msb = 0 ∧
    examplePocResult2.2.m_sh.slice_pic_order_cnt_lsb = 250 ∧
    examplePocResult2.2.m_slice.curr_poc_msb = -256 ∧
    examplePocResult2.2.m_slice.curr_poc = -6 :=
  ⟨some_getD_of_isSome _ _ (by decide), by decide, rfl, rfl, by decide, by decide, by decide,
    some_getD_of_isSome _ _ (by decide), rfl, rfl, by decide, by decide, by decide⟩

/-! ## Theorems on the statements of a parser -/

section KeepsLemmas
variable {σ β : Type} {π : σ → β}

theorem allKeep_nil : AllKeep π ([] : List (Step σ)) := trivial

theorem allKeep_cons {f : Step σ} {fs : List (Step σ)} (h1 : Keeps π f) (h2 : AllKeep π fs) :
    AllKeep π (f :: fs) := ⟨h1, h2⟩

theorem keeps_runSteps {l : List (Step σ)} (h : AllKeep π l) : Keeps π (runSteps l) := by
  induction l with
  | nil =>
    intro s r hr
    simp only [runSteps, Option.some.injEq] at hr
    rw [hr]
  | cons f fs ih =>
    intro s r hr
    simp only [runSteps] at hr
    split at hr
    · cases hr
    · rename_i s1 h1
      exact (ih h.2 s1 r hr).trans (h.1 s s1 h1)

theorem keeps_set {f : σ → σ} (h : ∀ x, π (f x) = π x) : Keeps π (stepSet f) := by
  intro s r hr
  simp only [stepSet, Option.some.injEq] at hr
  rw [← hr]
  exact h _

theorem keeps_flag {upd : σ → Nat → σ} {nalu : Nat → Nat} (h : ∀ x v, π (upd x v) = π x) :
    Keeps π (stepFlag upd nalu) := by
  intro s r hr
  simp only [stepFlag, Option.some.injEq] at hr
  rw [← hr]
  exact h _ _

theorem keeps_bits {upd : σ → Nat → σ} {n : Nat} {nalu : Nat → Nat}
    (h : ∀ x v, π (upd x v) = π x) : Keeps π (stepBits upd n nalu) := by
  intro s r hr
  simp only [stepBits, Option.some.injEq] at hr
  rw [← hr]
  exact h _ _

theorem keeps_ue {fuel : Nat} {upd : σ → Nat → σ} {nalu : Nat → Nat}
    (h : ∀ x v, π (upd x v) = π x) : Keeps π (stepUe fuel upd nalu) :=
  fun _ _ hr => rdUe_proj π hr h

theorem keeps_se {fuel : Nat} {upd : σ → Int → σ} {nalu : Nat → Nat}
    (h : ∀ x v, π (upd x v) = π x) : Keeps π (stepSe fuel upd nalu) :=
  fun _ _ hr => rdSe_proj π hr h

theorem keeps_skipBits {k : Nat} : Keeps π (stepSkipBits k : Step σ) := by
  intro s r hr
  simp only [stepSkipBits, Option.some.injEq] at hr
  rw [← hr]

theorem keeps_dyn {f : σ → Step σ} (h : ∀ x, Keeps π (f x)) : Keeps π (stepDyn f) :=
  fun s r hr => h s.1 s r hr

theorem keeps_if {c : σ → Bool} {t e : List (Step σ)} (ht : AllKeep π t) (he : AllKeep π e) :
    Keeps π (stepIf c t e) := by
  intro s r hr
  simp only [stepIf] at hr
  split at hr
  · exact keeps_runSteps ht s r hr
  · exact keeps_runSteps he s r hr

theorem keeps_for {start : Nat} {count : σ → Nat} {body : Nat → List (Step σ)}
    (h : ∀ i, AllKeep π (body i)) : Keeps π (stepFor start count body) := by
  intro s r hr
  simp only [stepFor] at hr
  exact forLoop_proj π hr (fun i a b hab => keeps_runSteps (h i) a b hab)

theorem keeps_sub {τ : Type} {get : σ → τ} {put : σ → τ → σ} {f : Step τ}
    (h : ∀ x v, π (put x v) = π x) : Keeps π (stepSub get put f) := by
  intro s r hr
  simp only [stepSub] at hr
  split at hr
  · cases hr
  · cases hr
    exact h _ _

end KeepsLemmas

/-! ## Theorems on the parameter sets -/

theorem ParseVpsBody_keeps_id (fuel : Nat) (nalu : Nat → Nat) :
    Keeps (fun vps : VpsData => vps.vps_video_parameter_set_id) (ParseVpsBody fuel nalu) := by
  unfold ParseVpsBody
  repeat' first
    | exact allKeep_nil
    | apply keeps_runSteps
    | apply allKeep_cons
    | apply keeps_if
    | apply keeps_for
    | apply keeps_dyn
    | apply keeps_sub
    | apply keeps_flag
    | apply keeps_bits
    | apply keeps_ue
    | apply keeps_se
    | apply keeps_set
    | exact keeps_skipBits
    | intro _
    | rfl

theorem ParseVpsSlot_id (fuel : Nat) (nalu : Nat → Nat) (r : Nat × VpsData)
    (h : ParseVpsSlot fuel nalu = some r) :
    r.2.vps_video_parameter_set_id = r.1 ∧ r.1 = (ReadBits nalu 0 4).1 := by
  unfold ParseVpsSlot at h
  simp only at h
  split at h
  · cases h
  · rename_i s hs
    cases h
    exact ⟨ParseVpsBody_keeps_id fuel nalu _ _ hs, rfl⟩

/-- C16 (evaluation at the failing inputs). `ParsePps` on an RBSP with `pps_id = 64` writes the
slot 64, outside the capacity of the PPS table; `ParseSps` on an RBSP with `sps_id = 32`
writes the slot 32, outside the capacity of the SPS table; `ParseSliceHeader` on a slice with
`slice_pic_parameter_set_id = 64` makes 64 the active PPS id and reads `m_pps_[64]`. None of
them rejects its input. -/
theorem ParameterSets_ids_unchecked :
    ((ParsePps exampleEnv initialParser.mem examplePpsId64).map
        (fun m => (m.hevc.m_pps 64).pps_pic_parameter_set_id) = some 64 ∧
      ¬ 64 < MAX_PPS_COUNT) ∧
    ((ParseSps exampleEnv initialParser.mem exampleSpsId32).map
        (fun m => (m.hevc.m_sps 32).sps_seq_parameter_set_id) = some 32 ∧
      ¬ 32 < MAX_SPS_COUNT) ∧
    ((ParseSliceHeader exampleEnv initialParser.mem.hevc 1 exampleSlicePps64).map
        (fun r => (r.1, r.2.m_active_pps_id)) = some (false, 64) ∧
      (sliceHeaderIds exampleEnv initialParser.mem.hevc 1 exampleSlicePps64).map
        (fun hh => hh.1.m_active_pps_id.toNat) = some 64) := by
  decide

/-- C13 (as amended). Display area of the video format: for an SPS with
`chroma_format_idc ≤ 3` whose `pic_width_in_luma_samples` and `pic_height_in_luma_samples` are
below `2^31`, `FillSeqCallbackFn` sets `display_area` to `(0, 0, pic_width_in_luma_samples,
pic_height_in_luma_samples)` when `conformance_window_flag = 0`, and otherwise, when the four
conformance window offsets are below `2^30`, to `(SubWidthC * left, SubHeightC * top,
width - SubWidthC * right, height - SubHeightC * bottom)` with `(SubWidthC, SubHeightC) =
(1, 1), (2, 2), (2, 1), (1, 1)` for `chroma_format_idc` 0, 1, 2, 3; for 4:2:0, 1920x1088 and
the offsets `(0, 0, 0, 4)` the area is `(0, 0, 1920, 1080)`. Whatever the offsets are, the
members hold these values reduced to `int` (`wrapInt32`). -/
theorem FillSeqCallbackFn_display_area (vf : RocdecVideoFormat) (sps_data : SpsData)
    (hc : sps_data.chroma_format_idc ≤ 3)
    (hw : sps_data.pic_width_in_luma_samples < 2 ^ 31)
    (hh : sps_data.pic_height_in_luma_samples < 2 ^ 31) :
    (sps_data.conformance_window_flag = 0 →
      (FillSeqCallbackFn vf sps_data).display_area
        = { left := 0, top := 0, right := sps_data.pic_width_in_luma_samples,
            bottom := sps_data.pic_height_in_luma_samples }) ∧
    (sps_data.conformance_window_flag ≠ 0 →
      (FillSeqCallbackFn vf sps_data).display_area
        = { left := wrapInt32
              (subWidthC sps_data.chroma_format_idc * sps_data.conf_win_left_offset)
            top := wrapInt32
              (subHeightC sps_data.chroma_format_idc * sps_data.conf_win_top_offset)
            right := wrapInt32 ((sps_data.pic_width_in_luma_samples : Int)
              - subWidthC sps_data.chroma_format_idc * sps_data.conf_win_right_offset)
            bottom := wrapInt32 ((sps_data.pic_height_in_luma_samples : Int)
              - subHeightC sps_data.chroma_format_idc * sps_data.conf_win_bottom_offset) }) ∧
    (sps_data.conformance_window_flag ≠ 0 →
      sps_data.conf_win_left_offset < 2 ^ 30 → sps_data.conf_win_right_offset < 2 ^ 30 →
      sps_data.conf_win_top_offset < 2 ^ 30 → sps_data.conf_win_bottom_offset < 2 ^ 30 →
      (FillSeqCallbackFn vf sps_data).display_area
        = { left := subWidthC sps_data.chroma_format_idc * sps_data.conf_win_left_offset
            top := subHeightC sps_data.chroma_format_idc * sps_data.conf_win_top_offset
            right := (sps_data.pic_width_in_luma_samples : Int)
              - subWidthC sps_data.chroma_format_idc * sps_data.conf_win_right_offset
            bottom := (sps_data.pic_height_in_luma_samples : Int)
              - subHeightC sps_data.chroma_format_idc * sps_data.conf_win_bottom_offset }) ∧
    (subWidthC 0, subHeightC 0) = (1, 1) ∧ (subWidthC 1, subHeightC 1) = (2, 2) ∧
    (subWidthC 2, subHeightC 2) = (2, 1) ∧ (subWidthC 3, subHeightC 3) = (1, 1) ∧
    (sps_data.chroma_format_idc = 1 → sps_data.pic_width_in_luma_samples = 1920 →
      sps_data.pic_height_in_luma_samples = 1088 → sps_data.conformance_window_flag ≠ 0 →
      sps_data.conf_win_left_offset = 0 → sps_data.conf_win_right_offset = 0 →
      sps_data.conf_win_top_offset = 0 → sps_data.conf_win_bottom_offset = 4 →
      (FillSeqCallbackFn vf sps_data).display_area
        = { left := 0, top := 0, right := 1920, bottom := 1080 }) := by
  have key : ∀ c1 c2 : Int, fillSeqHead vf sps_data = ((fillSeqHead vf sps_data).1, some (c1, c2)) →
      (FillSeqCallbackFn vf sps_data).display_area
        = (fillSeqDisplayArea (fillSeqHead vf sps_data).1 sps_data c1 c2).display_area := by
    intro c1 c2 h
    unfold FillSeqCallbackFn
    rw [h]
    simp only [fillSeqTail]
    split_ifs <;> rfl
  have hwh : (fillSeqHead vf sps_data).1.coded_width = sps_data.pic_width_in_luma_samples ∧
      (fillSeqHead vf sps_data).1.coded_height = sps_data.pic_height_in_luma_samples := by
    unfold fillSeqHead
    simp only
    split_ifs <;> exact ⟨rfl, rfl⟩
  have hhd : fillSeqHead vf sps_data = ((fillSeqHead vf sps_data).1,
      some (subWidthC sps_data.chroma_format_idc, subHeightC sps_data.chroma_format_idc)) := by
    have h4 : sps_data.chroma_format_idc = 0 ∨ sps_data.chroma_format_idc = 1 ∨
        sps_data.chroma_format_idc = 2 ∨ sps_data.chroma_format_idc = 3 := by omega
    unfold fillSeqHead
    simp only [rocDecVideoChromaFormat_Monochrome, rocDecVideoChromaFormat_420,
      rocDecVideoChromaFormat_422, rocDecVideoChromaFormat_444, subWidthC, subHeightC]
    rcases h4 with h | h | h | h <;> rw [h] <;> simp
  have hd := key _ _ hhd
  have ew : wrapInt32 (sps_data.pic_width_in_luma_samples : Int)
      = sps_data.pic_width_in_luma_samples := by
    refine wrapInt32_eq _ ?_ ?_ <;> norm_num <;> omega
  have eh : wrapInt32 (sps_data.pic_height_in_luma_samples : Int)
      = sps_data.pic_height_in_luma_samples := by
    refine wrapInt32_eq _ ?_ ?_ <;> norm_num <;> omega
  have h0 : sps_data.conformance_window_flag = 0 →
      (FillSeqCallbackFn vf sps_data).display_area
        = { left := 0, top := 0, right := sps_data.pic_width_in_luma_samples,
            bottom := sps_data.pic_height_in_luma_samples } := by
    intro hf
    rw [hd]
    unfold fillSeqDisplayArea
    rw [if_neg (by simp [hf])]
    simp only [hwh.1, hwh.2, ew, eh]
  have h1 : sps_data.conformance_window_flag ≠ 0 →
      (FillSeqCallbackFn vf sps_data).display_area
        = { left := wrapInt32
              (subWidthC sps_data.chroma_format_idc * sps_data.conf_win_left_offset)
            top := wrapInt32
              (subHeightC sps_data.chroma_format_idc * sps_data.conf_win_top_offset)
            right := wrapInt32 ((sps_data.pic_width_in_luma_samples : Int)
              - subWidthC sps_data.chroma_format_idc * sps_data.conf_win_right_offset)
            bottom := wrapInt32 ((sps_data.pic_height_in_luma_samples : Int)
              - subHeightC sps_data.chroma_format_idc * sps_data.conf_win_bottom_offset) } := by
    intro hf
    rw [hd]
    unfold fillSeqDisplayArea
    rw [if_pos hf]
  have hsw : subWidthC sps_data.chroma_format_idc = 1 ∨ subWidthC sps_data.chroma_format_idc = 2 := by
    unfold subWidthC; split_ifs <;> simp
  have hsh : subHeightC sps_data.chroma_format_idc = 1 ∨
      subHeightC sps_data.chroma_format_idc = 2 := by
    unfold subHeightC; split_ifs <;> simp
  have h2 : sps_data.conformance_window_flag ≠ 0 →
      sps_data.conf_win_left_offset < 2 ^ 30 → sps_data.conf_win_right_offset < 2 ^ 30 →
      sps_data.conf_win_top_offset < 2 ^ 30 → sps_data.conf_win_bottom_offset < 2 ^ 30 →
      (FillSeqCallbackFn vf sps_data).display_area
        = { left := subWidthC sps_data.chroma_format_idc * sps_data.conf_win_left_offset
            top := subHeightC sps_data.chroma_format_idc * sps_data.conf_win_top_offset
            right := (sps_data.pic_width_in_luma_samples : Int)
              - subWidthC sps_data.chroma_format_idc * sps_data.conf_win_right_offset
            bottom := (sps_data.pic_height_in_luma_samples : Int)
              - subHeightC sps_data.chroma_format_idc * sps_data.conf_win_bottom_offset } := by
    intro hf b1 b2 b3 b4
    rw [h1 hf]
    have a1 : wrapInt32 (subWidthC sps_data.chroma_format_idc * sps_data.conf_win_left_offset)
        = subWidthC sps_data.chroma_format_idc * sps_data.conf_win_left_offset := by
      refine wrapInt32_eq _ ?_ ?_ <;> rcases hsw with e | e <;> rw [e] <;> norm_num <;> omega
    have a2 : wrapInt32 (subHeightC sps_data.chroma_format_idc * sps_data.conf_win_top_offset)
        = subHeightC sps_data.chroma_format_idc * sps_data.conf_win_top_offset := by
      refine wrapInt32_eq _ ?_ ?_ <;> rcases hsh with e | e <;> rw [e] <;> norm_num <;> omega
    have a3 : wrapInt32 ((sps_data.pic_width_in_luma_samples : Int)
          - subWidthC sps_data.chroma_format_idc * sps_data.conf_win_right_offset)
        = (sps_data.pic_width_in_luma_samples : Int)
          - subWidthC sps_data.chroma_format_idc * sps_data.conf_win_right_offset := by
      refine wrapInt32_eq _ ?_ ?_ <;> rcases hsw with e | e <;> rw [e] <;> norm_num <;> omega
    have a4 : wrapInt32 ((sps_data.pic_height_in_luma_samples : Int)
          - subHeightC sps_data.chroma_format_idc * sps_data.conf_win_bottom_offset)
        = (sps_data.pic_height_in_luma_samples : Int)
          - subHeightC sps_data.chroma_format_idc * sps_data.conf_win_bottom_offset := by
      refine wrapInt32_eq _ ?_ ?_ <;> rcases hsh with e | e <;> rw [e] <;> norm_num <;> omega
    rw [a1, a2, a3, a4]
  refine ⟨h0, h1, h2, by decide, by decide, by decide, by decide, ?_⟩
  intro e1 e2 e3 e4 e5 e6 e7 e8
  rw [h1 e4, e1, e2, e3, e5, e6, e7, e8]
  decide

theorem FillSeqCallbackFn_display_area_witness :
    exampleSps1080.chroma_format_idc ≤ 3 ∧ exampleSps1080.pic_width_in_luma_samples < 2 ^ 31 ∧
    exampleSps1080.pic_height_in_luma_samples < 2 ^ 31 ∧
    exampleSps1080.conformance_window_flag ≠ 0 ∧
    (FillSeqCallbackFn RocdecVideoFormat.zero exampleSps1080).display_area
      = { left := 0, top := 0, right := 1920, bottom := 1080 } :=
  ⟨by decide, by decide, by decide, by decide,
    (FillSeqCallbackFn_display_area RocdecVideoFormat.zero exampleSps1080 (by decide)
      (by decide) (by decide)).2.2.2.2.2.2.2
      rfl rfl rfl (by decide) rfl rfl rfl rfl⟩

/-- C13 (counterexample). For 4:2:0, 128x128 and the conformance window offsets
`(left, right, top, bottom) = (0, 2^31 - 2, 0, 0)`, the right offset being the largest value
that `ReadUe` returns, the code stores `right = 132`: the product `2 * (2^31 - 2)` and the
difference are taken modulo `2^32`. The claim has `128 - 2 * (2^31 - 2) = -4294967164`. -/
theorem FillSeqCallbackFn_display_area_wraps :
    exampleSpsCropWrap.chroma_format_idc = 1 ∧
    exampleSpsCropWrap.conformance_window_flag ≠ 0 ∧
    (FillSeqCallbackFn RocdecVideoFormat.zero exampleSpsCropWrap).display_area
      = { left := 0, top := 0, right := 132, bottom := 128 } ∧
    (exampleSpsCropWrap.pic_width_in_luma_samples : Int)
      - subWidthC exampleSpsCropWrap.chroma_format_idc * exampleSpsCropWrap.conf_win_right_offset
      = -4294967164 := by
  decide

/-! ## Theorems on the bound of the zero-counting loops

The bound `fuel` of the loop of `CountContiniusZeroBits` is the only one that a parser can
exhaust. A call that returns within a bound returns the same with every larger bound, from
`ReadUe` up to `ParseFrameData`: a result does not depend on the bound, and there is no result
for any bound only when a zero-counting loop of the call does not end or the call leaves an
array. -/

theorem ReadUe_fuel_le {f f' : Nat} (hf : f ≤ f') {data : Nat → Nat} {q : Nat} {r : Nat × Nat}
    (h : ReadUe f data q = some r) : ReadUe f' data q = some r := by
  have := ReadUe_mono data f (f' - f) q r h
  rwa [Nat.add_sub_cancel' hf] at this

theorem ReadSeInt_fuel_le {f f' : Nat} (hf : f ≤ f') {data : Nat → Nat} {q : Nat}
    {r : Int × Nat} (h : ReadSeInt f data q = some r) : ReadSeInt f' data q = some r := by
  unfold ReadSeInt ReadSe at h ⊢
  cases hu : ReadUe f data q with
  | none => simp [hu] at h
  | some u =>
    rw [ReadUe_fuel_le hf hu]
    rw [hu] at h
    exact h

theorem forLoop_le {σ : Type} {body body' : Nat → σ → Option σ}
    (hb : ∀ j t r, body j t = some r → body' j t = some r) :
    ∀ (n j : Nat) (s r : σ), forLoop body j n s = some r → forLoop body' j n s = some r := by
  intro n
  induction n with
  | zero => intro j s r h; simpa [forLoop] using h
  | succ n ih =>
    intro j s r h
    simp only [forLoop] at h ⊢
    split at h
    · cases h
    · rename_i s1 h1
      rw [hb _ _ _ h1]
      exact ih _ _ _ h

section StepLeLemmas
variable {σ : Type}

theorem stepLe_refl (f : Step σ) : StepLe f f := fun _ _ h => h

theorem allStepLe_nil : AllStepLe ([] : List (Step σ)) [] := trivial

theorem allStepLe_cons {f g : Step σ} {fs gs : List (Step σ)} (h1 : StepLe f g)
    (h2 : AllStepLe fs gs) : AllStepLe (f :: fs) (g :: gs) := ⟨h1, h2⟩

theorem stepLe_runSteps : ∀ {l l' : List (Step σ)}, AllStepLe l l' →
    StepLe (runSteps l) (runSteps l')
  | [], [], _ => fun _ _ h => h
  | [], _ :: _, h => h.elim
  | _ :: _, [], h => h.elim
  | f :: fs, g :: gs, h => by
    intro s r hr
    simp only [runSteps] at hr ⊢
    split at hr
    · cases hr
    · rename_i s1 h1
      rw [h.1 s s1 h1]
      exact stepLe_runSteps h.2 s1 r hr

theorem stepLe_ue {f f' : Nat} (hf : f ≤ f') (upd : σ → Nat → σ) (nalu : Nat → Nat) :
    StepLe (stepUe f upd nalu) (stepUe f' upd nalu) := by
  intro s r h
  simp only [stepUe, rdUe] at h ⊢
  split at h
  · cases h
  · rename_i u hu
    rw [ReadUe_fuel_le hf hu]
    exact h

theorem stepLe_se {f f' : Nat} (hf : f ≤ f') (upd : σ → Int → σ) (nalu : Nat → Nat) :
    StepLe (stepSe f upd nalu) (stepSe f' upd nalu) := by
  intro s r h
  simp only [stepSe, rdSe] at h ⊢
  split at h
  · cases h
  · rename_i u hu
    rw [ReadSeInt_fuel_le hf hu]
    exact h

theorem stepLe_dyn {F G : σ → Step σ} (h : ∀ a, StepLe (F a) (G a)) :
    StepLe (stepDyn F) (stepDyn G) := fun s r hr => h s.1 s r hr

theorem stepLe_if {c : σ → Bool} {t t' e e' : List (Step σ)} (ht : AllStepLe t t')
    (he : AllStepLe e e') : StepLe (stepIf c t e) (stepIf c t' e') := by
  intro s r h
  simp only [stepIf] at h ⊢
  split
  · rename_i hc
    rw [if_pos hc] at h
    exact stepLe_runSteps ht s r h
  · rename_i hc
    rw [if_neg hc] at h
    exact stepLe_runSteps he s r h

theorem stepLe_for {start : Nat} {count : σ → Nat} {body body' : Nat → List (Step σ)}
    (h : ∀ i, AllStepLe (body i) (body' i)) :
    StepLe (stepFor start count body) (stepFor start count body') := by
  intro s r hr
  simp only [stepFor] at hr ⊢
  exact forLoop_le (fun i a b hab => stepLe_runSteps (h i) a b hab) _ _ _ _ hr

theorem stepLe_sub {τ : Type} {get : σ → τ} {put : σ → τ → σ} {f g : Step τ}
    (h : StepLe f g) : StepLe (stepSub get put f) (stepSub get put g) := by
  intro s r hr
  simp only [stepSub] at hr ⊢
  split at hr
  · cases hr
  · rename_i x hx
    rw [h _ _ hx]
    exact hr

end StepLeLemmas

theorem ParseSubLayerHrdParameters_fuel_le {f f' : Nat} (hf : f ≤ f') (cpb_cnt : Nat)
    (flag : Bool) (nalu : Nat → Nat) :
    StepLe (ParseSubLayerHrdParameters f cpb_cnt flag nalu)
      (ParseSubLayerHrdParameters f' cpb_cnt flag nalu) := by
  unfold ParseSubLayerHrdParameters
  repeat' first
    | exact allStepLe_nil
    | exact stepLe_ue hf _ _
    | exact stepLe_se hf _ _
    | apply stepLe_runSteps
    | apply allStepLe_cons
    | apply stepLe_if
    | apply stepLe_for
    | apply stepLe_dyn
    | apply stepLe_sub
    | exact stepLe_refl _
    | intro _

theorem ParseHrdParameters_fuel_le {f f' : Nat} (hf : f ≤ f') (flag : Bool)
    (n : Nat) (nalu : Nat → Nat) :
    StepLe (ParseHrdParameters f flag n nalu) (ParseHrdParameters f' flag n nalu) := by
  unfold ParseHrdParameters
  repeat' first
    | exact allStepLe_nil
    | exact stepLe_ue hf _ _
    | exact stepLe_se hf _ _
    | exact ParseSubLayerHrdParameters_fuel_le hf _ _ _
    | apply stepLe_runSteps
    | apply allStepLe_cons
    | apply stepLe_if
    | apply stepLe_for
    | apply stepLe_dyn
    | apply stepLe_sub
    | exact stepLe_refl _
    | intro _

theorem rdUe_fuel_le {σ : Type} {f f' : Nat} (hf : f ≤ f') {upd : σ → Nat → σ}
    {nalu : Nat → Nat} {s r : σ × Nat} (h : rdUe f upd nalu s = some r) :
    rdUe f' upd nalu s = some r := by
  simp only [rdUe] at h ⊢
  split at h
  · cases h
  · rename_i u hu
    rw [ReadUe_fuel_le hf hu]
    exact h

theorem rdSe_fuel_le {σ : Type} {f f' : Nat} (hf : f ≤ f') {upd : σ → Int → σ}
    {nalu : Nat → Nat} {s r : σ × Nat} (h : rdSe f upd nalu s = some r) :
    rdSe f' upd nalu s = some r := by
  simp only [rdSe] at h ⊢
  split at h
  · cases h
  · rename_i u hu
    rw [ReadSeInt_fuel_le hf hu]
    exact h

theorem stRpsS0Body_fuel_le {f f' : Nat} (hf : f ≤ f') (nalu : Nat → Nat) (j : Nat)
    (s r : H265ShortTermRPS × Int × Nat) (h : stRpsS0Body f nalu j s = some r) :
    stRpsS0Body f' nalu j s = some r := by
  simp only [stRpsS0Body] at h ⊢
  split at h
  · cases h
  · rename_i v o hu
    rw [ReadUe_fuel_le hf hu]
    exact h

theorem stRpsS1Body_fuel_le {f f' : Nat} (hf : f ≤ f') (nalu : Nat → Nat) (j : Nat)
    (s r : H265ShortTermRPS × Int × Nat) (h : stRpsS1Body f nalu j s = some r) :
    stRpsS1Body f' nalu j s = some r := by
  simp only [stRpsS1Body] at h ⊢
  split at h
  · cases h
  · rename_i v o hu
    rw [ReadUe_fuel_le hf hu]
    exact h

theorem ParseShortTermRefPicSet_fuel_le {f f' : Nat} (hf : f ≤ f') {rps : H265ShortTermRPS}
    {st_rps_idx : Int} {n : Nat} {rps_ref : Nat → H265ShortTermRPS} {nalu : Nat → Nat}
    {offset : Nat} {r : H265ShortTermRPS × Nat}
    (h : ParseShortTermRefPicSet f rps st_rps_idx n rps_ref nalu offset = some r) :
    ParseShortTermRefPicSet f' rps st_rps_idx n rps_ref nalu offset = some r := by
  unfold ParseShortTermRefPicSet at h ⊢
  simp only at h ⊢
  split_ifs at h ⊢
  all_goals
    try simp only at h ⊢
    repeat
      split at h
      · cases h
      rename_i hu
      first
        | rw [ReadUe_fuel_le hf hu]
        | rw [forLoop_le (stRpsS0Body_fuel_le hf nalu) _ _ _ _ hu]
        | rw [forLoop_le (stRpsS1Body_fuel_le hf nalu) _ _ _ _ hu]
      simp only at h ⊢
    try exact h

theorem pwtWeightsL0Body_fuel_le {f f' : Nat} (hf : f ≤ f') (nalu : Nat → Nat) (i : Nat)
    (s r : HevcPredWeightTable × Nat) (h : pwtWeightsL0Body f nalu i s = some r) :
    pwtWeightsL0Body f' nalu i s = some r := by
  unfold pwtWeightsL0Body at h ⊢
  repeat' first
    | with_reducible exact h
    | exact forLoop_le (fun j t r hh => by
        simp only [Option.bind_eq_bind, Option.bind_eq_some] at hh ⊢
        obtain ⟨a, ha, b, hb, hh⟩ := hh
        exact ⟨a, ReadSeInt_fuel_le hf ha, b, ReadSeInt_fuel_le hf hb, hh⟩) _ _ _ _ h
    | split_ifs at h ⊢
    | simp only [Option.bind_eq_bind, Option.some_bind, Option.bind_eq_some] at h ⊢
    | (obtain ⟨a, ha, h⟩ := h
       refine ⟨a, ReadSeInt_fuel_le hf ha, ?_⟩)

theorem pwtWeightsL1Body_fuel_le {f f' : Nat} (hf : f ≤ f') (nalu : Nat → Nat) (i : Nat)
    (s r : HevcPredWeightTable × Nat) (h : pwtWeightsL1Body f nalu i s = some r) :
    pwtWeightsL1Body f' nalu i s = some r := by
  unfold pwtWeightsL1Body at h ⊢
  repeat' first
    | with_reducible exact h
    | exact forLoop_le (fun j t r hh => by
        simp only [Option.bind_eq_bind, Option.bind_eq_some] at hh ⊢
        obtain ⟨a, ha, b, hb, hh⟩ := hh
        exact ⟨a, ReadSeInt_fuel_le hf ha, b, ReadSeInt_fuel_le hf hb, hh⟩) _ _ _ _ h
    | split_ifs at h ⊢
    | simp only [Option.bind_eq_bind, Option.some_bind, Option.bind_eq_some] at h ⊢
    | (obtain ⟨a, ha, h⟩ := h
       refine ⟨a, ReadSeInt_fuel_le hf ha, ?_⟩)

theorem ParsePredWeightTable_fuel_le {f f' : Nat} (hf : f ≤ f') {sh : SliceHeaderData}
    {c : Nat} {nalu : Nat → Nat} {offset : Nat} {r : HevcPredWeightTable × Nat}
    (h : ParsePredWeightTable f sh c nalu offset = some r) :
    ParsePredWeightTable f' sh c nalu offset = some r := by
  unfold ParsePredWeightTable at h ⊢
  repeat' first
    | with_reducible exact h
    | exact forLoop_le (pwtWeightsL1Body_fuel_le hf nalu) _ _ _ _ h
    | split_ifs at h ⊢
    | simp only [Option.bind_eq_bind, Option.some_bind, Option.bind_eq_some] at h ⊢
    | (obtain ⟨a, ha, h⟩ := h
       refine ⟨a, (by
         first
           | exact ReadSeInt_fuel_le hf ha
           | exact ReadUe_fuel_le hf ha
           | exact forLoop_le (pwtWeightsL0Body_fuel_le hf nalu) _ _ _ _ ha), ?_⟩)

theorem shTypeFlags_fuel_le {env : ParseEnv} {f' : Nat} (hf : env.fuel ≤ f') {pps : PpsData}
    {sps : SpsData} {nalu : Nat → Nat} {s : SliceHeaderData × Nat}
    {r : SliceHeaderData × Nat}
    (h : shTypeFlags env pps sps nalu s = some r) :
    shTypeFlags { env with fuel := f' } pps sps nalu s = some r := by
  unfold shTypeFlags at h ⊢
  try simp only at h ⊢
  repeat' first
    | with_reducible exact h
    | exact rdUe_fuel_le hf h
    | split_ifs at h ⊢
    | simp only at h ⊢
    | (split at h <;> first
        | contradiction
        | (rename_i hu
           first
             | rw [rdUe_fuel_le hf hu]))

theorem shShortTermRps_fuel_le {env : ParseEnv} {f' : Nat} (hf : env.fuel ≤ f') {sps : SpsData}
    {nalu : Nat → Nat} {s : SliceHeaderData × Nat}
    {r : SliceHeaderData × Nat}
    (h : shShortTermRps env sps nalu s = some r) :
    shShortTermRps { env with fuel := f' } sps nalu s = some r := by
  unfold shShortTermRps at h ⊢
  try simp only at h ⊢
  repeat' first
    | with_reducible exact h
    | exact rdUe_fuel_le hf h
    | split_ifs at h ⊢
    | simp only at h ⊢
    | (split at h <;> first
        | contradiction
        | (rename_i hu
           first
             | rw [rdUe_fuel_le hf hu]
             | rw [ParseShortTermRefPicSet_fuel_le hf hu]
             | (split at hu <;> first
                 | contradiction
                 | (rename_i hv
                    first
                      | rw [rdUe_fuel_le hf hv]
                      | rw [ParseShortTermRefPicSet_fuel_le hf hv]
                    try simp only at hu ⊢
                    first
                      | rw [rdUe_fuel_le hf hu]
                      | rw [ParseShortTermRefPicSet_fuel_le hf hu]
                      | cases hu))))

theorem shLongTermBody_fuel_le {env : ParseEnv} {f' : Nat} (hf : env.fuel ≤ f') {sps : SpsData}
    {nalu : Nat → Nat} {b i : Nat} {s : SliceHeaderData × Nat}
    {r : SliceHeaderData × Nat}
    (h : shLongTermBody env sps nalu b i s = some r) :
    shLongTermBody { env with fuel := f' } sps nalu b i s = some r := by
  unfold shLongTermBody at h ⊢
  try simp only at h ⊢
  repeat' first
    | with_reducible exact h
    | exact rdUe_fuel_le hf h
    | split_ifs at h ⊢

theorem shLongTermPics_fuel_le {env : ParseEnv} {f' : Nat} (hf : env.fuel ≤ f') {sps : SpsData}
    {nalu : Nat → Nat} {s : SliceHeaderData × Nat}
    {r : SliceHeaderData × Nat}
    (h : shLongTermPics env sps nalu s = some r) :
    shLongTermPics { env with fuel := f' } sps nalu s = some r := by
  unfold shLongTermPics at h ⊢
  try simp only at h ⊢
  repeat' first
    | with_reducible exact h
    | exact rdUe_fuel_le hf h
    | exact forLoop_le (fun j t r hh => shLongTermBody_fuel_le hf hh) _ _ _ _ h
    | split_ifs at h ⊢
    | simp only at h ⊢
    | (split at h <;> first
        | contradiction
        | (rename_i hu
           first
             | rw [rdUe_fuel_le hf hu]))

theorem shLongTermRps_fuel_le {env : ParseEnv} {f' : Nat} (hf : env.fuel ≤ f') {sps : SpsData}
    {nalu : Nat → Nat} {s : SliceHeaderData × Nat}
    {r : SliceHeaderData × Nat}
    (h : shLongTermRps env sps nalu s = some r) :
    shLongTermRps { env with fuel := f' } sps nalu s = some r := by
  unfold shLongTermRps at h ⊢
  try simp only at h ⊢
  repeat' first
    | with_reducible exact h
    | exact rdUe_fuel_le hf h
    | exact shLongTermPics_fuel_le hf h
    | split_ifs at h ⊢
    | simp only at h ⊢
    | (split at h <;> first
        | contradiction
        | (rename_i hu
           first
             | rw [rdUe_fuel_le hf hu]))

theorem shRefPicSets_fuel_le {env : ParseEnv} {f' : Nat} (hf : env.fuel ≤ f') {sps : SpsData}
    {nalu : Nat → Nat} {s : SliceHeaderData × Nat}
    {r : SliceHeaderData × Nat}
    (h : shRefPicSets env sps nalu s = some r) :
    shRefPicSets { env with fuel := f' } sps nalu s = some r := by
  unfold shRefPicSets at h ⊢
  try simp only at h ⊢
  repeat' first
    | with_reducible exact h
    | exact rdUe_fuel_le hf h
    | split_ifs at h ⊢
    | simp only at h ⊢
    | (split at h <;> first
        | contradiction
        | (rename_i hu
           first
             | rw [rdUe_fuel_le hf hu]
             | rw [shShortTermRps_fuel_le hf hu]
             | rw [shLongTermRps_fuel_le hf hu]))

theorem shPoc_fuel_le {env : ParseEnv} {f' : Nat} (hf : env.fuel ≤ f') {sps : SpsData} {t : Nat}
    {nalu : Nat → Nat} {s : SliceHeaderData × Nat} {slice : SliceData}
    {r : (SliceHeaderData × Nat) × SliceData}
    (h : shPoc env sps t nalu s slice = some r) :
    shPoc { env with fuel := f' } sps t nalu s slice = some r := by
  unfold shPoc at h ⊢
  try simp only at h ⊢
  repeat' first
    | with_reducible exact h
    | exact rdUe_fuel_le hf h
    | split_ifs at h ⊢
    | simp only at h ⊢
    | (split at h <;> first
        | contradiction
        | (rename_i hu
           first
             | rw [rdUe_fuel_le hf hu]
             | rw [shRefPicSets_fuel_le hf hu]))

theorem shNumRefIdx_fuel_le {env : ParseEnv} {f' : Nat} (hf : env.fuel ≤ f') {pps : PpsData}
    {nalu : Nat → Nat} {s : SliceHeaderData × Nat}
    {r : SliceHeaderData × Nat}
    (h : shNumRefIdx env pps nalu s = some r) :
    shNumRefIdx { env with fuel := f' } pps nalu s = some r := by
  unfold shNumRefIdx at h ⊢
  try simp only at h ⊢
  repeat' first
    | with_reducible exact h
    | exact rdUe_fuel_le hf h
    | split_ifs at h ⊢
    | simp only at h ⊢
    | (split at h <;> first
        | contradiction
        | (rename_i hu
           first
             | rw [rdUe_fuel_le hf hu]))

theorem shCollocated_fuel_le {env : ParseEnv} {f' : Nat} (hf : env.fuel ≤ f') {nalu : Nat → Nat}
    {s : SliceHeaderData × Nat}
    {r : SliceHeaderData × Nat}
    (h : shCollocated env nalu s = some r) :
    shCollocated { env with fuel := f' } nalu s = some r := by
  unfold shCollocated at h ⊢
  try simp only at h ⊢
  repeat' first
    | with_reducible exact h
    | exact rdUe_fuel_le hf h
    | split_ifs at h ⊢

theorem shPredWeight_fuel_le {env : ParseEnv} {f' : Nat} (hf : env.fuel ≤ f') {pps : PpsData}
    {c : Nat} {nalu : Nat → Nat} {s : SliceHeaderData × Nat}
    {r : SliceHeaderData × Nat}
    (h : shPredWeight env pps c nalu s = some r) :
    shPredWeight { env with fuel := f' } pps c nalu s = some r := by
  unfold shPredWeight at h ⊢
  try simp only at h ⊢
  repeat' first
    | with_reducible exact h
    | split_ifs at h ⊢
    | simp only at h ⊢
    | (split at h <;> first
        | contradiction
        | (rename_i hu
           first
             | rw [ParsePredWeightTable_fuel_le hf hu]))

theorem shInterTail_fuel_le {env : ParseEnv} {f' : Nat} (hf : env.fuel ≤ f') {pps : PpsData}
    {c : Nat} {nalu : Nat → Nat} {s : SliceHeaderData × Nat}
    {r : SliceHeaderData × Nat}
    (h : shInterTail env pps c nalu s = some r) :
    shInterTail { env with fuel := f' } pps c nalu s = some r := by
  unfold shInterTail at h ⊢
  try simp only at h ⊢
  repeat' first
    | with_reducible exact h
    | exact rdUe_fuel_le hf h
    | split_ifs at h ⊢
    | simp only at h ⊢
    | (split at h <;> first
        | contradiction
        | (rename_i hu
           first
             | rw [rdUe_fuel_le hf hu]
             | rw [shCollocated_fuel_le hf hu]
             | rw [shPredWeight_fuel_le hf hu]))

theorem shRefLists_fuel_le {env : ParseEnv} {f' : Nat} (hf : env.fuel ≤ f') {pps : PpsData}
    {c : Nat} {nalu : Nat → Nat} {s : SliceHeaderData × Nat}
    {r : SliceHeaderData × Nat}
    (h : shRefLists env pps c nalu s = some r) :
    shRefLists { env with fuel := f' } pps c nalu s = some r := by
  unfold shRefLists at h ⊢
  try simp only at h ⊢
  repeat' first
    | with_reducible exact h
    | exact shInterTail_fuel_le hf h
    | split_ifs at h ⊢
    | simp only at h ⊢
    | (split at h <;> first
        | contradiction
        | (rename_i hu
           first
             | rw [shNumRefIdx_fuel_le hf hu]))

theorem shQp_fuel_le {env : ParseEnv} {f' : Nat} (hf : env.fuel ≤ f') {pps : PpsData}
    {nalu : Nat → Nat} {s : SliceHeaderData × Nat}
    {r : SliceHeaderData × Nat}
    (h : shQp env pps nalu s = some r) :
    shQp { env with fuel := f' } pps nalu s = some r := by
  unfold shQp at h ⊢
  try simp only at h ⊢
  repeat' first
    | with_reducible exact h
    | exact rdSe_fuel_le hf h
    | split_ifs at h ⊢
    | simp only at h ⊢
    | (split at h <;> first
        | contradiction
        | (rename_i hu
           first
             | rw [rdSe_fuel_le hf hu]
             | (split at hu <;> first
                 | contradiction
                 | (rename_i hv
                    first
                      | rw [rdSe_fuel_le hf hv]
                    try simp only at hu ⊢
                    first
                      | rw [rdSe_fuel_le hf hu]))))

theorem shDeblock_fuel_le {env : ParseEnv} {f' : Nat} (hf : env.fuel ≤ f') {pps : PpsData}
    {nalu : Nat → Nat} {s : SliceHeaderData × Nat}
    {r : SliceHeaderData × Nat}
    (h : shDeblock env pps nalu s = some r) :
    shDeblock { env with fuel := f' } pps nalu s = some r := by
  unfold shDeblock at h ⊢
  try simp only at h ⊢
  repeat' first
    | with_reducible exact h
    | exact rdSe_fuel_le hf h
    | split_ifs at h ⊢
    | simp only at h ⊢
    | (split at h <;> first
        | contradiction
        | (rename_i hu
           first
             | rw [rdSe_fuel_le hf hu]
             | (split at hu <;> first
                 | contradiction
                 | (rename_i hv
                    first
                      | rw [rdSe_fuel_le hf hv]
                    try simp only at hu ⊢
                    first
                      | rw [rdSe_fuel_le hf hu]))))

theorem shAfterPoc_fuel_le {env : ParseEnv} {f' : Nat} (hf : env.fuel ≤ f') {pps : PpsData}
    {sps : SpsData} {nalu : Nat → Nat} {s : SliceHeaderData × Nat}
    {r : SliceHeaderData × Nat}
    (h : shAfterPoc env pps sps nalu s = some r) :
    shAfterPoc { env with fuel := f' } pps sps nalu s = some r := by
  unfold shAfterPoc at h ⊢
  try simp only at h ⊢
  repeat' first
    | with_reducible exact h
    | exact shDeblock_fuel_le hf h
    | split_ifs at h ⊢
    | simp only at h ⊢
    | (split at h <;> first
        | contradiction
        | (rename_i hu
           first
             | rw [shRefLists_fuel_le hf hu]
             | rw [shQp_fuel_le hf hu]))

theorem sliceHeaderIndependent_fuel_le {env : ParseEnv} {f' : Nat} (hf : env.fuel ≤ f')
    {pps : PpsData} {sps : SpsData} {t : Nat} {nalu : Nat → Nat} {s : SliceHeaderData × Nat}
    {slice : SliceData}
    {r : (SliceHeaderData × Nat) × SliceData}
    (h : sliceHeaderIndependent env pps sps t nalu s slice = some r) :
    sliceHeaderIndependent { env with fuel := f' } pps sps t nalu s slice = some r := by
  unfold sliceHeaderIndependent at h ⊢
  try simp only at h ⊢
  repeat' first
    | with_reducible exact h
    | split_ifs at h ⊢
    | simp only at h ⊢
    | (split at h <;> first
        | contradiction
        | (rename_i hu
           first
             | rw [shTypeFlags_fuel_le hf hu]
             | rw [shPoc_fuel_le hf hu]
             | rw [shAfterPoc_fuel_le hf hu]))

theorem shEntryPoints_fuel_le {env : ParseEnv} {f' : Nat} (hf : env.fuel ≤ f') {pps : PpsData}
    {nalu : Nat → Nat} {s : SliceHeaderData × Nat}
    {r : SliceHeaderData × Nat}
    (h : shEntryPoints env pps nalu s = some r) :
    shEntryPoints { env with fuel := f' } pps nalu s = some r := by
  unfold shEntryPoints at h ⊢
  try simp only at h ⊢
  repeat' first
    | with_reducible exact h
    | exact rdUe_fuel_le hf h
    | split_ifs at h ⊢
    | simp only at h ⊢
    | (split at h <;> first
        | contradiction
        | (rename_i hu
           first
             | rw [rdUe_fuel_le hf hu]))

theorem shExtension_fuel_le {env : ParseEnv} {f' : Nat} (hf : env.fuel ≤ f') {pps : PpsData}
    {nalu : Nat → Nat} {s : SliceHeaderData × Nat}
    {r : SliceHeaderData × Nat}
    (h : shExtension env pps nalu s = some r) :
    shExtension { env with fuel := f' } pps nalu s = some r := by
  unfold shExtension at h ⊢
  try simp only at h ⊢
  repeat' first
    | with_reducible exact h
    | exact rdUe_fuel_le hf h
    | split_ifs at h ⊢
    | simp only at h ⊢
    | (split at h <;> first
        | contradiction
        | (rename_i hu
           first
             | rw [rdUe_fuel_le hf hu]))

theorem shTrailer_fuel_le {env : ParseEnv} {f' : Nat} (hf : env.fuel ≤ f') {pps : PpsData}
    {nalu : Nat → Nat} {s : SliceHeaderData × Nat}
    {r : SliceHeaderData × Nat}
    (h : shTrailer env pps nalu s = some r) :
    shTrailer { env with fuel := f' } pps nalu s = some r := by
  unfold shTrailer at h ⊢
  try simp only at h ⊢
  repeat' first
    | with_reducible exact h
    | exact shExtension_fuel_le hf h
    | split_ifs at h ⊢
    | simp only at h ⊢
    | (split at h <;> first
        | contradiction
        | (rename_i hu
           first
             | rw [shEntryPoints_fuel_le hf hu]))

theorem sliceHeaderIds_fuel_le {env : ParseEnv} {f' : Nat} (hf : env.fuel ≤ f') {p : HevcParser}
    {t : Nat} {nalu : Nat → Nat}
    {r : HevcParser × SliceHeaderData × Nat}
    (h : sliceHeaderIds env p t nalu = some r) :
    sliceHeaderIds { env with fuel := f' } p t nalu = some r := by
  unfold sliceHeaderIds at h ⊢
  try simp only at h ⊢
  simp only [bitsSliceSegmentAddress] at h ⊢
  repeat' first
    | with_reducible exact h
    | split_ifs at h ⊢
    | simp only at h ⊢
    | (split at h <;> first
        | contradiction
        | (rename_i hu
           first
             | rw [ReadUe_fuel_le hf hu]))

theorem sliceHeaderBody_fuel_le {env : ParseEnv} {f' : Nat} (hf : env.fuel ≤ f') {t : Nat}
    {nalu : Nat → Nat} {x : HevcParser × SliceHeaderData × Nat}
    {r : HevcParser × Nat}
    (h : sliceHeaderBody env t nalu x = some r) :
    sliceHeaderBody { env with fuel := f' } t nalu x = some r := by
  unfold sliceHeaderBody at h ⊢
  try simp only at h ⊢
  repeat' first
    | with_reducible exact h
    | split_ifs at h ⊢
    | simp only at h ⊢
    | (split at h <;> first
        | contradiction
        | (rename_i hu
           first
             | rw [sliceHeaderIndependent_fuel_le hf hu]))

theorem ParseSliceHeader_fuel_le {env : ParseEnv} {f' : Nat} (hf : env.fuel ≤ f') {p : HevcParser}
    {t : Nat} {nalu : Nat → Nat}
    {r : Bool × HevcParser}
    (h : ParseSliceHeader env p t nalu = some r) :
    ParseSliceHeader { env with fuel := f' } p t nalu = some r := by
  unfold ParseSliceHeader at h ⊢
  try simp only at h ⊢
  repeat' first
    | with_reducible exact h
    | split_ifs at h ⊢
    | simp only at h ⊢
    | (split at h <;> first
        | contradiction
        | (rename_i hu
           first
             | rw [sliceHeaderIds_fuel_le hf hu]
             | rw [sliceHeaderBody_fuel_le hf hu]
             | rw [shTrailer_fuel_le hf hu]))

theorem ParseSliceHeaderMem_fuel_le {env : ParseEnv} {f' : Nat} (hf : env.fuel ≤ f')
    {m : ParserMembers} {t : Nat} {nalu : Nat → Nat}
    {r : ParserMembers}
    (h : ParseSliceHeaderMem env m t nalu = some r) :
    ParseSliceHeaderMem { env with fuel := f' } m t nalu = some r := by
  unfold ParseSliceHeaderMem at h ⊢
  try simp only at h ⊢
  repeat' first
    | with_reducible exact h
    | split_ifs at h ⊢
    | simp only at h ⊢
    | (split at h <;> first
        | contradiction
        | (rename_i hu
           first
             | rw [ParseSliceHeader_fuel_le hf hu]))

theorem scalingListCoefs_fuel_le {f f' : Nat} (hf : f ≤ f') (size_id matrix_id : Nat)
    (nalu : Nat → Nat) :
    StepLe (scalingListCoefs f size_id matrix_id nalu)
      (scalingListCoefs f' size_id matrix_id nalu) := by
  unfold scalingListCoefs
  repeat' first
    | exact allStepLe_nil
    | exact stepLe_ue hf _ _
    | exact stepLe_se hf _ _
    | apply stepLe_runSteps
    | apply allStepLe_cons
    | apply stepLe_if
    | apply stepLe_for
    | apply stepLe_dyn
    | apply stepLe_sub
    | exact stepLe_refl _
    | intro _

theorem ParseScalingList_fuel_le {f f' : Nat} (hf : f ≤ f') (c : Nat) (nalu : Nat → Nat) :
    StepLe (ParseScalingList f c nalu) (ParseScalingList f' c nalu) := by
  unfold ParseScalingList
  repeat' first
    | exact allStepLe_nil
    | exact stepLe_ue hf _ _
    | exact stepLe_se hf _ _
    | exact scalingListCoefs_fuel_le hf _ _ _
    | apply stepLe_runSteps
    | apply allStepLe_cons
    | apply stepLe_if
    | apply stepLe_for
    | apply stepLe_dyn
    | apply stepLe_sub
    | exact stepLe_refl _
    | intro _

theorem ParseVui_fuel_le {f f' : Nat} (hf : f ≤ f') (n : Nat) (nalu : Nat → Nat) :
    StepLe (ParseVui f n nalu) (ParseVui f' n nalu) := by
  unfold ParseVui
  repeat' first
    | exact allStepLe_nil
    | exact stepLe_ue hf _ _
    | exact stepLe_se hf _ _
    | exact ParseHrdParameters_fuel_le hf _ _ _
    | apply stepLe_runSteps
    | apply allStepLe_cons
    | apply stepLe_if
    | apply stepLe_for
    | apply stepLe_dyn
    | apply stepLe_sub
    | exact stepLe_refl _

theorem ParseVpsBody_fuel_le {f f' : Nat} (hf : f ≤ f') (nalu : Nat → Nat) :
    StepLe (ParseVpsBody f nalu) (ParseVpsBody f' nalu) := by
  unfold ParseVpsBody
  repeat' first
    | exact allStepLe_nil
    | exact stepLe_ue hf _ _
    | exact stepLe_se hf _ _
    | exact ParseHrdParameters_fuel_le hf _ _ _
    | apply stepLe_runSteps
    | apply allStepLe_cons
    | apply stepLe_if
    | apply stepLe_for
    | apply stepLe_dyn
    | apply stepLe_sub
    | exact stepLe_refl _
    | intro _

theorem ParseSpsBody_fuel_le {f f' : Nat} (hf : f ≤ f') (nalu : Nat → Nat) :
    StepLe (ParseSpsBody f nalu) (ParseSpsBody f' nalu) := by
  unfold ParseSpsBody
  repeat' first
    | exact allStepLe_nil
    | exact stepLe_ue hf _ _
    | exact stepLe_se hf _ _
    | exact ParseScalingList_fuel_le hf _ _
    | exact ParseVui_fuel_le hf _ _
    | exact (fun _ _ hh => ParseShortTermRefPicSet_fuel_le hf hh)
    | apply stepLe_runSteps
    | apply allStepLe_cons
    | apply stepLe_if
    | apply stepLe_for
    | apply stepLe_dyn
    | apply stepLe_sub
    | exact stepLe_refl _
    | intro _

theorem ParsePpsBody_fuel_le {f f' : Nat} (hf : f ≤ f') (m_sps : Nat → SpsData)
    (nalu : Nat → Nat) :
    StepLe (ParsePpsBody f m_sps nalu) (ParsePpsBody f' m_sps nalu) := by
  unfold ParsePpsBody
  repeat' first
    | exact allStepLe_nil
    | exact stepLe_ue hf _ _
    | exact stepLe_se hf _ _
    | exact ParseScalingList_fuel_le hf _ _
    | apply stepLe_runSteps
    | apply allStepLe_cons
    | apply stepLe_if
    | apply stepLe_for
    | apply stepLe_dyn
    | apply stepLe_sub
    | exact stepLe_refl _
    | intro _

theorem ParseVpsSlot_fuel_le {f f' : Nat} (hf : f ≤ f') {nalu : Nat → Nat}
    {r : Nat × VpsData}
    (h : ParseVpsSlot f nalu = some r) :
    ParseVpsSlot f' nalu = some r := by
  unfold ParseVpsSlot at h ⊢
  try simp only at h ⊢
  repeat' first
    | with_reducible exact h
    | split_ifs at h ⊢
    | simp only at h ⊢
    | (split at h <;> first
        | contradiction
        | (rename_i hu
           first
             | rw [ParseVpsBody_fuel_le hf nalu _ _ hu]))

theorem ParseSpsSlot_fuel_le {f f' : Nat} (hf : f ≤ f') {nalu : Nat → Nat}
    {r : Nat × SpsData}
    (h : ParseSpsSlot f nalu = some r) :
    ParseSpsSlot f' nalu = some r := by
  unfold ParseSpsSlot at h ⊢
  try simp only at h ⊢
  repeat' first
    | with_reducible exact h
    | split_ifs at h ⊢
    | simp only at h ⊢
    | (split at h <;> first
        | contradiction
        | (rename_i hu
           first
             | rw [ParseSpsBody_fuel_le hf nalu _ _ hu]
             | rw [ReadUe_fuel_le hf hu]
             | skip))

theorem ParsePpsSlot_fuel_le {f f' : Nat} (hf : f ≤ f') {m_sps : Nat → SpsData}
    {nalu : Nat → Nat}
    {r : Nat × PpsData}
    (h : ParsePpsSlot f m_sps nalu = some r) :
    ParsePpsSlot f' m_sps nalu = some r := by
  unfold ParsePpsSlot at h ⊢
  try simp only at h ⊢
  repeat' first
    | with_reducible exact h
    | split_ifs at h ⊢
    | simp only at h ⊢
    | (split at h <;> first
        | contradiction
        | (rename_i hu
           first
             | rw [ParsePpsBody_fuel_le hf m_sps nalu _ _ hu]
             | rw [ReadUe_fuel_le hf hu]))

theorem ParseVps_fuel_le {env : ParseEnv} {f' : Nat} (hf : env.fuel ≤ f') {m : ParserMembers}
    {nalu : Nat → Nat}
    {r : ParserMembers}
    (h : ParseVps env m nalu = some r) :
    ParseVps { env with fuel := f' } m nalu = some r := by
  unfold ParseVps at h ⊢
  try simp only at h ⊢
  repeat' first
    | with_reducible exact h
    | split_ifs at h ⊢
    | simp only at h ⊢
    | (split at h <;> first
        | contradiction
        | (rename_i hu
           first
             | rw [ParseVpsSlot_fuel_le hf hu]))

theorem ParseSps_fuel_le {env : ParseEnv} {f' : Nat} (hf : env.fuel ≤ f') {m : ParserMembers}
    {nalu : Nat → Nat}
    {r : ParserMembers}
    (h : ParseSps env m nalu = some r) :
    ParseSps { env with fuel := f' } m nalu = some r := by
  unfold ParseSps at h ⊢
  try simp only at h ⊢
  repeat' first
    | with_reducible exact h
    | split_ifs at h ⊢
    | simp only at h ⊢
    | (split at h <;> first
        | contradiction
        | (rename_i hu
           first
             | rw [ParseSpsSlot_fuel_le hf hu]))

theorem ParsePps_fuel_le {env : ParseEnv} {f' : Nat} (hf : env.fuel ≤ f') {m : ParserMembers}
    {nalu : Nat → Nat}
    {r : ParserMembers}
    (h : ParsePps env m nalu = some r) :
    ParsePps { env with fuel := f' } m nalu = some r := by
  unfold ParsePps at h ⊢
  try simp only at h ⊢
  repeat' first
    | with_reducible exact h
    | split_ifs at h ⊢
    | simp only at h ⊢
    | (split at h <;> first
        | contradiction
        | (rename_i hu
           first
             | rw [ParsePpsSlot_fuel_le hf hu]))

theorem parseNalUnit_fuel_le {env : ParseEnv} {f' : Nat} (hf : env.fuel ≤ f') {data : Nat → Nat}
    {offset : Nat} {n : Int} {m : ParserMembers}
    {r : ParserMembers}
    (h : parseNalUnit env data offset n m = some r) :
    parseNalUnit { env with fuel := f' } data offset n m = some r := by
  unfold parseNalUnit at h ⊢
  try simp only at h ⊢
  repeat' first
    | with_reducible exact h
    | exact ParseVps_fuel_le hf h
    | exact ParseSps_fuel_le hf h
    | exact ParsePps_fuel_le hf h
    | split_ifs at h ⊢
    | simp only at h ⊢
    | (split at h <;> first
        | contradiction
        | (rename_i hu
           first
             | rw [ParseSliceHeaderMem_fuel_le hf hu]
             | skip))

theorem processNalUnits_fuel_le {env : ParseEnv} {f' : Nat} (hf : env.fuel ≤ f')
    (data : Nat → Nat) : ∀ (l : List (Nat × Int)) (m r : ParserMembers),
      processNalUnits env data l m = some r →
      processNalUnits { env with fuel := f' } data l m = some r := by
  intro l
  induction l with
  | nil => intro m r h; exact h
  | cons u rest ih =>
    intro m r h
    simp only [processNalUnits] at h ⊢
    split at h
    · cases h
    · rename_i m1 h1
      rw [parseNalUnit_fuel_le hf h1]
      exact ih m1 r h

theorem ParseFrameDataLoop_fuel_le {env : ParseEnv} {f' : Nat} (hf : env.fuel ≤ f') :
    ∀ (n : Nat) (st : HEVCVideoParser) (r : Bool × HEVCVideoParser),
      ParseFrameDataLoop env n st = some r →
      ParseFrameDataLoop { env with fuel := f' } n st = some r := by
  intro n
  induction n with
  | zero => intro st r h; simp [ParseFrameDataLoop] at h
  | succ n ih =>
    intro st r h
    simp only [ParseFrameDataLoop] at h ⊢
    split_ifs at h ⊢
    · exact h
    all_goals
      split at h
      · cases h
      rename_i m2 h2
      first
        | rw [parseNalUnit_fuel_le hf h2]
        | skip
      first
        | exact h
        | exact ih _ _ h

/-- The result of `ParseFrameData` does not depend on the bound of the zero-counting loops:
a run that returns within the bound `env.fuel` returns the same with every larger bound. -/
theorem ParseFrameData_fuel_le {env : ParseEnv} {f' : Nat} (hf : env.fuel ≤ f')
    (st : HEVCVideoParser) (data : Nat → Nat) (size : Nat) (r : Bool × HEVCVideoParser)
    (h : ParseFrameData env st data size = some r) :
    ParseFrameData { env with fuel := f' } st data size = some r :=
  ParseFrameDataLoop_fuel_le hf _ _ _ h

/-! ## Theorems on packets -/

theorem GetNalUnitLoop_ptr (n : Nat) : ∀ (s : NalState) (found : Bool),
    (GetNalUnitLoop n s found).1.frame_data_buffer_ptr = s.frame_data_buffer_ptr := by
  induction n with
  | zero => intro s found; rfl
  | succ n ih =>
    intro s found
    simp only [GetNalUnitLoop]
    split_ifs
    · rw [ih]
    · rfl
    · rw [ih]
    · rfl

theorem GetNalUnit_ptr (s : NalState) :
    (GetNalUnit s).2.frame_data_buffer_ptr = s.frame_data_buffer_ptr := by
  unfold GetNalUnit
  simp only
  split_ifs <;> simp only [GetNalUnitLoop_ptr]

theorem GetNalUnit_not_found (data : Nat → Nat) (size : Nat)
    (h : startCodeOffsets data size = []) :
    ∃ o, GetNalUnit (frameReset data size)
      = (ParserResult.PARSER_NOT_FOUND, { (frameReset data size) with curr_byte_offset := o }) := by
  have hno : ∀ x, x + 2 < size → isStartCodeAt data x = false := by
    intro x hx
    by_contra hc
    have hm := (startCodeOffsets_mem data size x).2 ⟨hx, by simpa using hc⟩
    rw [h] at hm
    cases hm
  unfold GetNalUnit
  obtain ⟨o, ho⟩ := GetNalUnitLoop_none size (frameReset data size) false
    (fun x _ hx => hno x hx)
  refine ⟨o, ?_⟩
  simp only [frameReset] at ho ⊢
  rw [ho]
  simp

section Packets

variable (env : ParseEnv) (data : Nat → Nat) (size : Nat) (f : Nat → Nat) (k : Nat)
  (hsc : ∀ j, j < k → isStartCodeAt data (f j) = true ∧ f j + 2 < size)
  (hmono : ∀ i j, i < j → j < k → f i < f j)
  (hall : ∀ x, x + 2 < size → isStartCodeAt data x = true → ∃ j, j < k ∧ f j = x)

theorem ParseFrameDataLoop_step (n : Nat) (nal : NalState) (m : ParserMembers)
    (res : ParserResult) (nal1 : NalState) (hg : GetNalUnit nal = (res, nal1))
    (hres : res ≠ ParserResult.PARSER_NOT_FOUND) (hsz : nal1.nal_unit_size ≠ 0) :
    ParseFrameDataLoop env (n + 1) { nal := nal, mem := m } =
      match parseNalUnit env nal1.frame_data_buffer_ptr nal1.curr_start_code_offset
          nal1.nal_unit_size m with
      | none => none
      | some m2 =>
        if res = ParserResult.PARSER_EOF then some (true, { nal := nal1, mem := m2 })
        else ParseFrameDataLoop env n { nal := nal1, mem := m2 } := by
  simp only [ParseFrameDataLoop, hg, if_neg hres, hsz, ne_eq, not_false_eq_true, if_true]

include hsc hmono hall in
theorem ParseFrameDataLoop_run : ∀ (c j n : Nat) (m : ParserMembers),
    1 ≤ j → j + c = k → 0 < c → c ≤ n →
    (ParseFrameDataLoop env n { nal := nalStateAfter data size f j, mem := m }).map
        (fun r => (r.1, r.2.mem))
      = (processNalUnits env data ((List.range' j c).map (nalUnitAt size f k)) m).map
        (fun m1 => (true, m1)) := by
  intro c
  induction c with
  | zero => intro j n m _ _ h0; omega
  | succ c ih =>
    intro j n m hj1 hjk _ hn
    obtain ⟨n, rfl⟩ : ∃ n1, n = n1 + 1 := ⟨n - 1, by omega⟩
    rcases Nat.eq_zero_or_pos c with hc | hc
    · subst hc
      obtain ⟨s, hs, hcurr, hsize⟩ := GetNalUnit_next_eof data size f k hsc hmono hall j hj1 hjk
      have hptr := GetNalUnit_ptr (nalStateAfter data size f j)
      rw [hs] at hptr
      have h2 := (hsc j (by omega)).2
      rw [ParseFrameDataLoop_step env n _ m _ s hs (by decide) (by rw [hsize]; omega)]
      simp only [List.range', List.map, processNalUnits, nalUnitAt]
      rw [if_neg (by omega), hcurr, hsize, hptr]
      simp only [nalStateAfter]
      cases parseNalUnit env data (f j) ((size : Int) - (f j : Int)) m with
      | none => rfl
      | some m2 => simp [processNalUnits]
    · have hjk1 : j + 1 < k := by omega
      have hgap := startCode_gap data size f k hsc hmono j (j + 1) (by omega) hjk1
      have hok := GetNalUnit_next_ok data size f k hsc hmono hall j hj1 hjk1
      rw [ParseFrameDataLoop_step env n _ m _ _ hok (by decide)
        (by simp only [nalStateAfter, Nat.add_sub_cancel]; omega)]
      simp only [List.range', List.map, processNalUnits, nalUnitAt]
      rw [if_pos hjk1]
      simp only [nalStateAfter, Nat.add_sub_cancel]
      cases parseNalUnit env data (f j) ((f (j + 1) : Int) - (f j : Int)) m with
      | none => rfl
      | some m2 =>
        simp only [processNalUnits]
        rw [if_neg (by decide)]
        exact ih (j + 1) n m2 (by omega) (by omega) hc (by omega)

include hsc hmono hall in
theorem ParseFrameDataLoop_run_first (n : Nat) (m : ParserMembers) (hk : 0 < k) (hn : k ≤ n) :
    (ParseFrameDataLoop env n { nal := frameReset data size, mem := m }).map
        (fun r => (r.1, r.2.mem))
      = (processNalUnits env data ((List.range' 0 k).map (nalUnitAt size f k)) m).map
        (fun m1 => (true, m1)) := by
  obtain ⟨n, rfl⟩ : ∃ n1, n = n1 + 1 := ⟨n - 1, by omega⟩
  obtain ⟨c, rfl⟩ : ∃ c, k = c + 1 := ⟨k - 1, by omega⟩
  rcases Nat.eq_zero_or_pos c with hc | hc
  · subst hc
    obtain ⟨s, hs, hcurr, hsize⟩ := GetNalUnit_first_eof data size f 1 hsc hmono hall rfl
    have hptr := GetNalUnit_ptr (frameReset data size)
    rw [hs] at hptr
    have h2 := (hsc 0 (by omega)).2
    rw [ParseFrameDataLoop_step env n _ m _ s hs (by decide) (by rw [hsize]; omega)]
    simp only [List.range', List.map, processNalUnits, nalUnitAt]
    rw [if_neg (by omega), hcurr, hsize, hptr]
    simp only [frameReset]
    cases parseNalUnit env data (f 0) ((size : Int) - (f 0 : Int)) m with
    | none => rfl
    | some m2 => simp [processNalUnits]
  · have hgap := startCode_gap data size f (c + 1) hsc hmono 0 1 (by omega) (by omega)
    have hok := GetNalUnit_first_ok data size f (c + 1) hsc hmono hall (by omega)
    rw [ParseFrameDataLoop_step env n _ m _ _ hok (by decide)
      (by simp only [nalStateAfter, Nat.sub_self]; omega)]
    simp only [List.range', List.map, processNalUnits, nalUnitAt]
    rw [if_pos (by omega)]
    simp only [nalStateAfter, Nat.sub_self, Nat.zero_add]
    cases parseNalUnit env data (f 0) ((f 1 : Int) - (f 0 : Int)) m with
    | none => rfl
    | some m2 =>
      simp only [processNalUnits]
      rw [if_neg (by decide)]
      exact ParseFrameDataLoop_run env data size f (c + 1) hsc hmono hall c 1 n m2 (by omega)
        (by omega) hc (by omega)

end Packets

theorem ParseVps_slice_num (env : ParseEnv) (m m1 : ParserMembers) (nalu : Nat → Nat)
    (h : ParseVps env m nalu = some m1) : m1.slice_num = m.slice_num := by
  unfold ParseVps at h
  split at h
  · cases h
  · split at h
    · cases h; rfl
    · cases h

theorem ParseSps_slice_num (env : ParseEnv) (m m1 : ParserMembers) (nalu : Nat → Nat)
    (h : ParseSps env m nalu = some m1) : m1.slice_num = m.slice_num := by
  unfold ParseSps at h
  split at h
  · cases h
  · split at h
    · cases h; rfl
    · cases h

theorem ParsePps_slice_num (env : ParseEnv) (m m1 : ParserMembers) (nalu : Nat → Nat)
    (h : ParsePps env m nalu = some m1) : m1.slice_num = m.slice_num := by
  unfold ParsePps at h
  split at h
  · cases h
  · split at h
    · cases h; rfl
    · cases h

theorem ParseSliceHeaderMem_slice_num (env : ParseEnv) (m m1 : ParserMembers) (t : Nat)
    (nalu : Nat → Nat) (h : ParseSliceHeaderMem env m t nalu = some m1) :
    m1.slice_num = m.slice_num := by
  unfold ParseSliceHeaderMem at h
  split at h
  · cases h
  · cases h; rfl

theorem ebspSize_bounds (nal_unit_size : Int) (h : 5 ≤ nal_unit_size) :
    0 ≤ ebspSize nal_unit_size ∧ ebspSize nal_unit_size ≤ (RBSP_BUF_SIZE : Int) ∧
    ebspSize nal_unit_size ≤ nal_unit_size - 5 ∧
    (toSizeT (ebspSize nal_unit_size) : Int) = ebspSize nal_unit_size := by
  unfold ebspSize toSizeT
  simp only [RBSP_BUF_SIZE, SIZE]
  split_ifs <;> omega

/-- For a NAL unit of at least 5 bytes the copy stays inside `m_rbsp_buf_` and gives the
payload in the words of the spec. -/
theorem loadRbsp_eq_spec (data : Nat → Nat) (o : Nat) (sz : Int) (m : ParserMembers)
    (h : 5 ≤ sz) : loadRbsp data o (ebspSize sz) m = some (loadRbspSpec data o sz m) := by
  have key : toSizeT (ebspSize sz) = min (sz - 5).toNat RBSP_BUF_SIZE := by
    unfold ebspSize toSizeT
    simp only [RBSP_BUF_SIZE, SIZE]
    split_ifs <;> omega
  unfold loadRbsp memcpy loadRbspSpec
  rw [key, if_pos (Nat.min_le_right _ _)]

/-- A copy that has a result was made for a NAL unit of at least 5 bytes. -/
theorem loadRbsp_some_ge (data : Nat → Nat) (o : Nat) (sz : Int) (m m1 : ParserMembers)
    (h0 : 0 ≤ sz) (h : loadRbsp data o (ebspSize sz) m = some m1) : 5 ≤ sz := by
  unfold loadRbsp memcpy at h
  split at h
  · cases h
  · rename_i buf hb
    split at hb
    · rename_i hle
      by_contra hc
      have : ¬ toSizeT (ebspSize sz) ≤ RBSP_BUF_SIZE := by
        unfold ebspSize toSizeT
        simp only [RBSP_BUF_SIZE, SIZE]
        split_ifs <;> omega
      exact this hle
    · cases hb

theorem loadRbspSpec_slice_num (data : Nat → Nat) (o : Nat) (sz : Int) (m : ParserMembers) :
    (loadRbspSpec data o sz m).slice_num = m.slice_num := rfl

/-- The block `// Parse the NAL unit` on a NAL unit that holds its 5 bytes, or that is not
handed to a parser: one step of the processing in the words of the spec. -/
theorem parseNalUnit_eq_spec (env : ParseEnv) (data : Nat → Nat) (o : Nat) (sz : Int)
    (m : ParserMembers) (h : isParsedNalUnitType (nalUnitTypeAt data o) = true → 5 ≤ sz) :
    parseNalUnit env data o sz m =
      if nalUnitTypeAt data o = NAL_UNIT_VPS then
        ParseVps env (loadRbspSpec data o sz m) (loadRbspSpec data o sz m).m_rbsp_buf
      else if nalUnitTypeAt data o = NAL_UNIT_SPS then
        ParseSps env (loadRbspSpec data o sz m) (loadRbspSpec data o sz m).m_rbsp_buf
      else if nalUnitTypeAt data o = NAL_UNIT_PPS then
        ParsePps env (loadRbspSpec data o sz m) (loadRbspSpec data o sz m).m_rbsp_buf
      else if isSliceNalUnitType (nalUnitTypeAt data o) then
        match (if m.slice_num = 0 then
            ParseSliceHeaderMem env (loadRbspSpec data o sz m) (nalUnitTypeAt data o)
              (loadRbspSpec data o sz m).m_rbsp_buf
          else some (loadRbspSpec data o sz m)) with
        | none => none
        | some m2 => some { m2 with slice_num := m2.slice_num + 1 }
      else some m := by
  unfold parseNalUnit
  simp only [nalUnitTypeAt] at h ⊢
  by_cases h1 : (ParseNalUnitHeader data (o + 3)).nal_unit_type = NAL_UNIT_VPS
  · rw [if_pos h1, if_pos h1, loadRbsp_eq_spec data o sz m (h (by simp [isParsedNalUnitType, h1]))]
  · rw [if_neg h1, if_neg h1]
    by_cases h2 : (ParseNalUnitHeader data (o + 3)).nal_unit_type = NAL_UNIT_SPS
    · rw [if_pos h2, if_pos h2,
        loadRbsp_eq_spec data o sz m (h (by simp [isParsedNalUnitType, h2]))]
    · rw [if_neg h2, if_neg h2]
      by_cases h3 : (ParseNalUnitHeader data (o + 3)).nal_unit_type = NAL_UNIT_PPS
      · rw [if_pos h3, if_pos h3,
          loadRbsp_eq_spec data o sz m (h (by simp [isParsedNalUnitType, h3]))]
      · rw [if_neg h3, if_neg h3]
        by_cases h4 : isSliceNalUnitType (ParseNalUnitHeader data (o + 3)).nal_unit_type = true
        · rw [if_pos h4, if_pos h4,
            loadRbsp_eq_spec data o sz m (h (by simp [isParsedNalUnitType, h4]))]
          rfl
        · rw [if_neg h4, if_neg h4]

/-- A block `// Parse the NAL unit` that has a result was not run on a NAL unit of fewer than
5 bytes handed to a parser. -/
theorem parseNalUnit_some_framed (env : ParseEnv) (data : Nat → Nat) (o : Nat) (sz : Int)
    (m m1 : ParserMembers) (h0 : 0 ≤ sz) (h : parseNalUnit env data o sz m = some m1)
    (ht : isParsedNalUnitType (nalUnitTypeAt data o) = true) : 5 ≤ sz := by
  unfold parseNalUnit at h
  simp only [nalUnitTypeAt, isParsedNalUnitType, Bool.or_eq_true, beq_iff_eq] at h ht
  have key : ∀ m1, loadRbsp data o (ebspSize sz) m = some m1 → 5 ≤ sz :=
    fun m1 hm => loadRbsp_some_ge data o sz m m1 h0 hm
  cases hl : loadRbsp data o (ebspSize sz) m with
  | some m2 => exact key m2 hl
  | none =>
    exfalso
    rw [hl] at h
    split_ifs at h with h1 h2 h3 h4
    rcases ht with ((ht | ht) | ht) | ht
    · exact h1 ht
    · exact h2 ht
    · exact h3 ht
    · exact h4 ht

theorem processNalUnits_framed (env : ParseEnv) (data : Nat → Nat) :
    ∀ (l : List (Nat × Int)) (m m1 : ParserMembers), (∀ u ∈ l, 0 ≤ u.2) →
      processNalUnits env data l m = some m1 → nalUnitsFramed data l := by
  intro l
  induction l with
  | nil => intro m m1 _ _ u hu; cases hu
  | cons u rest ih =>
    intro m m1 h0 h
    simp only [processNalUnits] at h
    split at h
    · cases h
    · rename_i m2 hm2
      intro v hv
      rcases List.mem_cons.1 hv with rfl | hv
      · exact parseNalUnit_some_framed env data _ _ m m2 (h0 _ (List.mem_cons_self _ _)) hm2
      · exact ih m2 m1 (fun w hw => h0 w (List.mem_cons_of_mem _ hw)) h v hv

theorem processNalUnits_eq_spec (env : ParseEnv) (data : Nat → Nat) :
    ∀ (l : List (Nat × Int)) (m : ParserMembers), nalUnitsFramed data l →
      processNalUnits env data l m
        = processNalUnitsSpec env data l (decide (m.slice_num ≠ 0)) m := by
  intro l
  induction l with
  | nil => intro m _; rfl
  | cons u rest ih =>
    intro m hf
    have hr : nalUnitsFramed data rest := fun w hw => hf w (List.mem_cons_of_mem _ hw)
    simp only [processNalUnits, processNalUnitsSpec]
    rw [parseNalUnit_eq_spec env data u.1 u.2 m (hf u (List.mem_cons_self _ _))]
    by_cases h1 : nalUnitTypeAt data u.1 = NAL_UNIT_VPS
    · simp only [h1, if_true]
      cases hp : ParseVps env (loadRbspSpec data u.1 u.2 m)
          (loadRbspSpec data u.1 u.2 m).m_rbsp_buf with
      | none => rfl
      | some m2 =>
        simp only
        rw [ih m2 hr, ParseVps_slice_num env _ m2 _ hp]
        rfl
    · simp only [h1, if_false]
      by_cases h2 : nalUnitTypeAt data u.1 = NAL_UNIT_SPS
      · simp only [h2, if_true]
        cases hp : ParseSps env (loadRbspSpec data u.1 u.2 m)
            (loadRbspSpec data u.1 u.2 m).m_rbsp_buf with
        | none => rfl
        | some m2 =>
          simp only
          rw [ih m2 hr, ParseSps_slice_num env _ m2 _ hp]
          rfl
      · simp only [h2, if_false]
        by_cases h3 : nalUnitTypeAt data u.1 = NAL_UNIT_PPS
        · simp only [h3, if_true]
          cases hp : ParsePps env (loadRbspSpec data u.1 u.2 m)
              (loadRbspSpec data u.1 u.2 m).m_rbsp_buf with
          | none => rfl
          | some m2 =>
            simp only
            rw [ih m2 hr, ParsePps_slice_num env _ m2 _ hp]
            rfl
        · simp only [h3, if_false]
          by_cases h4 : isSliceNalUnitType (nalUnitTypeAt data u.1) = true
          · simp only [h4, if_true]
            by_cases h5 : m.slice_num = 0
            · simp only [h5, if_true, ne_eq, not_true_eq_false, decide_False,
                Bool.false_eq_true, if_false]
              cases hp : ParseSliceHeaderMem env (loadRbspSpec data u.1 u.2 m)
                  (nalUnitTypeAt data u.1) (loadRbspSpec data u.1 u.2 m).m_rbsp_buf with
              | none => rfl
              | some m2 =>
                simp only
                rw [ih _ hr]
                simp
            · simp only [h5, if_false, ne_eq, not_false_eq_true, decide_True, if_true]
              rw [ih _ hr]
              simp only [ne_eq, Nat.add_one_ne_zero, not_false_eq_true, decide_True]
          · simp only [h4, Bool.false_eq_true, if_false]
            exact ih m hr

theorem processNalUnitsSpec_slice_num (env : ParseEnv) (data : Nat → Nat) :
    ∀ (l : List (Nat × Int)) (seen : Bool) (m m1 : ParserMembers),
      processNalUnitsSpec env data l seen m = some m1 →
      m1.slice_num = m.slice_num + sliceCount data l := by
  intro l
  induction l with
  | nil =>
    intro seen m m1 h
    simp only [processNalUnitsSpec, Option.some.injEq] at h
    rw [← h]
    rfl
  | cons u rest ih =>
    intro seen m m1 h
    simp only [processNalUnitsSpec] at h
    have hcount : sliceCount data (u :: rest)
        = (if isSliceNalUnitType (nalUnitTypeAt data u.1) = true then 1 else 0)
          + sliceCount data rest := by
      simp only [sliceCount, List.filter_cons]
      split_ifs <;> simp [Nat.add_comm]
    have hns : ∀ t, (t = NAL_UNIT_VPS ∨ t = NAL_UNIT_SPS ∨ t = NAL_UNIT_PPS) →
        isSliceNalUnitType t = false := by
      rintro t (rfl | rfl | rfl) <;> decide
    have hl : (loadRbspSpec data u.1 u.2 m).slice_num = m.slice_num := rfl
    rw [hcount]
    split_ifs at h with h1 h2 h3 h4 h5
    · rw [hns _ (Or.inl h1)]
      split at h
      · cases h
      · rename_i m2 hp
        rw [ih seen m2 m1 h, ParseVps_slice_num env _ m2 _ hp, hl]
        simp
    · rw [hns _ (Or.inr (Or.inl h2))]
      split at h
      · cases h
      · rename_i m2 hp
        rw [ih seen m2 m1 h, ParseSps_slice_num env _ m2 _ hp, hl]
        simp
    · rw [hns _ (Or.inr (Or.inr h3))]
      split at h
      · cases h
      · rename_i m2 hp
        rw [ih seen m2 m1 h, ParsePps_slice_num env _ m2 _ hp, hl]
        simp
    · rw [ih true _ m1 h, h4]
      simp only [hl, if_true]
      omega
    · split at h
      · cases h
      · rename_i m2 hp
        rw [ih true _ m1 h, h4]
        simp only [ParseSliceHeaderMem_slice_num env _ m2 _ _ hp, hl, if_true]
        omega
    · rw [ih seen m m1 h]
      simp only [h4, Bool.false_eq_true, if_false]
      omega

/-- A NAL unit delimited by `GetNalUnit` has at least the 3 bytes of its start code. -/
theorem nalUnits_size (data : Nat → Nat) (size : Nat) :
    ∀ u ∈ nalUnits data size, 3 ≤ u.2 := by
  intro u hu
  unfold nalUnits at hu
  obtain ⟨j, hj, rfl⟩ := List.mem_map.1 hu
  have hjk : j < (startCodeOffsets data size).length := List.mem_range.1 hj
  simp only [nalUnitAt]
  split_ifs with h1
  · have := startCode_gap data size (fun j => (startCodeOffsets data size).getD j 0)
      (startCodeOffsets data size).length (startCodeOffsets_sc data size)
      (startCodeOffsets_mono data size) j (j + 1) (by omega) h1
    simp only at this
    omega
  · have := (startCodeOffsets_sc data size j hjk).2
    simp only at this
    omega

/-- A NAL unit of a type that is handed to no parser leaves the members as they are. -/
theorem parseNalUnit_unparsed (env : ParseEnv) (data : Nat → Nat) (offset : Nat) (n : Int)
    (m : ParserMembers) (h : isParsedNalUnitType (nalUnitTypeAt data offset) = false) :
    parseNalUnit env data offset n m = some m := by
  simp only [isParsedNalUnitType, nalUnitTypeAt, Bool.or_eq_false_iff, beq_eq_false_iff_ne,
    ne_eq] at h
  obtain ⟨⟨⟨h1, h2⟩, h3⟩, h4⟩ := h
  simp only [parseNalUnit, h1, h2, h3, h4, if_false, Bool.false_eq_true]

/-- NAL units of types that are handed to no parser leave the members as they are. -/
theorem processNalUnits_unparsed (env : ParseEnv) (data : Nat → Nat) :
    ∀ (l : List (Nat × Int)) (m : ParserMembers),
      (∀ u ∈ l, isParsedNalUnitType (nalUnitTypeAt data u.1) = false) →
      processNalUnits env data l m = some m := by
  intro l
  induction l with
  | nil => intro m _; rfl
  | cons u rest ih =>
    intro m h
    simp only [processNalUnits,
      parseNalUnit_unparsed env data u.1 u.2 m (h u (List.mem_cons_self _ _))]
    exact ih m (fun v hv => h v (List.mem_cons_of_mem _ hv))

/-- C18. First slice only. Every run of `ParseFrameData` that returns on a packet with a start
code has returned `true` with the members that the processing in the words of the spec gives
(`processNalUnitsSpec`: the NAL units in encounter order, each VPS, SPS and PPS dispatched to
its parser, `ParseSliceHeader` applied to the first slice NAL unit and to no other), and with
`slice_num_` equal to the number of slice NAL units of the packet; in such a packet every NAL
unit handed to a parser has its 5 bytes of start code and header. For a packet in which these
NAL units have their 5 bytes, `ParseFrameData` returns exactly when that processing does,
that is, when the parsers called return; a run that returns within the bound `env.fuel` of the
zero-counting loops returns the same with every larger bound; on a packet none of whose NAL
units is a VPS, an SPS, a PPS or a slice it returns `true`, whatever the bound, with the
members as they were and `slice_num_ = 0`. The slice NAL unit types are 0..9 and 16..21. -/
theorem ParseFrameData_first_slice_only (env : ParseEnv) (st : HEVCVideoParser)
    (data : Nat → Nat) (size : Nat) (hk : startCodeOffsets data size ≠ []) :
    (∀ r, ParseFrameData env st data size = some r →
      nalUnitsFramed data (nalUnits data size) ∧ r.1 = true ∧
      processNalUnitsSpec env data (nalUnits data size) false { st.mem with slice_num := 0 }
        = some r.2.mem ∧
      r.2.mem.slice_num = sliceCount data (nalUnits data size)) ∧
    (nalUnitsFramed data (nalUnits data size) →
      (ParseFrameData env st data size).map (fun r => (r.1, r.2.mem))
        = (processNalUnitsSpec env data (nalUnits data size) false
            { st.mem with slice_num := 0 }).map (fun m => (true, m))) ∧
    (∀ r fuel, ParseFrameData env st data size = some r → env.fuel ≤ fuel →
      ParseFrameData { env with fuel := fuel } st data size = some r) ∧
    ((∀ u ∈ nalUnits data size, isParsedNalUnitType (nalUnitTypeAt data u.1) = false) →
      (ParseFrameData env st data size).map (fun r => (r.1, r.2.mem))
        = some (true, { st.mem with slice_num := 0 })) ∧
    (∀ t, isSliceNalUnitType t = true ↔ (t ≤ 9 ∨ (16 ≤ t ∧ t ≤ 21))) := by
  have hlen : 0 < (startCodeOffsets data size).length := List.length_pos.2 hk
  have hle : (startCodeOffsets data size).length ≤ size + 1 := by
    have h1 : (startCodeOffsets data size).length ≤ (List.range (size - 2)).length :=
      List.length_filter_le _ _
    rw [List.length_range] at h1
    omega
  have hrun := ParseFrameDataLoop_run_first env data size
    (fun j => (startCodeOffsets data size).getD j 0) (startCodeOffsets data size).length
    (startCodeOffsets_sc data size) (startCodeOffsets_mono data size)
    (startCodeOffsets_all data size) (size + 1) { st.mem with slice_num := 0 } hlen hle
  have h1 : (ParseFrameData env st data size).map (fun r => (r.1, r.2.mem))
      = (processNalUnits env data (nalUnits data size)
          { st.mem with slice_num := 0 }).map (fun m => (true, m)) := by
    unfold ParseFrameData
    simp only
    rw [hrun, ← List.range_eq_range']
    rfl
  refine ⟨fun r hr => ?_, fun hf => ?_,
    fun r fuel hr hfuel => ParseFrameData_fuel_le hfuel st data size r hr, fun hu => ?_,
    fun t => ?_⟩
  rotate_left 2
  · rw [h1, processNalUnits_unparsed env data _ _ hu]
    rfl
  rotate_left 1
  · rw [hr] at h1
    cases hs : processNalUnits env data (nalUnits data size) { st.mem with slice_num := 0 } with
    | none => rw [hs] at h1; cases h1
    | some m1 =>
      rw [hs] at h1
      simp only [Option.map_some', Option.some.injEq, Prod.mk.injEq] at h1
      have hf := processNalUnits_framed env data _ _ m1
        (fun u hu => le_trans (by norm_num) (nalUnits_size data size u hu)) hs
      have hsp := processNalUnits_eq_spec env data (nalUnits data size)
        { st.mem with slice_num := 0 } hf
      rw [hs] at hsp
      have hsp2 : processNalUnitsSpec env data (nalUnits data size) false
          { st.mem with slice_num := 0 } = some m1 := hsp.symm
      refine ⟨hf, h1.1, by rw [h1.2]; exact hsp2, ?_⟩
      rw [h1.2, processNalUnitsSpec_slice_num env data _ _ _ _ hsp2]
      simp
  · rw [h1, processNalUnits_eq_spec env data _ _ hf]
    rfl
  · simp only [isSliceNalUnitType, NAL_UNIT_CODED_SLICE_TRAIL_R, NAL_UNIT_CODED_SLICE_TRAIL_N,
      NAL_UNIT_CODED_SLICE_TLA_R, NAL_UNIT_CODED_SLICE_TSA_N, NAL_UNIT_CODED_SLICE_STSA_R,
      NAL_UNIT_CODED_SLICE_STSA_N, NAL_UNIT_CODED_SLICE_BLA_W_LP,
      NAL_UNIT_CODED_SLICE_BLA_W_RADL, NAL_UNIT_CODED_SLICE_BLA_N_LP,
      NAL_UNIT_CODED_SLICE_IDR_W_RADL, NAL_UNIT_CODED_SLICE_IDR_N_LP,
      NAL_UNIT_CODED_SLICE_CRA_NUT, NAL_UNIT_CODED_SLICE_RADL_N, NAL_UNIT_CODED_SLICE_RADL_R,
      NAL_UNIT_CODED_SLICE_RASL_N, NAL_UNIT_CODED_SLICE_RASL_R, Bool.or_eq_true, beq_iff_eq]
    omega

theorem ParseFrameData_first_slice_only_witness :
    startCodeOffsets examplePacket 83 ≠ [] ∧
    nalUnitsFramed examplePacket (nalUnits examplePacket 83) ∧
    (ParseFrameData exampleEnv initialParser examplePacket 83).isSome = true ∧
    sliceCount examplePacket (nalUnits examplePacket 83) = 2 ∧
    (∀ r, ParseFrameData exampleEnv initialParser examplePacket 83 = some r →
      r.1 = true ∧
      r.2.mem.slice_num = sliceCount examplePacket (nalUnits examplePacket 83)) ∧
    (ParseFrameData exampleEnv initialParser examplePacket 83).map (fun r => (r.1, r.2.mem))
      = (processNalUnitsSpec exampleEnv examplePacket (nalUnits examplePacket 83) false
          { initialParser.mem with slice_num := 0 }).map (fun m => (true, m)) ∧
    ParseFrameData { exampleEnv with fuel := 4096 } initialParser examplePacket 83
      = ParseFrameData exampleEnv initialParser examplePacket 83 ∧
    nalUnits (memOfList [0, 0, 1, 70, 1, 80]) 6 = [(0, 6)] ∧
    nalUnitTypeAt (memOfList [0, 0, 1, 70, 1, 80]) 0 = 35 ∧
    (ParseFrameData exampleEnv initialParser (memOfList [0, 0, 1, 70, 1, 80]) 6).map
        (fun r => (r.1, r.2.mem))
      = some (true, { initialParser.mem with slice_num := 0 }) :=
  ⟨by decide, by decide, by decide, by decide,
    fun r hr =>
      ⟨((ParseFrameData_first_slice_only exampleEnv initialParser examplePacket 83
          (by decide)).1 r hr).2.1,
        ((ParseFrameData_first_slice_only exampleEnv initialParser examplePacket 83
          (by decide)).1 r hr).2.2.2⟩,
    (ParseFrameData_first_slice_only exampleEnv initialParser examplePacket 83
      (by decide)).2.1 (by decide),
    ((ParseFrameData_first_slice_only exampleEnv initialParser examplePacket 83
      (by decide)).2.2.1 _ 4096
        (some_getD_of_isSome _ (false, initialParser) (by decide)) (by decide)).trans
      (some_getD_of_isSome _ (false, initialParser) (by decide)).symm,
    by decide, by decide,
    (ParseFrameData_first_slice_only exampleEnv initialParser (memOfList [0, 0, 1, 70, 1, 80]) 6
      (by decide)).2.2.2.1 (by decide)⟩

/-- The packet `exampleShortNalPacket` is not framed: `ParseFrameData` has no result on it,
the copy for its first NAL unit, of 3 bytes, leaving `m_rbsp_buf_`. -/
theorem ParseFrameData_short_nal_no_result :
    ¬ nalUnitsFramed exampleShortNalPacket (nalUnits exampleShortNalPacket 12) ∧
    (ParseFrameData exampleEnv initialParser exampleShortNalPacket 12).isSome = false := by
  decide

/-- C14. NotFound reporting: for a packet without start code `00 00 01`, `ParseFrameData`
returns `false` and `ParseVideoData` returns `ROCDEC_RUNTIME_ERROR`, and the members of the
parser other than those of the NAL unit scan are as before the call, `slice_num_` being reset
to 0: the parameter-set tables, the active ids and the POC state are unchanged. A packet
shorter than 3 bytes, the empty one included, has no start code. For a packet with a start
code the first call of `GetNalUnit` does not return `PARSER_NOT_FOUND`. -/
theorem ParseVideoData_not_found (env : ParseEnv) (st : HEVCVideoParser) (data : Nat → Nat)
    (size : Nat) :
    (startCodeOffsets data size = [] →
      ∃ nal1,
        ParseFrameData env st data size
          = some (false, { nal := nal1, mem := { st.mem with slice_num := 0 } }) ∧
        ParseVideoData env st data size
          = some (rocDecStatus.ROCDEC_RUNTIME_ERROR,
              { nal := nal1, mem := { st.mem with slice_num := 0 } })) ∧
    (size < 3 → startCodeOffsets data size = []) ∧
    (startCodeOffsets data size ≠ [] →
      (GetNalUnit (frameReset data size)).1 ≠ ParserResult.PARSER_NOT_FOUND) := by
  refine ⟨fun h => ?_, fun h => ?_, fun h => ?_⟩
  · obtain ⟨o, ho⟩ := GetNalUnit_not_found data size h
    have hf : ParseFrameData env st data size
        = some (false, { nal := { (frameReset data size) with curr_byte_offset := o },
                         mem := { st.mem with slice_num := 0 } }) := by
      unfold ParseFrameData
      simp only [ParseFrameDataLoop, ho, if_true]
    refine ⟨_, hf, ?_⟩
    unfold ParseVideoData
    rw [hf]
    simp
  · unfold startCodeOffsets
    rw [show size - 2 = 0 by omega]
    rfl
  · have hlen : 0 < (startCodeOffsets data size).length := List.length_pos.2 h
    rcases Nat.lt_or_ge 1 (startCodeOffsets data size).length with h1 | h1
    · rw [GetNalUnit_first_ok data size (fun j => (startCodeOffsets data size).getD j 0)
        (startCodeOffsets data size).length (startCodeOffsets_sc data size)
        (startCodeOffsets_mono data size) (startCodeOffsets_all data size) h1]
      exact fun hc => ParserResult.noConfusion hc
    · obtain ⟨s, hs, _⟩ := GetNalUnit_first_eof data size
        (fun j => (startCodeOffsets data size).getD j 0) (startCodeOffsets data size).length
        (startCodeOffsets_sc data size) (startCodeOffsets_mono data size)
        (startCodeOffsets_all data size) (by omega)
      rw [hs]
      exact fun hc => ParserResult.noConfusion hc

theorem ParseVideoData_not_found_witness :
    startCodeOffsets (memOfList [0, 0, 2, 0, 1, 7]) 6 = [] ∧
    ∃ nal1, ParseVideoData exampleEnv initialParser (memOfList [0, 0, 2, 0, 1, 7]) 6
      = some (rocDecStatus.ROCDEC_RUNTIME_ERROR,
          { nal := nal1, mem := { initialParser.mem with slice_num := 0 } }) :=
  ⟨by decide,
    ((ParseVideoData_not_found exampleEnv initialParser (memOfList [0, 0, 2, 0, 1, 7]) 6).1
      (by decide)).elim fun nal1 h => ⟨nal1, h.2⟩⟩

/-- C15 (evaluation at the failing input). The packet holds one VPS NAL unit whose payload
starts `00 00 03 05`: `EBSPtoRBSP` returns its error result on the 34 bytes of the payload, but
`ParseFrameData` returns `true` with that error result stored in `m_rbsp_size_`, `ParseVps`
has run on the payload (slot 0 holds `vps_reserved_0xffff_16bits = 0x0305`), and
`ParseVideoData` returns `ROCDEC_SUCCESS`. -/
theorem ParseVideoData_ignores_rbsp_error :
    (EBSPtoRBSP (fun i => exampleMalformedPacket (5 + i)) 0 34).1 = SIZE_MAX ∧
    (ParseFrameData exampleEnv initialParser exampleMalformedPacket 39).map
        (fun r => (r.1, r.2.mem.m_rbsp_size, (r.2.mem.m_vps 0).vps_reserved_0xffff_16bits))
      = some (true, SIZE_MAX, 0x0305) ∧
    (ParseVideoData exampleEnv initialParser exampleMalformedPacket 39).map (fun r => r.1)
      = some rocDecStatus.ROCDEC_SUCCESS := by
  decide

/-- C17 (evaluation at the failing input). In the packet `00 00 01 00 00 01 02 01 D0 26 E7 58`
the first NAL unit has 3 bytes, and the two bytes after its start code give the slice type
TRAIL_N, so `ParseFrameData` dispatches it; `ebsp_size` is `3 - 5 = -2`, which `memcpy` and
`EBSPtoRBSP` receive as the `size_t` value `2^64 - 2`, more than `RBSP_BUF_SIZE`. -/
theorem ParseFrameData_short_nal_copy :
    (GetNalUnit (frameReset exampleShortNalPacket 12)).1 = ParserResult.PARSER_OK ∧
    (GetNalUnit (frameReset exampleShortNalPacket 12)).2.curr_start_code_offset = 0 ∧
    (GetNalUnit (frameReset exampleShortNalPacket 12)).2.nal_unit_size = 3 ∧
    nalUnitTypeAt exampleShortNalPacket 0 = NAL_UNIT_CODED_SLICE_TRAIL_N ∧
    isSliceNalUnitType (nalUnitTypeAt exampleShortNalPacket 0) = true ∧
    ebspSize 3 = -2 ∧ toSizeT (ebspSize 3) = 2 ^ 64 - 2 ∧
    ¬ toSizeT (ebspSize 3) ≤ RBSP_BUF_SIZE := by
  decide

/-! ## Further theorems on the slice segment header -/

/-- C21 (as amended). POC wrap property: for an independent slice that is neither IDR nor BLA,
with `max_lsb = 256` and `prev_poc_msb = 0` before the call: from `prev_poc_lsb = 0` a slice
with `slice_pic_order_cnt_lsb = 255` yields `curr_poc_msb = -256` and `curr_poc = -1` (the
MSB wraps down, since `255 > 0` and `255 - 0 > 128`), and from `prev_poc_lsb = 255` a slice
with `slice_pic_order_cnt_lsb = 1` yields `curr_poc_msb = 256` and `curr_poc = 257` (the MSB
wraps up). -/
theorem ParseSliceHeader_poc_wrap (env : ParseEnv) (p : HevcParser) (t : Nat)
    (nalu : Nat → Nat) (r : Bool × HevcParser)
    (h : ParseSliceHeader env p t nalu = some r)
    (hind : r.2.m_sh.dependent_slice_segment_flag = 0)
    (hidr : t ≠ NAL_UNIT_CODED_SLICE_IDR_W_RADL ∧ t ≠ NAL_UNIT_CODED_SLICE_IDR_N_LP)
    (hbla : t ≠ NAL_UNIT_CODED_SLICE_BLA_W_LP ∧ t ≠ NAL_UNIT_CODED_SLICE_BLA_W_RADL ∧
      t ≠ NAL_UNIT_CODED_SLICE_BLA_N_LP)
    (hlog : (r.2.m_sps r.2.m_active_sps_id.toNat).log2_max_pic_order_cnt_lsb_minus4 = 4)
    (hmsb : p.m_slice.prev_poc_msb = 0) :
    r.2.m_slice.max_poc_lsb = 256 ∧
    (p.m_slice.prev_poc_lsb = 0 → r.2.m_sh.slice_pic_order_cnt_lsb = 255 →
      r.2.m_slice.curr_poc_msb = -256 ∧ r.2.m_slice.curr_poc = -1) ∧
    (p.m_slice.prev_poc_lsb = 255 → r.2.m_sh.slice_pic_order_cnt_lsb = 1 →
      r.2.m_slice.curr_poc_msb = 256 ∧ r.2.m_slice.curr_poc = 257) := by
  have hs := (ParseSliceHeader_independent env p t nalu r h hind).2.2
    (fun hc => hc.elim hidr.1 hidr.2)
  have hnb : ¬(t ≥ NAL_UNIT_CODED_SLICE_BLA_W_LP ∧ t < NAL_UNIT_CODED_SLICE_CRA_NUT) := by
    simp only [NAL_UNIT_CODED_SLICE_BLA_W_LP, NAL_UNIT_CODED_SLICE_BLA_W_RADL,
      NAL_UNIT_CODED_SLICE_BLA_N_LP, NAL_UNIT_CODED_SLICE_CRA_NUT,
      NAL_UNIT_CODED_SLICE_IDR_W_RADL, NAL_UNIT_CODED_SLICE_IDR_N_LP] at hidr hbla ⊢
    omega
  have hm := pocDerive_msb t
    ((r.2.m_sps r.2.m_active_sps_id.toNat).log2_max_pic_order_cnt_lsb_minus4 + 4)
    r.2.m_sh.slice_pic_order_cnt_lsb p.m_slice
  have he := pocDerive_eq t
    ((r.2.m_sps r.2.m_active_sps_id.toNat).log2_max_pic_order_cnt_lsb_minus4 + 4)
    r.2.m_sh.slice_pic_order_cnt_lsb p.m_slice
  rw [← hs] at hm he
  rw [if_neg hnb, hlog, hmsb] at hm
  rw [hlog] at he
  have hmax : r.2.m_slice.max_poc_lsb = 256 :=
    (congrArg SliceData.max_poc_lsb he).trans (show shlInt32 (4 + 4) = 256 by decide)
  have hpoc : r.2.m_slice.curr_poc
      = wrapInt32 (wrapInt32 (r.2.m_sh.slice_pic_order_cnt_lsb : Int)
          + r.2.m_slice.curr_poc_msb) :=
    (congrArg SliceData.curr_poc he).trans rfl
  refine ⟨hmax, ?_, ?_⟩
  · intro hl hv
    rw [hl, hv] at hm
    rw [hv] at hpoc
    have hm2 : r.2.m_slice.curr_poc_msb = -256 := hm.trans (by decide)
    exact ⟨hm2, by rw [hpoc, hm2]; decide⟩
  · intro hl hv
    rw [hl, hv] at hm
    rw [hv] at hpoc
    have hm2 : r.2.m_slice.curr_poc_msb = 256 := hm.trans (by decide)
    exact ⟨hm2, by rw [hpoc, hm2]; decide⟩

theorem ParseSliceHeader_poc_wrap_witness :
    ParseSliceHeader exampleEnv exampleParser255 1 exampleSliceLsb1 = some exampleWrapResult2 ∧
    exampleWrapResult2.2.m_sh.dependent_slice_segment_flag = 0 ∧
    exampleParser255.m_slice.prev_poc_lsb = 255 ∧ exampleParser255.m_slice.prev_poc_msb = 0 ∧
    exampleWrapResult2.2.m_sh.slice_pic_order_cnt_lsb = 1 ∧
    exampleWrapResult2.2.m_slice.curr_poc_msb = 256 ∧
    exampleWrapResult2.2.m_slice.curr_poc = 257 :=
  have h : ParseSliceHeader exampleEnv exampleParser255 1 exampleSliceLsb1
      = some exampleWrapResult2 := some_getD_of_isSome _ _ (by decide)
  have hind : exampleWrapResult2.2.m_sh.dependent_slice_segment_flag = 0 := by decide
  have hv : exampleWrapResult2.2.m_sh.slice_pic_order_cnt_lsb = 1 := by decide
  have hc := (ParseSliceHeader_poc_wrap exampleEnv exampleParser255 1 exampleSliceLsb1
    exampleWrapResult2 h hind (by decide) (by decide) (by decide) rfl).2.2 rfl hv
  ⟨h, hind, rfl, rfl, hv, hc.1, hc.2⟩

/-- C21 (counterexample). With `max_lsb = 256`, a TRAIL_R slice with
`slice_pic_order_cnt_lsb = 255` parsed from `prev_poc_lsb = 0`, `prev_poc_msb = 0` yields
`curr_poc_msb = -256` and `curr_poc = -1`, not 255. -/
theorem ParseSliceHeader_poc_wrap_differs :
    ParseSliceHeader exampleEnv exampleParser 1 exampleSlice255 = some exampleWrapResult1 ∧
    (exampleParser.m_sps 0).log2_max_pic_order_cnt_lsb_minus4 = 4 ∧
    exampleParser.m_slice.prev_poc_lsb = 0 ∧ exampleParser.m_slice.prev_poc_msb = 0 ∧
    exampleWrapResult1.2.m_sh.dependent_slice_segment_flag = 0 ∧
    exampleWrapResult1.2.m_sh.slice_pic_order_cnt_lsb = 255 ∧
    exampleWrapResult1.2.m_slice.max_poc_lsb = 256 ∧
    exampleWrapResult1.2.m_slice.curr_poc_msb = -256 ∧
    exampleWrapResult1.2.m_slice.curr_poc = -1 ∧
    exampleWrapResult1.2.m_slice.curr_poc ≠ 255 :=
  ⟨some_getD_of_isSome _ _ (by decide), by decide, rfl, rfl, by decide, by decide, by decide,
    by decide, by decide, by decide⟩

/-! ## Theorems on the zero-counting loop of `ReadUe` and on the mapping of `ReadSe` -/

theorem CountZeroLoop_short (data : Nat → Nat) :
    ∀ fuel q, (∀ i, i < fuel → bitAt data (q + i) = 0) → CountZeroLoop data fuel q = none := by
  intro fuel
  induction fuel with
  | zero => intro q _; rfl
  | succ f ih =>
    intro q h0
    have hq : (data (q / 8) >>> (7 - q % 8)) &&& 1 = 0 := by
      simpa [bitAt] using h0 0 (by omega)
    have := ih (q + 1) (fun i hi => by
      have := h0 (i + 1) (by omega)
      rwa [show q + 1 + i = q + (i + 1) by omega])
    simp only [CountZeroLoop, GetBit, hq]
    simp only [bne_self_eq_false, beq_self_eq_true, if_true]
    exact this

theorem ReadUe_of_run (data : Nat → Nat) (p z fuel : Nat)
    (hzero : ∀ i, i < z → bitAt data (p + i) = 0) (hone : bitAt data (p + z) = 1)
    (hfuel : z < fuel) :
    ReadUe fuel data p
      = some (if z > 30 then (0, p + z)
          else (2 ^ z - 1 + bitsVal data (p + z + 1) z, p + 2 * z + 1)) := by
  have hcount := CountZeroLoop_run data z fuel p hzero hone hfuel
  simp only [ReadUe, CountContiniusZeroBits, hcount]
  simp only [Nat.add_sub_cancel, Nat.add_sub_cancel_left]
  by_cases hz : z > 30
  · rw [if_pos hz, if_pos hz]
  · rw [if_neg hz, if_neg hz, ReadBits_eq data _ z (by omega)]
    have hb := bitsVal_lt data z (p + z + 1)
    have hpow : (2 : Nat) ^ z ≤ 2 ^ 30 := Nat.pow_le_pow_right (by decide) (by omega)
    have hpos : 0 < 2 ^ z := Nat.pow_pos (by decide)
    simp only [Nat.shiftLeft_eq, Nat.one_mul, U32]
    have h1 : (2 ^ z - 1) % 2 ^ 32 = 2 ^ z - 1 := Nat.mod_eq_of_lt (by omega)
    rw [h1, Nat.mod_eq_of_lt (by omega)]
    congr 2
    omega

theorem ReadUe_none_of_zeros (data : Nat → Nat) (p fuel : Nat)
    (hzero : ∀ i, i < fuel → bitAt data (p + i) = 0) : ReadUe fuel data p = none := by
  simp only [ReadUe, CountContiniusZeroBits, CountZeroLoop_short data fuel p hzero]

/-- C26 (as amended). `ReadUe` and the run of zero bits at the cursor: when `z` zero bits
are followed by a 1 bit, the zero-counting loop examines exactly these `z + 1` bits, whatever
`z` is (it has not ended after `z` iterations and has ended after `z + 1`); `ReadUe` then
returns 0 with the cursor on the 1 bit when `z > 30`, and `(1 << z) - 1 + suffix` with the
cursor `2z + 1` bits further when `z ≤ 30`, the suffix being the `z` bits after the 1 bit.
When every bit from the cursor on is zero, the loop does not end. -/
theorem ReadUe_zero_run (data : Nat → Nat) (p : Nat) :
    (∀ z, (∀ i, i < z → bitAt data (p + i) = 0) → bitAt data (p + z) = 1 →
      ∀ fuel,
        (fuel ≤ z → ReadUe fuel data p = none) ∧
        (z < fuel → ReadUe fuel data p
          = some (if z > 30 then (0, p + z)
              else (2 ^ z - 1 + bitsVal data (p + z + 1) z, p + 2 * z + 1)))) ∧
    ((∀ i, bitAt data (p + i) = 0) → ∀ fuel, ReadUe fuel data p = none) := by
  refine ⟨fun z hzero hone fuel => ⟨fun hf => ?_, fun hf => ?_⟩, fun hzero fuel => ?_⟩
  · exact ReadUe_none_of_zeros data p fuel (fun i hi => hzero i (by omega))
  · exact ReadUe_of_run data p z fuel hzero hone hf
  · exact ReadUe_none_of_zeros data p fuel (fun i _ => hzero i)

theorem ReadUe_zero_run_witness :
    (∀ i, i < 3 → bitAt (memOfList [0x14]) (0 + i) = 0) ∧ bitAt (memOfList [0x14]) (0 + 3) = 1 ∧
    ReadUe 3 (memOfList [0x14]) 0 = none ∧ ReadUe 4 (memOfList [0x14]) 0 = some (9, 7) :=
  have h := (ReadUe_zero_run (memOfList [0x14]) 0).1 3 (by decide) (by decide)
  ⟨by decide, by decide, (h 3).1 (by decide), ((h 4).2 (by decide)).trans (by decide)⟩

/-- C26 (counterexample). A run of 40 zero bits followed by a 1 bit: after 32 iterations the
zero-counting loop has not ended, it examines 41 bits, and `ReadUe` returns 0 with the cursor
on the 1 bit, there being no error result. A run of 31 zero bits followed by 32 one bits:
`ReadUe` returns 0, not `(1 << 31) - 1 + suffix`. On a buffer of zero bits the loop does not
end, whatever the number of iterations allowed. -/
theorem ReadUe_no_zero_run_cap :
    ReadUe 32 (memOfList [0, 0, 0, 0, 0, 0x80]) 0 = none ∧
    ReadUe 41 (memOfList [0, 0, 0, 0, 0, 0x80]) 0 = some (0, 40) ∧
    ReadUe 32 (memOfList [0, 0, 0, 1, 0xFF, 0xFF, 0xFF, 0xFE]) 0 = some (0, 31) ∧
    ∀ fuel, ReadUe fuel (memOfList []) 0 = none :=
  ⟨by decide, by decide, by decide,
    fun fuel => ReadUe_none_of_zeros _ 0 fuel (fun i _ => by simp [bitAt, memOfList])⟩

theorem byteOfBits_bit (b : Nat → Nat) (hb : ∀ j, b j ≤ 1) (j : Nat) (hj : j < 8) :
    (byteOfBits b >>> (7 - j)) &&& 1 = b j := by
  have hfold : byteOfBits b
      = 2 * (2 * (2 * (2 * (2 * (2 * (2 * (2 * 0 + b 0) + b 1) + b 2) + b 3) + b 4) + b 5)
        + b 6) + b 7 := by
    simp [byteOfBits, List.range_succ]
  have h0 := hb 0
  have h1 := hb 1
  have h2 := hb 2
  have h3 := hb 3
  have h4 := hb 4
  have h5 := hb 5
  have h6 := hb 6
  have h7 := hb 7
  rw [hfold, Nat.shiftRight_eq_div_pow, Nat.and_one_is_mod]
  interval_cases j <;> simp only [Nat.sub_zero, Nat.reduceSub, Nat.reducePow, Nat.div_one] <;> omega

theorem bitAt_memOfBits (bits : List Nat) (hb : ∀ x ∈ bits, x ≤ 1) (p : Nat) :
    bitAt (memOfBits bits) p = bits.getD p 0 := by
  have hget : ∀ q, bits.getD q 0 ≤ 1 := by
    intro q
    by_cases hq : q < bits.length
    · rw [List.getD_eq_getElem _ _ hq]
      exact hb _ (List.getElem_mem hq)
    · rw [List.getD_eq_default _ _ (by omega)]
      omega
  unfold bitAt memOfBits
  rw [byteOfBits_bit _ (fun j => hget _) (p % 8) (Nat.mod_lt _ (by decide))]
  congr 1
  omega

theorem encodeUe_bits (n : Nat) : ∀ x ∈ encodeUe n, x ≤ 1 := by
  intro x hx
  simp only [encodeUe, List.mem_append, List.mem_replicate, List.mem_map, List.mem_range] at hx
  rcases hx with ⟨_, rfl⟩ | ⟨j, _, rfl⟩
  · omega
  · rw [Nat.and_one_is_mod]; omega

theorem ReadUe_returns (n : Nat) (hn : n ≤ 2 ^ 31 - 2) :
    ReadUe (Nat.log2 (n + 1) + 1) (memOfBits (encodeUe n)) 0
      = some (n, 0 + (2 * Nat.log2 (n + 1) + 1)) :=
  ReadUe_of_placed _ 0 n _ hn
    (fun i _ => by rw [Nat.zero_add]; exact bitAt_memOfBits _ (encodeUe_bits n) i)
    (Nat.lt_succ_self _)

theorem SeFromUe_val (ue : Nat) (h : ue < U32) :
    SeFromUe ue
      = if ue % 2 = 0 then (if ue = 0 then 0 else 2 ^ 32 - ue / 2) else ue / 2 + 1 := by
  unfold SeFromUe U32 at *
  simp only [beq_iff_eq]
  split_ifs <;> omega

theorem SeFromUe_injective (a b : Nat) (ha : a < U32) (hb : b < U32)
    (h : SeFromUe a = SeFromUe b) : a = b := by
  rw [SeFromUe_val a ha, SeFromUe_val b hb] at h
  unfold U32 at *
  split_ifs at h <;> omega

theorem SeFromUe_surjective (v : Int) (h1 : -2 ^ 31 ≤ v) (h2 : v < 2 ^ 31) :
    ∃ ue, ue < U32 ∧ toInt32 (SeFromUe ue) = v := by
  by_cases hv : 0 < v
  · refine ⟨(2 * v - 1).toNat, ?_, ?_⟩
    · unfold U32; omega
    · unfold SeFromUe toInt32 U32
      simp only [beq_iff_eq]
      split_ifs <;> omega
  · by_cases hm : v = -2 ^ 31
    · refine ⟨2 ^ 32 - 1, by decide, ?_⟩
      rw [hm]
      decide
    · refine ⟨(-2 * v).toNat, ?_, ?_⟩
      · unfold U32; omega
      · unfold SeFromUe toInt32 U32
        simp only [beq_iff_eq]
        split_ifs <;> omega

theorem SeFromUe_range (ue : Nat) (h : ue ≤ 2 ^ 31 - 2) :
    -(2 ^ 30 - 1) ≤ toInt32 (SeFromUe ue) ∧ toInt32 (SeFromUe ue) ≤ 2 ^ 30 - 1 := by
  rw [toInt32_SeFromUe ue h]
  split_ifs <;> omega

theorem SeFromUe_preimage (v : Int) (h1 : -(2 ^ 30 - 1) ≤ v) (h2 : v ≤ 2 ^ 30 - 1) :
    ∃ ue, ue ≤ 2 ^ 31 - 2 ∧ toInt32 (SeFromUe ue) = v := by
  by_cases hv : 0 < v
  · refine ⟨(2 * v - 1).toNat, by omega, ?_⟩
    rw [toInt32_SeFromUe _ (by omega)]
    split_ifs <;> omega
  · refine ⟨(-2 * v).toNat, by omega, ?_⟩
    rw [toInt32_SeFromUe _ (by omega)]
    split_ifs <;> omega

/-- C27. The mapping from `ue` to the result of `ReadSe` (`SeFromUe`) is a bijection: distinct
`uint32_t` values of `ue` give distinct results, and every 32-bit signed value is the result,
read as two's complement, of exactly one `ue`. The values that `ReadUe` can return are those
of `[0, 2^31 - 2]`; on them the result lies in `[-(2^30 - 1), 2^30 - 1]`, and every signed `v`
of that range is what `ReadSe` returns for exactly one value `ue` returned by `ReadUe`. -/
theorem ReadSe_bijection :
    (∀ a b, a < U32 → b < U32 → SeFromUe a = SeFromUe b → a = b) ∧
    (∀ v : Int, -2 ^ 31 ≤ v → v < 2 ^ 31 → ∃! ue, ue < U32 ∧ toInt32 (SeFromUe ue) = v) ∧
    (∀ ue, (∃ fuel data p q, ReadUe fuel data p = some (ue, q)) ↔ ue ≤ 2 ^ 31 - 2) ∧
    (∀ ue, ue ≤ 2 ^ 31 - 2 →
      -(2 ^ 30 - 1) ≤ toInt32 (SeFromUe ue) ∧ toInt32 (SeFromUe ue) ≤ 2 ^ 30 - 1) ∧
    (∀ v : Int, -(2 ^ 30 - 1) ≤ v → v ≤ 2 ^ 30 - 1 →
      ∃! ue, (∃ fuel data p q, ReadSe fuel data p = some (SeFromUe ue, q) ∧
          ReadUe fuel data p = some (ue, q)) ∧ toInt32 (SeFromUe ue) = v) := by
  have hinj32 : ∀ a b, a < U32 → b < U32 → toInt32 (SeFromUe a) = toInt32 (SeFromUe b) →
      a = b := by
    intro a b ha hb h
    apply SeFromUe_injective a b ha hb
    have hlt : ∀ x, x < U32 → SeFromUe x < U32 := by
      intro x hx
      unfold SeFromUe U32 at *
      simp only [beq_iff_eq]
      split_ifs <;> omega
    have ha1 := hlt a ha
    have hb1 := hlt b hb
    unfold toInt32 U32 at h
    unfold U32 at ha1 hb1
    split_ifs at h <;> omega
  have hret : ∀ ue, (∃ fuel data p q, ReadUe fuel data p = some (ue, q)) ↔ ue ≤ 2 ^ 31 - 2 :=
    fun ue => ⟨fun ⟨fuel, data, p, q, h⟩ => ReadUe_le data fuel p ue q h,
      fun h => ⟨_, _, _, _, ReadUe_returns ue h⟩⟩
  refine ⟨SeFromUe_injective, fun v h1 h2 => ?_, hret, SeFromUe_range, fun v h1 h2 => ?_⟩
  · obtain ⟨ue, hu, hv⟩ := SeFromUe_surjective v h1 h2
    exact ⟨ue, ⟨hu, hv⟩, fun y hy => hinj32 y ue hy.1 hu (hy.2.trans hv.symm)⟩
  · obtain ⟨ue, hu, hv⟩ := SeFromUe_preimage v h1 h2
    refine ⟨ue, ⟨⟨_, _, _, _, ?_, ReadUe_returns ue hu⟩, hv⟩, fun y hy => ?_⟩
    · simp [ReadSe, ReadUe_returns ue hu]
    · obtain ⟨⟨fuel, data, p, q, _, hy1⟩, hy2⟩ := hy
      have hyle := ReadUe_le data fuel p y q hy1
      exact hinj32 y ue (by unfold U32; omega) (by unfold U32; omega) (hy2.trans hv.symm)

theorem ReadSe_bijection_witness :
    (∃! ue, ue < U32 ∧ toInt32 (SeFromUe ue) = -3) ∧
    (∃! ue, (∃ fuel data p q, ReadSe fuel data p = some (SeFromUe ue, q) ∧
      ReadUe fuel data p = some (ue, q)) ∧ toInt32 (SeFromUe ue) = 2) :=
  ⟨ReadSe_bijection.2.1 (-3) (by decide) (by decide),
    ReadSe_bijection.2.2.2.2 2 (by decide) (by decide)⟩

/-! ## Theorems on the layout of the VPS -/

theorem GetFlag_eq (data : Nat → Nat) (p : Nat) : GetFlag data p = (bitAt data p, p + 1) := by
  unfold GetFlag GetBit bitAt
  simp only [Prod.mk.injEq, and_true]
  rw [Nat.and_one_is_mod]
  rcases Nat.mod_two_eq_zero_or_one (data (p / 8) >>> (7 - p % 8)) with h | h <;> rw [h] <;> rfl

section StepLemmas
variable {σ : Type}

theorem runSteps_cons_of {f : Step σ} {fs : List (Step σ)} {s s1 r : σ × Nat}
    (h1 : f s = some s1) (h2 : runSteps fs s1 = some r) : runSteps (f :: fs) s = some r := by
  simp only [runSteps, h1, h2]

theorem stepIf_pos {c : σ → Bool} {t e : List (Step σ)} {s r : σ × Nat} (hc : c s.1 = true)
    (h : runSteps t s = some r) : stepIf c t e s = some r := by
  simp only [stepIf, hc, if_true, h]

theorem stepIf_neg {c : σ → Bool} {t e : List (Step σ)} {s r : σ × Nat} (hc : c s.1 = false)
    (h : runSteps e s = some r) : stepIf c t e s = some r := by
  simp only [stepIf, hc, Bool.false_eq_true, if_false, h]

theorem stepBits_some (upd : σ → Nat → σ) (n : Nat) (nalu : Nat → Nat) (s : σ × Nat)
    (h : n ≤ 32) : stepBits upd n nalu s = some (upd s.1 (bitsVal nalu s.2 n), s.2 + n) := by
  simp only [stepBits, rdBits, ReadBits_eq nalu s.2 n h]

theorem stepFlag_some (upd : σ → Nat → σ) (nalu : Nat → Nat) (s : σ × Nat) :
    stepFlag upd nalu s = some (upd s.1 (bitAt nalu s.2), s.2 + 1) := by
  simp only [stepFlag, rdFlag, GetFlag_eq]

theorem forLoop_flags (upd : Nat → σ → Nat → σ) (nalu : Nat → Nat)
    (body : Nat → σ × Nat → Option (σ × Nat))
    (hb : ∀ i s, body i s = some (upd i s.1 (bitAt nalu s.2), s.2 + 1)) (n : Nat) :
    ∀ (start : Nat) (s : σ × Nat),
      ∃ x, forLoop body start n s = some (x, s.2 + n) ∧
        ∀ (β : Type) (π : σ → β), (∀ i y v, π (upd i y v) = π y) → π x = π s.1 := by
  induction n with
  | zero => intro start s; exact ⟨s.1, rfl, fun _ _ _ => rfl⟩
  | succ n ih =>
    intro start s
    obtain ⟨x, hx, hπ⟩ := ih (start + 1) (upd start s.1 (bitAt nalu s.2), s.2 + 1)
    refine ⟨x, ?_, fun β π h => (hπ β π h).trans (h _ _ _)⟩
    rw [show s.2 + (n + 1) = s.2 + 1 + n by omega]
    simp only [forLoop, hb, hx]

theorem stepFor_flags (upd : Nat → σ → Nat → σ) (nalu : Nat → Nat) (n start : Nat)
    (s : σ × Nat) :
    ∃ x, stepFor start (fun _ => n) (fun i => [stepFlag (upd i) nalu]) s = some (x, s.2 + n) ∧
      ∀ (β : Type) (π : σ → β), (∀ i y v, π (upd i y v) = π y) → π x = π s.1 :=
  forLoop_flags upd nalu _ (fun i t => by simp only [runSteps, stepFlag_some]) n start s

end StepLemmas

theorem ParsePtl_single_layer (nalu : Nat → Nat) (ptl0 : H265ProfileTierLevel) (p : Nat) :
    ∃ ptl, ParsePtl true 0 nalu (ptl0, p) = some (ptl, p + 96) ∧
      ptl.general_profile_space = bitsVal nalu p 2 ∧
      ptl.general_tier_flag = bitAt nalu (p + 2) ∧
      ptl.general_profile_idc = bitsVal nalu (p + 3) 5 ∧
      ptl.general_progressive_source_flag = bitAt nalu (p + 40) ∧
      ptl.general_interlaced_source_flag = bitAt nalu (p + 41) ∧
      ptl.general_non_packed_constraint_flag = bitAt nalu (p + 42) ∧
      ptl.general_frame_only_constraint_flag = bitAt nalu (p + 43) ∧
      ptl.general_level_idc = bitsVal nalu (p + 88) 8 := by
  let a1 : H265ProfileTierLevel := { ptl0 with general_profile_space := bitsVal nalu p 2 }
  let a2 : H265ProfileTierLevel := { a1 with general_tier_flag := bitAt nalu (p + 2) }
  let a3 : H265ProfileTierLevel := { a2 with general_profile_idc := bitsVal nalu (p + 3) 5 }
  obtain ⟨x, hx, hπ⟩ := stepFor_flags
    (fun i (ptl : H265ProfileTierLevel) v =>
      { ptl with
        general_profile_compatibility_flag :=
          setAt ptl.general_profile_compatibility_flag i v }) nalu 32 0 (a3, p + 8)
  let a5 : H265ProfileTierLevel :=
    { x with general_progressive_source_flag := bitAt nalu (p + 40) }
  let a6 : H265ProfileTierLevel :=
    { a5 with general_interlaced_source_flag := bitAt nalu (p + 41) }
  let a7 : H265ProfileTierLevel :=
    { a6 with general_non_packed_constraint_flag := bitAt nalu (p + 42) }
  let a8 : H265ProfileTierLevel :=
    { a7 with general_frame_only_constraint_flag := bitAt nalu (p + 43) }
  let a9 : H265ProfileTierLevel := { a8 with general_level_idc := bitsVal nalu (p + 88) 8 }
  have h1 : ParsePtl true 0 nalu (ptl0, p) = some (a9, p + 96) := by
    unfold ParsePtl
    refine @runSteps_cons_of _ _ _ _ (a8, p + 88) _ (stepIf_pos rfl ?_) ?_
    · refine @runSteps_cons_of _ _ _ _ (a1, p + 2) _ (stepBits_some _ 2 nalu _ (by decide)) ?_
      refine @runSteps_cons_of _ _ _ _ (a2, p + 3) _ (stepFlag_some _ nalu _) ?_
      refine @runSteps_cons_of _ _ _ _ (a3, p + 8) _ (stepBits_some _ 5 nalu _ (by decide)) ?_
      refine @runSteps_cons_of _ _ _ _ (x, p + 40) _ hx ?_
      refine @runSteps_cons_of _ _ _ _ (a5, p + 41) _ (stepFlag_some _ nalu _) ?_
      refine @runSteps_cons_of _ _ _ _ (a6, p + 42) _ (stepFlag_some _ nalu _) ?_
      refine @runSteps_cons_of _ _ _ _ (a7, p + 43) _ (stepFlag_some _ nalu _) ?_
      refine @runSteps_cons_of _ _ _ _ (a8, p + 44) _ (stepFlag_some _ nalu _) ?_
      refine @runSteps_cons_of _ _ _ _ (a8, p + 88) _ rfl ?_
      rfl
    · refine @runSteps_cons_of _ _ _ _ (a9, p + 96) _ (stepBits_some _ 8 nalu _ (by decide)) ?_
      refine @runSteps_cons_of _ _ _ _ (a9, p + 96) _ rfl ?_
      refine @runSteps_cons_of _ _ _ _ (a9, p + 96) _ (stepIf_neg rfl rfl) ?_
      refine @runSteps_cons_of _ _ _ _ (a9, p + 96) _ rfl ?_
      rfl
  refine ⟨a9, h1, ?_, ?_, ?_, rfl, rfl, rfl, rfl, rfl⟩
  · exact hπ Nat (fun ptl => ptl.general_profile_space) (fun _ _ _ => rfl)
  · exact hπ Nat (fun ptl => ptl.general_tier_flag) (fun _ _ _ => rfl)
  · exact hπ Nat (fun ptl => ptl.general_profile_idc) (fun _ _ _ => rfl)

section StepLemmas2
variable {σ : Type}

theorem runSteps_cons_eq {f : Step σ} {fs : List (Step σ)} {s s1 : σ × Nat}
    (h1 : f s = some s1) : runSteps (f :: fs) s = runSteps fs s1 := by
  simp only [runSteps, h1]

theorem runSteps_cons_some {f : Step σ} {fs : List (Step σ)} {s r : σ × Nat}
    (h : runSteps (f :: fs) s = some r) : ∃ s1, f s = some s1 ∧ runSteps fs s1 = some r := by
  simp only [runSteps] at h
  split at h
  · cases h
  · rename_i s1 h1
    exact ⟨s1, h1, h⟩

theorem stepUe_some {fuel : Nat} {upd : σ → Nat → σ} {nalu : Nat → Nat} {s r : σ × Nat}
    (h : stepUe fuel upd nalu s = some r) :
    ∃ v, ReadUe fuel nalu s.2 = some (v, r.2) ∧ r.1 = upd s.1 v := by
  simp only [stepUe, rdUe] at h
  split at h
  · cases h
  · rename_i x hx
    cases h
    exact ⟨x.1, hx, rfl⟩

end StepLemmas2

theorem ParseVpsSlot_layout (fuel : Nat) (nalu : Nat → Nat) (r : Nat × VpsData)
    (hsub : bitsVal nalu 12 3 = 0) (h : ParseVpsSlot fuel nalu = some r) :
    r.1 = bitsVal nalu 0 4 ∧
    r.2.vps_max_layers_minus1 = bitsVal nalu 6 6 ∧
    r.2.vps_max_sub_layers_minus1 = 0 ∧
    ParsePtl true 0 nalu (H265ProfileTierLevel.zero, 32) = some (r.2.profile_tier_level, 128) ∧
    r.2.vps_sub_layer_ordering_info_present_flag = bitAt nalu 128 ∧
    ∃ q, ReadUe fuel nalu 129 = some (r.2.vps_max_dec_pic_buffering_minus1 0, q) := by
  obtain ⟨ptl, hptl, -⟩ := ParsePtl_single_layer nalu H265ProfileTierLevel.zero 32
  unfold ParseVpsSlot at h
  simp only [ReadBits_eq nalu 0 4 (by decide)] at h
  split at h
  · cases h
  rename_i s hs
  cases h
  refine ⟨by simp, ?_⟩
  let b0 : VpsData := { VpsData.zero with vps_video_parameter_set_id := bitsVal nalu 0 4 }
  let b1 : VpsData := { b0 with vps_base_layer_internal_flag := bitAt nalu 4 }
  let b2 : VpsData := { b1 with vps_base_layer_available_flag := bitAt nalu 5 }
  let b3 : VpsData := { b2 with vps_max_layers_minus1 := bitsVal nalu 6 6 }
  let b4 : VpsData := { b3 with vps_max_sub_layers_minus1 := bitsVal nalu 12 3 }
  let b5 : VpsData := { b4 with vps_temporal_id_nesting_flag := bitAt nalu 15 }
  let b6 : VpsData := { b5 with vps_reserved_0xffff_16bits := bitsVal nalu 16 16 }
  let b7 : VpsData := { b6 with profile_tier_level := ptl }
  let b8 : VpsData := { b7 with vps_sub_layer_ordering_info_present_flag := bitAt nalu 128 }
  have h7 : ParsePtl true b6.vps_max_sub_layers_minus1 nalu (b6.profile_tier_level, 32)
      = some (ptl, 128) := by
    have e : b6.vps_max_sub_layers_minus1 = 0 := hsub
    rw [e]
    exact hptl
  unfold ParseVpsBody at hs
  obtain ⟨s1, e1, hs⟩ := runSteps_cons_some hs
  obtain rfl : (b1, 5) = s1 := Option.some.inj ((stepFlag_some _ nalu _).symm.trans e1)
  obtain ⟨s2, e2, hs⟩ := runSteps_cons_some hs
  obtain rfl : (b2, 6) = s2 := Option.some.inj ((stepFlag_some _ nalu _).symm.trans e2)
  obtain ⟨s3, e3, hs⟩ := runSteps_cons_some hs
  obtain rfl : (b3, 12) = s3 :=
    Option.some.inj ((stepBits_some _ 6 nalu _ (by decide)).symm.trans e3)
  obtain ⟨s4, e4, hs⟩ := runSteps_cons_some hs
  obtain rfl : (b4, 15) = s4 :=
    Option.some.inj ((stepBits_some _ 3 nalu _ (by decide)).symm.trans e4)
  obtain ⟨s5, e5, hs⟩ := runSteps_cons_some hs
  obtain rfl : (b5, 16) = s5 := Option.some.inj ((stepFlag_some _ nalu _).symm.trans e5)
  obtain ⟨s6, e6, hs⟩ := runSteps_cons_some hs
  obtain rfl : (b6, 32) = s6 :=
    Option.some.inj ((stepBits_some _ 16 nalu _ (by decide)).symm.trans e6)
  obtain ⟨s7, e7, hs⟩ := runSteps_cons_some hs
  simp only [stepDyn, stepSub] at e7
  rw [h7] at e7
  obtain rfl : (b7, 128) = s7 := Option.some.inj e7
  obtain ⟨s8, e8, hs⟩ := runSteps_cons_some hs
  obtain rfl : (b8, 129) = s8 := Option.some.inj ((stepFlag_some _ nalu _).symm.trans e8)
  clear e1 e2 e3 e4 e5 e6 e7 e8
  obtain ⟨s9, e9, hs⟩ := runSteps_cons_some hs
  have hk := @keeps_runSteps VpsData (Nat × Nat × H265ProfileTierLevel × Nat × Nat)
    (fun vps => (vps.vps_max_layers_minus1, vps.vps_max_sub_layers_minus1,
      vps.profile_tier_level, vps.vps_sub_layer_ordering_info_present_flag,
      vps.vps_max_dec_pic_buffering_minus1 0)) _ (by
      repeat' first
        | exact allKeep_nil
        | apply keeps_runSteps
        | apply allKeep_cons
        | apply keeps_if
        | apply keeps_for
        | apply keeps_dyn
        | apply keeps_sub
        | apply keeps_flag
        | apply keeps_bits
        | apply keeps_ue
        | apply keeps_se
        | apply keeps_set
        | exact keeps_skipBits
        | intro _
        | rfl) s9 s hs
  have hcount : b8.vps_max_sub_layers_minus1 + 1 = 1 := by
    have e : b8.vps_max_sub_layers_minus1 = 0 := hsub
    rw [e]
  simp only [stepFor] at e9
  rw [hcount] at e9
  simp only [forLoop] at e9
  split at e9
  · cases e9
  rename_i t ht
  cases e9
  obtain ⟨t0, et0, ht⟩ := runSteps_cons_some ht
  simp only [runSteps, Option.some.injEq] at ht
  subst ht
  simp only [stepIf, beq_self_eq_true, Bool.or_true, if_true] at et0
  obtain ⟨u1, eu1, et0⟩ := runSteps_cons_some et0
  obtain ⟨u2, eu2, et0⟩ := runSteps_cons_some et0
  obtain ⟨u3, eu3, et0⟩ := runSteps_cons_some et0
  simp only [runSteps, Option.some.injEq] at et0
  subst et0
  obtain ⟨v1, r1, w1⟩ := stepUe_some eu1
  obtain ⟨v2, r2, w2⟩ := stepUe_some eu2
  obtain ⟨v3, r3, w3⟩ := stepUe_some eu3
  have hfin : (s.1.vps_max_layers_minus1, s.1.vps_max_sub_layers_minus1,
      s.1.profile_tier_level, s.1.vps_sub_layer_ordering_info_present_flag,
      s.1.vps_max_dec_pic_buffering_minus1 0)
      = (bitsVal nalu 6 6, bitsVal nalu 12 3, ptl, bitAt nalu 128, v1) := by
    refine hk.trans ?_
    simp only
    rw [w3, w2, w1]
    simp [setAt, b8, b7, b6, b5, b4, b3]
  simp only [Prod.mk.injEq] at hfin
  obtain ⟨f1, f2, f3, f4, f5⟩ := hfin
  refine ⟨f1, f2.trans hsub, by rw [f3]; exact hptl, f4, u1.2, ?_⟩
  rw [f5]
  exact r1

/-- C25. VPS field layout: for an RBSP whose bits 12..14 (`vps_max_sub_layers_minus1`) are 0,
a `ParseVps` that returns has written the slot selected by bits 0..3 and no other, with
`vps_max_layers_minus1` = bits 6..11; the profile, tier and level block is read from bit 32
and ends at bit 128, 96 bits later, with the four source and constraint flags at bits 72..75
and `general_level_idc` = bits 120..127, the 44 bits 76..119 in between being skipped;
`vps_sub_layer_ordering_info_present_flag` is bit 128 and
`vps_max_dec_pic_buffering_minus1[0]` is what `ReadUe` returns at bit 129. For the minimal
VPS of scenario 1 the slot 0 holds `vps_max_layers_minus1 = 0`, `general_level_idc = 120` and
`vps_max_dec_pic_buffering_minus1[0] = 5`. -/
theorem ParseVps_layout (env : ParseEnv) (m m1 : ParserMembers) (nalu : Nat → Nat)
    (hsub : bitsVal nalu 12 3 = 0) (h : ParseVps env m nalu = some m1) :
    (∀ j, j ≠ bitsVal nalu 0 4 → m1.m_vps j = m.m_vps j) ∧
    (m1.m_vps (bitsVal nalu 0 4)).vps_video_parameter_set_id = bitsVal nalu 0 4 ∧
    (m1.m_vps (bitsVal nalu 0 4)).vps_max_layers_minus1 = bitsVal nalu 6 6 ∧
    (m1.m_vps (bitsVal nalu 0 4)).vps_max_sub_layers_minus1 = 0 ∧
    ParsePtl true 0 nalu (H265ProfileTierLevel.zero, 32)
      = some ((m1.m_vps (bitsVal nalu 0 4)).profile_tier_level, 32 + 96) ∧
    (m1.m_vps (bitsVal nalu 0 4)).profile_tier_level.general_progressive_source_flag
      = bitAt nalu 72 ∧
    (m1.m_vps (bitsVal nalu 0 4)).profile_tier_level.general_interlaced_source_flag
      = bitAt nalu 73 ∧
    (m1.m_vps (bitsVal nalu 0 4)).profile_tier_level.general_non_packed_constraint_flag
      = bitAt nalu 74 ∧
    (m1.m_vps (bitsVal nalu 0 4)).profile_tier_level.general_frame_only_constraint_flag
      = bitAt nalu 75 ∧
    (m1.m_vps (bitsVal nalu 0 4)).profile_tier_level.general_level_idc = bitsVal nalu 120 8 ∧
    (m1.m_vps (bitsVal nalu 0 4)).vps_sub_layer_ordering_info_present_flag = bitAt nalu 128 ∧
    (∃ q, ReadUe env.fuel nalu 129
      = some ((m1.m_vps (bitsVal nalu 0 4)).vps_max_dec_pic_buffering_minus1 0, q)) ∧
    (ParseVps exampleEnv initialParser.mem exampleVpsRbsp).map
        (fun x => ((x.m_vps 0).vps_max_layers_minus1,
          (x.m_vps 0).profile_tier_level.general_level_idc,
          (x.m_vps 0).vps_max_dec_pic_buffering_minus1 0))
      = some (0, 120, 5) := by
  unfold ParseVps at h
  split at h
  · cases h
  rename_i r hr
  split at h
  swap
  · cases h
  cases h
  obtain ⟨l1, l2, l3, l4, l5, l6⟩ := ParseVpsSlot_layout env.fuel nalu r hsub hr
  have hid := (ParseVpsSlot_id env.fuel nalu r hr).1
  obtain ⟨ptl, hptl, -, -, -, p4, p5, p6, p7, p8⟩ :=
    ParsePtl_single_layer nalu H265ProfileTierLevel.zero 32
  have hp : r.2.profile_tier_level = ptl := by
    have := l4.symm.trans hptl
    exact (Prod.mk.inj (Option.some.inj this)).1
  have hslot : setAt m.m_vps r.1 r.2 (bitsVal nalu 0 4) = r.2 := by
    simp only [setAt, l1, if_true]
  simp only [hslot]
  refine ⟨fun j hj => ?_, by rw [hid, l1], l2, l3, l4, ?_, ?_, ?_, ?_, ?_, l5, l6, by decide⟩
  · simp only [setAt, l1, if_neg hj]
  · rw [hp]; exact p4
  · rw [hp]; exact p5
  · rw [hp]; exact p6
  · rw [hp]; exact p7
  · rw [hp]; exact p8

theorem ParseVps_layout_witness :
    bitsVal exampleVpsRbsp 12 3 = 0 ∧
    ParseVps exampleEnv initialParser.mem exampleVpsRbsp = some exampleVpsResult ∧
    bitsVal exampleVpsRbsp 0 4 = 0 ∧ bitsVal exampleVpsRbsp 6 6 = 0 ∧
    bitsVal exampleVpsRbsp 120 8 = 120 ∧
    (exampleVpsResult.m_vps (bitsVal exampleVpsRbsp 0 4)).vps_max_layers_minus1
      = bitsVal exampleVpsRbsp 6 6 ∧
    (exampleVpsResult.m_vps (bitsVal exampleVpsRbsp 0 4)).profile_tier_level.general_level_idc
      = bitsVal exampleVpsRbsp 120 8 ∧
    ReadUe exampleEnv.fuel exampleVpsRbsp 129 = some (5, 134) :=
  have h : ParseVps exampleEnv initialParser.mem exampleVpsRbsp = some exampleVpsResult :=
    some_getD_of_isSome _ _ (by decide)
  have hc := ParseVps_layout exampleEnv initialParser.mem exampleVpsResult exampleVpsRbsp
    (by decide) h
  ⟨by decide, h, by decide, by decide, by decide, hc.2.2.1, hc.2.2.2.2.2.2.2.2.2.1, by decide⟩

/-! ## Theorems on the chroma array type -/

theorem shAfterPoc_chroma_array_type (env : ParseEnv) (pps : PpsData) (sps : SpsData)
    (nalu : Nat → Nat) (s : SliceHeaderData × Nat) :
    shAfterPoc env pps sps nalu s
      = match shRefLists env pps (chromaArrayType sps) nalu
          (shSao sps (chromaArrayType sps) nalu s) with
        | none => none
        | some s4 =>
          match shQp env pps nalu s4 with
          | none => none
          | some s5 => shDeblock env pps nalu s5 := rfl

theorem GetFlag_le_one (data : Nat → Nat) (p : Nat) : (GetFlag data p).1 ≤ 1 := by
  unfold GetFlag
  exact Bool.toNat_le _

theorem ParseSpsBody_chroma (fuel : Nat) (nalu : Nat → Nat) (s r : SpsData × Nat)
    (h : ParseSpsBody fuel nalu s = some r) (h0 : s.1.separate_colour_plane_flag = 0) :
    r.1.separate_colour_plane_flag ≤ 1 ∧
    (r.1.separate_colour_plane_flag ≠ 0 → r.1.chroma_format_idc = 3) := by
  unfold ParseSpsBody at h
  obtain ⟨s1, h1, h⟩ := runSteps_cons_some h
  obtain ⟨s2, h2, h⟩ := runSteps_cons_some h
  have hk := @keeps_runSteps SpsData (Nat × Nat)
    (fun sps => (sps.chroma_format_idc, sps.separate_colour_plane_flag)) _ (by
      repeat' first
        | exact allKeep_nil
        | apply keeps_runSteps
        | apply allKeep_cons
        | apply keeps_if
        | apply keeps_for
        | apply keeps_dyn
        | apply keeps_sub
        | apply keeps_flag
        | apply keeps_bits
        | apply keeps_ue
        | apply keeps_se
        | apply keeps_set
        | exact keeps_skipBits
        | intro _
        | rfl) s2 r h
  have hidc : r.1.chroma_format_idc = s2.1.chroma_format_idc := congrArg Prod.fst hk
  have hflag : r.1.separate_colour_plane_flag = s2.1.separate_colour_plane_flag :=
    congrArg Prod.snd hk
  have h1f : s1.1.separate_colour_plane_flag = 0 := by
    have e : s1.1.separate_colour_plane_flag = s.1.separate_colour_plane_flag :=
      rdUe_proj (fun sps : SpsData => sps.separate_colour_plane_flag) h1 (fun _ _ => rfl)
    rw [e, h0]
  rw [hidc, hflag]
  simp only [stepIf] at h2
  split at h2
  · rename_i hc
    simp only [runSteps, stepFlag, Option.some.injEq] at h2
    rw [← h2]
    simp only [rdFlag]
    exact ⟨GetFlag_le_one _ _, fun _ => by simpa using hc⟩
  · simp only [runSteps, Option.some.injEq] at h2
    rw [← h2, h1f]
    exact ⟨by omega, fun hc => absurd rfl hc⟩

theorem ParseSpsSlot_chroma (fuel : Nat) (nalu : Nat → Nat) (r : Nat × SpsData)
    (h : ParseSpsSlot fuel nalu = some r) :
    r.2.separate_colour_plane_flag ≤ 1 ∧
    (r.2.separate_colour_plane_flag ≠ 0 → r.2.chroma_format_idc = 3) := by
  unfold ParseSpsSlot at h
  simp only at h
  split at h
  · cases h
  · split at h
    · cases h
    · split at h
      · cases h
      · rename_i s hs
        cases h
        exact ParseSpsBody_chroma fuel nalu _ _ hs rfl

theorem chromaArrayType_eq_spec (sps : SpsData)
    (h : sps.separate_colour_plane_flag ≠ 0 → sps.chroma_format_idc = 3) :
    chromaArrayType sps = chromaArrayTypeSpec sps := by
  unfold chromaArrayType chromaArrayTypeSpec
  by_cases hf : sps.separate_colour_plane_flag ≠ 0
  · rw [if_pos hf, if_pos ⟨h hf, hf⟩]
  · rw [if_neg hf, if_neg (fun hc => hf hc.2)]

/-- C24. ChromaArrayType: an SPS record produced by `ParseSps` has a
`separate_colour_plane_flag` that is 0 or 1, and 1 only if `chroma_format_idc = 3`; therefore
the `chroma_array_type` that `ParseSliceHeader` computes from such a record
(`separate_colour_plane_flag ? 0 : chroma_format_idc`) is the value in the words of the spec,
0 when `chroma_format_idc = 3` and the flag is set and `chroma_format_idc` in every other
case, and the statements of `ParseSliceHeader` that depend on it (the SAO flags and the
prediction weight table) run with that value. After a `ParseSps` that returns with an id inside
the table, the slot of that id holds such a record. -/
theorem ParseSps_chroma_array_type (env : ParseEnv) :
    (∀ nalu r, ParseSpsSlot env.fuel nalu = some r →
      r.2.separate_colour_plane_flag ≤ 1 ∧
      (r.2.separate_colour_plane_flag = 1 → r.2.chroma_format_idc = 3) ∧
      chromaArrayType r.2 = chromaArrayTypeSpec r.2 ∧
      ∀ (env1 : ParseEnv) (pps : PpsData) (nalu1 : Nat → Nat) (s : SliceHeaderData × Nat),
        shAfterPoc env1 pps r.2 nalu1 s
          = match shRefLists env1 pps (chromaArrayTypeSpec r.2) nalu1
              (shSao r.2 (chromaArrayTypeSpec r.2) nalu1 s) with
            | none => none
            | some s4 =>
              match shQp env1 pps nalu1 s4 with
              | none => none
              | some s5 => shDeblock env1 pps nalu1 s5) ∧
    (∀ m nalu m1, ParseSps env m nalu = some m1 →
      ∃ id, (ParseSpsSlot env.fuel nalu).map (fun r => r.1) = some id ∧
        (id < MAX_SPS_COUNT →
          chromaArrayType (m1.hevc.m_sps id) = chromaArrayTypeSpec (m1.hevc.m_sps id))) := by
  refine ⟨fun nalu r h => ?_, fun m nalu m1 h => ?_⟩
  · have hc := ParseSpsSlot_chroma env.fuel nalu r h
    have he := chromaArrayType_eq_spec r.2 hc.2
    refine ⟨hc.1, fun h1 => hc.2 (by omega), he, fun env1 pps nalu1 s => ?_⟩
    rw [shAfterPoc_chroma_array_type, he]
  · unfold ParseSps at h
    split at h
    · cases h
    · rename_i r hr
      split at h
      swap
      · cases h
      cases h
      refine ⟨r.1, by rw [hr]; rfl, fun _ => ?_⟩
      simp only [setAt, if_true]
      exact chromaArrayType_eq_spec r.2 (ParseSpsSlot_chroma env.fuel nalu r hr).2

theorem ParseSps_chroma_array_type_witness :
    (ParseSpsSlot exampleEnv.fuel exampleSps444Rbsp).isSome = true ∧
    ((ParseSpsSlot exampleEnv.fuel exampleSps444Rbsp).map
      (fun r => (r.2.chroma_format_idc, r.2.separate_colour_plane_flag, chromaArrayType r.2)))
      = some (3, 1, 0) ∧
    (∀ r, ParseSpsSlot exampleEnv.fuel exampleSps444Rbsp = some r →
      chromaArrayType r.2 = chromaArrayTypeSpec r.2) ∧
    ParseSps exampleEnv exampleVpsResult exampleSps444Rbsp = some exampleSpsTableResult ∧
    (∃ id, (ParseSpsSlot exampleEnv.fuel exampleSps444Rbsp).map (fun r => r.1) = some id ∧
      (id < MAX_SPS_COUNT →
        chromaArrayType (exampleSpsTableResult.hevc.m_sps id)
          = chromaArrayTypeSpec (exampleSpsTableResult.hevc.m_sps id))) :=
  ⟨by decide, by decide,
    fun r h => ((ParseSps_chroma_array_type exampleEnv).1 exampleSps444Rbsp r h).2.2.1,
    some_getD_of_isSome _ _ (by decide),
    (ParseSps_chroma_array_type exampleEnv).2 exampleVpsResult exampleSps444Rbsp
      exampleSpsTableResult (some_getD_of_isSome _ _ (by decide))⟩

/-! ## Theorems on the sequence callback -/

theorem FillSeqCallbackFnEffects_fst (vf : RocdecVideoFormat) (pfn : SequenceCallbackPtr)
    (sps_data : SpsData) :
    (FillSeqCallbackFnEffects vf pfn sps_data).1 = FillSeqCallbackFn vf sps_data := by
  unfold FillSeqCallbackFnEffects FillSeqCallbackFn
  rcases fillSeqHead vf sps_data with ⟨vf1, _ | c⟩ <;> rfl

theorem FillSeqCallbackFnEffects_no_call (vf : RocdecVideoFormat) (pfn : SequenceCallbackPtr)
    (sps_data : SpsData) :
    (FillSeqCallbackFnEffects vf pfn sps_data).2.2.any ParserEffect.isSequenceCallbackCall
      = false := by
  unfold FillSeqCallbackFnEffects
  rcases fillSeqHead vf sps_data with ⟨vf1, _ | c⟩ <;> rfl

theorem ParseVideoDataEffects_erase (env : ParseEnv) (st : HEVCVideoParser)
    (pfn : SequenceCallbackPtr) (payload : Nat → Nat) (size : Nat) :
    (ParseVideoDataEffects env st pfn payload size).map (fun r => (r.1, r.2.1))
      = ParseVideoData env st payload size := by
  unfold ParseVideoDataEffects ParseVideoData
  cases ParseFrameData env st payload size with
  | none => rfl
  | some r =>
    simp only
    split_ifs
    · rfl
    · simp only [Option.map_some', FillSeqCallbackFnEffects_fst]
    · rfl

theorem ParseVideoDataEffects_no_call (env : ParseEnv) (st : HEVCVideoParser)
    (pfn : SequenceCallbackPtr) (payload : Nat → Nat) (size : Nat) :
    ((ParseVideoDataEffects env st pfn payload size).map
      (fun r => r.2.2.2.any ParserEffect.isSequenceCallbackCall)).getD false = false := by
  unfold ParseVideoDataEffects
  cases ParseFrameData env st payload size with
  | none => rfl
  | some r =>
    simp only
    split_ifs
    · rfl
    · simp only [Option.map_some', Option.getD_some, FillSeqCallbackFnEffects_no_call]
    · rfl

theorem fillSeqHead_unsupported (vf : RocdecVideoFormat) (sps_data : SpsData)
    (h : 3 < sps_data.chroma_format_idc) :
    (fillSeqHead vf sps_data).2 = none ∧
    (fillSeqHead vf sps_data).1.chroma_format = sps_data.chroma_format_idc ∧
    (fillSeqHead vf sps_data).1.coded_width = sps_data.pic_width_in_luma_samples ∧
    (fillSeqHead vf sps_data).1.coded_height = sps_data.pic_height_in_luma_samples ∧
    (fillSeqHead vf sps_data).1.display_area = vf.display_area := by
  unfold fillSeqHead
  simp only [rocDecVideoChromaFormat_Monochrome, rocDecVideoChromaFormat_420,
    rocDecVideoChromaFormat_422, rocDecVideoChromaFormat_444]
  rw [if_neg (by omega), if_neg (by omega), if_neg (by omega), if_neg (by omega)]
  split_ifs <;> exact ⟨rfl, rfl, rfl, rfl, rfl⟩

/-- C22 (evaluation at the failing input). The packet `examplePacket` (VPS, SPS, PPS, two
slices) on the initial parser, with the callback of the client in `pfn_sequece_cb_`:
`ParseFrameData` returns `true` with `new_sps_activated_` set and SPS 0 active;
`ParseVideoData` returns `ROCDEC_SUCCESS` with the flag cleared and the video format filled
from the SPS (128x128), but no call of the sequence callback is among its effects, and
`pfn_sequece_cb_` holds the address of `video_format_params_` instead of the callback. On no
input does `ParseVideoData` call the sequence callback. -/
theorem ParseVideoData_sequence_callback_not_called :
    (ParseFrameData exampleEnv initialParser examplePacket 83).map
        (fun r => (r.1, r.2.mem.hevc.new_sps_activated, r.2.mem.hevc.m_active_sps_id))
      = some (true, true, 0) ∧
    (ParseVideoDataEffects exampleEnv initialParser SequenceCallbackPtr.client_callback
        examplePacket 83).map
        (fun r => (r.1, r.2.1.mem.hevc.new_sps_activated,
          r.2.1.mem.video_format_params.coded_width,
          r.2.1.mem.video_format_params.coded_height))
      = some (rocDecStatus.ROCDEC_SUCCESS, false, 128, 128) ∧
    (ParseVideoDataEffects exampleEnv initialParser SequenceCallbackPtr.client_callback
        examplePacket 83).map
        (fun r => (r.2.2.1, r.2.2.2.length,
          r.2.2.2.any ParserEffect.isSequenceCallbackCall))
      = some (SequenceCallbackPtr.address_of_video_format_params, 0, false) ∧
    ∀ (env : ParseEnv) (st : HEVCVideoParser) (pfn : SequenceCallbackPtr)
      (payload : Nat → Nat) (size : Nat),
      ((ParseVideoDataEffects env st pfn payload size).map
        (fun r => r.2.2.2.any ParserEffect.isSequenceCallbackCall)).getD false = false :=
  ⟨by decide, by decide, by decide, ParseVideoDataEffects_no_call⟩

/-- C23 (evaluation at the failing input). After `examplePacket` (SPS 0 with 128x128 luma
samples, active, video format 128x128), the packet `exampleResizePacket` holds an SPS with the
same id 0 for 64x64 luma samples and a slice that references it: `ParseFrameData` stores the
new SPS in slot 0 and `ParseSliceHeader` updates `pic_width_` and `pic_height_` to 64, but
`new_sps_activated_` stays `false`, so that `ParseVideoData` returns `ROCDEC_SUCCESS` without
filling the video format, which still says 128x128, the callback member being untouched. -/
theorem ParseVideoData_resize_not_signalled :
    (ParseVideoData exampleEnv initialParser examplePacket 83).map
        (fun r => (r.1, r.2.mem.hevc.m_active_sps_id,
          (r.2.mem.hevc.m_sps 0).pic_width_in_luma_samples,
          (r.2.mem.hevc.m_sps 0).pic_height_in_luma_samples))
      = some (rocDecStatus.ROCDEC_SUCCESS, 0, 128, 128) ∧
    (exampleParserAfterPacket.mem.video_format_params.coded_width,
      exampleParserAfterPacket.mem.video_format_params.coded_height,
      exampleParserAfterPacket.mem.hevc.new_sps_activated) = (128, 128, false) ∧
    (ParseFrameData exampleEnv exampleParserAfterPacket exampleResizePacket 39).map
        (fun r => (r.1, r.2.mem.hevc.m_active_sps_id,
          (r.2.mem.hevc.m_sps 0).pic_width_in_luma_samples,
          (r.2.mem.hevc.m_sps 0).pic_height_in_luma_samples))
      = some (true, 0, 64, 64) ∧
    (ParseFrameData exampleEnv exampleParserAfterPacket exampleResizePacket 39).map
        (fun r => (r.2.mem.slice_num, r.2.mem.hevc.pic_width, r.2.mem.hevc.pic_height,
          r.2.mem.hevc.new_sps_activated))
      = some (1, 64, 64, false) ∧
    (ParseVideoDataEffects exampleEnv exampleParserAfterPacket
        SequenceCallbackPtr.client_callback exampleResizePacket 39).map
        (fun r => (r.1, r.2.1.mem.video_format_params.coded_width,
          r.2.1.mem.video_format_params.coded_height, r.2.2.1, r.2.2.2.length))
      = some (rocDecStatus.ROCDEC_SUCCESS, 128, 128, SequenceCallbackPtr.client_callback, 0) := by
  decide

/-- C30 (as amended). Unsupported chroma format: when `ParseFrameData` returns `true` with
`new_sps_activated_` set and the active SPS has a `chroma_format_idc` above 3,
`FillSeqCallbackFn` passes a message to `ERR` and returns from its `switch`: the sequence
callback is not called and `pfn_sequece_cb_` is as before, the video format holds the members
written before the `switch` (the chroma format and the coded size among them) and its display
area is as before; `ParseVideoData` clears the flag and returns `ROCDEC_SUCCESS`. -/
theorem ParseVideoData_unsupported_chroma (env : ParseEnv) (st r : HEVCVideoParser)
    (pfn : SequenceCallbackPtr) (payload : Nat → Nat) (size : Nat)
    (hf : ParseFrameData env st payload size = some (true, r))
    (hact : r.mem.hevc.new_sps_activated = true)
    (hchroma : 3 < (r.mem.hevc.m_sps r.mem.hevc.m_active_sps_id.toNat).chroma_format_idc) :
    ∃ st1,
      ParseVideoDataEffects env st pfn payload size
        = some (rocDecStatus.ROCDEC_SUCCESS, st1, pfn,
            [ParserEffect.err_chroma_format_not_supported]) ∧
      ParseVideoData env st payload size = some (rocDecStatus.ROCDEC_SUCCESS, st1) ∧
      st1.mem.hevc.new_sps_activated = false ∧
      st1.mem.video_format_params.chroma_format
        = (r.mem.hevc.m_sps r.mem.hevc.m_active_sps_id.toNat).chroma_format_idc ∧
      st1.mem.video_format_params.coded_width
        = (r.mem.hevc.m_sps r.mem.hevc.m_active_sps_id.toNat).pic_width_in_luma_samples ∧
      st1.mem.video_format_params.display_area = r.mem.video_format_params.display_area := by
  obtain ⟨u1, u2, u3, u4, u5⟩ := fillSeqHead_unsupported r.mem.video_format_params
    (r.mem.hevc.m_sps r.mem.hevc.m_active_sps_id.toNat) hchroma
  have hE : FillSeqCallbackFnEffects r.mem.video_format_params pfn
      (r.mem.hevc.m_sps r.mem.hevc.m_active_sps_id.toNat)
      = ((fillSeqHead r.mem.video_format_params
          (r.mem.hevc.m_sps r.mem.hevc.m_active_sps_id.toNat)).1, pfn,
          [ParserEffect.err_chroma_format_not_supported]) := by
    unfold FillSeqCallbackFnEffects
    split
    · rename_i vf1 heq
      rw [heq]
    · rename_i vf1 c heq
      rw [heq] at u1
      cases u1
  have h1 : ParseVideoDataEffects env st pfn payload size
      = some (rocDecStatus.ROCDEC_SUCCESS,
          { r with
            mem :=
              { r.mem with
                video_format_params := (fillSeqHead r.mem.video_format_params
                  (r.mem.hevc.m_sps r.mem.hevc.m_active_sps_id.toNat)).1
                hevc := { r.mem.hevc with new_sps_activated := false } } }, pfn,
          [ParserEffect.err_chroma_format_not_supported]) := by
    unfold ParseVideoDataEffects
    rw [hf]
    simp only [hact, if_true, Bool.true_eq_false, if_false, hE]
  refine ⟨_, h1, ?_, rfl, u2, u3, u5⟩
  rw [← ParseVideoDataEffects_erase env st pfn payload size, h1]
  rfl

theorem ParseVideoData_unsupported_chroma_witness :
    ParseFrameData exampleEnv initialParser exampleChroma4Packet 76
      = some (true, exampleChroma4Frame) ∧
    exampleChroma4Frame.mem.hevc.new_sps_activated = true ∧
    (exampleChroma4Frame.mem.hevc.m_sps
      exampleChroma4Frame.mem.hevc.m_active_sps_id.toNat).chroma_format_idc = 4 ∧
    ∃ st1, ParseVideoDataEffects exampleEnv initialParser SequenceCallbackPtr.client_callback
        exampleChroma4Packet 76
      = some (rocDecStatus.ROCDEC_SUCCESS, st1, SequenceCallbackPtr.client_callback,
          [ParserEffect.err_chroma_format_not_supported]) :=
  have h0 : ParseFrameData exampleEnv initialParser exampleChroma4Packet 76
      = some ((ParseFrameData exampleEnv initialParser exampleChroma4Packet 76).getD
          (false, initialParser)) := some_getD_of_isSome _ _ (by decide)
  have h1 : ((ParseFrameData exampleEnv initialParser exampleChroma4Packet 76).getD
      (false, initialParser)).1 = true := by decide
  have h : ParseFrameData exampleEnv initialParser exampleChroma4Packet 76
      = some (true, exampleChroma4Frame) := h0.trans (congrArg some (Prod.ext h1 rfl))
  have ha : exampleChroma4Frame.mem.hevc.new_sps_activated = true := by decide
  have hc : (exampleChroma4Frame.mem.hevc.m_sps
      exampleChroma4Frame.mem.hevc.m_active_sps_id.toNat).chroma_format_idc = 4 := by decide
  ⟨h, ha, hc,
    (ParseVideoData_unsupported_chroma exampleEnv initialParser exampleChroma4Frame
      SequenceCallbackPtr.client_callback exampleChroma4Packet 76 h ha
      (by rw [hc]; decide)).elim fun st1 hs => ⟨st1, hs.1⟩⟩

/-- C30 (counterexample). The packet `exampleChroma4Packet` activates an SPS whose
`chroma_format_idc` is 4: `ParseVideoData` returns `ROCDEC_SUCCESS`. -/
theorem ParseVideoData_unsupported_chroma_succeeds :
    (ParseVideoData exampleEnv initialParser exampleChroma4Packet 76).map
        (fun r => (r.1, r.2.mem.hevc.m_active_sps_id,
          (r.2.mem.hevc.m_sps 0).chroma_format_idc, r.2.mem.video_format_params.chroma_format))
      = some (rocDecStatus.ROCDEC_SUCCESS, 0, 4, 4) := by
  decide

/-! ## Theorems on slices that reference an empty slot -/

/-- C29 (as amended). `ParseSliceHeader` does not check that the parameter sets it references
were received. A parse that returns has returned `false`, as every parse does. When the slot
of the PPS table named by `slice_pic_parameter_set_id` holds zeros, `m_active_pps_id_` is set
to that id and `m_active_sps_id_` to 0, the `pps_seq_parameter_set_id` of the zeroed slot, and
`new_sps_activated_` is set when it was set before or the active SPS id was not 0. When the
slot of the SPS table that becomes active holds zeros, `m_active_vps_id_` is set to 0 and, for
an independent slice that is not IDR, the POC state is derived with the 4-bit
`slice_pic_order_cnt_lsb` of the zeroed slot (`max_poc_lsb = 16`). -/
theorem ParseSliceHeader_no_presence_check (env : ParseEnv) (p : HevcParser) (t : Nat)
    (nalu : Nat → Nat) (r : Bool × HevcParser)
    (h : ParseSliceHeader env p t nalu = some r) :
    r.1 = false ∧
    (p.m_pps r.2.m_sh.slice_pic_parameter_set_id = PpsData.zero →
      r.2.m_active_pps_id = (r.2.m_sh.slice_pic_parameter_set_id : Int) ∧
      r.2.m_active_sps_id = 0 ∧
      (r.2.new_sps_activated = true ↔ (p.new_sps_activated = true ∨ p.m_active_sps_id ≠ 0))) ∧
    (p.m_sps r.2.m_active_sps_id.toNat = SpsData.zero →
      r.2.m_active_vps_id = 0 ∧
      (r.2.m_sh.dependent_slice_segment_flag = 0 →
        ¬(t = NAL_UNIT_CODED_SLICE_IDR_W_RADL ∨ t = NAL_UNIT_CODED_SLICE_IDR_N_LP) →
        r.2.m_slice = pocDerive t 4 r.2.m_sh.slice_pic_order_cnt_lsb p.m_slice)) := by
  obtain ⟨hh, hI, hi, g1, g2, g3, g4, g5, g6⟩ := ParseSliceHeader_ids env p t nalu r h
  obtain ⟨i1, i2, i3, i4, i5⟩ := sliceHeaderIds_ids env p t nalu hh hI
  have e1 : r.2.m_active_pps_id = (r.2.m_sh.slice_pic_parameter_set_id : Int) := by
    have a : r.2.m_sh.slice_pic_parameter_set_id = hh.1.m_sh.slice_pic_parameter_set_id :=
      congrArg (fun k => k.2.2.1) (hi.trans i1)
    rw [g1, a, i2]
  have e2 : hh.1.m_active_pps_id.toNat = r.2.m_sh.slice_pic_parameter_set_id := by
    rw [← g1, e1]
    rfl
  have hfalse : r.1 = false := by
    obtain ⟨hh2, _, hc⟩ := ParseSliceHeader_cases env p t nalu r h
    rcases hc with ⟨_, _, _, _, _, _, _, _, _, rfl⟩ | ⟨_, _, _, rfl⟩ <;> rfl
  refine ⟨hfalse, fun hz => ?_, fun hz => ?_⟩
  · rw [e2, hz] at i3 i5
    refine ⟨e1, g2.trans i3, ?_⟩
    rw [g4]
    exact i5
  · have hv : r.2.m_active_vps_id = 0 := by
      rw [g3, i4, ← g2, hz]
      rfl
    refine ⟨hv, fun hind hidr => ?_⟩
    have hd := (ParseSliceHeader_independent env p t nalu r h hind).2.2 hidr
    rw [g5, hz] at hd
    exact hd

theorem ParseSliceHeader_no_presence_check_witness :
    ParseSliceHeader exampleEnv initialParser.mem.hevc 1 exampleSlicePps3
      = some exampleNoPpsResult ∧
    initialParser.mem.hevc.m_pps exampleNoPpsResult.2.m_sh.slice_pic_parameter_set_id
      = PpsData.zero ∧
    exampleNoPpsResult.2.m_sh.slice_pic_parameter_set_id = 3 ∧
    exampleNoPpsResult.2.m_active_pps_id = (exampleNoPpsResult.2.m_sh.slice_pic_parameter_set_id : Int) ∧
    exampleNoPpsResult.2.m_active_sps_id = 0 ∧
    exampleNoPpsResult.2.new_sps_activated = true :=
  have h : ParseSliceHeader exampleEnv initialParser.mem.hevc 1 exampleSlicePps3
      = some exampleNoPpsResult := some_getD_of_isSome _ _ (by decide)
  have hc := (ParseSliceHeader_no_presence_check exampleEnv initialParser.mem.hevc 1
    exampleSlicePps3 exampleNoPpsResult h).2.1 rfl
  ⟨h, rfl, by decide, hc.1, hc.2.1, hc.2.2.2 (Or.inr (by decide))⟩

/-- C29 (counterexample). On the initial parser, whose PPS and SPS tables hold zeros and which
has no active parameter set, a TRAIL_R slice that names the PPS 3 is parsed against the
zeroed slots: the value returned is `false`, but the active PPS, SPS and VPS ids become 3, 0
and 0, `new_sps_activated_` is set, and the POC state changes (`prev_poc_lsb` from 0 to 5). -/
theorem ParseSliceHeader_empty_slot_changes_state :
    ParseSliceHeader exampleEnv initialParser.mem.hevc 1 exampleSlicePps3
      = some exampleNoPpsResult ∧
    initialParser.mem.hevc.m_pps 3 = PpsData.zero ∧
    initialParser.mem.hevc.m_sps 0 = SpsData.zero ∧
    (initialParser.mem.hevc.m_active_pps_id, initialParser.mem.hevc.m_active_sps_id,
      initialParser.mem.hevc.m_active_vps_id) = (-1, -1, -1) ∧
    (initialParser.mem.hevc.new_sps_activated, initialParser.mem.hevc.m_slice.prev_poc_lsb,
      initialParser.mem.hevc.m_slice.curr_poc) = (false, 0, 0) ∧
    exampleNoPpsResult.1 = false ∧
    (exampleNoPpsResult.2.m_active_pps_id, exampleNoPpsResult.2.m_active_sps_id,
      exampleNoPpsResult.2.m_active_vps_id) = (3, 0, 0) ∧
    (exampleNoPpsResult.2.new_sps_activated, exampleNoPpsResult.2.m_slice.prev_poc_lsb,
      exampleNoPpsResult.2.m_slice.curr_poc) = (true, 5, 5) :=
  ⟨some_getD_of_isSome _ _ (by decide), rfl, rfl, by decide, by decide, by decide, by decide,
    by decide⟩

/-! ## Theorems on the framing loop of `ParseFrameData` -/

section Framing3

variable (data : Nat → Nat) (size : Nat) (f : Nat → Nat) (k : Nat)
  (hsc : ∀ j, j < k → isStartCodeAt data (f j) = true ∧ f j + 2 < size)
  (hmono : ∀ i j, i < j → j < k → f i < f j)
  (hall : ∀ x, x + 2 < size → isStartCodeAt data x = true → ∃ j, j < k ∧ f j = x)

end Framing3

/-- Without overflow the POC is the sum of the LSB and the MSB. -/
theorem pocDerive_poc_exact (t w lsb : Nat) (slice : SliceData) (hw : w ≤ 30)
    (hl : (lsb : Int) < 2 ^ w) (h0 : 0 ≤ slice.prev_poc_lsb) (h1 : slice.prev_poc_lsb < 2 ^ 31)
    (hm1 : -(2 : Int) ^ 31 ≤ slice.prev_poc_msb - 2 ^ w)
    (hm2 : slice.prev_poc_msb + 2 ^ w + (lsb : Int) < 2 ^ 31) :
    (pocDerive t w lsb slice).curr_poc = (lsb : Int) + (pocDerive t w lsb slice).curr_poc_msb := by
  have hl0 : (0 : Int) ≤ (lsb : Int) := Int.natCast_nonneg lsb
  have hp : (0 : Int) < 2 ^ w := by positivity
  have h30 : (2 : Int) ^ w ≤ 2 ^ 30 := pow_le_pow_right₀ (by norm_num) hw
  have hl31 : (lsb : Int) < 2 ^ 31 := by norm_num at h30 ⊢; omega
  have hm := pocDerive_msb_exact t w lsb slice hw hl31 h0 h1 hm1 (by omega)
  have he := congrArg SliceData.curr_poc (pocDerive_eq t w lsb slice)
  have e1 : wrapInt32 (lsb : Int) = lsb := wrapInt32_eq _ (by norm_num; omega) hl31
  have hmsb : (pocDerive t w lsb slice).curr_poc_msb = 0 ∨
      (pocDerive t w lsb slice).curr_poc_msb = slice.prev_poc_msb + 2 ^ w ∨
      (pocDerive t w lsb slice).curr_poc_msb = slice.prev_poc_msb - 2 ^ w ∨
      (pocDerive t w lsb slice).curr_poc_msb = slice.prev_poc_msb := by
    rw [hm]
    split_ifs <;> simp
  have e2 : wrapInt32 ((lsb : Int) + (pocDerive t w lsb slice).curr_poc_msb)
      = (lsb : Int) + (pocDerive t w lsb slice).curr_poc_msb := by
    refine wrapInt32_eq _ ?_ ?_ <;> norm_num at hm1 hm2 hl31 ⊢ <;> omega
  rw [he.trans rfl, e1, e2]

/-- The POC derived by `pocDerive` for a type that is not BLA, with `max = 2 ^ w`,
`1 ≤ w ≤ 30`, `0 ≤ prev_poc_lsb < max`, `lsb < max` and no sum outside `int32_t`: the MSB moves
by `-max`, 0 or `max` and the POC lies within `(-max/2, max/2]` of the previous one. -/
theorem pocDerive_nearest (t w lsb : Nat) (slice : SliceData)
    (hbla : ¬(t ≥ NAL_UNIT_CODED_SLICE_BLA_W_LP ∧ t < NAL_UNIT_CODED_SLICE_CRA_NUT))
    (hw : 1 ≤ w) (hw30 : w ≤ 30) (h0 : 0 ≤ slice.prev_poc_lsb)
    (h1 : slice.prev_poc_lsb < 2 ^ w) (hl : (lsb : Int) < 2 ^ w)
    (hm1 : -(2 : Int) ^ 31 ≤ slice.prev_poc_msb - 2 ^ w)
    (hm2 : slice.prev_poc_msb + 2 ^ w < 2 ^ 31) :
    -((2 : Int) ^ w / 2) <
        (lsb : Int) + (pocDerive t w lsb slice).curr_poc_msb
          - (slice.prev_poc_msb + slice.prev_poc_lsb) ∧
    (lsb : Int) + (pocDerive t w lsb slice).curr_poc_msb
        - (slice.prev_poc_msb + slice.prev_poc_lsb) ≤ (2 : Int) ^ w / 2 ∧
    ((pocDerive t w lsb slice).curr_poc_msb - slice.prev_poc_msb = -(2 : Int) ^ w ∨
      (pocDerive t w lsb slice).curr_poc_msb - slice.prev_poc_msb = 0 ∨
      (pocDerive t w lsb slice).curr_poc_msb - slice.prev_poc_msb = (2 : Int) ^ w) := by
  have h30 : (2 : Int) ^ w ≤ 2 ^ 30 := pow_le_pow_right₀ (by norm_num) hw30
  rw [pocDerive_msb_exact t w lsb slice hw30 (by norm_num at h30 ⊢; omega) h0
    (by norm_num at h30 ⊢; omega) hm1 hm2, if_neg hbla]
  obtain ⟨v, rfl⟩ : ∃ v, w = v + 1 := ⟨w - 1, by omega⟩
  have hp : (0 : Int) < 2 ^ v := by positivity
  have he : (2 : Int) ^ (v + 1) = 2 * 2 ^ v := by rw [pow_succ]; ring
  rw [he] at h1 hl ⊢
  generalize (2 : Int) ^ v = m at hp h1 hl ⊢
  have hl0 : (0 : Int) ≤ (lsb : Int) := Int.natCast_nonneg lsb
  generalize (lsb : Int) = l at hl hl0 ⊢
  split_ifs <;> omega

/-- C40 (as amended). The derived POC is the nearest candidate: for a parse that returns with an
independent slice whose NAL unit type is neither IDR (19, 20) nor BLA (16, 17, 18), with
`max = 2 ^ (log2_max_pic_order_cnt_lsb_minus4 + 4)` of the active SPS, the exponent being at
least 4 and at most 30, `0 ≤ prev_poc_lsb < max` before the call, a parsed
`slice_pic_order_cnt_lsb = lsb < max`, and neither `prev_poc_msb - max` nor
`prev_poc_msb + max + lsb` outside the range of `int32_t`:
`curr_poc - (prev_poc_msb + prev_poc_lsb)` lies in the half-open interval `(-max/2, max/2]`,
`curr_poc_msb - prev_poc_msb` is one of `-max`, `0`, `max`, and if `prev_poc_msb` is a multiple
of `max` then so is `curr_poc_msb` and `curr_poc mod max = lsb`. -/
theorem ParseSliceHeader_poc_nearest (env : ParseEnv) (p : HevcParser) (t : Nat)
    (nalu : Nat → Nat) (r : Bool × HevcParser) (max lsb : Int)
    (h : ParseSliceHeader env p t nalu = some r)
    (hind : r.2.m_sh.dependent_slice_segment_flag = 0)
    (hidr : t ≠ NAL_UNIT_CODED_SLICE_IDR_W_RADL ∧ t ≠ NAL_UNIT_CODED_SLICE_IDR_N_LP)
    (hbla : t ≠ NAL_UNIT_CODED_SLICE_BLA_W_LP ∧ t ≠ NAL_UNIT_CODED_SLICE_BLA_W_RADL ∧
      t ≠ NAL_UNIT_CODED_SLICE_BLA_N_LP)
    (hexp : (r.2.m_sps r.2.m_active_sps_id.toNat).log2_max_pic_order_cnt_lsb_minus4 + 4 ≤ 30)
    (hmax : max = 2 ^ ((r.2.m_sps r.2.m_active_sps_id.toNat).log2_max_pic_order_cnt_lsb_minus4 + 4))
    (hprev : 0 ≤ p.m_slice.prev_poc_lsb ∧ p.m_slice.prev_poc_lsb < max)
    (hlsb : lsb = (r.2.m_sh.slice_pic_order_cnt_lsb : Int)) (hlt : lsb < max)
    (hlo : -(2 : Int) ^ 31 ≤ p.m_slice.prev_poc_msb - max)
    (hhi : p.m_slice.prev_poc_msb + max + lsb < 2 ^ 31) :
    -(max / 2) < r.2.m_slice.curr_poc - (p.m_slice.prev_poc_msb + p.m_slice.prev_poc_lsb) ∧
    r.2.m_slice.curr_poc - (p.m_slice.prev_poc_msb + p.m_slice.prev_poc_lsb) ≤ max / 2 ∧
    (r.2.m_slice.curr_poc_msb - p.m_slice.prev_poc_msb = -max ∨
      r.2.m_slice.curr_poc_msb - p.m_slice.prev_poc_msb = 0 ∨
      r.2.m_slice.curr_poc_msb - p.m_slice.prev_poc_msb = max) ∧
    (max ∣ p.m_slice.prev_poc_msb →
      max ∣ r.2.m_slice.curr_poc_msb ∧ r.2.m_slice.curr_poc % max = lsb) := by
  have hs := (ParseSliceHeader_independent env p t nalu r h hind).2.2
    (fun hc => hc.elim hidr.1 hidr.2)
  have hb : ¬(t ≥ NAL_UNIT_CODED_SLICE_BLA_W_LP ∧ t < NAL_UNIT_CODED_SLICE_CRA_NUT) := by
    simp only [NAL_UNIT_CODED_SLICE_BLA_W_LP, NAL_UNIT_CODED_SLICE_BLA_W_RADL,
      NAL_UNIT_CODED_SLICE_BLA_N_LP, NAL_UNIT_CODED_SLICE_CRA_NUT,
      NAL_UNIT_CODED_SLICE_IDR_W_RADL, NAL_UNIT_CODED_SLICE_IDR_N_LP] at hbla hidr ⊢
    omega
  have hl0 : 0 ≤ lsb := by rw [hlsb]; exact Int.natCast_nonneg _
  have hm30 : max ≤ 2 ^ 30 := by rw [hmax]; exact pow_le_pow_right₀ (by norm_num) hexp
  have hn := pocDerive_nearest t
    ((r.2.m_sps r.2.m_active_sps_id.toNat).log2_max_pic_order_cnt_lsb_minus4 + 4)
    r.2.m_sh.slice_pic_order_cnt_lsb p.m_slice hb (by omega) hexp hprev.1 (hmax ▸ hprev.2)
    (by rw [← hlsb, ← hmax]; exact hlt) (by rw [← hmax]; exact hlo) (by rw [← hmax]; omega)
  have hc0 := pocDerive_poc_exact t
    ((r.2.m_sps r.2.m_active_sps_id.toNat).log2_max_pic_order_cnt_lsb_minus4 + 4)
    r.2.m_sh.slice_pic_order_cnt_lsb p.m_slice hexp
    (by rw [← hlsb, ← hmax]; exact hlt) hprev.1 (by norm_num at hm30 ⊢; omega)
    (by rw [← hmax]; exact hlo) (by rw [← hmax, ← hlsb]; exact hhi)
  rw [← hs] at hn hc0
  rw [← hmax, ← hlsb] at hn
  rw [← hlsb] at hc0
  rw [hc0]
  refine ⟨hn.1, hn.2.1, hn.2.2, ?_⟩
  intro hd
  have hm : max ∣ r.2.m_slice.curr_poc_msb := by
    rcases hn.2.2 with e | e | e
    · have : r.2.m_slice.curr_poc_msb = p.m_slice.prev_poc_msb - max := by omega
      rw [this]
      exact dvd_sub hd (dvd_refl _)
    · have : r.2.m_slice.curr_poc_msb = p.m_slice.prev_poc_msb := by omega
      rw [this]
      exact hd
    · have : r.2.m_slice.curr_poc_msb = p.m_slice.prev_poc_msb + max := by omega
      rw [this]
      exact dvd_add hd (dvd_refl _)
  refine ⟨hm, ?_⟩
  obtain ⟨c, hc1⟩ := hm
  rw [hc1, Int.add_mul_emod_self_left]
  exact Int.emod_eq_of_lt hl0 hlt

theorem ParseSliceHeader_poc_nearest_witness :
    ParseSliceHeader exampleEnv exampleParserWrap 1 exampleSlice1 = some exampleResult1 ∧
    exampleResult1.2.m_sh.dependent_slice_segment_flag = 0 ∧
    (256 : Int) = 2 ^ ((exampleResult1.2.m_sps
      exampleResult1.2.m_active_sps_id.toNat).log2_max_pic_order_cnt_lsb_minus4 + 4) ∧
    (0 ≤ exampleParserWrap.m_slice.prev_poc_lsb ∧ exampleParserWrap.m_slice.prev_poc_lsb < 256) ∧
    (4 : Int) = (exampleResult1.2.m_sh.slice_pic_order_cnt_lsb : Int) ∧
    (256 : Int) ∣ exampleParserWrap.m_slice.prev_poc_msb ∧
    -((256 : Int) / 2) < exampleResult1.2.m_slice.curr_poc
      - (exampleParserWrap.m_slice.prev_poc_msb + exampleParserWrap.m_slice.prev_poc_lsb) ∧
    exampleResult1.2.m_slice.curr_poc
      - (exampleParserWrap.m_slice.prev_poc_msb + exampleParserWrap.m_slice.prev_poc_lsb)
        ≤ (256 : Int) / 2 ∧
    (256 : Int) ∣ exampleResult1.2.m_slice.curr_poc_msb ∧
    exampleResult1.2.m_slice.curr_poc % 256 = 4 :=
  have h : ParseSliceHeader exampleEnv exampleParserWrap 1 exampleSlice1 = some exampleResult1 :=
    some_getD_of_isSome _ _ (by decide)
  have hind : exampleResult1.2.m_sh.dependent_slice_segment_flag = 0 := by decide
  have hmax : (256 : Int) = 2 ^ ((exampleResult1.2.m_sps
      exampleResult1.2.m_active_sps_id.toNat).log2_max_pic_order_cnt_lsb_minus4 + 4) := by
    decide
  have hprev : 0 ≤ exampleParserWrap.m_slice.prev_poc_lsb ∧
      exampleParserWrap.m_slice.prev_poc_lsb < 256 := by decide
  have hlsb : (4 : Int) = (exampleResult1.2.m_sh.slice_pic_order_cnt_lsb : Int) := by decide
  have hd : (256 : Int) ∣ exampleParserWrap.m_slice.prev_poc_msb := ⟨0, by decide⟩
  have hc := ParseSliceHeader_poc_nearest exampleEnv exampleParserWrap 1 exampleSlice1
    exampleResult1 256 4 h hind (by decide) (by decide) (by decide) hmax hprev hlsb (by decide)
    (by decide) (by decide)
  ⟨h, hind, hmax, hprev, hlsb, hd, hc.1, hc.2.1, (hc.2.2.2 hd).1, (hc.2.2.2 hd).2⟩

/-- C40 (counterexample). With `log2_max_pic_order_cnt_lsb_minus4 = 27` in the active SPS
(`max = 2^31`), `prev_poc_lsb = 100`, `prev_poc_msb = 0` and a parsed
`slice_pic_order_cnt_lsb = 7`, all within the conditions of the claim, the code computes
`max_poc_lsb = 1 << 31 = -2^31` in `int` and takes the first arm (`100 - 7 ≥ -2^30`):
`curr_poc = 7 - 2^31`, at the distance `-2^31 - 93` from the previous POC 100, outside
`(-2^30, 2^30]`. -/
theorem ParseSliceHeader_poc_nearest_shift_overflow :
    (ParseSliceHeader exampleEnv (exampleParserPoc31 100) 1 exampleSlicePoc31b).map
        (fun r => (r.2.m_sh.dependent_slice_segment_flag, r.2.m_sh.slice_pic_order_cnt_lsb,
          (r.2.m_sps r.2.m_active_sps_id.toNat).log2_max_pic_order_cnt_lsb_minus4 + 4,
          r.2.m_slice.curr_poc_msb, r.2.m_slice.curr_poc))
      = some (0, 7, 31, -2147483648, -2147483641) ∧
    (exampleParserPoc31 100).m_slice.prev_poc_lsb = 100 ∧
    (exampleParserPoc31 100).m_slice.prev_poc_msb = 0 ∧
    (0 : Int) ≤ 100 ∧ (100 : Int) < 2 ^ 31 ∧ (7 : Int) < 2 ^ 31 ∧
    ¬(-((2 : Int) ^ 31 / 2) < -2147483641 - (0 + 100)) := by
  decide

/-! ## Theorems on the reference picture sets and lists of the slice header -/

/-- With at most one short-term RPS in the SPS, a slice with
`short_term_ref_pic_set_sps_flag = 1` leaves `m_sh_->st_rps` as it is: the copy from the SPS is
inside `else if (sps_ptr->num_short_term_ref_pic_sets > 1)`. -/
theorem shShortTermRps_single (env : ParseEnv) (sps : SpsData) (nalu : Nat → Nat)
    (s : SliceHeaderData × Nat) (hn : sps.num_short_term_ref_pic_sets ≤ 1)
    (hf : (GetFlag nalu s.2).1 ≠ 0) :
    (shShortTermRps env sps nalu s).map (fun r => (r.1.st_rps, r.1.short_term_ref_pic_set_idx, r.2))
      = some (s.1.st_rps, s.1.short_term_ref_pic_set_idx, s.2 + 1) := by
  have hc : (GetFlag nalu s.2).2 = s.2 + 1 := rfl
  simp only [shShortTermRps, rdFlag, setField, if_neg hf, if_neg (Nat.not_lt.mpr hn),
    Option.map_some', hc]

/-- On a slice that is not of type B, with `collocated_from_l0_flag` and
`num_ref_idx_l1_active_minus1` as the `memset` left them, the block
`if (m_sh_->slice_temporal_mvp_enabled_flag)` reads nothing. -/
theorem shCollocated_not_b (env : ParseEnv) (nalu : Nat → Nat) (s : SliceHeaderData × Nat)
    (ht : s.1.slice_type ≠ HEVC_SLICE_TYPE_B) (hc : s.1.collocated_from_l0_flag = 0)
    (h1 : s.1.num_ref_idx_l1_active_minus1 = 0) :
    shCollocated env nalu s = some s := by
  unfold shCollocated
  split
  · simp only [if_neg ht, hc, h1]
    simp
  · rfl

/-- Without `deblocking_filter_override_enabled_flag` in the PPS, and with the slice header
members as the `memset` left them, the deblocking block reads
`slice_loop_filter_across_slices_enabled_flag` whenever
`pps_loop_filter_across_slices_enabled_flag` is set, whatever
`pps_deblocking_filter_disabled_flag` is. -/
theorem shDeblock_no_override (env : ParseEnv) (pps : PpsData) (nalu : Nat → Nat)
    (s : SliceHeaderData × Nat) (he : pps.deblocking_filter_override_enabled_flag = 0)
    (ho : s.1.deblocking_filter_override_flag = 0)
    (hd : s.1.slice_deblocking_filter_disabled_flag = 0)
    (hl : pps.pps_loop_filter_across_slices_enabled_flag ≠ 0) :
    shDeblock env pps nalu s = some (rdFlag (fun (sh : SliceHeaderData) v =>
      { sh with slice_loop_filter_across_slices_enabled_flag := v }) nalu s) := by
  unfold shDeblock
  simp only [he, ho, hd, ne_eq, not_true_eq_false, if_false, hl, not_false_eq_true, or_true,
    and_self, if_true]

/-- C33 (evaluation at the failing input). The SPS holds one short-term RPS with one negative
picture and the slice `exampleSliceInterRps` codes its own RPS by prediction from it with
`deltaRps = -1` and both flags set: the slice RPS gets the two entries -1 and -2, both used by
the current picture, `num_of_pics = 2`, but `num_of_delta_poc = 1`, the number of entries of
the reference set. The loop `for (i = 0; i < st_rps_ptr->num_of_delta_poc; i++)` therefore
counts one entry: `NumPicTotalCurr` is 1 and not 2, the condition `num_pic_total_curr > 1`
fails, and `ref_pic_list_modification_flag_l0`, coded as 1, is not read; the bits that follow
are read as `slice_qp_delta = 1` and `num_entry_point_offsets = 2`. -/
theorem ParseSliceHeader_num_pic_total_curr_inter :
    (ParseSliceHeader exampleEnv (exampleParserOf exampleSpsOneRps examplePpsListMod) 1
        exampleSliceInterRps).map
        (fun r => (r.2.m_sh.st_rps.inter_ref_pic_set_prediction_flag,
          r.2.m_sh.st_rps.num_negative_pics, r.2.m_sh.st_rps.num_positive_pics,
          r.2.m_sh.st_rps.num_of_pics, r.2.m_sh.st_rps.num_of_delta_poc))
      = some (1, 2, 0, 2, 1) ∧
    (ParseSliceHeader exampleEnv (exampleParserOf exampleSpsOneRps examplePpsListMod) 1
        exampleSliceInterRps).map
        (fun r => (r.2.m_sh.st_rps.delta_poc 0, r.2.m_sh.st_rps.delta_poc 1,
          r.2.m_sh.st_rps.used_by_curr_pic 0, r.2.m_sh.st_rps.used_by_curr_pic 1))
      = some (-1, -2, 1, 1) ∧
    (ParseSliceHeader exampleEnv (exampleParserOf exampleSpsOneRps examplePpsListMod) 1
        exampleSliceInterRps).map
        (fun r => (numPicTotalCurr r.2.m_sh,
          countUsed r.2.m_sh.st_rps.used_by_curr_pic r.2.m_sh.st_rps.num_of_pics
            + countUsed r.2.m_sh.lt_rps.used_by_curr_pic r.2.m_sh.lt_rps.num_of_pics))
      = some (1, 2) ∧
    (ParseSliceHeader exampleEnv (exampleParserOf exampleSpsOneRps examplePpsListMod) 1
        exampleSliceInterRps).map
        (fun r => (r.2.m_sh.slice_type, r.2.m_sh.ref_pic_list_modification_flag_l0,
          r.2.m_sh.slice_qp_delta, r.2.m_sh.num_entry_point_offsets))
      = some (HEVC_SLICE_TYPE_P, 0, 1, 2) := by
  decide

/-- C34 (evaluation at the failing input). The SPS holds exactly one short-term RPS (one
negative picture, `delta_poc = -1`, used) and the slice `exampleSliceSpsRps` has
`short_term_ref_pic_set_sps_flag = 1`: the statement `m_sh_->st_rps = sps_ptr->st_rps[...]`
is inside `else if (sps_ptr->num_short_term_ref_pic_sets > 1)` and is not reached, so the
slice RPS keeps the zeros of the `memset` (no picture at all) while
`short_term_ref_pic_set_idx` is 0 and the SPS entry 0 has one picture; the rest of the header
is read as coded. -/
theorem ParseSliceHeader_single_sps_rps_not_copied :
    (exampleSpsOneRps.num_short_term_ref_pic_sets, (exampleSpsOneRps.st_rps 0).num_of_pics,
        (exampleSpsOneRps.st_rps 0).num_negative_pics, (exampleSpsOneRps.st_rps 0).delta_poc 0,
        (exampleSpsOneRps.st_rps 0).used_by_curr_pic 0) = (1, 1, 1, -1, 1) ∧
    (ParseSliceHeader exampleEnv (exampleParserOf exampleSpsOneRps examplePps) 1
        exampleSliceSpsRps).map
        (fun r => (r.2.m_sh.short_term_ref_pic_set_sps_flag, r.2.m_sh.short_term_ref_pic_set_idx,
          r.2.m_sh.dependent_slice_segment_flag, r.2.m_active_sps_id))
      = some (1, 0, 0, 0) ∧
    (ParseSliceHeader exampleEnv (exampleParserOf exampleSpsOneRps examplePps) 1
        exampleSliceSpsRps).map
        (fun r => (r.2.m_sh.st_rps.num_of_pics, r.2.m_sh.st_rps.num_negative_pics,
          r.2.m_sh.st_rps.delta_poc 0, r.2.m_sh.st_rps.used_by_curr_pic 0))
      = some (0, 0, 0, 0) ∧
    (ParseSliceHeader exampleEnv (exampleParserOf exampleSpsOneRps examplePps) 1
        exampleSliceSpsRps).map
        (fun r => (r.2.m_sh.num_ref_idx_l0_active_minus1, r.2.m_sh.slice_qp_delta,
          r.2.m_sh.num_entry_point_offsets))
      = some (2, -3, 0) := by
  decide

/-- C35 (evaluation at the failing input). The SPS has long-term reference pictures with a
single candidate (`lt_ref_pic_poc_lsb_sps[0] = 5`, used by the current picture) and the slice
`exampleSliceLongTerm` has `num_long_term_sps = 1`: the two copies from the SPS are inside
`if (sps_ptr->num_long_term_ref_pics_sps > 1)` and `if (bits_for_ltrp_in_sps > 0)` and are not
reached, so `lt_rps.pocs[0]` and `lt_rps.used_by_curr_pic[0]` keep the zeros of the `memset`
while `lt_idx_sps[0] = 0` and the candidate 0 of the SPS is (5, 1); the rest of the header is
read as coded. -/
theorem ParseSliceHeader_single_lt_candidate_not_copied :
    (exampleSpsLongTerm.num_long_term_ref_pics_sps, exampleSpsLongTerm.lt_rps.pocs 0,
        exampleSpsLongTerm.lt_rps.used_by_curr_pic 0) = (1, 5, 1) ∧
    (ParseSliceHeader exampleEnv (exampleParserOf exampleSpsLongTerm examplePps) 1
        exampleSliceLongTerm).map
        (fun r => (r.2.m_sh.num_long_term_sps, r.2.m_sh.num_long_term_pics,
          r.2.m_sh.lt_rps.num_of_pics, r.2.m_sh.lt_idx_sps 0))
      = some (1, 0, 1, 0) ∧
    (ParseSliceHeader exampleEnv (exampleParserOf exampleSpsLongTerm examplePps) 1
        exampleSliceLongTerm).map
        (fun r => (r.2.m_sh.lt_rps.pocs 0, r.2.m_sh.lt_rps.used_by_curr_pic 0,
          r.2.m_sh.dependent_slice_segment_flag))
      = some (0, 0, 0) ∧
    (ParseSliceHeader exampleEnv (exampleParserOf exampleSpsLongTerm examplePps) 1
        exampleSliceLongTerm).map
        (fun r => (r.2.m_sh.num_ref_idx_l0_active_minus1, r.2.m_sh.slice_qp_delta,
          r.2.m_sh.num_entry_point_offsets))
      = some (2, -3, 0) := by
  decide

/-- C36 (evaluation at the failing input). The slice `exampleSliceCollocated` is a P slice with
`slice_temporal_mvp_enabled_flag = 1`, `num_ref_idx_l0_active_minus1 = 2` and
`collocated_ref_idx = 1` coded: `collocated_from_l0_flag` keeps the 0 of the `memset` (it is
assigned for B slices only) and `num_ref_idx_l1_active_minus1` is 0, so the condition on
`collocated_ref_idx` is false and the element is not read. `collocated_ref_idx` stays 0 and its
code word `010` is read as `five_minus_max_num_merge_cand = 1`; `slice_qp_delta` is read as 0
and `num_entry_point_offsets` as 6, for the coded values 0, -3 and 0. -/
theorem ParseSliceHeader_collocated_ref_idx_p_slice :
    (ParseSliceHeader exampleEnv (exampleParserOf exampleSpsMvp examplePps) 1
        exampleSliceCollocated).map
        (fun r => (r.2.m_sh.slice_type, r.2.m_sh.slice_temporal_mvp_enabled_flag,
          r.2.m_sh.num_ref_idx_l0_active_minus1, r.2.m_sh.dependent_slice_segment_flag))
      = some (HEVC_SLICE_TYPE_P, 1, 2, 0) ∧
    (ParseSliceHeader exampleEnv (exampleParserOf exampleSpsMvp examplePps) 1
        exampleSliceCollocated).map
        (fun r => (r.2.m_sh.collocated_from_l0_flag, r.2.m_sh.num_ref_idx_l1_active_minus1,
          r.2.m_sh.collocated_ref_idx))
      = some (0, 0, 0) ∧
    (ParseSliceHeader exampleEnv (exampleParserOf exampleSpsMvp examplePps) 1
        exampleSliceCollocated).map
        (fun r => (r.2.m_sh.five_minus_max_num_merge_cand, r.2.m_sh.slice_qp_delta,
          r.2.m_sh.num_entry_point_offsets))
      = some (1, 0, 6) := by
  decide

/-- C37 (evaluation at the failing input). The slice `exampleSliceListEntries` is a P slice with
two pictures in its RPS (`NumPicTotalCurr = 2`, entries of 1 bit),
`num_ref_idx_l0_active_minus1 = 1` and `ref_pic_list_modification_flag_l0 = 1`, followed by the
two entries 0 and 1: the loop `for (i = 0; i < m_sh_->num_ref_idx_l0_active_minus1; i++)` runs
once, so `list_entry_l0[1]` keeps the 0 of the `memset` and its bit is read as
`five_minus_max_num_merge_cand`; `slice_qp_delta` is read as 0 and `num_entry_point_offsets` as
6, for the coded values -3 and 0. -/
theorem ParseSliceHeader_list_entry_count :
    (ParseSliceHeader exampleEnv (exampleParserOf exampleSps examplePpsListMod) 1
        exampleSliceListEntries).map
        (fun r => (r.2.m_sh.slice_type, numPicTotalCurr r.2.m_sh,
          r.2.m_sh.num_ref_idx_l0_active_minus1, r.2.m_sh.ref_pic_list_modification_flag_l0))
      = some (HEVC_SLICE_TYPE_P, 2, 1, 1) ∧
    (ParseSliceHeader exampleEnv (exampleParserOf exampleSps examplePpsListMod) 1
        exampleSliceListEntries).map
        (fun r => (r.2.m_sh.list_entry_l0 0, r.2.m_sh.list_entry_l0 1,
          r.2.m_sh.dependent_slice_segment_flag))
      = some (0, 0, 0) ∧
    (ParseSliceHeader exampleEnv (exampleParserOf exampleSps examplePpsListMod) 1
        exampleSliceListEntries).map
        (fun r => (r.2.m_sh.five_minus_max_num_merge_cand, r.2.m_sh.slice_qp_delta,
          r.2.m_sh.num_entry_point_offsets))
      = some (0, 0, 6) := by
  decide

/-- C38 (evaluation at the failing input). The PPS has
`pps_loop_filter_across_slices_enabled_flag = 1`, `pps_deblocking_filter_disabled_flag = 1` and
no override, the SPS has no SAO, and the slice `exampleSliceSpsRps` ends with
`num_entry_point_offsets = 0` and the stop bit: `slice_deblocking_filter_disabled_flag` keeps
the 0 of the `memset` and not the 1 of the PPS, so the condition on
`slice_loop_filter_across_slices_enabled_flag` holds and the flag is read, from the bit of
`num_entry_point_offsets` (its value is 1), while `num_entry_point_offsets` is read from the
stop bit. -/
theorem ParseSliceHeader_deblocking_default :
    (examplePpsDeblock.deblocking_filter_override_enabled_flag,
        examplePpsDeblock.pps_deblocking_filter_disabled_flag,
        examplePpsDeblock.pps_loop_filter_across_slices_enabled_flag,
        exampleSps.sample_adaptive_offset_enabled_flag) = (0, 1, 1, 0) ∧
    (ParseSliceHeader exampleEnv (exampleParserOf exampleSps examplePpsDeblock) 1
        exampleSliceSpsRps).map
        (fun r => (r.2.m_sh.dependent_slice_segment_flag,
          r.2.m_sh.deblocking_filter_override_flag, r.2.m_sh.slice_sao_luma_flag,
          r.2.m_sh.slice_sao_chroma_flag))
      = some (0, 0, 0, 0) ∧
    (ParseSliceHeader exampleEnv (exampleParserOf exampleSps examplePpsDeblock) 1
        exampleSliceSpsRps).map
        (fun r => (r.2.m_sh.slice_deblocking_filter_disabled_flag,
          r.2.m_sh.slice_loop_filter_across_slices_enabled_flag, r.2.m_sh.slice_qp_delta,
          r.2.m_sh.num_entry_point_offsets))
      = some (0, 1, -3, 0) ∧
    (ParseSliceHeader exampleEnv (exampleParserOf exampleSps examplePps) 1
        exampleSliceSpsRps).map
        (fun r => (r.2.m_sh.slice_deblocking_filter_disabled_flag,
          r.2.m_sh.slice_loop_filter_across_slices_enabled_flag, r.2.m_sh.slice_qp_delta,
          r.2.m_sh.num_entry_point_offsets))
      = some (0, 0, -3, 0) := by
  decide

/-! ## Theorems on the short-term reference picture set, explicit mode -/

theorem forLoop_inv {σ : Type} (body : Nat → σ → Option σ) (P : Nat → σ → Prop)
    (n j : Nat) (s r : σ) (h : forLoop body j n s = some r) (h0 : P j s)
    (hstep : ∀ i t t', j ≤ i → i < j + n → P i t → body i t = some t' → P (i + 1) t') :
    P (j + n) r := by
  induction n generalizing j s with
  | zero => simp only [forLoop] at h; cases h; exact h0
  | succ n ih =>
    simp only [forLoop] at h
    split at h
    · cases h
    · rename_i s1 h1
      have := ih (j + 1) s1 h (hstep j s s1 (le_refl _) (by omega) h0 h1)
        (fun i t t' hi1 hi2 => hstep i t t' (by omega) (by omega))
      rw [show j + (n + 1) = j + 1 + n by omega]
      exact this

theorem stRpsRunningPoc_congr (sign : Int) (a b : Nat → Nat) (n : Nat)
    (h : ∀ k, k < n → a k = b k) : stRpsRunningPoc sign a n = stRpsRunningPoc sign b n := by
  induction n with
  | zero => rfl
  | succ n ih =>
    simp only [stRpsRunningPoc]
    rw [ih (fun k hk => h k (by omega)), h n (by omega)]

/-- Below the range of `int32_t` the running value is the plain sum. -/
theorem stRpsRunningPoc_neg (a : Nat → Nat) (n : Nat)
    (h : Finset.sum (Finset.range n) (fun k => ((a k : Int) + 1)) ≤ 2 ^ 31) :
    stRpsRunningPoc (-1) a n = -Finset.sum (Finset.range n) (fun k => ((a k : Int) + 1)) := by
  induction n with
  | zero => simp [stRpsRunningPoc]
  | succ n ih =>
    rw [Finset.sum_range_succ] at h ⊢
    have hpos : 0 ≤ Finset.sum (Finset.range n) (fun k => ((a k : Int) + 1)) :=
      Finset.sum_nonneg (fun k _ => by positivity)
    have ha : (0 : Int) ≤ (a n : Int) := Int.natCast_nonneg _
    simp only [stRpsRunningPoc]
    rw [ih (by omega)]
    rw [wrapInt32_eq _ (by norm_num at h ⊢; omega) (by norm_num at h ⊢; omega)]
    ring

theorem stRpsRunningPoc_pos (a : Nat → Nat) (n : Nat)
    (h : Finset.sum (Finset.range n) (fun k => ((a k : Int) + 1)) < 2 ^ 31) :
    stRpsRunningPoc 1 a n = Finset.sum (Finset.range n) (fun k => ((a k : Int) + 1)) := by
  induction n with
  | zero => simp [stRpsRunningPoc]
  | succ n ih =>
    rw [Finset.sum_range_succ] at h ⊢
    have hpos : 0 ≤ Finset.sum (Finset.range n) (fun k => ((a k : Int) + 1)) :=
      Finset.sum_nonneg (fun k _ => by positivity)
    have ha : (0 : Int) ≤ (a n : Int) := Int.natCast_nonneg _
    simp only [stRpsRunningPoc]
    rw [ih (by omega)]
    rw [wrapInt32_eq _ (by norm_num at h ⊢; omega) (by norm_num at h ⊢; omega)]
    ring

/-- The partial sums of `a[k] + 1` grow strictly with the number of terms. -/
theorem sum_succ_mono (a : Nat → Nat) (i j : Nat) (h : i < j) :
    Finset.sum (Finset.range i) (fun k => ((a k : Int) + 1))
      < Finset.sum (Finset.range j) (fun k => ((a k : Int) + 1)) := by
  induction j with
  | zero => omega
  | succ j ih =>
    rw [Finset.sum_range_succ]
    have ha : (0 : Int) ≤ (a j : Int) := Int.natCast_nonneg _
    rcases Nat.lt_succ_iff_lt_or_eq.mp h with h1 | h1
    · have := ih h1
      omega
    · subst h1
      omega

theorem stRpsS0Body_some (fuel : Nat) (nalu : Nat → Nat) (j : Nat)
    (s t : H265ShortTermRPS × Int × Nat) (h : stRpsS0Body fuel nalu j s = some t) :
    ∃ v off, ReadUe fuel nalu s.2.2 = some (v, off) ∧
      t = ({ s.1 with
             delta_poc_s0_minus1 := setAt s.1.delta_poc_s0_minus1 j v
             delta_poc := setAt s.1.delta_poc j (wrapInt32 (s.2.1 - (v : Int) - 1))
             used_by_curr_pic_s0_flag :=
               setAt s.1.used_by_curr_pic_s0_flag j (GetFlag nalu off).1
             used_by_curr_pic := setAt s.1.used_by_curr_pic j (GetFlag nalu off).1 },
           wrapInt32 (s.2.1 - (v : Int) - 1), (GetFlag nalu off).2) := by
  unfold stRpsS0Body at h
  split at h
  · cases h
  · rename_i v off hr
    refine ⟨v, off, hr, ?_⟩
    cases h
    simp only [setAt, if_true]

theorem stRpsS1Body_some (fuel : Nat) (nalu : Nat → Nat) (j : Nat)
    (s t : H265ShortTermRPS × Int × Nat) (h : stRpsS1Body fuel nalu j s = some t) :
    ∃ v off, ReadUe fuel nalu s.2.2 = some (v, off) ∧
      t = ({ s.1 with
             delta_poc_s1_minus1 := setAt s.1.delta_poc_s1_minus1 j v
             delta_poc := setAt s.1.delta_poc (j + s.1.num_negative_pics)
               (wrapInt32 (s.2.1 + (v : Int) + 1))
             used_by_curr_pic_s1_flag :=
               setAt s.1.used_by_curr_pic_s1_flag j (GetFlag nalu off).1
             used_by_curr_pic := setAt s.1.used_by_curr_pic (j + s.1.num_negative_pics)
               (GetFlag nalu off).1 },
           wrapInt32 (s.2.1 + (v : Int) + 1), (GetFlag nalu off).2) := by
  unfold stRpsS1Body at h
  split at h
  · cases h
  · rename_i v off hr
    refine ⟨v, off, hr, ?_⟩
    cases h
    simp only [setAt, if_true]

theorem stRpsS0_loop (fuel : Nat) (nalu : Nat → Nat) (rps0 : H265ShortTermRPS) (offset n : Nat)
    (r : H265ShortTermRPS × Int × Nat)
    (h : forLoop (stRpsS0Body fuel nalu) 0 n (rps0, 0, offset) = some r) :
    stRpsS0Inv rps0 n r := by
  have := forLoop_inv (stRpsS0Body fuel nalu) (stRpsS0Inv rps0) n 0 (rps0, 0, offset) r h
    ⟨rfl, rfl, rfl, rfl, fun k hk => absurd hk (Nat.not_lt_zero _),
      fun k hk => absurd hk (Nat.not_lt_zero _)⟩ ?_
  · rwa [Nat.zero_add] at this
  · intro i t t' _ _ hP hb
    obtain ⟨v, off, _, rfl⟩ := stRpsS0Body_some fuel nalu i t t' hb
    obtain ⟨p1, p2, p3, p4, p5, p6⟩ := hP
    have hc : ∀ m, m ≤ i → stRpsRunningPoc (-1) (setAt t.1.delta_poc_s0_minus1 i v) m
        = stRpsRunningPoc (-1) t.1.delta_poc_s0_minus1 m := fun m hm =>
      stRpsRunningPoc_congr _ _ _ m (fun k hk => by
        simp only [setAt]; rw [if_neg (by omega)])
    have hn : stRpsRunningPoc (-1) (setAt t.1.delta_poc_s0_minus1 i v) (i + 1)
        = wrapInt32 (t.2.1 - (v : Int) - 1) := by
      simp only [stRpsRunningPoc]
      rw [hc i (le_refl _), ← p4]
      simp only [setAt, if_true]
      congr 1
      ring
    refine ⟨p1, p2, p3, hn.symm, ?_, ?_⟩
    · intro k hk
      simp only
      by_cases hki : k = i
      · subst hki
        simp only [setAt, if_true]
        exact hn.symm
      · have hlt : k < i := by omega
        rw [show setAt t.1.delta_poc i (wrapInt32 (t.2.1 - (v : Int) - 1)) k = t.1.delta_poc k
          from if_neg hki]
        rw [hc (k + 1) (by omega)]
        exact p5 k hlt
    · intro k hk
      simp only [setAt]
      by_cases hki : k = i
      · simp only [hki, if_true]
      · simp only [if_neg hki]
        exact p6 k (by omega)

theorem stRpsS1_loop (fuel : Nat) (nalu : Nat → Nat) (rps0 : H265ShortTermRPS) (offset n : Nat)
    (r : H265ShortTermRPS × Int × Nat)
    (h : forLoop (stRpsS1Body fuel nalu) 0 n (rps0, 0, offset) = some r) :
    stRpsS1Inv rps0 n r := by
  have := forLoop_inv (stRpsS1Body fuel nalu) (stRpsS1Inv rps0) n 0 (rps0, 0, offset) r h
    ⟨rfl, rfl, rfl, rfl, rfl, fun _ _ => rfl, fun _ _ => rfl, rfl,
      fun k hk => absurd hk (Nat.not_lt_zero _), fun k hk => absurd hk (Nat.not_lt_zero _)⟩ ?_
  · rwa [Nat.zero_add] at this
  · intro i t t' _ _ hP hb
    obtain ⟨v, off, _, rfl⟩ := stRpsS1Body_some fuel nalu i t t' hb
    obtain ⟨p1, p2, p3, q1, q2, q3, q4, p4, p5, p6⟩ := hP
    have hc : ∀ m, m ≤ i → stRpsRunningPoc 1 (setAt t.1.delta_poc_s1_minus1 i v) m
        = stRpsRunningPoc 1 t.1.delta_poc_s1_minus1 m := fun m hm =>
      stRpsRunningPoc_congr _ _ _ m (fun k hk => by
        simp only [setAt]; rw [if_neg (by omega)])
    have hn : stRpsRunningPoc 1 (setAt t.1.delta_poc_s1_minus1 i v) (i + 1)
        = wrapInt32 (t.2.1 + (v : Int) + 1) := by
      simp only [stRpsRunningPoc]
      rw [hc i (le_refl _), ← p4]
      simp only [setAt, if_true]
      congr 1
      ring
    refine ⟨p1, p2, p3, q1, q2, ?_, ?_, hn.symm, ?_, ?_⟩
    · intro k hk
      simp only [setAt]
      rw [if_neg (by omega)]
      exact q3 k hk
    · intro k hk
      simp only [setAt]
      rw [if_neg (by omega)]
      exact q4 k hk
    · intro k hk
      simp only
      by_cases hki : k = i
      · subst hki
        rw [show setAt t.1.delta_poc (k + t.1.num_negative_pics)
            (wrapInt32 (t.2.1 + (v : Int) + 1)) (rps0.num_negative_pics + k)
            = wrapInt32 (t.2.1 + (v : Int) + 1) from if_pos (by omega)]
        exact hn.symm
      · have hlt : k < i := by omega
        rw [show setAt t.1.delta_poc (i + t.1.num_negative_pics)
            (wrapInt32 (t.2.1 + (v : Int) + 1)) (rps0.num_negative_pics + k)
            = t.1.delta_poc (rps0.num_negative_pics + k) from if_neg (by omega)]
        rw [hc (k + 1) (by omega)]
        exact p5 k hlt
    · intro k hk
      simp only [setAt]
      by_cases hki : k = i
      · subst hki
        rw [if_pos (by omega)]
        simp only [if_true]
      · rw [if_neg (by omega), if_neg hki]
        exact p6 k (by omega)

theorem forUp_inv {σ : Type} (body : Nat → σ → σ) (P : σ → Prop)
    (hb : ∀ j t, P t → P (body j t)) (n j : Nat) (s : σ) (h : P s) : P (forUp body j n s) := by
  induction n generalizing j s with
  | zero => exact h
  | succ n ih => simp only [forUp]; exact ih _ _ (hb _ _ h)

theorem forDown_inv {σ : Type} (body : Nat → σ → σ) (P : σ → Prop)
    (hb : ∀ j t, P t → P (body j t)) (n : Nat) (s : σ) (h : P s) : P (forDown body n s) := by
  induction n generalizing s with
  | zero => exact h
  | succ n ih => simp only [forDown]; exact ih _ (hb _ _ h)

theorem stRpsTake_head (v : Int) (ok : Bool) (k : Nat) (s : H265ShortTermRPS × Nat) :
    stRpsHead (stRpsTake v ok k s).1 = stRpsHead s.1 ∧
    (stRpsTake v ok k s).1.used_by_curr_pic_flag = s.1.used_by_curr_pic_flag ∧
    (stRpsTake v ok k s).1.use_delta_flag = s.1.use_delta_flag := by
  unfold stRpsTake
  split <;> exact ⟨rfl, rfl, rfl⟩

theorem stRpsFlagBody_head (nalu : Nat → Nat) (j : Nat) (s : H265ShortTermRPS × Nat) :
    stRpsHead (stRpsFlagBody nalu j s).1 = stRpsHead s.1 := by
  unfold stRpsFlagBody
  simp only
  split <;> rfl

theorem stRpsSynthesize_head (ref : H265ShortTermRPS) (d : Int) (rps : H265ShortTermRPS) :
    stRpsHead (stRpsSynthesize ref d rps) = stRpsHead rps ∧
    (stRpsSynthesize ref d rps).used_by_curr_pic_flag = rps.used_by_curr_pic_flag ∧
    (stRpsSynthesize ref d rps).use_delta_flag = rps.use_delta_flag := by
  let P : H265ShortTermRPS × Nat → Prop := fun s =>
    stRpsHead s.1 = stRpsHead rps ∧ s.1.used_by_curr_pic_flag = rps.used_by_curr_pic_flag ∧
      s.1.use_delta_flag = rps.use_delta_flag
  have hT : ∀ v ok k s, P s → P (stRpsTake v ok k s) := fun v ok k s hs =>
    ⟨(stRpsTake_head v ok k s).1.trans hs.1, (stRpsTake_head v ok k s).2.1.trans hs.2.1,
      (stRpsTake_head v ok k s).2.2.trans hs.2.2⟩
  show P (forUp _ 0 _ (stRpsTake _ _ _ (forDown _ _ (_, _))))
  refine forUp_inv _ P (fun j t ht => hT _ _ _ t ht) _ _ _ (hT _ _ _ _ ?_)
  refine forDown_inv _ P (fun j t ht => hT _ _ _ t ht) _ _ ?_
  show P (forUp _ 0 _ (stRpsTake _ _ _ (forDown _ _ (rps, 0))))
  refine forUp_inv _ P (fun j t ht => hT _ _ _ t ht) _ _ _ (hT _ _ _ _ ?_)
  exact forDown_inv _ P (fun j t ht => hT _ _ _ t ht) _ _ ⟨rfl, rfl, rfl⟩

/-- The two branches of `ParseShortTermRefPicSet`: a parse that returns went through the
prediction branch, and its result has the flag set and is the synthesis from the reference
set after the flag loop, or through the explicit branch, and its result has the flag clear and
is the state left by the two loops. -/
theorem ParseShortTermRefPicSet_cases (fuel : Nat) (rps : H265ShortTermRPS) (st_rps_idx : Int)
    (n : Nat) (rps_ref : Nat → H265ShortTermRPS) (nalu : Nat → Nat) (offset : Nat)
    (r : H265ShortTermRPS × Nat)
    (h : ParseShortTermRefPicSet fuel rps st_rps_idx n rps_ref nalu offset = some r) :
    (st_rps_idx = 0 → r.1.inter_ref_pic_set_prediction_flag = 0) ∧
    ((r.1.inter_ref_pic_set_prediction_flag ≠ 0 ∧ ∃ rps3 offset3,
        rps3.delta_rps_sign ≤ 1 ∧ rps3.abs_delta_rps_minus1 ≤ 2 ^ 31 - 2 ∧
        stRpsHead r.1 = stRpsHead rps3 ∧
        r.1 = stRpsSynthesize
          (rps_ref (wrapInt32 (st_rps_idx - (rps3.delta_idx_minus1 : Int) - 1)).toNat)
          (wrapInt32 (wrapInt32 (1 - 2 * (rps3.delta_rps_sign : Int))
            * ((rps3.abs_delta_rps_minus1 : Int) + 1)))
          (forUp (stRpsFlagBody nalu) 0
            ((rps_ref (wrapInt32 (st_rps_idx - (rps3.delta_idx_minus1 : Int) - 1)).toNat
              ).num_of_delta_poc + 1) (rps3, offset3)).1) ∨
     (r.1.inter_ref_pic_set_prediction_flag = 0 ∧ ∃ rps2 offset2 s3 s4,
        forLoop (stRpsS0Body fuel nalu) 0 rps2.num_negative_pics (rps2, 0, offset2) = some s3 ∧
        forLoop (stRpsS1Body fuel nalu) 0 s3.1.num_positive_pics (s3.1, 0, s3.2.2) = some s4 ∧
        rps2.inter_ref_pic_set_prediction_flag = 0 ∧
        r.1 = { s4.1 with num_of_pics := s4.1.num_negative_pics + s4.1.num_positive_pics
                          num_of_delta_poc :=
                            s4.1.num_negative_pics + s4.1.num_positive_pics })) := by
  unfold ParseShortTermRefPicSet at h
  simp only at h
  by_cases hf : (if st_rps_idx ≠ 0 then GetFlag nalu offset else (0, offset)).1 ≠ 0
  · rw [if_pos hf] at h
    have hidx : st_rps_idx ≠ 0 := by
      intro h0
      rw [if_neg (not_not.mpr h0)] at hf
      exact hf rfl
    split at h
    · cases h
    · rename_i d off1 hd
      split at h
      · cases h
      · rename_i a off3 ha
        cases h
        have hh := stRpsSynthesize_head
          (rps_ref (wrapInt32 (st_rps_idx - (d : Int) - 1)).toNat)
          (wrapInt32 (wrapInt32 (1 - 2 * ((GetFlag nalu off1).1 : Int)) * ((a : Int) + 1)))
          (forUp (stRpsFlagBody nalu) 0
            ((rps_ref (wrapInt32 (st_rps_idx - (d : Int) - 1)).toNat).num_of_delta_poc + 1)
            ({ rps with
               inter_ref_pic_set_prediction_flag :=
                 (if st_rps_idx ≠ 0 then GetFlag nalu offset else (0, offset)).1
               delta_idx_minus1 := d
               delta_rps_sign := (GetFlag nalu off1).1
               abs_delta_rps_minus1 := a }, off3)).1
        have hl := forUp_inv (stRpsFlagBody nalu)
          (fun s => stRpsHead s.1 = stRpsHead ({ rps with
               inter_ref_pic_set_prediction_flag :=
                 (if st_rps_idx ≠ 0 then GetFlag nalu offset else (0, offset)).1
               delta_idx_minus1 := d
               delta_rps_sign := (GetFlag nalu off1).1
               abs_delta_rps_minus1 := a }))
          (fun j t ht => (stRpsFlagBody_head nalu j t).trans ht)
          ((rps_ref (wrapInt32 (st_rps_idx - (d : Int) - 1)).toNat).num_of_delta_poc + 1) 0
          ({ rps with
               inter_ref_pic_set_prediction_flag :=
                 (if st_rps_idx ≠ 0 then GetFlag nalu offset else (0, offset)).1
               delta_idx_minus1 := d
               delta_rps_sign := (GetFlag nalu off1).1
               abs_delta_rps_minus1 := a }, off3) rfl
        have hflag := congrArg (fun x => x.1) (hh.1.trans hl)
        refine ⟨fun h0 => absurd h0 hidx, Or.inl ⟨?_, { rps with
               inter_ref_pic_set_prediction_flag :=
                 (if st_rps_idx ≠ 0 then GetFlag nalu offset else (0, offset)).1
               delta_idx_minus1 := d
               delta_rps_sign := (GetFlag nalu off1).1
               abs_delta_rps_minus1 := a }, off3, GetFlag_le_one _ _,
            ReadUe_le nalu fuel _ a off3 ha, hh.1.trans hl, rfl⟩⟩
        exact fun hz => hf (hflag.symm.trans hz)
  · rw [if_neg hf] at h
    have hf0 := not_not.mp hf
    split at h
    · cases h
    · rename_i nn off1 hnn
      split at h
      · cases h
      · rename_i np off2 hnp
        split at h
        · cases h
        · rename_i s3 h3
          split at h
          · cases h
          · rename_i s4 h4
            cases h
            have i3 := stRpsS0_loop fuel nalu _ _ _ s3 h3
            have i4 := stRpsS1_loop fuel nalu _ _ _ s4 h4
            have hz : s4.1.inter_ref_pic_set_prediction_flag = 0 :=
              i4.1.trans (i3.1.trans hf0)
            exact ⟨fun _ => hz, Or.inr ⟨hz, { rps with
                inter_ref_pic_set_prediction_flag :=
                  (if st_rps_idx ≠ 0 then GetFlag nalu offset else (0, offset)).1
                num_negative_pics := nn
                num_positive_pics := np }, off2, s3, s4, h3, h4, hf0, rfl⟩⟩

theorem sum_succ_le (a : Nat → Nat) (i j : Nat) (h : i ≤ j) :
    Finset.sum (Finset.range i) (fun k => ((a k : Int) + 1))
      ≤ Finset.sum (Finset.range j) (fun k => ((a k : Int) + 1)) := by
  rcases Nat.lt_or_eq_of_le h with h1 | h1
  · exact le_of_lt (sum_succ_mono a i j h1)
  · rw [h1]

/-- C31 (as amended). Short-term RPS, explicit mode. For a call of `ParseShortTermRefPicSet`
that returns: with `st_rps_idx = 0` the result has `inter_ref_pic_set_prediction_flag = 0`, and
whenever the result has the flag clear, `num_of_pics = num_of_delta_poc = num_negative_pics +
num_positive_pics`, `used_by_curr_pic` holds the s0 flags followed by the s1 flags, and
`delta_poc[i]`, `delta_poc[num_negative_pics + i]` are the running values of the two loops,
computed in `int32_t`. When the sum of all `delta_poc_s0_minus1[k] + 1` is at most `2^31`,
`delta_poc[i] = -(sum over k <= i of (delta_poc_s0_minus1[k] + 1))` for `i <
num_negative_pics`, and these entries are below 0 and strictly decreasing; when the sum of all
`delta_poc_s1_minus1[k] + 1` is below `2^31`, `delta_poc[num_negative_pics + i] = sum over
k <= i of (delta_poc_s1_minus1[k] + 1)` for `i < num_positive_pics`, and these entries are
above 0 and strictly increasing. -/
theorem ParseShortTermRefPicSet_explicit (fuel : Nat) (rps : H265ShortTermRPS)
    (st_rps_idx : Int) (n : Nat) (rps_ref : Nat → H265ShortTermRPS) (nalu : Nat → Nat)
    (offset : Nat) (r : H265ShortTermRPS × Nat)
    (h : ParseShortTermRefPicSet fuel rps st_rps_idx n rps_ref nalu offset = some r) :
    (st_rps_idx = 0 → r.1.inter_ref_pic_set_prediction_flag = 0) ∧
    (r.1.inter_ref_pic_set_prediction_flag = 0 →
      r.1.num_of_pics = r.1.num_negative_pics + r.1.num_positive_pics ∧
      r.1.num_of_delta_poc = r.1.num_negative_pics + r.1.num_positive_pics ∧
      (∀ i, i < r.1.num_negative_pics →
        r.1.used_by_curr_pic i = r.1.used_by_curr_pic_s0_flag i) ∧
      (∀ i, i < r.1.num_positive_pics →
        r.1.used_by_curr_pic (r.1.num_negative_pics + i) = r.1.used_by_curr_pic_s1_flag i) ∧
      (∀ i, i < r.1.num_negative_pics →
        r.1.delta_poc i = stRpsRunningPoc (-1) r.1.delta_poc_s0_minus1 (i + 1)) ∧
      (∀ i, i < r.1.num_positive_pics →
        r.1.delta_poc (r.1.num_negative_pics + i)
          = stRpsRunningPoc 1 r.1.delta_poc_s1_minus1 (i + 1)) ∧
      (Finset.sum (Finset.range r.1.num_negative_pics)
          (fun k => ((r.1.delta_poc_s0_minus1 k : Int) + 1)) ≤ 2 ^ 31 →
        (∀ i, i < r.1.num_negative_pics →
          r.1.delta_poc i = -Finset.sum (Finset.range (i + 1))
            (fun k => ((r.1.delta_poc_s0_minus1 k : Int) + 1))) ∧
        (∀ i, i < r.1.num_negative_pics → r.1.delta_poc i < 0) ∧
        (∀ i j, i < j → j < r.1.num_negative_pics → r.1.delta_poc j < r.1.delta_poc i)) ∧
      (Finset.sum (Finset.range r.1.num_positive_pics)
          (fun k => ((r.1.delta_poc_s1_minus1 k : Int) + 1)) < 2 ^ 31 →
        (∀ i, i < r.1.num_positive_pics →
          r.1.delta_poc (r.1.num_negative_pics + i) = Finset.sum (Finset.range (i + 1))
            (fun k => ((r.1.delta_poc_s1_minus1 k : Int) + 1))) ∧
        (∀ i, i < r.1.num_positive_pics → 0 < r.1.delta_poc (r.1.num_negative_pics + i)) ∧
        (∀ i j, i < j → j < r.1.num_positive_pics →
          r.1.delta_poc (r.1.num_negative_pics + i)
            < r.1.delta_poc (r.1.num_negative_pics + j)))) := by
  obtain ⟨h0, hc⟩ := ParseShortTermRefPicSet_cases fuel rps st_rps_idx n rps_ref nalu offset r h
  refine ⟨h0, fun hz => ?_⟩
  rcases hc with ⟨hnz, _⟩ | ⟨_, rps2, offset2, s3, s4, h3, h4, _, hr⟩
  · exact absurd hz hnz
  obtain ⟨_, a2, a3, a4, a5, a6⟩ := stRpsS0_loop fuel nalu _ _ _ s3 h3
  obtain ⟨_, b2, b3, b4, b5, b6, b7, b8, b9, b10⟩ := stRpsS1_loop fuel nalu _ _ _ s4 h4
  have e1 : r.1.num_negative_pics = s3.1.num_negative_pics := by rw [hr]; exact b2
  have e2 : r.1.num_positive_pics = s3.1.num_positive_pics := by rw [hr]; exact b3
  have e3 : r.1.delta_poc = s4.1.delta_poc := by rw [hr]
  have e4 : r.1.used_by_curr_pic = s4.1.used_by_curr_pic := by rw [hr]
  have e5 : r.1.delta_poc_s0_minus1 = s3.1.delta_poc_s0_minus1 := by rw [hr]; exact b4
  have e6 : r.1.used_by_curr_pic_s0_flag = s3.1.used_by_curr_pic_s0_flag := by rw [hr]; exact b5
  have e7 : r.1.delta_poc_s1_minus1 = s4.1.delta_poc_s1_minus1 := by rw [hr]
  have e8 : r.1.used_by_curr_pic_s1_flag = s4.1.used_by_curr_pic_s1_flag := by rw [hr]
  have e9 : s3.1.num_negative_pics = rps2.num_negative_pics := a2
  have dn : ∀ i, i < r.1.num_negative_pics →
      r.1.delta_poc i = stRpsRunningPoc (-1) r.1.delta_poc_s0_minus1 (i + 1) := by
    intro i hi
    rw [e3, e5, b6 i (by omega), a5 i (by omega)]
  have dp : ∀ i, i < r.1.num_positive_pics →
      r.1.delta_poc (r.1.num_negative_pics + i)
        = stRpsRunningPoc 1 r.1.delta_poc_s1_minus1 (i + 1) := by
    intro i hi
    rw [e3, e7, e1, b9 i (by omega)]
  refine ⟨by rw [hr], by rw [hr], ?_, ?_, dn, dp, ?_, ?_⟩
  · intro i hi
    rw [e4, e6, b7 i (by omega), a6 i (by omega)]
  · intro i hi
    rw [e4, e8, e1, b10 i (by omega)]
  · intro hs
    have hv : ∀ i, i < r.1.num_negative_pics →
        r.1.delta_poc i = -Finset.sum (Finset.range (i + 1))
          (fun k => ((r.1.delta_poc_s0_minus1 k : Int) + 1)) := by
      intro i hi
      rw [dn i hi]
      exact stRpsRunningPoc_neg _ _
        (le_trans (sum_succ_le r.1.delta_poc_s0_minus1 (i + 1) _ (by omega)) hs)
    refine ⟨hv, ?_, ?_⟩
    · intro i hi
      rw [hv i hi]
      have := sum_succ_mono r.1.delta_poc_s0_minus1 0 (i + 1) (by omega)
      simp only [Finset.range_zero, Finset.sum_empty] at this
      omega
    · intro i j hij hj
      rw [hv i (by omega), hv j hj]
      have := sum_succ_mono r.1.delta_poc_s0_minus1 (i + 1) (j + 1) (by omega)
      omega
  · intro hs
    have hv : ∀ i, i < r.1.num_positive_pics →
        r.1.delta_poc (r.1.num_negative_pics + i) = Finset.sum (Finset.range (i + 1))
          (fun k => ((r.1.delta_poc_s1_minus1 k : Int) + 1)) := by
      intro i hi
      rw [dp i hi]
      exact stRpsRunningPoc_pos _ _
        (lt_of_le_of_lt (sum_succ_le r.1.delta_poc_s1_minus1 (i + 1) _ (by omega)) hs)
    refine ⟨hv, ?_, ?_⟩
    · intro i hi
      rw [hv i hi]
      have := sum_succ_mono r.1.delta_poc_s1_minus1 0 (i + 1) (by omega)
      simp only [Finset.range_zero, Finset.sum_empty] at this
      omega
    · intro i j hij hj
      rw [hv i (by omega), hv j hj]
      exact sum_succ_mono r.1.delta_poc_s1_minus1 (i + 1) (j + 1) (by omega)

theorem ParseShortTermRefPicSet_explicit_witness :
    ParseShortTermRefPicSet 64 H265ShortTermRPS.zero 0 1 (fun _ => H265ShortTermRPS.zero)
      exampleRpsExplicit 0 = some exampleRpsExplicitResult ∧
    exampleRpsExplicitResult.1.inter_ref_pic_set_prediction_flag = 0 ∧
    Finset.sum (Finset.range exampleRpsExplicitResult.1.num_negative_pics)
      (fun k => ((exampleRpsExplicitResult.1.delta_poc_s0_minus1 k : Int) + 1)) ≤ 2 ^ 31 ∧
    Finset.sum (Finset.range exampleRpsExplicitResult.1.num_positive_pics)
      (fun k => ((exampleRpsExplicitResult.1.delta_poc_s1_minus1 k : Int) + 1)) < 2 ^ 31 ∧
    (exampleRpsExplicitResult.1.num_negative_pics, exampleRpsExplicitResult.1.num_positive_pics,
      exampleRpsExplicitResult.1.delta_poc_s0_minus1 0,
      exampleRpsExplicitResult.1.delta_poc_s0_minus1 1,
      exampleRpsExplicitResult.1.delta_poc_s1_minus1 0) = (2, 1, 0, 2, 4) ∧
    exampleRpsExplicitResult.1.num_of_pics = exampleRpsExplicitResult.1.num_negative_pics
      + exampleRpsExplicitResult.1.num_positive_pics ∧
    exampleRpsExplicitResult.1.delta_poc 1 = -Finset.sum (Finset.range (1 + 1))
      (fun k => ((exampleRpsExplicitResult.1.delta_poc_s0_minus1 k : Int) + 1)) ∧
    exampleRpsExplicitResult.1.delta_poc 1 < exampleRpsExplicitResult.1.delta_poc 0 ∧
    exampleRpsExplicitResult.1.delta_poc (exampleRpsExplicitResult.1.num_negative_pics + 0)
      = Finset.sum (Finset.range (0 + 1))
        (fun k => ((exampleRpsExplicitResult.1.delta_poc_s1_minus1 k : Int) + 1)) :=
  have h : ParseShortTermRefPicSet 64 H265ShortTermRPS.zero 0 1
      (fun _ => H265ShortTermRPS.zero) exampleRpsExplicit 0 = some exampleRpsExplicitResult :=
    some_getD_of_isSome _ _ (by decide)
  have hz : exampleRpsExplicitResult.1.inter_ref_pic_set_prediction_flag = 0 := by decide
  have hs0 : Finset.sum (Finset.range exampleRpsExplicitResult.1.num_negative_pics)
      (fun k => ((exampleRpsExplicitResult.1.delta_poc_s0_minus1 k : Int) + 1)) ≤ 2 ^ 31 := by
    decide
  have hs1 : Finset.sum (Finset.range exampleRpsExplicitResult.1.num_positive_pics)
      (fun k => ((exampleRpsExplicitResult.1.delta_poc_s1_minus1 k : Int) + 1)) < 2 ^ 31 := by
    decide
  have hc := (ParseShortTermRefPicSet_explicit 64 H265ShortTermRPS.zero 0 1
    (fun _ => H265ShortTermRPS.zero) exampleRpsExplicit 0 exampleRpsExplicitResult h).2 hz
  ⟨h, hz, hs0, hs1, by decide, hc.1, (hc.2.2.2.2.2.2.1 hs0).1 1 (by decide),
    (hc.2.2.2.2.2.2.1 hs0).2.2 0 1 (by decide) (by decide),
    (hc.2.2.2.2.2.2.2 hs1).1 0 (by decide)⟩

/-- C31 (counterexample). The RPS `exampleRpsExplicitWrap` is coded explicitly with two negative
pictures, `delta_poc_s0_minus1 = 2^31 - 2` and `1`: the first entry is `-(2^31 - 1)`, and the
second, `-(2^31 - 1) - 2` computed in `int32_t`, is `2^31 - 1`, which is above 0 and not
`-(2^31 + 1)`. -/
theorem ParseShortTermRefPicSet_explicit_wraps :
    (ParseShortTermRefPicSet 64 H265ShortTermRPS.zero 0 1 (fun _ => H265ShortTermRPS.zero)
        exampleRpsExplicitWrap 0).map
        (fun r => (r.1.inter_ref_pic_set_prediction_flag, r.1.num_negative_pics,
          r.1.num_positive_pics, r.1.delta_poc_s0_minus1 0, r.1.delta_poc_s0_minus1 1))
      = some (0, 2, 0, 2147483646, 1) ∧
    (ParseShortTermRefPicSet 64 H265ShortTermRPS.zero 0 1 (fun _ => H265ShortTermRPS.zero)
        exampleRpsExplicitWrap 0).map
        (fun r => (r.1.delta_poc 0, r.1.delta_poc 1, decide (r.1.delta_poc 1 < 0),
          decide (r.1.delta_poc 1 = -Finset.sum (Finset.range (1 + 1))
            (fun k => ((r.1.delta_poc_s0_minus1 k : Int) + 1)))))
      = some (-2147483647, 2147483647, false, false) := by
  decide

/-! ## Theorems on the short-term reference picture set, prediction mode -/

theorem forDown_eq_foldl {σ : Type} (body : Nat → σ → σ) (n : Nat) (s : σ) :
    forDown body n s = (List.range n).reverse.foldl (fun t j => body j t) s := by
  induction n generalizing s with
  | zero => rfl
  | succ n ih =>
    rw [List.range_succ, List.reverse_append, List.reverse_singleton, List.singleton_append,
      List.foldl_cons, ← ih]
    rfl

theorem forUp_eq_foldl {σ : Type} (body : Nat → σ → σ) (n j : Nat) (s : σ) :
    forUp body j n s = (List.range' j n).foldl (fun t j => body j t) s := by
  induction n generalizing j s with
  | zero => rfl
  | succ n ih =>
    rw [List.range'_succ, List.foldl_cons, ← ih]
    rfl

theorem stRpsSynthesize_eq (ref : H265ShortTermRPS) (d : Int) (rps : H265ShortTermRPS) :
    stRpsSynthesize ref d rps =
      (let s3 := stRpsTakeAll (stRpsNegCandidates ref d) (rps, 0)
       let s7 := stRpsTakeAll (stRpsPosCandidates ref d)
         ({ s3.1 with num_negative_pics := s3.2 }, s3.2)
       { s7.1 with num_positive_pics := s7.2 - s7.1.num_negative_pics
                   num_of_delta_poc := ref.num_negative_pics + ref.num_positive_pics
                   num_of_pics := s7.2 }) := by
  unfold stRpsSynthesize stRpsNegCandidates stRpsPosCandidates stRpsTakeAll
  simp only [forDown_eq_foldl, forUp_eq_foldl, List.foldl_append, List.foldl_cons,
    List.foldl_map, ← List.range_eq_range']

theorem stRpsTake_step (sg : Int) (lo : Nat) (c : Int × Bool × Nat)
    (s : H265ShortTermRPS × Nat)
    (hs : stRpsSorted sg s.1.delta_poc lo s.2)
    (hnew : ∀ k, lo ≤ k → k < s.2 → sg * s.1.delta_poc k < sg * c.1)
    (hok : c.2.1 = true → 0 < sg * c.1) :
    s.2 ≤ (stRpsTake c.1 c.2.1 c.2.2 s).2 ∧
    (stRpsTake c.1 c.2.1 c.2.2 s).2 ≤ s.2 + (if c.2.1 then 1 else 0) ∧
    stRpsSorted sg (stRpsTake c.1 c.2.1 c.2.2 s).1.delta_poc lo (stRpsTake c.1 c.2.1 c.2.2 s).2 ∧
    (∀ k, k < s.2 → (stRpsTake c.1 c.2.1 c.2.2 s).1.delta_poc k = s.1.delta_poc k) ∧
    (∀ k, s.2 ≤ k → k < (stRpsTake c.1 c.2.1 c.2.2 s).2 →
      (stRpsTake c.1 c.2.1 c.2.2 s).1.delta_poc k = c.1) ∧
    (stRpsTake c.1 c.2.1 c.2.2 s).1.num_negative_pics = s.1.num_negative_pics := by
  unfold stRpsTake
  split
  · rename_i hc
    have hc1 : c.2.1 = true := hc.1
    refine ⟨Nat.le_succ _, by rw [if_pos hc1], ⟨?_, ?_⟩, ?_, ?_, rfl⟩
    · intro k hk1 hk2
      simp only [setAt]
      by_cases hk : k = s.2
      · rw [if_pos hk]; exact hok hc1
      · rw [if_neg hk]; exact hs.1 k hk1 (by omega)
    · intro k l hk1 hkl hl
      simp only [setAt]
      have hk : k ≠ s.2 := by omega
      rw [if_neg hk]
      by_cases hl1 : l = s.2
      · rw [if_pos hl1]; exact hnew k hk1 (by omega)
      · rw [if_neg hl1]; exact hs.2 k l hk1 hkl (by omega)
    · intro k hk
      simp only [setAt]
      rw [if_neg (by omega)]
    · intro k hk1 hk2
      simp only [setAt]
      rw [if_pos (by omega)]
  · exact ⟨le_refl _, by omega, hs, fun _ _ => rfl, fun k hk1 hk2 => absurd hk2 (by omega), rfl⟩

theorem stRpsTakeAll_sorted (sg : Int) (lo : Nat) (L : List (Int × Bool × Nat))
    (s : H265ShortTermRPS × Nat) (hlo : lo ≤ s.2)
    (hs : stRpsSorted sg s.1.delta_poc lo s.2)
    (hnew : ∀ k, lo ≤ k → k < s.2 → ∀ c, c ∈ L → sg * s.1.delta_poc k < sg * c.1)
    (hpw : L.Pairwise (fun a b => sg * a.1 < sg * b.1))
    (hok : ∀ c, c ∈ L → c.2.1 = true → 0 < sg * c.1) :
    s.2 ≤ (stRpsTakeAll L s).2 ∧
    (stRpsTakeAll L s).2 ≤ s.2 + L.countP (fun c => c.2.1) ∧
    stRpsSorted sg (stRpsTakeAll L s).1.delta_poc lo (stRpsTakeAll L s).2 ∧
    (∀ k, k < s.2 → (stRpsTakeAll L s).1.delta_poc k = s.1.delta_poc k) ∧
    (stRpsTakeAll L s).1.num_negative_pics = s.1.num_negative_pics := by
  induction L generalizing s with
  | nil => exact ⟨le_refl _, Nat.le_add_right _ _, hs, fun _ _ => rfl, rfl⟩
  | cons c L ih =>
    obtain ⟨t1, t2, t3, t4, t5, t6⟩ := stRpsTake_step sg lo c s hs
      (fun k hk1 hk2 => hnew k hk1 hk2 c (List.mem_cons_self _ _))
      (hok c (List.mem_cons_self _ _))
    have hp := List.pairwise_cons.mp hpw
    obtain ⟨i1, i2, i3, i4, i5⟩ := ih (stRpsTake c.1 c.2.1 c.2.2 s) (by omega) t3
      (fun k hk1 hk2 c' hc' => by
        by_cases hk : k < s.2
        · rw [t4 k hk]
          exact hnew k hk1 hk c' (List.mem_cons_of_mem _ hc')
        · rw [t5 k (by omega) hk2]
          exact hp.1 c' hc')
      hp.2 (fun c' hc' => hok c' (List.mem_cons_of_mem _ hc'))
    have e : stRpsTakeAll (c :: L) s = stRpsTakeAll L (stRpsTake c.1 c.2.1 c.2.2 s) := rfl
    rw [e]
    refine ⟨by omega, ?_, i3, fun k hk => (i4 k (by omega)).trans (t4 k hk), i5.trans t6⟩
    rw [List.countP_cons]
    omega

theorem stRpsNegCandidates_pairwise (ref : H265ShortTermRPS) (d : Int)
    (hw : stRpsWellFormed ref)
    (hno : ∀ j, j < ref.num_negative_pics + ref.num_positive_pics →
      wrapInt32 (d + ref.delta_poc j) = d + ref.delta_poc j) :
    (stRpsNegCandidates ref d).Pairwise (fun a b => -1 * a.1 < -1 * b.1) := by
  obtain ⟨w1, w2, w3, w4⟩ := hw
  unfold stRpsNegCandidates
  rw [List.pairwise_append]
  refine ⟨?_, ?_, ?_⟩
  · rw [List.pairwise_map, List.pairwise_reverse]
    refine (List.pairwise_lt_range _).imp_of_mem ?_
    intro i j hi hj hij
    rw [List.mem_range] at hi hj
    simp only
    rw [hno _ (by omega), hno _ (by omega)]
    have := w4 j hj i hij
    omega
  · rw [List.pairwise_cons]
    refine ⟨?_, ?_⟩
    · intro c hc
      rw [List.mem_map] at hc
      obtain ⟨j, hj, rfl⟩ := hc
      rw [List.mem_range] at hj
      simp only
      rw [hno _ (by omega)]
      have := w1 j hj
      omega
    · rw [List.pairwise_map]
      refine (List.pairwise_lt_range _).imp_of_mem ?_
      intro i j hi hj hij
      rw [List.mem_range] at hi hj
      simp only
      rw [hno _ (by omega), hno _ (by omega)]
      have := w2 j hj i hij
      omega
  · intro a ha b hb
    rw [List.mem_map] at ha
    obtain ⟨i, hi, rfl⟩ := ha
    rw [List.mem_reverse, List.mem_range] at hi
    simp only
    rw [hno _ (by omega)]
    have hp := w3 i hi
    rw [List.mem_cons] at hb
    rcases hb with rfl | hb
    · simp only
      omega
    · rw [List.mem_map] at hb
      obtain ⟨j, hj, rfl⟩ := hb
      rw [List.mem_range] at hj
      simp only
      rw [hno _ (by omega)]
      have := w1 j hj
      omega

theorem stRpsPosCandidates_pairwise (ref : H265ShortTermRPS) (d : Int)
    (hw : stRpsWellFormed ref)
    (hno : ∀ j, j < ref.num_negative_pics + ref.num_positive_pics →
      wrapInt32 (d + ref.delta_poc j) = d + ref.delta_poc j) :
    (stRpsPosCandidates ref d).Pairwise (fun a b => 1 * a.1 < 1 * b.1) := by
  obtain ⟨w1, w2, w3, w4⟩ := hw
  unfold stRpsPosCandidates
  rw [List.pairwise_append]
  refine ⟨?_, ?_, ?_⟩
  · rw [List.pairwise_map, List.pairwise_reverse]
    refine (List.pairwise_lt_range _).imp_of_mem ?_
    intro i j hi hj hij
    rw [List.mem_range] at hi hj
    simp only
    rw [hno _ (by omega), hno _ (by omega)]
    have := w2 j hj i hij
    omega
  · rw [List.pairwise_cons]
    refine ⟨?_, ?_⟩
    · intro c hc
      rw [List.mem_map] at hc
      obtain ⟨j, hj, rfl⟩ := hc
      rw [List.mem_range] at hj
      simp only
      rw [hno _ (by omega)]
      have := w3 j hj
      omega
    · rw [List.pairwise_map]
      refine (List.pairwise_lt_range _).imp_of_mem ?_
      intro i j hi hj hij
      rw [List.mem_range] at hi hj
      simp only
      rw [hno _ (by omega), hno _ (by omega)]
      have := w4 j hj i hij
      omega
  · intro a ha b hb
    rw [List.mem_map] at ha
    obtain ⟨i, hi, rfl⟩ := ha
    rw [List.mem_reverse, List.mem_range] at hi
    simp only
    rw [hno _ (by omega)]
    have hp := w1 i hi
    rw [List.mem_cons] at hb
    rcases hb with rfl | hb
    · simp only
      omega
    · rw [List.mem_map] at hb
      obtain ⟨j, hj, rfl⟩ := hb
      rw [List.mem_range] at hj
      simp only
      rw [hno _ (by omega)]
      have := w3 j hj
      omega

theorem countP_add_le_length {α : Type} (p q : α → Bool) (l : List α)
    (h : ∀ x, ¬(p x = true ∧ q x = true)) : l.countP p + l.countP q ≤ l.length := by
  induction l with
  | nil => simp
  | cons a l ih =>
    rw [List.countP_cons, List.countP_cons, List.length_cons]
    have := h a
    by_cases hp : p a = true <;> by_cases hq : q a = true <;> simp [hp, hq] at this ⊢ <;> omega

theorem stRpsCandidates_count (ref : H265ShortTermRPS) (d : Int) :
    (stRpsNegCandidates ref d).countP (fun c => c.2.1)
      + (stRpsPosCandidates ref d).countP (fun c => c.2.1)
      ≤ ref.num_negative_pics + ref.num_positive_pics + 1 := by
  unfold stRpsNegCandidates stRpsPosCandidates
  simp only [List.countP_append, List.countP_cons, List.countP_map]
  rw [(List.reverse_perm (List.range ref.num_positive_pics)).countP_eq,
    (List.reverse_perm (List.range ref.num_negative_pics)).countP_eq]
  have h1 := countP_add_le_length
    ((fun c : Int × Bool × Nat => c.2.1) ∘ fun j =>
      (wrapInt32 (d + ref.delta_poc (ref.num_negative_pics + j)),
        decide (wrapInt32 (d + ref.delta_poc (ref.num_negative_pics + j)) < 0),
        ref.num_negative_pics + j))
    ((fun c : Int × Bool × Nat => c.2.1) ∘ fun j =>
      (wrapInt32 (d + ref.delta_poc (ref.num_negative_pics + j)),
        decide (wrapInt32 (d + ref.delta_poc (ref.num_negative_pics + j)) > 0),
        ref.num_negative_pics + j))
    (List.range ref.num_positive_pics)
    (fun x hx => by
      simp only [Function.comp, decide_eq_true_eq] at hx
      omega)
  have h2 := countP_add_le_length
    ((fun c : Int × Bool × Nat => c.2.1) ∘ fun j =>
      (wrapInt32 (d + ref.delta_poc j), decide (wrapInt32 (d + ref.delta_poc j) < 0), j))
    ((fun c : Int × Bool × Nat => c.2.1) ∘ fun j =>
      (wrapInt32 (d + ref.delta_poc j), decide (wrapInt32 (d + ref.delta_poc j) > 0), j))
    (List.range ref.num_negative_pics)
    (fun x hx => by
      simp only [Function.comp, decide_eq_true_eq] at hx
      omega)
  rw [List.length_range] at h1 h2
  have h3 : (if decide (d < 0) = true then 1 else 0) + (if decide (d > 0) = true then 1 else 0)
      ≤ 1 := by
    by_cases hd : d < 0
    · simp [hd, not_lt_of_gt hd]
    · simp [hd]
      split <;> omega
  omega

/-- The synthesis keeps the set well formed when no sum `delta_rps + delta_poc[j]` leaves the
range of `int32_t`. -/
theorem stRpsSynthesize_wellFormed (ref : H265ShortTermRPS) (d : Int) (rps : H265ShortTermRPS)
    (hw : stRpsWellFormed ref)
    (hno : ∀ j, j < ref.num_negative_pics + ref.num_positive_pics →
      wrapInt32 (d + ref.delta_poc j) = d + ref.delta_poc j) :
    stRpsWellFormed (stRpsSynthesize ref d rps) ∧
    (stRpsSynthesize ref d rps).num_of_pics =
      (stRpsSynthesize ref d rps).num_negative_pics
        + (stRpsSynthesize ref d rps).num_positive_pics ∧
    (stRpsSynthesize ref d rps).num_of_pics
      ≤ ref.num_negative_pics + ref.num_positive_pics + 1 := by
  have hN := stRpsTakeAll_sorted (-1) 0 (stRpsNegCandidates ref d) (rps, 0) (le_refl _)
    ⟨fun k _ hk => absurd hk (Nat.not_lt_zero _), fun k l _ _ hl => absurd hl (Nat.not_lt_zero _)⟩
    (fun k _ hk => absurd hk (Nat.not_lt_zero _))
    (stRpsNegCandidates_pairwise ref d hw hno)
    (fun c hc hok => by
      unfold stRpsNegCandidates at hc
      simp only [List.mem_append, List.mem_map, List.mem_cons] at hc
      rcases hc with ⟨j, _, rfl⟩ | rfl | ⟨j, _, rfl⟩ <;>
        simp only [decide_eq_true_eq] at hok <;> omega)
  have hC := stRpsCandidates_count ref d
  rw [stRpsSynthesize_eq]
  simp only
  generalize stRpsTakeAll (stRpsNegCandidates ref d) (rps, 0) = s3 at hN ⊢
  obtain ⟨_, n2, n3, _, _⟩ := hN
  have hP := stRpsTakeAll_sorted 1 s3.2 (stRpsPosCandidates ref d)
    ({ s3.1 with num_negative_pics := s3.2 }, s3.2) (le_refl _)
    ⟨fun k h1 h2 => absurd h2 (by simp only; omega),
      fun k l h1 h2 h3 => absurd h3 (by simp only; omega)⟩
    (fun k h1 h2 => absurd h2 (by simp only; omega))
    (stRpsPosCandidates_pairwise ref d hw hno)
    (fun c hc hok => by
      unfold stRpsPosCandidates at hc
      simp only [List.mem_append, List.mem_map, List.mem_cons] at hc
      rcases hc with ⟨j, _, rfl⟩ | rfl | ⟨j, _, rfl⟩ <;>
        simp only [decide_eq_true_eq] at hok <;> omega)
  generalize stRpsTakeAll (stRpsPosCandidates ref d)
    ({ s3.1 with num_negative_pics := s3.2 }, s3.2) = s7 at hP ⊢
  obtain ⟨p1, p2, p3, p4, p5⟩ := hP
  simp only at p1 p2 p3 p4 p5
  simp only [Nat.zero_add] at n2
  refine ⟨⟨?_, ?_, ?_, ?_⟩, ?_, ?_⟩
  · intro i hi
    simp only at hi ⊢
    rw [p5] at hi
    rw [p4 i hi]
    have := n3.1 i (Nat.zero_le _) hi
    omega
  · intro j hj i hij
    simp only at hj ⊢
    rw [p5] at hj
    rw [p4 i (by omega), p4 j hj]
    have := n3.2 i j (Nat.zero_le _) hij hj
    omega
  · intro i hi
    simp only at hi ⊢
    rw [p5] at hi ⊢
    have := p3.1 (s3.2 + i) (by omega) (by omega)
    omega
  · intro j hj i hij
    simp only at hj ⊢
    rw [p5] at hj ⊢
    have := p3.2 (s3.2 + i) (s3.2 + j) (by omega) (by omega) (by omega)
    omega
  · rw [p5]
    omega
  · omega

/-- C32 (as amended). Short-term RPS, prediction mode. For a call of `ParseShortTermRefPicSet`
that returns with `inter_ref_pic_set_prediction_flag` set, let `ref` be the reference set
`rps_ref[st_rps_idx - delta_idx_minus1 - 1]` and `delta_rps = (1 - 2 * delta_rps_sign) *
(abs_delta_rps_minus1 + 1)`. If `ref` is well formed (negative entries below 0 and strictly
decreasing, positive entries above 0 and strictly increasing) and no sum `delta_rps +
ref.delta_poc[j]`, `j < num_negative_pics + num_positive_pics` of `ref`, leaves the range of
`int32_t`, then, whatever the flags read and whatever `num_of_pics` and `num_of_delta_poc` of
`ref`, the result is well formed, none of its `num_negative_pics + num_positive_pics` entries
is 0, and `num_of_pics = num_negative_pics + num_positive_pics` is at most the number of
entries of `ref` plus one. -/
theorem ParseShortTermRefPicSet_inter_well_formed (fuel : Nat) (rps : H265ShortTermRPS)
    (st_rps_idx : Int) (n : Nat) (rps_ref : Nat → H265ShortTermRPS) (nalu : Nat → Nat)
    (offset : Nat) (r : H265ShortTermRPS × Nat) (ref : H265ShortTermRPS) (delta_rps : Int)
    (h : ParseShortTermRefPicSet fuel rps st_rps_idx n rps_ref nalu offset = some r)
    (hf : r.1.inter_ref_pic_set_prediction_flag ≠ 0)
    (href : ref = rps_ref (wrapInt32 (st_rps_idx - (r.1.delta_idx_minus1 : Int) - 1)).toNat)
    (hd : delta_rps
      = (1 - 2 * (r.1.delta_rps_sign : Int)) * ((r.1.abs_delta_rps_minus1 : Int) + 1))
    (hw : stRpsWellFormed ref)
    (hno : ∀ j, j < ref.num_negative_pics + ref.num_positive_pics →
      -2 ^ 31 ≤ delta_rps + ref.delta_poc j ∧ delta_rps + ref.delta_poc j < 2 ^ 31) :
    stRpsWellFormed r.1 ∧
    (∀ i, i < r.1.num_negative_pics + r.1.num_positive_pics → r.1.delta_poc i ≠ 0) ∧
    r.1.num_of_pics = r.1.num_negative_pics + r.1.num_positive_pics ∧
    r.1.num_of_pics ≤ ref.num_negative_pics + ref.num_positive_pics + 1 := by
  obtain ⟨_, hc⟩ := ParseShortTermRefPicSet_cases fuel rps st_rps_idx n rps_ref nalu offset r h
  rcases hc with ⟨_, rps3, off3, hsign, habs, hhead, hr⟩ | ⟨hz, _⟩
  swap
  · exact absurd hz hf
  have e1 : r.1.delta_idx_minus1 = rps3.delta_idx_minus1 :=
    congrArg (fun x => x.2.1) hhead
  have e2 : r.1.delta_rps_sign = rps3.delta_rps_sign := congrArg (fun x => x.2.2.1) hhead
  have e3 : r.1.abs_delta_rps_minus1 = rps3.abs_delta_rps_minus1 :=
    congrArg (fun x => x.2.2.2) hhead
  have ed : wrapInt32 (wrapInt32 (1 - 2 * (rps3.delta_rps_sign : Int))
      * ((rps3.abs_delta_rps_minus1 : Int) + 1)) = delta_rps := by
    rw [hd, e2, e3]
    have ha : ((rps3.abs_delta_rps_minus1 : Nat) : Int) ≤ 2 ^ 31 - 2 := by
      have : rps3.abs_delta_rps_minus1 ≤ 2147483646 := by
        norm_num at habs; exact habs
      norm_num
      omega
    have ha0 : (0 : Int) ≤ (rps3.abs_delta_rps_minus1 : Int) := Int.natCast_nonneg _
    rcases Nat.le_one_iff_eq_zero_or_eq_one.mp hsign with hs | hs
    · rw [hs]
      norm_num
      rw [wrapInt32_eq 1 (by norm_num) (by norm_num), one_mul]
      refine wrapInt32_eq _ ?_ ?_ <;> norm_num at ha ⊢ <;> omega
    · rw [hs]
      norm_num
      rw [wrapInt32_eq (-1) (by norm_num) (by norm_num)]
      have hx : wrapInt32 (-1 * ((rps3.abs_delta_rps_minus1 : Int) + 1))
          = -1 * ((rps3.abs_delta_rps_minus1 : Int) + 1) := by
        refine wrapInt32_eq _ ?_ ?_ <;> norm_num at ha ⊢ <;> omega
      rw [hx]
      ring
  rw [← e1, ← href, ed] at hr
  have hS := stRpsSynthesize_wellFormed ref delta_rps
    (forUp (stRpsFlagBody nalu) 0 (ref.num_of_delta_poc + 1) (rps3, off3)).1 hw
    (fun j hj => wrapInt32_eq _ (hno j hj).1 (hno j hj).2)
  rw [← hr] at hS
  obtain ⟨s1, s2, s3⟩ := hS
  refine ⟨s1, ?_, s2, s3⟩
  intro i hi
  by_cases hin : i < r.1.num_negative_pics
  · exact ne_of_lt (s1.1 i hin)
  · have := s1.2.2.1 (i - r.1.num_negative_pics) (by omega)
    rw [show r.1.num_negative_pics + (i - r.1.num_negative_pics) = i by omega] at this
    exact ne_of_gt this

theorem ParseShortTermRefPicSet_inter_well_formed_witness :
    ParseShortTermRefPicSet 64 H265ShortTermRPS.zero 1 2 exampleRpsRefTable exampleRpsInter 0
      = some exampleRpsInterResult ∧
    exampleRpsInterResult.1.inter_ref_pic_set_prediction_flag ≠ 0 ∧
    (-2 : Int) = (1 - 2 * (exampleRpsInterResult.1.delta_rps_sign : Int))
      * ((exampleRpsInterResult.1.abs_delta_rps_minus1 : Int) + 1) ∧
    stRpsWellFormed (exampleRpsRefTable (wrapInt32
      ((1 : Int) - (exampleRpsInterResult.1.delta_idx_minus1 : Int) - 1)).toNat) ∧
    stRpsWellFormed exampleRpsInterResult.1 ∧
    (exampleRpsInterResult.1.num_negative_pics, exampleRpsInterResult.1.num_positive_pics,
      exampleRpsInterResult.1.num_of_pics) = (3, 1, 4) ∧
    (exampleRpsInterResult.1.delta_poc 0, exampleRpsInterResult.1.delta_poc 1,
      exampleRpsInterResult.1.delta_poc 2, exampleRpsInterResult.1.delta_poc 3)
      = (-2, -3, -6, 3) ∧
    exampleRpsInterResult.1.num_of_pics
      ≤ (exampleRpsRefTable (wrapInt32
          ((1 : Int) - (exampleRpsInterResult.1.delta_idx_minus1 : Int) - 1)).toNat
        ).num_negative_pics
        + (exampleRpsRefTable (wrapInt32
          ((1 : Int) - (exampleRpsInterResult.1.delta_idx_minus1 : Int) - 1)).toNat
        ).num_positive_pics + 1 :=
  have h : ParseShortTermRefPicSet 64 H265ShortTermRPS.zero 1 2 exampleRpsRefTable
      exampleRpsInter 0 = some exampleRpsInterResult :=
    some_getD_of_isSome _ _ (by decide)
  have hf : exampleRpsInterResult.1.inter_ref_pic_set_prediction_flag ≠ 0 := by decide
  have hd : (-2 : Int) = (1 - 2 * (exampleRpsInterResult.1.delta_rps_sign : Int))
      * ((exampleRpsInterResult.1.abs_delta_rps_minus1 : Int) + 1) := by decide
  have hw : stRpsWellFormed (exampleRpsRefTable (wrapInt32
      ((1 : Int) - (exampleRpsInterResult.1.delta_idx_minus1 : Int) - 1)).toNat) :=
    ⟨by decide, by decide, by decide, by decide⟩
  have hc := ParseShortTermRefPicSet_inter_well_formed 64 H265ShortTermRPS.zero 1 2
    exampleRpsRefTable exampleRpsInter 0 exampleRpsInterResult _ (-2) h hf rfl hd hw (by decide)
  ⟨h, hf, hd, hw, hc.1, by decide, by decide, hc.2.2.2⟩

/-- C32 (counterexample). The reference set, the result of parsing `exampleRpsExplicitBig`, is
well formed: one negative entry `-(2^31 - 1)` and one positive entry 5, `num_of_pics =
num_of_delta_poc = 2`. The set predicted from it by `exampleRpsInter` with `delta_rps = -2`
and all flags set has one negative entry, -2, and the two positive entries `2^31 - 1` and 3:
the sum `-2 + -(2^31 - 1)`, computed in `int32_t`, is `2^31 - 1`, so the positive entries are
not increasing. -/
theorem ParseShortTermRefPicSet_inter_wraps :
    stRpsWellFormed (exampleRpsRefTableBig 0) ∧
    ((exampleRpsRefTableBig 0).num_negative_pics, (exampleRpsRefTableBig 0).num_positive_pics,
      (exampleRpsRefTableBig 0).num_of_pics, (exampleRpsRefTableBig 0).num_of_delta_poc,
      (exampleRpsRefTableBig 0).delta_poc 0, (exampleRpsRefTableBig 0).delta_poc 1)
      = (1, 1, 2, 2, -2147483647, 5) ∧
    (ParseShortTermRefPicSet 64 H265ShortTermRPS.zero 1 2 exampleRpsRefTableBig
        exampleRpsInter 0).map
        (fun r => (r.1.inter_ref_pic_set_prediction_flag, r.1.delta_idx_minus1,
          r.1.delta_rps_sign, r.1.abs_delta_rps_minus1))
      = some (1, 0, 1, 1) ∧
    (ParseShortTermRefPicSet 64 H265ShortTermRPS.zero 1 2 exampleRpsRefTableBig
        exampleRpsInter 0).map
        (fun r => (r.1.num_negative_pics, r.1.num_positive_pics, r.1.num_of_pics,
          r.1.delta_poc 0, r.1.delta_poc 1, r.1.delta_poc 2))
      = some (1, 2, 3, -2, 2147483647, 3) ∧
    (ParseShortTermRefPicSet 64 H265ShortTermRPS.zero 1 2 exampleRpsRefTableBig
        exampleRpsInter 0).map
        (fun r => decide (r.1.delta_poc (r.1.num_negative_pics + 0)
          < r.1.delta_poc (r.1.num_negative_pics + 1)))
      = some false :=
  ⟨⟨by decide, by decide, by decide, by decide⟩, by decide, by decide, by decide, by decide⟩

/-! ## Theorems on the scaling list, explicit mode -/

theorem scalingListCoefNum_eq (size_id : Nat) :
    scalingListCoefNum size_id = if size_id = 0 then 16 else 64 := by
  unfold scalingListCoefNum
  rw [Nat.one_shiftLeft, Nat.shiftLeft_eq]
  by_cases h : size_id = 0
  · rw [if_pos h, h]
    decide
  · rw [if_neg h]
    have : 2 ^ 6 ≤ 2 ^ (4 + size_id * 2 ^ 1) := Nat.pow_le_pow_right (by norm_num) (by omega)
    omega

theorem scalingListScan_length (size_id : Nat) :
    (scalingListScan size_id).length = scalingListCoefNum size_id := by
  rw [scalingListCoefNum_eq]
  unfold scalingListScan
  split <;> rfl

theorem diag_scan_4x4_perm : diag_scan_4x4.Perm (List.range 16) := by decide

theorem diag_scan_8x8_perm : diag_scan_8x8.Perm (List.range 64) := by decide

/-- Each scan table is a permutation of the positions `0 .. coef_num - 1`. -/
theorem scalingListScan_perm (size_id : Nat) :
    (scalingListScan size_id).Perm (List.range (scalingListCoefNum size_id)) := by
  rw [scalingListCoefNum_eq]
  unfold scalingListScan
  split
  · exact diag_scan_4x4_perm
  · exact diag_scan_8x8_perm

theorem scalingListScan_inj (size_id i j : Nat) (hi : i < scalingListCoefNum size_id)
    (hj : j < scalingListCoefNum size_id)
    (h : (scalingListScan size_id).getD i 0 = (scalingListScan size_id).getD j 0) : i = j := by
  have hn : (scalingListScan size_id).Nodup :=
    (scalingListScan_perm size_id).nodup_iff.mpr (List.nodup_range _)
  rw [← scalingListScan_length] at hi hj
  rw [List.getD_eq_getElem _ _ hi, List.getD_eq_getElem _ _ hj] at h
  exact (hn.getElem_inj_iff).mp h

theorem scalingListScan_lt (size_id i : Nat) (hi : i < scalingListCoefNum size_id) :
    (scalingListScan size_id).getD i 0 < scalingListCoefNum size_id := by
  have hl := hi
  rw [← scalingListScan_length] at hl
  rw [List.getD_eq_getElem _ _ hl]
  have := (scalingListScan_perm size_id).mem_iff.mp (List.getElem_mem hl)
  exact List.mem_range.mp this

theorem scalingListScan_surj (size_id p : Nat) (hp : p < scalingListCoefNum size_id) :
    ∃ i, i < scalingListCoefNum size_id ∧ (scalingListScan size_id).getD i 0 = p := by
  have := (scalingListScan_perm size_id).mem_iff.mpr (List.mem_range.mpr hp)
  obtain ⟨i, hi, he⟩ := List.mem_iff_getElem.mp this
  refine ⟨i, by rw [← scalingListScan_length]; exact hi, ?_⟩
  rw [List.getD_eq_getElem _ _ hi]
  exact he

/-- With a start value of at least -128 and deltas in `[-128, 127]`, `next_coef` after `i + 1`
iterations is the sum of the start value and the first `i + 1` deltas, modulo 256. -/
theorem scalingListNextCoef_eq (start : Int) (ds : List Int) (n : Nat)
    (hs : -128 ≤ start) (hd : ∀ k, k < n → -128 ≤ ds.getD k 0 ∧ ds.getD k 0 ≤ 127)
    (i : Nat) (hi : i < n) :
    scalingListNextCoef start ds (i + 1)
      = (start + Finset.sum (Finset.range (i + 1)) (fun k => ds.getD k 0)) % 256 := by
  induction i with
  | zero =>
    simp only [scalingListNextCoef, Finset.sum_range_succ, Finset.range_zero,
      Finset.sum_empty, zero_add]
    have := hd 0 hi
    rw [Int.tmod_eq_emod (by omega) (by norm_num)]
    omega
  | succ i ih =>
    have h1 := ih (by omega)
    have h2 := hd (i + 1) hi
    rw [Finset.sum_range_succ]
    generalize Finset.sum (Finset.range (i + 1)) (fun k => ds.getD k 0) = S at h1 ⊢
    rw [scalingListNextCoef, h1]
    rw [Int.tmod_eq_emod (by omega) (by norm_num)]
    omega

/-- In every case `next_coef` is congruent modulo 256 to the sum of the start value and the
deltas read so far. -/
theorem scalingListNextCoef_emod (start : Int) (ds : List Int) (i : Nat) :
    scalingListNextCoef start ds i % 256
      = (start + Finset.sum (Finset.range i) (fun k => ds.getD k 0)) % 256 := by
  induction i with
  | zero => simp [scalingListNextCoef]
  | succ i ih =>
    rw [Finset.sum_range_succ]
    generalize Finset.sum (Finset.range i) (fun k => ds.getD k 0) = S at ih ⊢
    rw [scalingListNextCoef]
    have := Int.tmod_add_tdiv (scalingListNextCoef start ds i + ds.getD i 0 + 256) 256
    omega

theorem drop_eq_cons {α : Type} (d : α) (ds : List α) (i : Nat) (v : α) (l : List α)
    (h : ds.drop i = v :: l) : ds.getD i d = v ∧ ds.drop (i + 1) = l := by
  induction ds generalizing i with
  | nil => simp at h
  | cons a ds ih =>
    cases i with
    | zero =>
      simp only [List.drop_zero, List.cons.injEq] at h
      exact ⟨by simp [h.1], by simp [h.2]⟩
    | succ i =>
      simp only [List.drop_succ_cons] at h
      have := ih i h
      exact ⟨by simpa using this.1, by simpa using this.2⟩

theorem forLoop_exists {σ : Type} (body : Nat → σ → Option σ) (P : Nat → σ → Prop)
    (n j : Nat) (s : σ) (h0 : P j s)
    (hstep : ∀ i t, j ≤ i → i < j + n → P i t → ∃ t', body i t = some t' ∧ P (i + 1) t') :
    ∃ r, forLoop body j n s = some r ∧ P (j + n) r := by
  induction n generalizing j s with
  | zero => exact ⟨s, rfl, h0⟩
  | succ n ih =>
    obtain ⟨s1, h1, p1⟩ := hstep j s (le_refl _) (by omega) h0
    obtain ⟨r, hr, pr⟩ := ih (j + 1) s1 p1 (fun i t hi1 hi2 => hstep i t (by omega) (by omega))
    refine ⟨r, ?_, ?_⟩
    · simp only [forLoop, h1]
      exact hr
    · rw [show j + (n + 1) = j + 1 + n by omega]
      exact pr

theorem scalingListScan_getD (size_id i : Nat) :
    (if size_id = 0 then diag_scan_4x4.getD i 0 else diag_scan_8x8.getD i 0)
      = (scalingListScan size_id).getD i 0 := by
  unfold scalingListScan
  split <;> rfl

theorem scalingListCoef_loop (fuel : Nat) (size_id matrix_id : Nat) (nalu : Nat → Nat)
    (sl0 : H265ScalingListData) (start : Int) (p : Nat) (ds : List Int) (q : Nat)
    (hrd : readSeList fuel nalu (scalingListCoefNum size_id) p = some (ds, q)) :
    ∃ r, forLoop (fun i => runSteps [
        stepSe fuel (fun (x : H265ScalingListData × Int) v =>
          ({ x.1 with scaling_list_delta_coef := v }, x.2)) nalu,
        stepSet (fun x => (x.1, Int.tmod (x.2 + x.1.scaling_list_delta_coef + 256) 256)),
        stepSet (fun x =>
          ({ x.1 with
             scaling_list :=
               setAt3 x.1.scaling_list size_id (matrix_id : Int)
                 (if size_id = 0 then diag_scan_4x4.getD i 0 else diag_scan_8x8.getD i 0)
                 x.2 }, x.2))]) 0 (scalingListCoefNum size_id) ((sl0, start), p) = some r ∧
      scalingListCoefInv fuel size_id matrix_id nalu sl0 start ds q
        (scalingListCoefNum size_id) r := by
  have := forLoop_exists (fun i => runSteps [
        stepSe fuel (fun (x : H265ScalingListData × Int) v =>
          ({ x.1 with scaling_list_delta_coef := v }, x.2)) nalu,
        stepSet (fun x => (x.1, Int.tmod (x.2 + x.1.scaling_list_delta_coef + 256) 256)),
        stepSet (fun x =>
          ({ x.1 with
             scaling_list :=
               setAt3 x.1.scaling_list size_id (matrix_id : Int)
                 (if size_id = 0 then diag_scan_4x4.getD i 0 else diag_scan_8x8.getD i 0)
                 x.2 }, x.2))])
    (scalingListCoefInv fuel size_id matrix_id nalu sl0 start ds q)
    (scalingListCoefNum size_id) 0 ((sl0, start), p)
    ⟨by simpa using hrd, rfl, fun k hk => absurd hk (Nat.not_lt_zero _), rfl, rfl,
      fun _ _ _ _ => rfl⟩ ?_
  · simpa using this
  · intro i t _ hi hP
    rw [Nat.zero_add] at hi
    obtain ⟨p1, p2, p3, p4, p5, p6⟩ := hP
    rw [show scalingListCoefNum size_id - i = (scalingListCoefNum size_id - (i + 1)) + 1
      by omega] at p1
    simp only [readSeList] at p1
    split at p1
    · cases p1
    · rename_i v p' hv
      split at p1
      · cases p1
      · rename_i l q' hl
        simp only [Option.some.injEq, Prod.mk.injEq] at p1
        obtain ⟨hvl, hq⟩ := p1
        obtain ⟨g1, g2⟩ := drop_eq_cons 0 ds i v l hvl.symm
        subst hq
        refine ⟨(({ t.1.1 with
            scaling_list_delta_coef := v
            scaling_list := setAt3 t.1.1.scaling_list size_id (matrix_id : Int)
              (if size_id = 0 then diag_scan_4x4.getD i 0 else diag_scan_8x8.getD i 0)
              (Int.tmod (t.1.2 + v + 256) 256) }, Int.tmod (t.1.2 + v + 256) 256), p'),
          by simp only [runSteps, stepSe, rdSe, hv, stepSet], ?_⟩
        have hn : Int.tmod (t.1.2 + v + 256) 256 = scalingListNextCoef start ds (i + 1) := by
          rw [scalingListNextCoef, p2, g1]
        refine ⟨by rw [hl, g2], hn, ?_, p4, p5, ?_⟩
        · intro k hk
          simp only [setAt3, true_and]
          rw [scalingListScan_getD]
          by_cases hki : k = i
          · subst hki
            rw [if_pos rfl]
            exact hn
          · rw [if_neg]
            · exact p3 k (by omega)
            · intro hc
              exact hki (scalingListScan_inj size_id k i (by omega) hi hc)
        · intro s m pp hne
          simp only [setAt3]
          rw [if_neg (fun hc => hne ⟨hc.1, hc.2.1⟩)]
          exact p6 s m pp hne

/-- The explicit branch of `ParseScalingList` for one matrix: when the start value and the
`coef_num` deltas can be read from `pos`, the branch returns at the position after them, the
coefficient at position `scan[i]` of the matrix is `next_coef` after `i + 1` iterations, and
the flags and the other matrices are as before. -/
theorem scalingListCoefs_run (fuel : Nat) (size_id matrix_id : Nat) (nalu : Nat → Nat)
    (sl : H265ScalingListData) (nc0 : Int) (pos : Nat) (start : Int) (ds : List Int) (q : Nat)
    (hin : scalingListInputs fuel size_id nalu pos = some (start, ds, q)) :
    ∃ r, scalingListCoefs fuel size_id matrix_id nalu ((sl, nc0), pos) = some r ∧ r.2 = q ∧
      (∀ i, i < scalingListCoefNum size_id →
        r.1.1.scaling_list size_id (matrix_id : Int) ((scalingListScan size_id).getD i 0)
          = scalingListNextCoef start ds (i + 1)) ∧
      r.1.1.scaling_list_pred_mode_flag = sl.scaling_list_pred_mode_flag ∧
      (∀ s m p, ¬(s = size_id ∧ m = (matrix_id : Int)) →
        r.1.1.scaling_list s m p = sl.scaling_list s m p) ∧
      (size_id > 1 →
        r.1.1.scaling_list_dc_coef_minus8 (size_id - 2) matrix_id = start - 8) := by
  unfold scalingListInputs at hin
  by_cases hs : size_id > 1
  · rw [if_pos hs] at hin
    split at hin
    · cases hin
    · rename_i dc p hdc
      split at hin
      · cases hin
      · rename_i l q' hl
        simp only [Option.some.injEq, Prod.mk.injEq] at hin
        obtain ⟨rfl, rfl, rfl⟩ := hin
        have he : (if size_id - 2 = size_id - 2 ∧ matrix_id = matrix_id then dc
            else sl.scaling_list_dc_coef_minus8 (size_id - 2) matrix_id) = dc :=
          if_pos ⟨rfl, rfl⟩
        obtain ⟨r, hr, i1, i2, i3, i4, i5, i6⟩ := scalingListCoef_loop fuel size_id matrix_id
          nalu
          { sl with
            scaling_list_dc_coef_minus8 :=
              fun d m => if d = size_id - 2 ∧ m = matrix_id then dc
                else sl.scaling_list_dc_coef_minus8 d m
            scaling_list_dc_coef :=
              setAt2 sl.scaling_list_dc_coef (size_id - 2) (matrix_id : Int)
                ((if size_id - 2 = size_id - 2 ∧ matrix_id = matrix_id then dc
                  else sl.scaling_list_dc_coef_minus8 (size_id - 2) matrix_id) + 8) }
          ((if size_id - 2 = size_id - 2 ∧ matrix_id = matrix_id then dc
            else sl.scaling_list_dc_coef_minus8 (size_id - 2) matrix_id) + 8) p l q' hl
        rw [he] at i3
        refine ⟨r, ?_, ?_, i3, i4, i6, ?_⟩
        · unfold scalingListCoefs
          refine @runSteps_cons_of _ _ _ _ ((sl, 8), pos) _ rfl ?_
          refine @runSteps_cons_of _ _ _ _ (({ sl with
            scaling_list_dc_coef_minus8 :=
              fun d m => if d = size_id - 2 ∧ m = matrix_id then dc
                else sl.scaling_list_dc_coef_minus8 d m
            scaling_list_dc_coef :=
              setAt2 sl.scaling_list_dc_coef (size_id - 2) (matrix_id : Int)
                ((if size_id - 2 = size_id - 2 ∧ matrix_id = matrix_id then dc
                  else sl.scaling_list_dc_coef_minus8 (size_id - 2) matrix_id) + 8) },
            (if size_id - 2 = size_id - 2 ∧ matrix_id = matrix_id then dc
              else sl.scaling_list_dc_coef_minus8 (size_id - 2) matrix_id) + 8), p) _
            (stepIf_pos (decide_eq_true hs) ?_) ?_
          · refine @runSteps_cons_of _ _ _ _ (({ sl with
              scaling_list_dc_coef_minus8 :=
                fun d m => if d = size_id - 2 ∧ m = matrix_id then dc
                  else sl.scaling_list_dc_coef_minus8 d m }, 8), p) _ ?_ ?_
            · simp only [stepSe, rdSe, hdc]
            · rfl
          · exact @runSteps_cons_of _ _ _ _ r _ hr rfl
        · have := i1
          rw [Nat.sub_self] at this
          simp only [readSeList, Option.some.injEq, Prod.mk.injEq] at this
          exact this.2
        · intro _
          rw [i5]
          simp only [and_self, if_true]
          ring
  · rw [if_neg hs] at hin
    split at hin
    · cases hin
    · rename_i l q' hl
      simp only [Option.some.injEq, Prod.mk.injEq] at hin
      obtain ⟨rfl, rfl, rfl⟩ := hin
      obtain ⟨r, hr, i1, i2, i3, i4, i5, i6⟩ := scalingListCoef_loop fuel size_id matrix_id
        nalu sl 8 pos l q' hl
      refine ⟨r, ?_, ?_, i3, i4, i6, fun h => absurd h hs⟩
      · unfold scalingListCoefs
        refine @runSteps_cons_of _ _ _ _ ((sl, 8), pos) _ rfl ?_
        refine @runSteps_cons_of _ _ _ _ ((sl, 8), pos) _
          (stepIf_neg (decide_eq_false hs) rfl) ?_
        exact @runSteps_cons_of _ _ _ _ r _ hr rfl
      · have := i1
        rw [Nat.sub_self] at this
        simp only [readSeList, Option.some.injEq, Prod.mk.injEq] at this
        exact this.2

/-! ## Theorems on the scaling list: the matrices in `ParseScalingList` -/

theorem ParseScalingList_eq (fuel : Nat) (chroma_format_idc : Nat) (nalu : Nat → Nat) :
    ParseScalingList fuel chroma_format_idc nalu = runSteps [
      stepFor 0 (fun _ => 4) (fun size_id => [
        stepFor 0 (fun _ => if size_id = 3 then 2 else 6) (scalingListMatrix fuel nalu size_id)]),
      stepIf (fun _ => chroma_format_idc == 3) [
        stepSet (fun sl =>
          { sl with
            scaling_list := fun s m i =>
              if s = 3 ∧ (m = 1 ∨ m = 2 ∨ m = 4 ∨ m = 5) ∧ i < 64 then sl.scaling_list 2 m i
              else sl.scaling_list s m i
            scaling_list_dc_coef := fun d m =>
              if d = 1 ∧ (m = 1 ∨ m = 2 ∨ m = 4 ∨ m = 5) then sl.scaling_list_dc_coef 0 m
              else sl.scaling_list_dc_coef d m })] []] := rfl

theorem forLoop_split {σ : Type} (body : Nat → σ → Option σ) (a b j : Nat) (s r : σ)
    (h : forLoop body j (a + b) s = some r) :
    ∃ m, forLoop body j a s = some m ∧ forLoop body (j + a) b m = some r := by
  induction a generalizing j s with
  | zero => exact ⟨s, rfl, by rwa [Nat.zero_add] at h⟩
  | succ a ih =>
    rw [show a + 1 + b = (a + b) + 1 by omega] at h
    simp only [forLoop] at h
    split at h
    · cases h
    · rename_i s1 h1
      obtain ⟨m, hm1, hm2⟩ := ih (j + 1) s1 h
      refine ⟨m, by simp only [forLoop, h1]; exact hm1, ?_⟩
      rw [show j + (a + 1) = j + 1 + a by omega]
      exact hm2

theorem forLoop_one {σ : Type} (body : Nat → σ → Option σ) (j : Nat) (s r : σ)
    (h : forLoop body j 1 s = some r) : body j s = some r := by
  simp only [forLoop] at h
  split at h
  · cases h
  · rename_i s1 h1
    rw [h1]
    exact h

/-- An invariant that holds for the iterations of a range carries over the loop. -/
theorem forLoop_keeps {σ β : Type} (π : σ → β) (body : Nat → σ → Option σ) (n j : Nat)
    (s r : σ) (h : forLoop body j n s = some r)
    (hb : ∀ i t t', j ≤ i → i < j + n → body i t = some t' → π t' = π t) : π r = π s :=
  forLoop_inv body (fun _ t => π t = π s) n j s r h rfl
    (fun i t t' h1 h2 hP hbody => (hb i t t' h1 h2 hbody).trans hP)

theorem keeps_sub_whole {σ τ β : Type} {π : σ → β} {get : σ → τ} {put : σ → τ → σ}
    {f : Step τ} (π' : τ → β) (hget : ∀ x, π' (get x) = π x) (hput : ∀ x v, π (put x v) = π' v)
    (hf : Keeps π' f) : Keeps π (stepSub get put f) := by
  intro s r hr
  simp only [stepSub] at hr
  split at hr
  · cases hr
  · rename_i t ht
    cases hr
    rw [hput, hf _ _ ht]
    exact hget _

theorem scalingListCoefs_keeps (fuel : Nat) (nalu : Nat → Nat) (size_id matrix_id s1 m1 : Nat)
    (hne : ¬(s1 = size_id ∧ m1 = matrix_id)) :
    Keeps (fun (x : H265ScalingListData × Int) => scalingListRow size_id matrix_id x.1)
      (scalingListCoefs fuel s1 m1 nalu) := by
  unfold scalingListCoefs
  refine keeps_runSteps ⟨keeps_set (fun _ => rfl), keeps_if ⟨keeps_se (fun _ _ => rfl),
    keeps_set (fun _ => rfl), keeps_set (fun _ => rfl), trivial⟩ trivial,
    keeps_for (fun i => ⟨keeps_se (fun _ _ => rfl), keeps_set (fun _ => rfl),
      keeps_set (fun x => ?_), trivial⟩), trivial⟩
  unfold scalingListRow
  simp only [Prod.mk.injEq, and_true]
  funext p
  simp only [setAt3]
  rw [if_neg]
  intro hc
  exact hne ⟨hc.1.symm, (Nat.cast_inj.mp hc.2.1).symm⟩

theorem scalingListMatrix_allKeep (fuel : Nat) (nalu : Nat → Nat)
    (size_id matrix_id s1 k1 : Nat)
    (hne : ¬(s1 = size_id ∧ k1 * (if s1 = 3 then 3 else 1) = matrix_id)) :
    AllKeep (scalingListRow size_id matrix_id) (scalingListMatrix fuel nalu s1 k1) := by
  unfold scalingListMatrix
  simp only
  generalize k1 * (if s1 = 3 then 3 else 1) = m1 at hne ⊢
  refine ⟨keeps_flag (fun x v => ?_), keeps_if ⟨keeps_ue (fun _ _ => rfl),
    keeps_if ⟨keeps_set (fun x => ?_), trivial⟩ trivial, trivial⟩
    ⟨keeps_sub_whole (fun (x : H265ScalingListData × Int) => scalingListRow size_id matrix_id x.1)
      (fun _ => rfl) (fun _ _ => rfl) (scalingListCoefs_keeps fuel nalu size_id matrix_id s1 _ hne),
      trivial⟩, trivial⟩
  · unfold scalingListRow
    simp only [Prod.mk.injEq, true_and, setAt]
    by_cases h1 : size_id = s1
    · rw [if_pos h1]
      show (if matrix_id = m1 then v else x.scaling_list_pred_mode_flag s1 matrix_id) = _
      rw [if_neg (fun hc => hne ⟨h1.symm, hc.symm⟩), h1]
    · rw [if_neg h1]
  · have hrow : ∀ p, ¬(size_id = s1 ∧ (matrix_id : Int) = (m1 : Int)
        ∧ p < scalingListCoefNum s1) :=
      fun p hc => hne ⟨hc.1.symm, (Nat.cast_inj.mp hc.2.1).symm⟩
    unfold scalingListRow scalingListInfer
    by_cases hgt : s1 > 1
    · simp only [hgt, if_true, Prod.mk.injEq, and_true]
      funext p
      rw [if_neg (hrow p)]
    · simp only [hgt, if_false, Prod.mk.injEq, and_true]
      funext p
      rw [if_neg (hrow p)]

/-- A call of `ParseScalingList` that returns has run the statements before the matrix `k` of
`size_id`, then the statements of that matrix, and what follows leaves the coefficients and
the `scaling_list_pred_mode_flag` of that matrix as they are. -/
theorem ParseScalingList_matrix (fuel : Nat) (chroma_format_idc : Nat) (nalu : Nat → Nat)
    (s r : H265ScalingListData × Nat) (size_id k : Nat)
    (h : ParseScalingList fuel chroma_format_idc nalu s = some r)
    (hs : size_id < 4) (hk : k < (if size_id = 3 then 2 else 6)) :
    ∃ s0 s1, scalingListBefore fuel nalu size_id k s = some s0 ∧
      runSteps (scalingListMatrix fuel nalu size_id k) s0 = some s1 ∧
      scalingListRow size_id (k * (if size_id = 3 then 3 else 1)) r.1
        = scalingListRow size_id (k * (if size_id = 3 then 3 else 1)) s1.1 := by
  rw [ParseScalingList_eq] at h
  obtain ⟨a, ha, hfin⟩ := runSteps_cons_some h
  have ha' : forLoop (fun i => runSteps [
      stepFor 0 (fun _ => if i = 3 then 2 else 6) (scalingListMatrix fuel nalu i)])
      0 (size_id + (1 + (3 - size_id))) s = some a := by
    rw [show size_id + (1 + (3 - size_id)) = 4 by omega]
    exact ha
  obtain ⟨m1, hm1, hrest⟩ := forLoop_split _ _ _ _ _ _ ha'
  obtain ⟨m2, hm2, hout⟩ := forLoop_split _ _ _ _ _ _ hrest
  have hm2' := forLoop_one _ _ _ _ hm2
  rw [Nat.zero_add] at hm2' hout
  obtain ⟨m2', hin, hnil⟩ := runSteps_cons_some hm2'
  simp only [runSteps, Option.some.injEq] at hnil
  subst hnil
  have hin' : forLoop (fun i => runSteps (scalingListMatrix fuel nalu size_id i))
      0 (k + (1 + ((if size_id = 3 then 2 else 6) - k - 1))) m1 = some m2' := by
    rw [show k + (1 + ((if size_id = 3 then 2 else 6) - k - 1))
      = (if size_id = 3 then 2 else 6) by omega]
    exact hin
  obtain ⟨s0, hs0, hrest2⟩ := forLoop_split _ _ _ _ _ _ hin'
  obtain ⟨s1, hs1, hafter⟩ := forLoop_split _ _ _ _ _ _ hrest2
  have hs1' := forLoop_one _ _ _ _ hs1
  rw [Nat.zero_add] at hs1' hafter
  refine ⟨s0, s1, ?_, hs1', ?_⟩
  · unfold scalingListBefore
    exact runSteps_cons_of hm1 (runSteps_cons_of hs0 rfl)
  · have step_pos : 0 < (if size_id = 3 then 3 else 1) := by split <;> omega
    have e1 := forLoop_keeps (fun (t : H265ScalingListData × Nat) =>
        scalingListRow size_id (k * (if size_id = 3 then 3 else 1)) t.1) _ _ _ _ _ hafter
      (fun i t t' hi1 _ hb => keeps_runSteps (scalingListMatrix_allKeep fuel nalu size_id
        (k * (if size_id = 3 then 3 else 1)) size_id i
        (fun hc => by
          have := Nat.eq_of_mul_eq_mul_right step_pos hc.2
          omega)) t t' hb)
    have e2 := forLoop_keeps (fun (t : H265ScalingListData × Nat) =>
        scalingListRow size_id (k * (if size_id = 3 then 3 else 1)) t.1) _ _ _ _ _ hout
      (fun i t t' hi1 _ hb => keeps_runSteps (allKeep_cons (keeps_for (fun j =>
        scalingListMatrix_allKeep fuel nalu size_id
          (k * (if size_id = 3 then 3 else 1)) i j (fun hc => by omega))) allKeep_nil)
        t t' hb)
    have e3 := @keeps_runSteps _ _
      (scalingListRow size_id (k * (if size_id = 3 then 3 else 1))) _
      (allKeep_cons (keeps_if (allKeep_cons (keeps_set (fun sl => ?_)) allKeep_nil) allKeep_nil)
        allKeep_nil) a r hfin
    · exact e3.trans (e2.trans e1)
    · unfold scalingListRow
      simp only [Prod.mk.injEq, and_true]
      funext p
      rw [if_neg]
      intro hc
      obtain ⟨h3, hm, _⟩ := hc
      rw [if_pos h3] at hm hk
      push_cast at hm
      omega

theorem readSeList_length (fuel : Nat) (nalu : Nat → Nat) (n pos : Nat) (l : List Int) (q : Nat)
    (h : readSeList fuel nalu n pos = some (l, q)) : l.length = n := by
  induction n generalizing pos l q with
  | zero =>
    simp only [readSeList, Option.some.injEq, Prod.mk.injEq] at h
    rw [← h.1]
    rfl
  | succ n ih =>
    simp only [readSeList] at h
    split at h
    · cases h
    · rename_i v p hv
      split at h
      · cases h
      · rename_i l' q' hl
        simp only [Option.some.injEq, Prod.mk.injEq] at h
        rw [← h.1, List.length_cons, ih p l' q' hl]

theorem scalingListInputs_facts (fuel : Nat) (size_id : Nat) (nalu : Nat → Nat) (pos : Nat)
    (start : Int) (ds : List Int) (q : Nat)
    (h : scalingListInputs fuel size_id nalu pos = some (start, ds, q)) :
    ds.length = scalingListCoefNum size_id ∧ (size_id ≤ 1 → start = 8) ∧
    (size_id > 1 → ∃ p, ReadSeInt fuel nalu pos = some (start - 8, p)) := by
  unfold scalingListInputs at h
  split at h
  · rename_i hs
    split at h
    · cases h
    · rename_i dc p hdc
      split at h
      · cases h
      · rename_i l q' hl
        simp only [Option.some.injEq, Prod.mk.injEq] at h
        obtain ⟨rfl, rfl, rfl⟩ := h
        exact ⟨readSeList_length _ _ _ _ _ _ hl, fun h1 => absurd hs (by omega),
          fun _ => ⟨p, by rw [hdc]; simp⟩⟩
  · rename_i hs
    split at h
    · cases h
    · rename_i l q' hl
      simp only [Option.some.injEq, Prod.mk.injEq] at h
      obtain ⟨rfl, rfl, rfl⟩ := h
      exact ⟨readSeList_length _ _ _ _ _ _ hl, fun _ => rfl, fun h1 => absurd h1 hs⟩

theorem scalingListCoefs_keeps_flag (fuel : Nat) (nalu : Nat → Nat) (size_id matrix_id : Nat) :
    Keeps (fun (x : H265ScalingListData × Int) => x.1.scaling_list_pred_mode_flag)
      (scalingListCoefs fuel size_id matrix_id nalu) := by
  unfold scalingListCoefs
  exact keeps_runSteps ⟨keeps_set (fun _ => rfl), keeps_if ⟨keeps_se (fun _ _ => rfl),
    keeps_set (fun _ => rfl), keeps_set (fun _ => rfl), trivial⟩ trivial,
    keeps_for (fun i => ⟨keeps_se (fun _ _ => rfl), keeps_set (fun _ => rfl),
      keeps_set (fun x => rfl), trivial⟩), trivial⟩

/-- The statements of one matrix with `scaling_list_pred_mode_flag` read as 1: the explicit
branch runs from the bit after the flag. -/
theorem scalingListMatrix_explicit (fuel : Nat) (nalu : Nat → Nat) (size_id k : Nat)
    (s0 s1 : H265ScalingListData × Nat)
    (h : runSteps (scalingListMatrix fuel nalu size_id k) s0 = some s1) :
    s1.1.scaling_list_pred_mode_flag size_id (k * (if size_id = 3 then 3 else 1))
      = (GetFlag nalu s0.2).1 ∧
    (s1.1.scaling_list_pred_mode_flag size_id (k * (if size_id = 3 then 3 else 1)) ≠ 0 →
      ∃ sl x, scalingListCoefs fuel size_id (k * (if size_id = 3 then 3 else 1)) nalu
          ((sl, 0), s0.2 + 1) = some x ∧ s1 = (x.1.1, x.2)) := by
  unfold scalingListMatrix at h
  simp only at h
  generalize k * (if size_id = 3 then 3 else 1) = m at h ⊢
  obtain ⟨t1, ht1, h2⟩ := runSteps_cons_some h
  obtain ⟨t2, ht2, h3⟩ := runSteps_cons_some h2
  simp only [runSteps, Option.some.injEq] at h3
  subst h3
  simp only [stepFlag, rdFlag, Option.some.injEq] at ht1
  have hpm : t1.1.scaling_list_pred_mode_flag size_id m = (GetFlag nalu s0.2).1 := by
    rw [← ht1]
    simp only [setAt, if_true]
  have hpos : t1.2 = s0.2 + 1 := by rw [← ht1]; rfl
  simp only [stepIf] at ht2
  split at ht2
  · rename_i hz
    have hz0 : t1.1.scaling_list_pred_mode_flag size_id m = 0 := by simpa using hz
    have hk := @keeps_runSteps _ _
      (fun (sl : H265ScalingListData) => sl.scaling_list_pred_mode_flag size_id m) _
      (by
        refine allKeep_cons (keeps_ue (fun _ _ => rfl))
          (allKeep_cons (keeps_if (allKeep_cons (keeps_set (fun x => ?_)) allKeep_nil)
            allKeep_nil) allKeep_nil)
        unfold scalingListInfer
        simp only
        by_cases hgt : size_id > 1
        · rw [if_pos hgt]
        · rw [if_neg hgt]) t1 t2 ht2
    simp only at hk
    refine ⟨hk.trans hpm, fun hne => absurd (hk.trans hz0) hne⟩
  · obtain ⟨t3, ht3, h4⟩ := runSteps_cons_some ht2
    simp only [runSteps, Option.some.injEq] at h4
    subst h4
    simp only [stepSub] at ht3
    split at ht3
    · cases ht3
    · rename_i x hx
      cases ht3
      have hk := scalingListCoefs_keeps_flag fuel nalu size_id m _ x hx
      have hrun := hx
      rw [hpos] at hrun
      exact ⟨(congrFun (congrFun hk size_id) m).trans hpm, fun _ => ⟨t1.1, x, hrun, rfl⟩⟩

/-- C39 (as amended). Scaling list, explicit mode. For a call of `ParseScalingList` that
returns and a matrix `(size_id, matrix_id)`, `matrix_id = k * (size_id == 3 ? 3 : 1)`, whose
`scaling_list_pred_mode_flag` is 1: let `s0` be the state before the statements of that matrix,
and let `start` and the `coef_num = min(64, 1 << (4 + 2 * size_id))` deltas `ds` be what is
coded after the flag (`start = 8` for `size_id <= 1` and `dc_coef_minus8 + 8` otherwise). Then
the flag is the bit at the cursor of `s0`, each scan table is a permutation of the positions
`0 .. coef_num - 1`, and after the call the coefficient at position `scan[i]` is the value of
`next_coef` after `i + 1` iterations, which is congruent modulo 256 to `start + delta_0 + ... +
delta_i`. If `start >= -128` and every delta lies in `[-128, 127]`, the coefficient at
`scan[i]` equals `(start + delta_0 + ... + delta_i) mod 256` and lies in `[0, 255]`. -/
theorem ParseScalingList_explicit (fuel : Nat) (chroma_format_idc : Nat) (nalu : Nat → Nat)
    (s r s0 : H265ScalingListData × Nat) (size_id k : Nat) (start : Int) (ds : List Int)
    (q : Nat)
    (h : ParseScalingList fuel chroma_format_idc nalu s = some r)
    (hs : size_id < 4) (hk : k < (if size_id = 3 then 2 else 6))
    (h0 : scalingListBefore fuel nalu size_id k s = some s0)
    (hmode : r.1.scaling_list_pred_mode_flag size_id (k * (if size_id = 3 then 3 else 1)) ≠ 0)
    (hin : scalingListInputs fuel size_id nalu (s0.2 + 1) = some (start, ds, q)) :
    r.1.scaling_list_pred_mode_flag size_id (k * (if size_id = 3 then 3 else 1))
      = (GetFlag nalu s0.2).1 ∧
    ds.length = scalingListCoefNum size_id ∧
    (size_id ≤ 1 → start = 8) ∧
    (scalingListScan size_id).Perm (List.range (scalingListCoefNum size_id)) ∧
    (∀ i, i < scalingListCoefNum size_id →
      r.1.scaling_list size_id ((k * (if size_id = 3 then 3 else 1) : Nat) : Int)
          ((scalingListScan size_id).getD i 0) = scalingListNextCoef start ds (i + 1)) ∧
    (∀ i, i < scalingListCoefNum size_id →
      r.1.scaling_list size_id ((k * (if size_id = 3 then 3 else 1) : Nat) : Int)
          ((scalingListScan size_id).getD i 0) % 256
        = (start + Finset.sum (Finset.range (i + 1)) (fun j => ds.getD j 0)) % 256) ∧
    (-128 ≤ start → (∀ δ, δ ∈ ds → -128 ≤ δ ∧ δ ≤ 127) →
      ∀ i, i < scalingListCoefNum size_id →
        r.1.scaling_list size_id ((k * (if size_id = 3 then 3 else 1) : Nat) : Int)
            ((scalingListScan size_id).getD i 0)
          = (start + Finset.sum (Finset.range (i + 1)) (fun j => ds.getD j 0)) % 256 ∧
        0 ≤ r.1.scaling_list size_id ((k * (if size_id = 3 then 3 else 1) : Nat) : Int)
            ((scalingListScan size_id).getD i 0) ∧
        r.1.scaling_list size_id ((k * (if size_id = 3 then 3 else 1) : Nat) : Int)
            ((scalingListScan size_id).getD i 0) ≤ 255) := by
  obtain ⟨s0', s1, hb, hm, hrow⟩ :=
    ParseScalingList_matrix fuel chroma_format_idc nalu s r size_id k h hs hk
  rw [h0] at hb
  cases hb
  obtain ⟨hflag, hexp⟩ := scalingListMatrix_explicit fuel nalu size_id k s0 s1 hm
  have hr1 : r.1.scaling_list size_id ((k * (if size_id = 3 then 3 else 1) : Nat) : Int)
      = s1.1.scaling_list size_id ((k * (if size_id = 3 then 3 else 1) : Nat) : Int) :=
    congrArg Prod.fst hrow
  have hr2 : r.1.scaling_list_pred_mode_flag size_id (k * (if size_id = 3 then 3 else 1))
      = s1.1.scaling_list_pred_mode_flag size_id (k * (if size_id = 3 then 3 else 1)) :=
    congrArg Prod.snd hrow
  obtain ⟨sl, x, hx, hs1⟩ := hexp (hr2 ▸ hmode)
  obtain ⟨y, hy, _, hy3, _, _, _⟩ := scalingListCoefs_run fuel size_id
    (k * (if size_id = 3 then 3 else 1)) nalu sl 0 (s0.2 + 1) start ds q hin
  rw [hx] at hy
  cases hy
  obtain ⟨hlen, h8, _⟩ := scalingListInputs_facts fuel size_id nalu (s0.2 + 1) start ds q hin
  have hcoef : ∀ i, i < scalingListCoefNum size_id →
      r.1.scaling_list size_id ((k * (if size_id = 3 then 3 else 1) : Nat) : Int)
          ((scalingListScan size_id).getD i 0) = scalingListNextCoef start ds (i + 1) := by
    intro i hi
    rw [hr1, hs1]
    exact hy3 i hi
  refine ⟨hr2.trans hflag, hlen, h8, scalingListScan_perm size_id, hcoef, ?_, ?_⟩
  · intro i hi
    rw [hcoef i hi]
    exact scalingListNextCoef_emod start ds (i + 1)
  · intro hst hd i hi
    have hd' : ∀ j, j < scalingListCoefNum size_id →
        -128 ≤ ds.getD j 0 ∧ ds.getD j 0 ≤ 127 := by
      intro j hj
      rw [← hlen] at hj
      rw [List.getD_eq_getElem _ _ hj]
      exact hd _ (List.getElem_mem hj)
    rw [hcoef i hi, scalingListNextCoef_eq start ds _ hst hd' i hi]
    generalize start + Finset.sum (Finset.range (i + 1)) (fun j => ds.getD j 0) = S
    omega

theorem ParseScalingList_explicit_witness :
    ParseScalingList 64 1 exampleScalingList (H265ScalingListData.zero, 0)
      = some exampleScalingListResult ∧
    scalingListBefore 64 exampleScalingList 2 1 (H265ScalingListData.zero, 0)
      = some exampleScalingListBefore ∧
    exampleScalingListResult.1.scaling_list_pred_mode_flag 2 (1 * (if 2 = 3 then 3 else 1)) ≠ 0 ∧
    scalingListInputs 64 2 exampleScalingList (exampleScalingListBefore.2 + 1)
      = some (exampleScalingListInputs.1, exampleScalingListInputs.2.1,
        exampleScalingListInputs.2.2) ∧
    (exampleScalingListBefore.2, exampleScalingListInputs.1,
      exampleScalingListInputs.2.1.take 3, exampleScalingListInputs.2.1.length)
      = (26, 16, [-20, 5, 0], 64) ∧
    -128 ≤ exampleScalingListInputs.1 ∧
    (∀ δ, δ ∈ exampleScalingListInputs.2.1 → -128 ≤ δ ∧ δ ≤ 127) ∧
    exampleScalingListResult.1.scaling_list 2 ((1 * (if 2 = 3 then 3 else 1) : Nat) : Int)
        ((scalingListScan 2).getD 0 0)
      = (exampleScalingListInputs.1 + Finset.sum (Finset.range (0 + 1))
          (fun j => exampleScalingListInputs.2.1.getD j 0)) % 256 ∧
    exampleScalingListResult.1.scaling_list 2 ((1 * (if 2 = 3 then 3 else 1) : Nat) : Int)
        ((scalingListScan 2).getD 1 0)
      = (exampleScalingListInputs.1 + Finset.sum (Finset.range (1 + 1))
          (fun j => exampleScalingListInputs.2.1.getD j 0)) % 256 ∧
    exampleScalingListResult.1.scaling_list 2 1 0 = 252 :=
  have h : ParseScalingList 64 1 exampleScalingList (H265ScalingListData.zero, 0)
      = some exampleScalingListResult := some_getD_of_isSome _ _ (by decide)
  have h0 : scalingListBefore 64 exampleScalingList 2 1 (H265ScalingListData.zero, 0)
      = some exampleScalingListBefore := some_getD_of_isSome _ _ (by decide)
  have hmode : exampleScalingListResult.1.scaling_list_pred_mode_flag 2
      (1 * (if 2 = 3 then 3 else 1)) ≠ 0 := by decide
  have hin : scalingListInputs 64 2 exampleScalingList (exampleScalingListBefore.2 + 1)
      = some (exampleScalingListInputs.1, exampleScalingListInputs.2.1,
        exampleScalingListInputs.2.2) :=
    some_getD_of_isSome (scalingListInputs 64 2 exampleScalingList
      (exampleScalingListBefore.2 + 1)) (0, [], 0) (by decide)
  have hst : -128 ≤ exampleScalingListInputs.1 := by decide
  have hd : ∀ δ, δ ∈ exampleScalingListInputs.2.1 → -128 ≤ δ ∧ δ ≤ 127 := by decide
  have hc := ParseScalingList_explicit 64 1 exampleScalingList (H265ScalingListData.zero, 0)
    exampleScalingListResult exampleScalingListBefore 2 1 exampleScalingListInputs.1
    exampleScalingListInputs.2.1 exampleScalingListInputs.2.2 h (by decide) (by decide) h0
    hmode hin
  ⟨h, h0, hmode, hin, by decide, hst, hd, (hc.2.2.2.2.2.2 hst hd 0 (by decide)).1,
    (hc.2.2.2.2.2.2 hst hd 1 (by decide)).1, by decide⟩

/-- C39 (counterexample). In `exampleScalingListLowDc` the matrix 1 of `size_id = 2` is coded
explicitly with `scaling_list_dc_coef_minus8 = -1000` and 64 deltas 0, all within
`[-128, 127]`: `start = -992`, and the first `next_coef` is `(-992 + 0 + 256) % 256` with the
remainder of C, that is -224. The coefficient at position `scan[0] = 0` is -224, which is
outside `[0, 255]` and is not `(-992 + 0) mod 256 = 32`; the coefficient at `scan[1] = 8` is
32. -/
theorem ParseScalingList_explicit_low_dc :
    (scalingListBefore 64 exampleScalingListLowDc 2 1 (H265ScalingListData.zero, 0)).map
      (fun t => t.2) = some 26 ∧
    (scalingListInputs 64 2 exampleScalingListLowDc 27).map
      (fun x => (x.1, x.2.1.length, decide (∀ δ, δ ∈ x.2.1 → δ = 0))) = some (-992, 64, true) ∧
    (ParseScalingList 64 1 exampleScalingListLowDc (H265ScalingListData.zero, 0)).map
      (fun r => (r.1.scaling_list_pred_mode_flag 2 1, r.1.scaling_list_dc_coef_minus8 0 1,
        r.1.scaling_list 2 1 ((scalingListScan 2).getD 0 0),
        r.1.scaling_list 2 1 ((scalingListScan 2).getD 1 0)))
      = some (1, -1000, -224, 32) ∧
    ((-992 : Int) + 0) % 256 = 32 := by
  decide

end RocDecode
